import Mathlib

/-!
# Pod construction and pod lifecycle interpretation (flyteplugins, package flytek8s)

A shallow embedding of `pod_helper.go`: the status interpreter
(`DemystifyPending`, `demystifyPendingHelper`, `DemystifySuccess`,
`DeterminePrimaryContainerPhase`, `DemystifyFailure`,
`GetLastTransitionOccurredAt`) and the construction of
pod specs (`ToK8sPodSpec`, `BuildRawPod`, `ApplyFlytePodConfiguration`,
`UpdatePod`, the merge of pod templates, the placement of GPU tasks, shared
memory and the tolerations for extended resources).

Conventions of the embedding.
* Go pointers that may be nil are `Option`s.
* An instant (`time.Time`) is an `Int`, a count of nanoseconds from the Unix
  epoch; a `time.Duration` is an `Int` of nanoseconds in the signed 64-bit range.
* The wall clock (`time.Now()`) is the explicit argument `now`; the process-wide
  plugin configuration (`config.GetK8sPluginConfig()`) is the explicit
  argument `cfg`.
* Logging calls have no effect on the result and are left out.
* A function that mutates its argument through a pointer returns the new value.
  The container loops of `MergeBasePodSpecOntoTemplate`, whose merged containers
  share pointers and maps with the template, run on an explicit memory.
* Kubernetes and flyteidl structures carry the fields that the pod helper reads
  or writes, and a few more of each kind (scalar, slice, map, pointer) for the
  merge of pod specs; equalities of pod specs are equalities on these fields.
-/

namespace Flytek8s

/-! ## Constants of `pod_helper.go` -/

def OOMKilled : String := "OOMKilled"

def Interrupted : String := "Interrupted"

def PrimaryContainerNotFound : String := "PrimaryContainerNotFound"

def SIGKILL : Int := 137

def unsignedSIGKILL : Int := 247

/-- The set `retryableStatusReasons` of `pod_helper.go`. -/
def retryableStatusReasons : List String :=
  ["Shutdown", "Terminated", "NodeShutdown", "NodeAffinity"]

/-! ## Kubernetes status types (the fields the interpreter reads) -/

/-- Values of `v1.PodConditionType` and `v1.ConditionStatus` used by the code. -/
def PodScheduled : String := "PodScheduled"

def PodReady : String := "Ready"

def PodReasonUnschedulable : String := "Unschedulable"

def ConditionFalse : String := "False"

structure ContainerStateWaiting where
  Reason : String
  Message : String
  deriving DecidableEq, Repr

structure ContainerStateRunning where
  StartedAt : Int
  deriving DecidableEq, Repr

structure ContainerStateTerminated where
  ExitCode : Int
  Reason : String
  Message : String
  FinishedAt : Int
  deriving DecidableEq, Repr

structure ContainerState where
  Waiting : Option ContainerStateWaiting
  Running : Option ContainerStateRunning
  Terminated : Option ContainerStateTerminated
  deriving DecidableEq, Repr

structure ContainerStatus where
  Name : String
  State : ContainerState
  LastTerminationState : ContainerState
  Ready : Bool
  deriving DecidableEq, Repr

/-- A `v1.PodCondition`; the Go field `Type` is written `Type_`. -/
structure PodCondition where
  Type_ : String
  Status : String
  LastTransitionTime : Int
  Reason : String
  Message : String
  deriving DecidableEq, Repr

structure PodStatus where
  Phase : String
  Conditions : List PodCondition
  Message : String
  Reason : String
  InitContainerStatuses : List ContainerStatus
  ContainerStatuses : List ContainerStatus
  EphemeralContainerStatuses : List ContainerStatus
  deriving DecidableEq, Repr

/-- The zero value of `v1.ContainerState`: no state recorded. -/
def ContainerState.zero : ContainerState :=
  { Waiting := none, Running := none, Terminated := none }

/-! ## Kubernetes pod types (the fields pod construction reads or writes)

Slices are lists, with no difference between a nil and an empty slice; a Go map
with string keys is an association list read at the first entry of a key. -/

/-- A Go `map[string]V`. -/
abbrev GoMap (α : Type) := List (String × α)

/-- Go `m[k]` with the presence flag: the value at the first entry of `k`. -/
def GoMap.get? {α : Type} (m : GoMap α) (k : String) : Option α :=
  match m with
  | [] => none
  | (k1, v) :: rest => if k1 = k then some v else GoMap.get? rest k

/-- Go `_, ok := m[k]`. -/
def GoMap.has {α : Type} (m : GoMap α) (k : String) : Bool :=
  (GoMap.get? m k).isSome

/-- Go `m[k] = v`: the first entry of `k` is replaced, a new key is added at the
end. -/
def GoMap.set {α : Type} (m : GoMap α) (k : String) (v : α) : GoMap α :=
  match m with
  | [] => [(k, v)]
  | (k1, v1) :: rest => if k1 = k then (k, v) :: rest else (k1, v1) :: GoMap.set rest k v

/-- A `resource.Quantity`, as a count of the smallest unit. -/
abbrev Quantity := Int

structure ResourceRequirements where
  Limits : GoMap Quantity := []
  Requests : GoMap Quantity := []
  deriving DecidableEq, Repr

structure VolumeMount where
  Name : String
  MountPath : String
  deriving DecidableEq, Repr

structure SecurityContext where
  RunAsUser : Option Int := none
  Privileged : Option Bool := none
  deriving DecidableEq, Repr

structure Container where
  Name : String := ""
  Image : String := ""
  Command : List String := []
  Args : List String := []
  Resources : ResourceRequirements := {}
  VolumeMounts : List VolumeMount := []
  SecurityContext : Option SecurityContext := none
  deriving DecidableEq, Repr

structure EmptyDirVolumeSource where
  Medium : String := ""
  SizeLimit : Option Quantity := none
  deriving DecidableEq, Repr

structure Volume where
  Name : String
  EmptyDir : Option EmptyDirVolumeSource := none
  deriving DecidableEq, Repr

structure Toleration where
  Key : String := ""
  Operator : String := ""
  Value : String := ""
  Effect : String := ""
  TolerationSeconds : Option Int := none
  deriving DecidableEq, Repr

structure NodeSelectorRequirement where
  Key : String := ""
  Operator : String := ""
  Values : List String := []
  deriving DecidableEq, Repr

structure NodeSelectorTerm where
  MatchExpressions : List NodeSelectorRequirement := []
  MatchFields : List NodeSelectorRequirement := []
  deriving DecidableEq, Repr

structure NodeSelector where
  NodeSelectorTerms : List NodeSelectorTerm := []
  deriving DecidableEq, Repr

structure PreferredSchedulingTerm where
  Weight : Int
  Preference : NodeSelectorTerm
  deriving DecidableEq, Repr

structure NodeAffinity where
  RequiredDuringSchedulingIgnoredDuringExecution : Option NodeSelector := none
  PreferredDuringSchedulingIgnoredDuringExecution : List PreferredSchedulingTerm := []
  deriving DecidableEq, Repr

/-- A `v1.Affinity`; pod affinity and anti-affinity, which the code never
touches, are kept as lists of opaque terms. -/
structure Affinity where
  NodeAffinity : Option NodeAffinity := none
  PodAffinity : List String := []
  PodAntiAffinity : List String := []
  deriving DecidableEq, Repr

structure PodSecurityContext where
  RunAsUser : Option Int := none
  FSGroup : Option Int := none
  deriving DecidableEq, Repr

structure PodDNSConfig where
  Nameservers : List String := []
  Searches : List String := []
  deriving DecidableEq, Repr

structure PodSpec where
  Volumes : List Volume := []
  InitContainers : List Container := []
  Containers : List Container := []
  RestartPolicy : String := ""
  ServiceAccountName : String := ""
  NodeSelector : GoMap String := []
  HostNetwork : Bool := false
  SecurityContext : Option PodSecurityContext := none
  Affinity : Option Affinity := none
  SchedulerName : String := ""
  Tolerations : List Toleration := []
  DNSConfig : Option PodDNSConfig := none
  deriving DecidableEq, Repr

structure ObjectMeta where
  Annotations : GoMap String := []
  Labels : GoMap String := []
  deriving DecidableEq, Repr

/-- A `v1.PodTemplate`: the metadata and the pod spec of its template. -/
structure PodTemplate where
  ObjectMeta : ObjectMeta := {}
  Spec : PodSpec := {}
  deriving DecidableEq, Repr

/-! ## Task definition types (package `core` of flyteidl) -/

/-- The `partition_size_value` of a GPU accelerator. -/
inductive PartitionSizeValue where
  | Unpartitioned (unpartitioned : Bool)
  | PartitionSize (partitionSize : String)
  deriving DecidableEq, Repr

structure GPUAccelerator where
  Device : String := ""
  PartitionSizeValue : Option PartitionSizeValue := none
  deriving DecidableEq, Repr

structure SharedMemory where
  MountName : String := ""
  MountPath : String := ""
  SizeLimit : String := ""
  deriving DecidableEq, Repr

structure ExtendedResources where
  GpuAccelerator : Option GPUAccelerator := none
  SharedMemory : Option SharedMemory := none
  deriving DecidableEq, Repr

/-! ## Plugin configuration -/

/-- The options of `config.K8sPluginConfig` that the pod helper reads; an option
left out of a value is the Go zero value. -/
structure K8sPluginConfig where
  PodPendingTimeout : Int
  CreateContainerErrorGracePeriod : Int
  CreateContainerConfigErrorGracePeriod : Int
  ImagePullBackoffGracePeriod : Int
  DefaultNodeSelector : GoMap String := []
  InterruptibleNodeSelector : GoMap String := []
  DefaultAffinity : Option Affinity := none
  DefaultPodSecurityContext : Option PodSecurityContext := none
  DefaultSecurityContext : Option SecurityContext := none
  DefaultPodDNSConfig : Option PodDNSConfig := none
  InterruptibleNodeSelectorRequirement : Option NodeSelectorRequirement := none
  NonInterruptibleNodeSelectorRequirement : Option NodeSelectorRequirement := none
  GpuResourceName : String := ""
  GpuDeviceNodeLabel : String := ""
  GpuPartitionSizeNodeLabel : String := ""
  GpuUnpartitionedNodeSelectorRequirement : Option NodeSelectorRequirement := none
  GpuUnpartitionedToleration : Option Toleration := none
  AddTolerationsForExtendedResources : List String := []
  SchedulerName : String := ""
  EnableHostNetworkingPod : Option Bool := none
  DefaultPodTemplateName : String := ""
  deriving DecidableEq, Repr

/-! ## Phase outcomes (package `pluginsCore`) -/

/-- Modelled from the spec: the phase tags of a phase outcome (spec section 3,
"Phase Outcome"); the package `pluginsCore` that declares them is not part of
the sources at hand. -/
inductive Phase where
  | Undefined
  | Queued
  | Initializing
  | Running
  | Success
  | RetryableFailure
  | SystemRetryableFailure
  | PermanentFailure
  deriving DecidableEq, Repr

/-- Modelled from the spec: a phase is terminal when it is a success or one of
the three failures (`Phase.IsTerminal` of `pluginsCore`, not part of the sources
at hand). -/
def Phase.IsTerminal : Phase → Bool
  | .Success => true
  | .RetryableFailure => true
  | .SystemRetryableFailure => true
  | .PermanentFailure => true
  | _ => false

/-- The part of `pluginsCore.TaskInfo` the interpreter touches. -/
structure TaskInfo where
  OccurredAt : Option Int
  deriving DecidableEq, Repr

/-- Modelled from the spec: a phase outcome is a tagged value carrying a reason
code, a message and an occurrence timestamp (spec section 3); `pluginsCore.PhaseInfo`
is not part of the sources at hand. `cleanupOnFailure` records the
"with cleanup" variants of section 4.6, `info` the task info handed over. -/
structure PhaseInfo where
  phase : Phase
  reason : String
  message : String
  occurredAt : Option Int
  info : Option TaskInfo
  cleanupOnFailure : Bool
  deriving DecidableEq, Repr

/-- Occurrence time recorded in an optional task info. -/
def infoOccurredAt (info : Option TaskInfo) : Option Int :=
  info.bind (fun i => i.OccurredAt)

/-- Modelled from the spec: `pluginsCore.PhaseInfoQueuedWithTaskInfo`, a Queued
outcome with the given time and reason text. -/
def PhaseInfoQueuedWithTaskInfo (t : Int) (reason : String) (info : Option TaskInfo) : PhaseInfo :=
  { phase := .Queued, reason := reason, message := "", occurredAt := some t,
    info := info, cleanupOnFailure := false }

/-- Modelled from the spec: `pluginsCore.PhaseInfoInitializing`, an Initializing
outcome with the given time and reason text. -/
def PhaseInfoInitializing (t : Int) (reason : String) (info : Option TaskInfo) : PhaseInfo :=
  { phase := .Initializing, reason := reason, message := "", occurredAt := some t,
    info := info, cleanupOnFailure := false }

/-- Modelled from the spec: `pluginsCore.PhaseInfoRunning`. -/
def PhaseInfoRunning (info : Option TaskInfo) : PhaseInfo :=
  { phase := .Running, reason := "", message := "", occurredAt := infoOccurredAt info,
    info := info, cleanupOnFailure := false }

/-- Modelled from the spec: `pluginsCore.PhaseInfoSuccess`. -/
def PhaseInfoSuccess (info : Option TaskInfo) : PhaseInfo :=
  { phase := .Success, reason := "", message := "", occurredAt := infoOccurredAt info,
    info := info, cleanupOnFailure := false }

/-- Modelled from the spec: the common shape of the failure outcomes of
`pluginsCore`: a failure phase with a reason code and a message. -/
def PhaseInfoFailed (p : Phase) (code msg : String) (info : Option TaskInfo) (cleanup : Bool) :
    PhaseInfo :=
  { phase := p, reason := code, message := msg, occurredAt := infoOccurredAt info,
    info := info, cleanupOnFailure := cleanup }

/-- Modelled from the spec: `pluginsCore.PhaseInfoFailure` (PermanentFailure). -/
def PhaseInfoFailure (code msg : String) (info : Option TaskInfo) : PhaseInfo :=
  PhaseInfoFailed .PermanentFailure code msg info false

/-- Modelled from the spec: `pluginsCore.PhaseInfoFailureWithCleanup`. -/
def PhaseInfoFailureWithCleanup (code msg : String) (info : Option TaskInfo) : PhaseInfo :=
  PhaseInfoFailed .PermanentFailure code msg info true

/-- Modelled from the spec: `pluginsCore.PhaseInfoRetryableFailure`. -/
def PhaseInfoRetryableFailure (code msg : String) (info : Option TaskInfo) : PhaseInfo :=
  PhaseInfoFailed .RetryableFailure code msg info false

/-- Modelled from the spec: `pluginsCore.PhaseInfoRetryableFailureWithCleanup`. -/
def PhaseInfoRetryableFailureWithCleanup (code msg : String) (info : Option TaskInfo) : PhaseInfo :=
  PhaseInfoFailed .RetryableFailure code msg info true

/-- Modelled from the spec: `pluginsCore.PhaseInfoSystemRetryableFailure`. -/
def PhaseInfoSystemRetryableFailure (code msg : String) (info : Option TaskInfo) : PhaseInfo :=
  PhaseInfoFailed .SystemRetryableFailure code msg info false

/-- Modelled from the spec: `pluginsCore.PhaseInfoSystemRetryableFailureWithCleanup`. -/
def PhaseInfoSystemRetryableFailureWithCleanup (code msg : String) (info : Option TaskInfo) :
    PhaseInfo :=
  PhaseInfoFailed .SystemRetryableFailure code msg info true

/-! ## Go library functions used by the interpreter -/

/-- Whether `sub` occurs as a contiguous block in `l`. -/
def hasInfix (sub : List Char) : List Char → Bool
  | [] => sub.isPrefixOf []
  | c :: cs => sub.isPrefixOf (c :: cs) || hasInfix sub cs

/-- Go `strings.Contains(s, substr)`. -/
def stringsContains (s substr : String) : Bool :=
  hasInfix substr.data s.data

/-- Go `strings.HasPrefix(s, p)`; used to state properties of messages. -/
def stringsHasPrefix (s p : String) : Bool :=
  p.data.isPrefixOf s.data

/-- Rendering of an integer by the verb `%v`. -/
def formatInt (n : Int) : String := toString n

/-- The smallest and largest `time.Duration` (signed 64-bit nanoseconds). -/
def minDuration : Int := -(2 ^ 63)

def maxDuration : Int := 2 ^ 63 - 1

/-- Go `time.Since(t)` read at the instant `now`: the difference `now - t`,
saturated to the range of `time.Duration` as `Time.Sub` does. -/
def timeSince (now t : Int) : Int :=
  if now - t < minDuration then minDuration
  else if maxDuration < now - t then maxDuration
  else now - t

/-- Go `fmtFrac` of package `time`: the `prec` low decimal digits of `v`,
trailing zeros dropped, in front of `acc`; returns the digits, `v / 10^prec`
and whether anything was printed. -/
def fmtFracDigits : Nat → Nat → Bool → List Char → List Char × Nat × Bool
  | 0, v, pr, acc => (acc, v, pr)
  | n + 1, v, pr, acc =>
    let digit := v % 10
    let pr1 := pr || digit != 0
    fmtFracDigits n (v / 10) pr1 (if pr1 then Char.ofNat (48 + digit) :: acc else acc)

/-- Go `fmtFrac`: the fraction text (with its leading point, or empty) and the
integer part. -/
def fmtFrac (v prec : Nat) : String × Nat :=
  match fmtFracDigits prec v false [] with
  | (digits, v1, pr) => (if pr then String.mk ('.' :: digits) else "", v1)

/-- Go `time.Duration.String`, the rendering of a duration by the verb `%s`
(for instance `3m0s`). -/
def durationString (d : Int) : String :=
  let u := d.natAbs
  let body :=
    if u < 1000000000 then
      if u = 0 then "0s"
      else if u < 1000 then toString u ++ "ns"
      else if u < 1000000 then toString (fmtFrac u 3).2 ++ (fmtFrac u 3).1 ++ "µs"
      else toString (fmtFrac u 6).2 ++ (fmtFrac u 6).1 ++ "ms"
    else
      let secs := (fmtFrac u 9).2
      let s := toString (secs % 60) ++ (fmtFrac u 9).1 ++ "s"
      let mins := secs / 60
      if mins > 0 then
        let s1 := toString (mins % 60) ++ "m" ++ s
        let hours := mins / 60
        if hours > 0 then toString hours ++ "h" ++ s1 else s1
      else s
  if d < 0 then "-" ++ body else body

/-! ## `isTerminatedWithSigKill` and `DeterminePrimaryContainerPhase` -/

/-- Source: `isTerminatedWithSigKill`. -/
def isTerminatedWithSigKill (state : ContainerState) : Bool :=
  match state.Terminated with
  | none => false
  | some t => t.ExitCode == SIGKILL || t.ExitCode == unsignedSIGKILL

/-- The message built for a terminated container with a non-zero outcome. -/
def terminatedMessage (name : String) (t : ContainerStateTerminated) : String :=
  "\r\n[" ++ name ++ "] terminated with exit code (" ++ formatInt t.ExitCode ++ "). Reason [" ++
    t.Reason ++ "]. Message: \n" ++ t.Message ++ "."

/-- Source: `DeterminePrimaryContainerPhase`; the recursion is the `for` loop
over `statuses`. -/
def DeterminePrimaryContainerPhase (primaryContainerName : String) :
    List ContainerStatus → Option TaskInfo → PhaseInfo
  | [], info =>
    PhaseInfoFailure PrimaryContainerNotFound
      ("Primary container [" ++ primaryContainerName ++ "] not found in pod's container statuses")
      info
  | s :: rest, info =>
    if s.Name = primaryContainerName then
      if s.State.Waiting.isSome || s.State.Running.isSome then
        PhaseInfoRunning info
      else
        match s.State.Terminated with
        | some t =>
          let message := terminatedMessage s.Name t
          if stringsContains t.Reason OOMKilled then
            PhaseInfoRetryableFailure t.Reason message info
          else if isTerminatedWithSigKill s.State then
            PhaseInfoSystemRetryableFailure t.Reason message info
          else if t.ExitCode ≠ 0 then
            PhaseInfoRetryableFailure t.Reason message info
          else
            PhaseInfoSuccess info
        | none => DeterminePrimaryContainerPhase primaryContainerName rest info
    else
      DeterminePrimaryContainerPhase primaryContainerName rest info

/-! ## `DemystifySuccess` -/

/-- The `for` loop of `DemystifySuccess` over the concatenated statuses. -/
def demystifySuccessLoop (info : TaskInfo) : List ContainerStatus → PhaseInfo
  | [] => PhaseInfoSuccess (some info)
  | status :: rest =>
    match status.State.Terminated with
    | some t =>
      if stringsContains t.Reason OOMKilled then
        PhaseInfoRetryableFailure OOMKilled "Pod reported success despite being OOMKilled"
          (some info)
      else demystifySuccessLoop info rest
    | none => demystifySuccessLoop info rest

/-- Source: `DemystifySuccess` (its error result is always nil). -/
def DemystifySuccess (status : PodStatus) (info : TaskInfo) : PhaseInfo :=
  demystifySuccessLoop info
    ((status.InitContainerStatuses ++ status.ContainerStatuses) ++
      status.EphemeralContainerStatuses)

/-! ## `DemystifyFailure` -/

/-- The local variables `code`, `message` and `isSystemError` of `DemystifyFailure`. -/
structure FailureVars where
  code : String
  message : String
  isSystemError : Bool
  deriving DecidableEq, Repr

/-- The variable `containerState` of the loop of `DemystifyFailure`: the last
termination state when it is terminated, else the current state when it is
terminated, else the zero state. -/
def chosenContainerState (c : ContainerStatus) : ContainerState :=
  if c.LastTerminationState.Terminated.isSome then c.LastTerminationState
  else if c.State.Terminated.isSome then c.State
  else ContainerState.zero

/-- One iteration of the loop of `DemystifyFailure` over the container statuses. -/
def demystifyFailureStep (primaryContainerName : String) (v : FailureVars)
    (c : ContainerStatus) : FailureVars :=
  let containerState := chosenContainerState c
  match containerState.Terminated with
  | none => v
  | some t =>
    let v1 : FailureVars :=
      if stringsContains t.Reason OOMKilled then
        { v with code := OOMKilled }
      else if isTerminatedWithSigKill containerState then
        { v with code := Interrupted,
                 isSystemError := if c.Name = primaryContainerName then true else v.isSystemError }
      else v
    if t.ExitCode = 0 then
      { v1 with message := v1.message ++ ("\r\n[" ++ c.Name ++ "] terminated with ExitCode 0.") }
    else
      { v1 with message := v1.message ++ terminatedMessage c.Name t }

/-- The variables of `DemystifyFailure` before the loop. -/
def demystifyFailureInit (status : PodStatus) : FailureVars :=
  let code := if status.Reason.length > 0 then status.Reason else "UnknownError"
  let message :=
    if status.Message.length > 0 then status.Message
    else "Pod failed. No message received from kubernetes."
  { code := code, message := message,
    isSystemError := if code ∈ retryableStatusReasons then true else false }

/-- The variables of `DemystifyFailure` after the loop. -/
def demystifyFailureVars (status : PodStatus) (primaryContainerName : String) : FailureVars :=
  List.foldl (demystifyFailureStep primaryContainerName) (demystifyFailureInit status)
    ((status.InitContainerStatuses ++ status.ContainerStatuses) ++
      status.EphemeralContainerStatuses)

/-- Source: `DemystifyFailure` (its error result is always nil). -/
def DemystifyFailure (status : PodStatus) (info : TaskInfo) (primaryContainerName : String) :
    PhaseInfo :=
  let v := demystifyFailureVars status primaryContainerName
  let isSystemError := if v.code = "UnknownError" then true else v.isSystemError
  if isSystemError then
    PhaseInfoSystemRetryableFailure Interrupted v.message (some info)
  else
    PhaseInfoRetryableFailure v.code v.message (some info)

/-! ## `DemystifyPending` -/

/-- Source: `GetMessageAfterGracePeriod`. -/
def GetMessageAfterGracePeriod (message : String) (gracePeriod : Int) : String :=
  "Grace period [" ++ durationString gracePeriod ++ "] exceeded|" ++ message

/-- The `switch reason` of `demystifyPendingHelper` for a not-ready container
in the waiting state `w`, under the condition `c` with transition time `t`. -/
def pendingWaitingOutcome (cfg : K8sPluginConfig) (now : Int) (c : PodCondition) (t : Int)
    (w : ContainerStateWaiting) : PhaseInfo × Int :=
  let reason := w.Reason
  let finalReason := c.Reason ++ "|" ++ reason
  let finalMessage := c.Message ++ "|" ++ w.Message
  let tInfo : Option TaskInfo := some { OccurredAt := some t }
  let initializing := PhaseInfoInitializing t ("[" ++ finalReason ++ "]: " ++ finalMessage) tInfo
  if reason = "ErrImagePull" ∨ reason = "ContainerCreating" ∨ reason = "PodInitializing" then
    (initializing, t)
  else if reason = "CreateContainerError" then
    let gracePeriod := cfg.CreateContainerErrorGracePeriod
    if timeSince now t ≥ gracePeriod then
      (PhaseInfoFailureWithCleanup finalReason
        (GetMessageAfterGracePeriod finalMessage gracePeriod) tInfo, t)
    else (initializing, t)
  else if reason = "CreateContainerConfigError" then
    let gracePeriod := cfg.CreateContainerConfigErrorGracePeriod
    if timeSince now t ≥ gracePeriod then
      (PhaseInfoFailureWithCleanup finalReason
        (GetMessageAfterGracePeriod finalMessage gracePeriod) tInfo, t)
    else (initializing, t)
  else if reason = "InvalidImageName" then
    (PhaseInfoFailureWithCleanup finalReason finalMessage tInfo, t)
  else if reason = "ImagePullBackOff" then
    let gracePeriod := cfg.ImagePullBackoffGracePeriod
    if timeSince now t ≥ gracePeriod then
      (PhaseInfoRetryableFailureWithCleanup finalReason
        (GetMessageAfterGracePeriod finalMessage gracePeriod) tInfo, t)
    else (initializing, t)
  else
    (PhaseInfoSystemRetryableFailureWithCleanup finalReason finalMessage tInfo, t)

/-- The inner loop of `demystifyPendingHelper` over `status.ContainerStatuses`;
`none` when the loop ends without returning. -/
def pendingContainerLoop (cfg : K8sPluginConfig) (now : Int) (c : PodCondition) (t : Int) :
    List ContainerStatus → Option (PhaseInfo × Int)
  | [] => none
  | containerStatus :: rest =>
    if !containerStatus.Ready then
      match containerStatus.State.Waiting with
      | some w => some (pendingWaitingOutcome cfg now c t w)
      | none => pendingContainerLoop cfg now c t rest
    else pendingContainerLoop cfg now c t rest

/-- The outer loop of `demystifyPendingHelper` over `status.Conditions`; `t` is
the current value of the variable `t`. -/
def pendingConditionLoop (cfg : K8sPluginConfig) (now : Int) (status : PodStatus)
    (phaseInfo : PhaseInfo) : Int → List PodCondition → PhaseInfo × Int
  | t, [] => (phaseInfo, t)
  | _, c :: rest =>
    let t := c.LastTransitionTime
    if c.Type_ = PodScheduled then
      if c.Status = ConditionFalse then
        (PhaseInfoQueuedWithTaskInfo t (c.Reason ++ ":" ++ c.Message) phaseInfo.info, t)
      else pendingConditionLoop cfg now status phaseInfo t rest
    else if c.Type_ = PodReasonUnschedulable then
      (PhaseInfoQueuedWithTaskInfo t (c.Reason ++ ":" ++ c.Message) phaseInfo.info, t)
    else if c.Type_ = PodReady then
      if c.Status = ConditionFalse then
        match pendingContainerLoop cfg now c t status.ContainerStatuses with
        | some r => r
        | none => pendingConditionLoop cfg now status phaseInfo t rest
      else pendingConditionLoop cfg now status phaseInfo t rest
    else pendingConditionLoop cfg now status phaseInfo t rest

/-- Source: `demystifyPendingHelper`. -/
def demystifyPendingHelper (cfg : K8sPluginConfig) (now : Int) (status : PodStatus)
    (info : TaskInfo) : PhaseInfo × Int :=
  let phaseInfo := PhaseInfoQueuedWithTaskInfo now "Demistify Pending" (some info)
  pendingConditionLoop cfg now status phaseInfo now status.Conditions

/-- Source: `DemystifyPending` (its error result is always nil). -/
def DemystifyPending (cfg : K8sPluginConfig) (now : Int) (status : PodStatus) (info : TaskInfo) :
    PhaseInfo :=
  let r := demystifyPendingHelper cfg now status info
  let phaseInfo := r.1
  let t := r.2
  if phaseInfo.phase.IsTerminal then phaseInfo
  else
    let podPendingTimeout := cfg.PodPendingTimeout
    if podPendingTimeout > 0 ∧ timeSince now t ≥ podPendingTimeout then
      PhaseInfoRetryableFailureWithCleanup "PodPendingTimeout" phaseInfo.reason
        (some { OccurredAt := some t })
    else if phaseInfo.phase ≠ Phase.Undefined then phaseInfo
    else PhaseInfoQueuedWithTaskInfo now "Scheduling" phaseInfo.info

/-! ## Specification vocabulary -/

/-- A container status has a state when it is waiting, running or terminated. -/
def hasState (s : ContainerStatus) : Bool :=
  s.State.Waiting.isSome || s.State.Running.isSome || s.State.Terminated.isSome

/-- The first status named as the primary container that has a state. -/
def decidingStatus (primaryContainerName : String) (statuses : List ContainerStatus) :
    Option ContainerStatus :=
  statuses.find? (fun s => decide (s.Name = primaryContainerName) && hasState s)

/-- A container state that is terminated only. -/
def terminatedState (code : Int) (reason : String) : ContainerState :=
  { Waiting := none, Running := none,
    Terminated := some { ExitCode := code, Reason := reason, Message := "", FinishedAt := 0 } }

/-- A container state that is waiting only. -/
def waitingState (reason : String) : ContainerState :=
  { Waiting := some { Reason := reason, Message := "" }, Running := none, Terminated := none }

/-- A container status with the given name and current state, never restarted. -/
def statusOf (name : String) (st : ContainerState) : ContainerStatus :=
  { Name := name, State := st, LastTerminationState := ContainerState.zero, Ready := false }

/-! ## Vocabulary of the failure and pending claims, sample pods -/

/-- All container statuses of a pod in the order the interpreter scans them:
init, regular, ephemeral. -/
def allContainerStatuses (status : PodStatus) : List ContainerStatus :=
  (status.InitContainerStatuses ++ status.ContainerStatuses) ++ status.EphemeralContainerStatuses

/-- The chosen terminated state of `c` replaces the accumulated reason: its
reason contains "OOMKilled" or its exit code is 137 or 247. -/
def overwritesCode (c : ContainerStatus) : Bool :=
  match (chosenContainerState c).Terminated with
  | none => false
  | some t => stringsContains t.Reason OOMKilled || (t.ExitCode == 137 || t.ExitCode == 247)

/-- The status `c` is named as the primary and its chosen terminated state has
exit code 137 or 247 and a reason without "OOMKilled". -/
def marksSystemError (primaryContainerName : String) (c : ContainerStatus) : Bool :=
  match (chosenContainerState c).Terminated with
  | none => false
  | some t =>
    !stringsContains t.Reason OOMKilled && (t.ExitCode == 137 || t.ExitCode == 247) &&
      decide (c.Name = primaryContainerName)

/-- The condition under which `DemystifyFailure` classifies a failure as a
system error: (a) the pod status reason is one of the retryable reasons; or
(b) a container status named as the primary has a chosen terminated state (the
last-termination state when that is terminated, else the current state) with
exit code 137 or 247 and a reason without "OOMKilled"; or (c) the accumulated
reason is still "UnknownError": the pod status reason is empty or is itself
"UnknownError", and no chosen terminated state has a reason containing
"OOMKilled" or an exit code 137 or 247. -/
def failureIsSystemError (status : PodStatus) (primaryContainerName : String) : Prop :=
  (status.Reason = "Shutdown" ∨ status.Reason = "Terminated" ∨
    status.Reason = "NodeShutdown" ∨ status.Reason = "NodeAffinity") ∨
  (∃ c ∈ allContainerStatuses status, c.Name = primaryContainerName ∧
    ∃ t, (chosenContainerState c).Terminated = some t ∧
      (t.ExitCode = 137 ∨ t.ExitCode = 247) ∧ stringsContains t.Reason "OOMKilled" = false) ∨
  ((status.Reason = "" ∨ status.Reason = "UnknownError") ∧
    ∀ c ∈ allContainerStatuses status, ∀ t, (chosenContainerState c).Terminated = some t →
      stringsContains t.Reason "OOMKilled" = false ∧ t.ExitCode ≠ 137 ∧ t.ExitCode ≠ 247)

/-- A failed pod whose status reason is the text "UnknownError" and that reports
no container status. -/
def failedPodReasonUnknownError : PodStatus :=
  { Phase := "Failed", Conditions := [], Message := "", Reason := "UnknownError",
    InitContainerStatuses := [], ContainerStatuses := [], EphemeralContainerStatuses := [] }

/-- A failed pod with status reason `Evicted` whose primary container `main` was
restarted: its last termination had exit code 1, its current state is terminated
with exit code 137. -/
def failedPodRestartedPrimary : PodStatus :=
  { Phase := "Failed", Conditions := [], Message := "", Reason := "Evicted",
    InitContainerStatuses := [],
    ContainerStatuses :=
      [{ Name := "main", State := terminatedState 137 "Error",
         LastTerminationState := terminatedState 1 "Error", Ready := false }],
    EphemeralContainerStatuses := [] }

/-- The condition of claim C2 read as it is written: (a) a retryable status
reason; or (b) a status named as the primary has a terminated state (current or
last) with exit code 137 or 247 and a reason without "OOMKilled"; or (c) the
status reason is empty and no terminated state has an OOMKilled reason or an exit
code 137 or 247. -/
def claimedSystemError (status : PodStatus) (primaryContainerName : String) : Prop :=
  (status.Reason = "Shutdown" ∨ status.Reason = "Terminated" ∨
    status.Reason = "NodeShutdown" ∨ status.Reason = "NodeAffinity") ∨
  (∃ c ∈ allContainerStatuses status, c.Name = primaryContainerName ∧
    ∃ t, (c.State.Terminated = some t ∨ c.LastTerminationState.Terminated = some t) ∧
      (t.ExitCode = 137 ∨ t.ExitCode = 247) ∧ stringsContains t.Reason "OOMKilled" = false) ∨
  (status.Reason = "" ∧
    ∀ c ∈ allContainerStatuses status,
      ∀ t, (c.State.Terminated = some t ∨ c.LastTerminationState.Terminated = some t) →
        stringsContains t.Reason "OOMKilled" = false ∧ t.ExitCode ≠ 137 ∧ t.ExitCode ≠ 247)

/-- A succeeded pod whose container `main` is terminated with exit code 0 under
the reason `OOMKilled`. -/
def succeededPodOOMKilled : PodStatus :=
  { Phase := "Succeeded", Conditions := [], Message := "", Reason := "",
    InitContainerStatuses := [],
    ContainerStatuses := [statusOf "main" (terminatedState 0 "OOMKilled")],
    EphemeralContainerStatuses := [] }

/-- The waiting state of the first container status (regular containers only)
that is not ready and is waiting. -/
def firstNotReadyWaiting (status : PodStatus) : Option ContainerStateWaiting :=
  (status.ContainerStatuses.find? (fun s => !s.Ready && s.State.Waiting.isSome)).bind
    (fun s => s.State.Waiting)

/-- A condition decides the outcome of `demystifyPendingHelper` when it is
PodScheduled=False, or has type Unschedulable, or is Ready=False while some
container status is not ready and waiting. -/
def conditionDecides (status : PodStatus) (q : PodCondition) : Bool :=
  (q.Type_ == "PodScheduled" && q.Status == "False") ||
  q.Type_ == "Unschedulable" ||
  (q.Type_ == "Ready" && q.Status == "False" && (firstNotReadyWaiting status).isSome)

/-- The deciding condition of a pod status: the first condition that decides. -/
def decidingCondition (status : PodStatus) : Option PodCondition :=
  status.Conditions.find? (conditionDecides status)

/-- The pod-pending timeout is reached at elapsed time `d`. -/
def pendingTimeoutReached (cfg : K8sPluginConfig) (d : Int) : Prop :=
  0 < cfg.PodPendingTimeout ∧ cfg.PodPendingTimeout ≤ d

instance pendingTimeoutReachedDecidable (cfg : K8sPluginConfig) (d : Int) :
    Decidable (pendingTimeoutReached cfg d) := by
  unfold pendingTimeoutReached
  infer_instance

/-- The outcome of `demystifyPendingHelper` fixed by a deciding condition `c`. -/
def decidedOutcome (cfg : K8sPluginConfig) (now : Int) (status : PodStatus) (info : TaskInfo)
    (c : PodCondition) : PhaseInfo × Int :=
  if c.Type_ = "Ready" then
    match firstNotReadyWaiting status with
    | some w => pendingWaitingOutcome cfg now c c.LastTransitionTime w
    | none =>
      (PhaseInfoQueuedWithTaskInfo now "Demistify Pending" (some info), c.LastTransitionTime)
  else
    (PhaseInfoQueuedWithTaskInfo c.LastTransitionTime (c.Reason ++ ":" ++ c.Message) (some info),
      c.LastTransitionTime)

/-- The Initializing outcome of the reason switch. -/
def initializingOutcome (c : PodCondition) (w : ContainerStateWaiting) : PhaseInfo :=
  PhaseInfoInitializing c.LastTransitionTime
    ("[" ++ (c.Reason ++ "|" ++ w.Reason) ++ "]: " ++ (c.Message ++ "|" ++ w.Message))
    (some { OccurredAt := some c.LastTransitionTime })

/-- A Ready=False condition as the kubelet reports it, with transition time `t`. -/
def readyFalseCondition (t : Int) : PodCondition :=
  { Type_ := "Ready", Status := "False", LastTransitionTime := t,
    Reason := "ContainersNotReady", Message := "containers with unready status: [main]" }

/-- A pending pod that is scheduled, not ready since `t`, whose only container
`main` waits with the given reason. -/
def pendingPodWaiting (reason : String) (t : Int) : PodStatus :=
  { Phase := "Pending",
    Conditions :=
      [{ Type_ := "PodScheduled", Status := "True", LastTransitionTime := t,
         Reason := "", Message := "" },
       readyFalseCondition t],
    Message := "", Reason := "",
    InitContainerStatuses := [],
    ContainerStatuses := [statusOf "main" (waitingState reason)],
    EphemeralContainerStatuses := [] }

/-- A configuration with grace periods of three minutes for image pull back-off
and container creation errors, none for container configuration errors, and the
pod-pending timeout disabled. -/
def sampleConfig : K8sPluginConfig :=
  { PodPendingTimeout := 0,
    CreateContainerErrorGracePeriod := 180000000000,
    CreateContainerConfigErrorGracePeriod := 0,
    ImagePullBackoffGracePeriod := 180000000000 }

/-- A configuration with a pod-pending timeout of one minute. -/
def timeoutConfig : K8sPluginConfig :=
  { PodPendingTimeout := 60000000000,
    CreateContainerErrorGracePeriod := 180000000000,
    CreateContainerConfigErrorGracePeriod := 0,
    ImagePullBackoffGracePeriod := 180000000000 }

/-- A PodScheduled=False condition as the scheduler reports it. -/
def unschedulableCondition : PodCondition :=
  { Type_ := "PodScheduled", Status := "False", LastTransitionTime := 42,
    Reason := "Unschedulable",
    Message := "0/1 nodes are available: 1 Insufficient memory." }

/-- A pending pod that is not scheduled; it also lists a Ready=False condition
and a container waiting with an invalid image name. -/
def unschedulablePod : PodStatus :=
  { Phase := "Pending",
    Conditions := [unschedulableCondition, readyFalseCondition 50],
    Message := "", Reason := "",
    InitContainerStatuses := [],
    ContainerStatuses := [statusOf "main" (waitingState "InvalidImageName")],
    EphemeralContainerStatuses := [] }

/-! ## Placement: node-selector requirements and GPU selectors -/

/-- Source: `AddRequiredNodeSelectorRequirements`; the affinity that the Go code
mutates through its pointer is returned. -/
def AddRequiredNodeSelectorRequirements (base : Affinity)
    (new : List NodeSelectorRequirement) : Affinity :=
  let nodeAffinity : NodeAffinity :=
    match base.NodeAffinity with
    | none => {}
    | some na => na
  let required : NodeSelector :=
    match nodeAffinity.RequiredDuringSchedulingIgnoredDuringExecution with
    | none => {}
    | some r => r
  let required1 : NodeSelector :=
    if required.NodeSelectorTerms.length > 0 then
      { required with
        NodeSelectorTerms := required.NodeSelectorTerms.map
          (fun nst => { nst with MatchExpressions := nst.MatchExpressions ++ new }) }
    else
      { required with NodeSelectorTerms := [{ MatchExpressions := new }] }
  { base with
    NodeAffinity := some { nodeAffinity with
      RequiredDuringSchedulingIgnoredDuringExecution := some required1 } }

/-- Source: `AddPreferredNodeSelectorRequirements`. -/
def AddPreferredNodeSelectorRequirements (base : Affinity) (weight : Int)
    (new : List NodeSelectorRequirement) : Affinity :=
  let nodeAffinity : NodeAffinity :=
    match base.NodeAffinity with
    | none => {}
    | some na => na
  { base with
    NodeAffinity := some { nodeAffinity with
      PreferredDuringSchedulingIgnoredDuringExecution :=
        nodeAffinity.PreferredDuringSchedulingIgnoredDuringExecution ++
          [{ Weight := weight, Preference := { MatchExpressions := new } }] } }

/-- Source: `ApplyInterruptibleNodeSelectorRequirement`. -/
def ApplyInterruptibleNodeSelectorRequirement (cfg : K8sPluginConfig) (interruptible : Bool)
    (affinity : Affinity) : Affinity :=
  if interruptible then
    match cfg.InterruptibleNodeSelectorRequirement with
    | none => affinity
    | some nsr => AddRequiredNodeSelectorRequirements affinity [nsr]
  else
    match cfg.NonInterruptibleNodeSelectorRequirement with
    | none => affinity
    | some nsr => AddRequiredNodeSelectorRequirements affinity [nsr]

/-- Source: `ApplyInterruptibleNodeAffinity`. -/
def ApplyInterruptibleNodeAffinity (cfg : K8sPluginConfig) (interruptible : Bool)
    (podSpec : PodSpec) : PodSpec :=
  let affinity : Affinity :=
    match podSpec.Affinity with
    | none => {}
    | some a => a
  { podSpec with
    Affinity := some (ApplyInterruptibleNodeSelectorRequirement cfg interruptible affinity) }

/-- Go `gpuAccelerator.GetDevice()`, defined on the nil accelerator. -/
def GetDevice (g : Option GPUAccelerator) : String :=
  match g with
  | none => ""
  | some a => a.Device

/-- Go `gpuAccelerator.GetPartitionSizeValue()`, defined on the nil accelerator. -/
def GetPartitionSizeValue (g : Option GPUAccelerator) :
    Option PartitionSizeValue :=
  match g with
  | none => none
  | some a => a.PartitionSizeValue

/-- The `switch` of `ApplyGPUNodeSelectors` on the partition size value: the
requirement and the toleration to add, if any. -/
def partitionSizeSelectors (cfg : K8sPluginConfig) (p : PartitionSizeValue) :
    Option NodeSelectorRequirement × Option Toleration :=
  match p with
  | .Unpartitioned unpartitioned =>
    if !unpartitioned then (none, none)
    else
      (some (match cfg.GpuUnpartitionedNodeSelectorRequirement with
        | some r => r
        | none => { Key := cfg.GpuPartitionSizeNodeLabel, Operator := "DoesNotExist" }),
       cfg.GpuUnpartitionedToleration)
  | .PartitionSize partitionSize =>
    (some { Key := cfg.GpuPartitionSizeNodeLabel, Operator := "In", Values := [partitionSize] },
     some { Key := cfg.GpuPartitionSizeNodeLabel, Value := partitionSize, Operator := "Equal",
            Effect := "NoSchedule" })

/-- Source: `ApplyGPUNodeSelectors`; the pod spec that the Go code mutates
through its pointer is returned. -/
def ApplyGPUNodeSelectors (cfg : K8sPluginConfig) (podSpec : PodSpec)
    (gpuAccelerator : Option GPUAccelerator) : PodSpec :=
  let gpuResourceName := cfg.GpuResourceName
  let requiresGPUs := podSpec.Containers.any (fun cnt => cnt.Resources.Limits.has gpuResourceName)
  if !requiresGPUs then podSpec
  else
    let affinity0 : Affinity :=
      match podSpec.Affinity with
      | none => {}
      | some a => a
    let device := GetDevice gpuAccelerator
    let podSpec1 : PodSpec :=
      if device.length > 0 then
        { podSpec with
          Affinity := some (AddRequiredNodeSelectorRequirements affinity0
            [{ Key := cfg.GpuDeviceNodeLabel, Operator := "In", Values := [device] }]),
          Tolerations := podSpec.Tolerations ++
            [{ Key := cfg.GpuDeviceNodeLabel, Value := device, Operator := "Equal",
               Effect := "NoSchedule" }] }
      else { podSpec with Affinity := some affinity0 }
    match GetPartitionSizeValue gpuAccelerator with
    | none => podSpec1
    | some p =>
      let sel := partitionSizeSelectors cfg p
      let podSpec2 : PodSpec :=
        match sel.1 with
        | none => podSpec1
        | some nsr =>
          { podSpec1 with
            Affinity := some (AddRequiredNodeSelectorRequirements
              (match podSpec1.Affinity with
                | none => {}
                | some a => a) [nsr]) }
      match sel.2 with
      | none => podSpec2
      | some tol => { podSpec2 with Tolerations := podSpec2.Tolerations ++ [tol] }

/-! ## Vocabulary of the placement claims -/

/-- The required node-selector terms of an affinity (none when unset). -/
def requiredTerms (a : Option Affinity) : List NodeSelectorTerm :=
  match a with
  | none => []
  | some aff =>
    match aff.NodeAffinity with
    | none => []
    | some na =>
      match na.RequiredDuringSchedulingIgnoredDuringExecution with
      | none => []
      | some sel => sel.NodeSelectorTerms

/-- The preferred scheduling terms of an affinity (none when unset). -/
def preferredTerms (a : Option Affinity) : List PreferredSchedulingTerm :=
  match a with
  | none => []
  | some aff =>
    match aff.NodeAffinity with
    | none => []
    | some na => na.PreferredDuringSchedulingIgnoredDuringExecution

/-- The total number of match expressions over the required terms. -/
def requiredExpressionCount (a : Option Affinity) : Nat :=
  ((requiredTerms a).map (fun t => t.MatchExpressions.length)).sum

/-- A term with the requirements `new` added after its match expressions. -/
def NodeSelectorTerm.withAdded (new : List NodeSelectorRequirement) (t : NodeSelectorTerm) :
    NodeSelectorTerm :=
  { t with MatchExpressions := t.MatchExpressions ++ new }

/-- Some container of the pod lists the resource `name` in its limits. -/
def requestsGpu (cfg : K8sPluginConfig) (podSpec : PodSpec) : Prop :=
  ∃ c ∈ podSpec.Containers, c.Resources.Limits.has cfg.GpuResourceName = true

/-! ## The merge engine

`mergo.Merge(dst, src, mergo.WithOverride, mergo.WithAppendSlice)` of the Go
library `mergo` is followed type by type: a scalar of `src` replaces that of
`dst` unless it is the zero value, slices are appended, maps are merged key by
key with the entries of `src` winning, pointers to structures are merged field
by field when both are set. The functions of this section give the value of the
destination after the merge; they are the whole effect of a merge into a
`DeepCopy`, which shares nothing. The merges into the containers of
`MergeBasePodSpecOntoTemplate`, which share objects with the template, are
embedded with their memory in the section on its container loops. -/

/-- `mergo` on a string field. -/
def mergeString (dst src : String) : String :=
  if src = "" then dst else src

/-- `mergo` on a boolean field. -/
def mergeBool (dst src : Bool) : Bool :=
  if src = false then dst else src

/-- `mergo` on a pointer to an integer. -/
def mergeOptInt (dst src : Option Int) : Option Int :=
  match src, dst with
  | none, _ => dst
  | some s, none => some s
  | some s, some d => if s = 0 then some d else some s

/-- `mergo` on a pointer to a boolean. -/
def mergeOptBool (dst src : Option Bool) : Option Bool :=
  match src, dst with
  | none, _ => dst
  | some s, none => some s
  | some s, some d => if s = false then some d else some s

/-- `mergo` on a map: every entry of `src` is set in `dst`. -/
def mergeMap {α : Type} (dst src : GoMap α) : GoMap α :=
  src.foldl (fun m e => GoMap.set m e.1 e.2) dst

/-- `mergo` on a pointer to a structure, given the merge of the structure. -/
def mergeOpt {α : Type} (merge : α → α → α) (dst src : Option α) : Option α :=
  match src, dst with
  | none, _ => dst
  | some s, none => some s
  | some s, some d => some (merge d s)

def mergeResourceRequirements (dst src : ResourceRequirements) : ResourceRequirements :=
  { Limits := mergeMap dst.Limits src.Limits,
    Requests := mergeMap dst.Requests src.Requests }

def mergeSecurityContext (dst src : SecurityContext) : SecurityContext :=
  { RunAsUser := mergeOptInt dst.RunAsUser src.RunAsUser,
    Privileged := mergeOptBool dst.Privileged src.Privileged }

/-- `mergo.Merge` on two containers. -/
def mergeContainer (dst src : Container) : Container :=
  { Name := mergeString dst.Name src.Name,
    Image := mergeString dst.Image src.Image,
    Command := dst.Command ++ src.Command,
    Args := dst.Args ++ src.Args,
    Resources := mergeResourceRequirements dst.Resources src.Resources,
    VolumeMounts := dst.VolumeMounts ++ src.VolumeMounts,
    SecurityContext := mergeOpt mergeSecurityContext dst.SecurityContext src.SecurityContext }

def mergePodSecurityContext (dst src : PodSecurityContext) : PodSecurityContext :=
  { RunAsUser := mergeOptInt dst.RunAsUser src.RunAsUser,
    FSGroup := mergeOptInt dst.FSGroup src.FSGroup }

def mergePodDNSConfig (dst src : PodDNSConfig) : PodDNSConfig :=
  { Nameservers := dst.Nameservers ++ src.Nameservers,
    Searches := dst.Searches ++ src.Searches }

def mergeNodeSelector (dst src : NodeSelector) : NodeSelector :=
  { NodeSelectorTerms := dst.NodeSelectorTerms ++ src.NodeSelectorTerms }

def mergeNodeAffinity (dst src : NodeAffinity) : NodeAffinity :=
  { RequiredDuringSchedulingIgnoredDuringExecution :=
      mergeOpt mergeNodeSelector dst.RequiredDuringSchedulingIgnoredDuringExecution
        src.RequiredDuringSchedulingIgnoredDuringExecution,
    PreferredDuringSchedulingIgnoredDuringExecution :=
      dst.PreferredDuringSchedulingIgnoredDuringExecution ++
        src.PreferredDuringSchedulingIgnoredDuringExecution }

def mergeAffinity (dst src : Affinity) : Affinity :=
  { NodeAffinity := mergeOpt mergeNodeAffinity dst.NodeAffinity src.NodeAffinity,
    PodAffinity := dst.PodAffinity ++ src.PodAffinity,
    PodAntiAffinity := dst.PodAntiAffinity ++ src.PodAntiAffinity }

/-- `mergo.Merge` on two pod specs. -/
def mergePodSpec (dst src : PodSpec) : PodSpec :=
  { Volumes := dst.Volumes ++ src.Volumes,
    InitContainers := dst.InitContainers ++ src.InitContainers,
    Containers := dst.Containers ++ src.Containers,
    RestartPolicy := mergeString dst.RestartPolicy src.RestartPolicy,
    ServiceAccountName := mergeString dst.ServiceAccountName src.ServiceAccountName,
    NodeSelector := mergeMap dst.NodeSelector src.NodeSelector,
    HostNetwork := mergeBool dst.HostNetwork src.HostNetwork,
    SecurityContext := mergeOpt mergePodSecurityContext dst.SecurityContext src.SecurityContext,
    Affinity := mergeOpt mergeAffinity dst.Affinity src.Affinity,
    SchedulerName := mergeString dst.SchedulerName src.SchedulerName,
    Tolerations := dst.Tolerations ++ src.Tolerations,
    DNSConfig := mergeOpt mergePodDNSConfig dst.DNSConfig src.DNSConfig }

/-- `mergo.Merge` on two object metadata. -/
def mergeObjectMeta (dst src : ObjectMeta) : ObjectMeta :=
  { Annotations := mergeMap dst.Annotations src.Annotations,
    Labels := mergeMap dst.Labels src.Labels }

def defaultContainerTemplateName : String := "default"
def defaultInitContainerTemplateName : String := "default-init"
def primaryContainerTemplateName : String := "primary"
def primaryInitContainerTemplateName : String := "primary-init"
def PrimaryContainerKey : String := "primary_container_name"

/-! ## The container loops of `MergeBasePodSpecOntoTemplate` and the memory they share

The loops over the base containers do not work on copies throughout: a result
container that starts as `&templateContainer` is a copy of the structure only
and shares the security context and the resource maps of the template
container; and `mergo.Merge` sets a nil pointer of its destination to the very
pointer of its source, and writes through a pointer or into a map that the
destination already has. A later merge then writes into objects of the template
(or of an earlier base container), and every result container that shares them
changes with them. These loops are therefore embedded with their memory: the
pointers and maps under a container are addresses into a `ContainerMemory`, each
merge returns the memory it leaves, and the result containers are read when the
function returns.

Conventions. The template and the base given to the function share no pointer
and no map with one another. Every iteration of a `range` loop has its own loop
variable (Go 1.22). A map without entries is the nil map, which the types of
this file do not tell apart; a map of a template container that is not nil and
has no entry would be filled in place where the nil map is replaced by a new
map. A slice is held by value, `append` giving a new slice: the slices of the
template containers have no capacity beyond their length, as `DeepCopy` leaves
them; with spare capacity, two base containers that start from the same
`&templateContainer` would have their elements appended into one array. -/

/-- A `v1.SecurityContext` in memory: each field is nil or the address of its
cell. -/
structure SecurityContextObject where
  RunAsUser : Option Nat := none
  Privileged : Option Nat := none
  deriving DecidableEq, Repr

/-- The memory under the containers: the `int64` cells, the `bool` cells, the
security contexts and the resource maps. An address is a position in its list. -/
structure ContainerMemory where
  int64s : List Int := []
  bools : List Bool := []
  securityContexts : List SecurityContextObject := []
  resourceLists : List (GoMap Quantity) := []
  deriving DecidableEq, Repr

/-- A `v1.Container` structure as Go copies it: names, image and slices by
value, and for the limits, the requests and the security context nil or the
address of the map or of the object. -/
structure ContainerStruct where
  Name : String := ""
  Image : String := ""
  Command : List String := []
  Args : List String := []
  Limits : Option Nat := none
  Requests : Option Nat := none
  VolumeMounts : List VolumeMount := []
  SecurityContext : Option Nat := none
  deriving DecidableEq, Repr

/-- A new `int64` cell, with its address. -/
def ContainerMemory.newInt64 (m : ContainerMemory) (v : Int) : ContainerMemory × Nat :=
  ({ m with int64s := m.int64s ++ [v] }, m.int64s.length)

/-- A new `bool` cell, with its address. -/
def ContainerMemory.newBool (m : ContainerMemory) (v : Bool) : ContainerMemory × Nat :=
  ({ m with bools := m.bools ++ [v] }, m.bools.length)

/-- A new security context, with its address. -/
def ContainerMemory.newSecurityContext (m : ContainerMemory) (o : SecurityContextObject) :
    ContainerMemory × Nat :=
  ({ m with securityContexts := m.securityContexts ++ [o] }, m.securityContexts.length)

/-- A new resource map, with its address. -/
def ContainerMemory.newResourceList (m : ContainerMemory) (l : GoMap Quantity) :
    ContainerMemory × Nat :=
  ({ m with resourceLists := m.resourceLists ++ [l] }, m.resourceLists.length)

/-- A `*int64` placed in memory: nil stays nil, a value gets a new cell. -/
def storeInt64Ptr (m : ContainerMemory) : Option Int → ContainerMemory × Option Nat
  | none => (m, none)
  | some v => ((m.newInt64 v).1, some (m.newInt64 v).2)

/-- A `*bool` placed in memory. -/
def storeBoolPtr (m : ContainerMemory) : Option Bool → ContainerMemory × Option Nat
  | none => (m, none)
  | some v => ((m.newBool v).1, some (m.newBool v).2)

/-- A `*v1.SecurityContext` placed in memory, with new cells for its fields. -/
def storeSecurityContext (m : ContainerMemory) :
    Option SecurityContext → ContainerMemory × Option Nat
  | none => (m, none)
  | some sc =>
    let runAsUser := storeInt64Ptr m sc.RunAsUser
    let privileged := storeBoolPtr runAsUser.1 sc.Privileged
    let object := privileged.1.newSecurityContext
      { RunAsUser := runAsUser.2, Privileged := privileged.2 }
    (object.1, some object.2)

/-- A resource map placed in memory: the map without entries is nil. -/
def storeResourceList (m : ContainerMemory) : GoMap Quantity → ContainerMemory × Option Nat
  | [] => (m, none)
  | e :: rest => ((m.newResourceList (e :: rest)).1, some (m.newResourceList (e :: rest)).2)

/-- A container placed in memory, every pointer and map of it new. -/
def storeContainer (m : ContainerMemory) (c : Container) : ContainerMemory × ContainerStruct :=
  let limits := storeResourceList m c.Resources.Limits
  let requests := storeResourceList limits.1 c.Resources.Requests
  let securityContext := storeSecurityContext requests.1 c.SecurityContext
  (securityContext.1,
    { Name := c.Name, Image := c.Image, Command := c.Command, Args := c.Args,
      Limits := limits.2, Requests := requests.2, VolumeMounts := c.VolumeMounts,
      SecurityContext := securityContext.2 })

/-- The containers of a pod spec placed in memory, one after the other. -/
def storeContainers (m : ContainerMemory) : List Container → ContainerMemory × List ContainerStruct
  | [] => (m, [])
  | c :: rest =>
    let first := storeContainer m c
    let others := storeContainers first.1 rest
    (others.1, first.2 :: others.2)

/-- The value behind a `*int64`. -/
def loadInt64Ptr (m : ContainerMemory) : Option Nat → Option Int
  | none => none
  | some a => some (m.int64s.getD a 0)

/-- The value behind a `*bool`. -/
def loadBoolPtr (m : ContainerMemory) : Option Nat → Option Bool
  | none => none
  | some a => some (m.bools.getD a false)

/-- The value behind a `*v1.SecurityContext`. -/
def loadSecurityContext (m : ContainerMemory) : Option Nat → Option SecurityContext
  | none => none
  | some a =>
    some { RunAsUser := loadInt64Ptr m (m.securityContexts.getD a {}).RunAsUser,
           Privileged := loadBoolPtr m (m.securityContexts.getD a {}).Privileged }

/-- The entries of a resource map. -/
def loadResourceList (m : ContainerMemory) : Option Nat → GoMap Quantity
  | none => []
  | some a => m.resourceLists.getD a []

/-- The container that a container structure stands for in the memory `m`. -/
def loadContainer (m : ContainerMemory) (c : ContainerStruct) : Container :=
  { Name := c.Name, Image := c.Image, Command := c.Command, Args := c.Args,
    Resources := { Limits := loadResourceList m c.Limits,
                   Requests := loadResourceList m c.Requests },
    VolumeMounts := c.VolumeMounts,
    SecurityContext := loadSecurityContext m c.SecurityContext }

/-- Go `c.DeepCopy()` on a container: the same values, every pointer and map
new. -/
def deepCopyContainer (m : ContainerMemory) (c : ContainerStruct) :
    ContainerMemory × ContainerStruct :=
  storeContainer m (loadContainer m c)

/-- `mergo` on a `*int64` field: a nil source changes nothing, a nil destination
becomes the pointer of the source, and otherwise a source value other than 0 is
written into the cell of the destination. -/
def mergoInt64Ptr (m : ContainerMemory) (dst src : Option Nat) : ContainerMemory × Option Nat :=
  match src, dst with
  | none, _ => (m, dst)
  | some s, none => (m, some s)
  | some s, some d =>
    (if m.int64s.getD s 0 = 0 then m
      else { m with int64s := m.int64s.set d (m.int64s.getD s 0) }, some d)

/-- `mergo` on a `*bool` field. -/
def mergoBoolPtr (m : ContainerMemory) (dst src : Option Nat) : ContainerMemory × Option Nat :=
  match src, dst with
  | none, _ => (m, dst)
  | some s, none => (m, some s)
  | some s, some d =>
    (if m.bools.getD s false = false then m
      else { m with bools := m.bools.set d (m.bools.getD s false) }, some d)

/-- `mergo` on a `*v1.SecurityContext` field: a nil source changes nothing, a nil
destination becomes the pointer of the source, and otherwise the fields of the
source object are merged into the destination object, in place. -/
def mergoSecurityContext (m : ContainerMemory) (dst src : Option Nat) :
    ContainerMemory × Option Nat :=
  match src, dst with
  | none, _ => (m, dst)
  | some s, none => (m, some s)
  | some s, some d =>
    let runAsUser := mergoInt64Ptr m (m.securityContexts.getD d {}).RunAsUser
      (m.securityContexts.getD s {}).RunAsUser
    let privileged := mergoBoolPtr runAsUser.1 (m.securityContexts.getD d {}).Privileged
      (m.securityContexts.getD s {}).Privileged
    ({ privileged.1 with
        securityContexts := privileged.1.securityContexts.set d
          { RunAsUser := runAsUser.2, Privileged := privileged.2 } }, some d)

/-- `mergo` on a resource map field: a nil source changes nothing; a nil
destination becomes a new map with the entries of the source; and otherwise
every entry of the source is set in the map of the destination, in place. -/
def mergoResourceList (m : ContainerMemory) (dst src : Option Nat) :
    ContainerMemory × Option Nat :=
  match src, dst with
  | none, _ => (m, dst)
  | some s, none =>
    ((m.newResourceList (mergeMap [] (m.resourceLists.getD s []))).1,
      some (m.newResourceList (mergeMap [] (m.resourceLists.getD s []))).2)
  | some s, some d =>
    ({ m with
        resourceLists := m.resourceLists.set d
          (mergeMap (m.resourceLists.getD d []) (m.resourceLists.getD s [])) }, some d)

/-- `mergo.Merge(dst, src, mergo.WithOverride, mergo.WithAppendSlice)` on two
containers: the structure `dst` after the merge and the memory it leaves. -/
def mergoContainer (m : ContainerMemory) (dst src : ContainerStruct) :
    ContainerMemory × ContainerStruct :=
  let limits := mergoResourceList m dst.Limits src.Limits
  let requests := mergoResourceList limits.1 dst.Requests src.Requests
  let securityContext := mergoSecurityContext requests.1 dst.SecurityContext src.SecurityContext
  (securityContext.1,
    { Name := mergeString dst.Name src.Name,
      Image := mergeString dst.Image src.Image,
      Command := dst.Command ++ src.Command,
      Args := dst.Args ++ src.Args,
      Limits := limits.2,
      Requests := requests.2,
      VolumeMounts := dst.VolumeMounts ++ src.VolumeMounts,
      SecurityContext := securityContext.2 })

/-- The first two loops of `MergeBasePodSpecOntoTemplate`: the last container
named `defaultName` and the last one named `primaryName`. The two variables
point into the slice of the template, whose structures the function never
writes. -/
def extractContainerTemplates (defaultName primaryName : String)
    (containers : List ContainerStruct) : Option ContainerStruct × Option ContainerStruct :=
  containers.foldl
    (fun acc c =>
      if c.Name = defaultName then (some c, acc.2)
      else if c.Name = primaryName then (acc.1, some c)
      else acc)
    (none, none)

/-- The loop "check for any name matching template containers" of
`MergeBasePodSpecOntoTemplate`: when `mergedContainer` is nil it becomes
`&templateContainer`, a copy of the structure that shares the pointers and maps
of the template container; else the template container is merged into it. -/
def mergeNameMatching (m : ContainerMemory) (templateContainers : List ContainerStruct)
    (container : ContainerStruct) (mergedContainer : Option ContainerStruct) :
    ContainerMemory × Option ContainerStruct :=
  templateContainers.foldl
    (fun acc templateContainer =>
      if templateContainer.Name ≠ container.Name then acc
      else
        match acc.2 with
        | none => (acc.1, some templateContainer)
        | some d =>
          ((mergoContainer acc.1 d templateContainer).1,
            some (mergoContainer acc.1 d templateContainer).2))
    (m, mergedContainer)

/-- The body of the loop of `MergeBasePodSpecOntoTemplate` over the base
containers: the merged container for the base container `container`, and the
memory after the iteration. -/
def mergedContainerFor (m : ContainerMemory)
    (defaultContainerTemplate primaryContainerTemplate : Option ContainerStruct)
    (templateContainers : List ContainerStruct) (primaryContainerName : String)
    (container : ContainerStruct) : ContainerMemory × ContainerStruct :=
  let m0 : ContainerMemory × Option ContainerStruct :=
    match defaultContainerTemplate with
    | some d => ((deepCopyContainer m d).1, some (deepCopyContainer m d).2)
    | none => (m, none)
  let m1 : ContainerMemory × Option ContainerStruct :=
    if container.Name = primaryContainerName then
      match primaryContainerTemplate, m0.2 with
      | some p, none => ((deepCopyContainer m0.1 p).1, some (deepCopyContainer m0.1 p).2)
      | some p, some d => ((mergoContainer m0.1 d p).1, some (mergoContainer m0.1 d p).2)
      | none, _ => m0
    else m0
  let m2 := mergeNameMatching m1.1 templateContainers container m1.2
  match m2.2 with
  | none => deepCopyContainer m2.1 container
  | some d => mergoContainer m2.1 d container

/-- The loop of `MergeBasePodSpecOntoTemplate` over the base containers: the
merged containers, in the order of the base, and the memory after the loop. -/
def mergeBaseContainers (m : ContainerMemory)
    (defaultContainerTemplate primaryContainerTemplate : Option ContainerStruct)
    (templateContainers : List ContainerStruct) (primaryContainerName : String) :
    List ContainerStruct → ContainerMemory × List ContainerStruct
  | [] => (m, [])
  | container :: rest =>
    let merged := mergedContainerFor m defaultContainerTemplate primaryContainerTemplate
      templateContainers primaryContainerName container
    let others := mergeBaseContainers merged.1 defaultContainerTemplate
      primaryContainerTemplate templateContainers primaryContainerName rest
    (others.1, merged.2 :: others.2)

/-- The state of `MergeBasePodSpecOntoTemplate` when it returns: the memory, the
containers and init containers of the template, and the merged containers and
init containers. -/
structure MergedContainers where
  memory : ContainerMemory
  templateContainers : List ContainerStruct
  templateInitContainers : List ContainerStruct
  mergedContainers : List ContainerStruct
  mergedInitContainers : List ContainerStruct
  deriving DecidableEq, Repr

/-- The two container loops of `MergeBasePodSpecOntoTemplate`, first over the
containers and then over the init containers of the base, on the memory that
holds the containers of the template and of the base. -/
def mergeTemplateContainers (template base : PodSpec)
    (primaryContainerName primaryInitContainerName : String) : MergedContainers :=
  let templateContainers := storeContainers {} template.Containers
  let templateInitContainers := storeContainers templateContainers.1 template.InitContainers
  let baseContainers := storeContainers templateInitContainers.1 base.Containers
  let baseInitContainers := storeContainers baseContainers.1 base.InitContainers
  let ct := extractContainerTemplates defaultContainerTemplateName
    primaryContainerTemplateName templateContainers.2
  let ict := extractContainerTemplates defaultInitContainerTemplateName
    primaryInitContainerTemplateName templateInitContainers.2
  let mergedContainers := mergeBaseContainers baseInitContainers.1 ct.1 ct.2
    templateContainers.2 primaryContainerName baseContainers.2
  let mergedInitContainers := mergeBaseContainers mergedContainers.1 ict.1 ict.2
    templateInitContainers.2 primaryInitContainerName baseInitContainers.2
  { memory := mergedInitContainers.1,
    templateContainers := templateContainers.2,
    templateInitContainers := templateInitContainers.2,
    mergedContainers := mergedContainers.2,
    mergedInitContainers := mergedInitContainers.2 }

/-- Source: `MergeBasePodSpecOntoTemplate`; nil pod specs are `none`. The calls
of `mergo.Merge`, on values of one type, do not fail. The merge of the pod specs
runs on a `DeepCopy` of the template and writes into no object of the template
or of the base; the containers of its result are replaced by the merged
containers, read in the memory the loops leave. -/
def MergeBasePodSpecOntoTemplate (templatePodSpec basePodSpec : Option PodSpec)
    (primaryContainerName primaryInitContainerName : String) : Except String PodSpec :=
  match templatePodSpec, basePodSpec with
  | some template, some base =>
    let mergedPodSpec := mergePodSpec template base
    let merged := mergeTemplateContainers template base primaryContainerName
      primaryInitContainerName
    .ok { mergedPodSpec with
          Containers := merged.mergedContainers.map (loadContainer merged.memory),
          InitContainers := merged.mergedInitContainers.map (loadContainer merged.memory) }
  | _, _ => .error "neither the templatePodSpec or the basePodSpec can be nil"

/-- The containers and init containers of the template pod spec after the call
of `MergeBasePodSpecOntoTemplate`: the function writes into the template it is
given, through the pointers and maps it shares with the merged containers. -/
def templateContainersAfterMerge (template base : PodSpec)
    (primaryContainerName primaryInitContainerName : String) :
    List Container × List Container :=
  let merged := mergeTemplateContainers template base primaryContainerName
    primaryInitContainerName
  (merged.templateContainers.map (loadContainer merged.memory),
    merged.templateInitContainers.map (loadContainer merged.memory))

/-- The inner loop of `MergeOverlayPodSpecOntoBase`: the overlay containers of
the same name are merged into `mergedContainer` one after the other. -/
def mergeOverlayContainers (overlayContainers : List Container) (mergedContainer : Container) :
    Container :=
  overlayContainers.foldl
    (fun m overlayContainer =>
      if m.Name = overlayContainer.Name then mergeContainer m overlayContainer else m)
    mergedContainer

/-- Source: `MergeOverlayPodSpecOntoBase`; nil pod specs are `none`. -/
def MergeOverlayPodSpecOntoBase (basePodSpec overlayPodSpec : Option PodSpec) :
    Except String PodSpec :=
  match basePodSpec, overlayPodSpec with
  | some base, some overlay =>
    let mergedPodSpec := mergePodSpec base overlay
    let mergedContainers := base.Containers.map (mergeOverlayContainers overlay.Containers)
    let mergedInitContainers :=
      base.InitContainers.map (mergeOverlayContainers overlay.InitContainers)
    .ok { mergedPodSpec with
          Containers := mergedContainers, InitContainers := mergedInitContainers }
  | _, _ => .error "neither the basePodSpec or the overlayPodSpec can be nil"

/-! ## Vocabulary of the merge claims -/

/-- The last container of the list with the given name. -/
def lastNamed (name : String) (containers : List Container) : Option Container :=
  containers.reverse.find? (fun c => c.Name = name)

/-- The layers merged into the result container for the base container `c`, in
merge order: the `default` template, the `primary` template when `c` is named as
the primary, the template containers named as `c`, and `c` itself. -/
def containerLayers (defaultName primaryTemplateName : String)
    (templateContainers : List Container) (primaryContainerName : String) (c : Container) :
    List Container :=
  (lastNamed defaultName templateContainers).toList ++
  (if c.Name = primaryContainerName then
    (lastNamed primaryTemplateName templateContainers).toList else []) ++
  templateContainers.filter (fun t => t.Name = c.Name) ++ [c]

/-- One step of the merge of a layer into the layers merged so far. -/
def mergeInto (m : Option Container) (t : Container) : Option Container :=
  match m with
  | none => some t
  | some d => some (mergeContainer d t)

/-- The merge of a non-empty list of layers, from the first to the last. -/
def mergeLayers : List Container → Container
  | [] => {}
  | first :: rest => rest.foldl mergeContainer first

/-- The last non-empty text of a list, the empty text when there is none. -/
def lastNonEmpty (l : List String) : String :=
  (l.reverse.find? (fun s => s ≠ "")).getD ""

/-! ## Task definition and execution context -/

/-- The error codes of package `pluginserrors` that the pod helper raises; every
other error is `Other`. -/
inductive PluginError where
  | BadTaskSpecification (message : String)
  | Other (message : String)
  deriving DecidableEq, Repr

/-- A `core.DataLoadingConfig` (the request for the copilot sidecar); only its
presence matters here. -/
structure DataLoadingConfig where
  Enabled : Bool := false
  deriving DecidableEq, Repr

/-- The target `core.Container` of a task template; of its fields the pod helper
reads the data config only. -/
structure CoreContainer where
  DataConfig : Option DataLoadingConfig := none
  deriving DecidableEq, Repr

structure K8sObjectMetadata where
  Annotations : GoMap String := []
  Labels : GoMap String := []
  deriving DecidableEq, Repr

/-- A protobuf struct that holds a pod spec, with the outcome of
`utils.UnmarshalStructToObj` on it. -/
inductive PodSpecStruct where
  | invalid (err : String)
  | valid (podSpec : PodSpec)
  deriving DecidableEq, Repr

/-- A `core.K8SPod`. -/
structure K8SPod where
  Metadata : Option K8sObjectMetadata := none
  PodSpec : Option PodSpecStruct := none
  DataConfig : Option DataLoadingConfig := none
  PrimaryContainerName : String := ""
  deriving DecidableEq, Repr

/-- The target of a task template; `Other` stands for every target that is
neither a container nor a pod (an unset target included). -/
inductive TaskTarget where
  | Container (container : CoreContainer)
  | K8SPod (pod : K8SPod)
  | Other
  deriving DecidableEq, Repr

structure TaskMetadata where
  PodTemplateName : String := ""
  deriving DecidableEq, Repr

/-- A `core.TaskTemplate`. -/
structure TaskTemplate where
  Target : TaskTarget := .Other
  Config : GoMap String := []
  Metadata : Option TaskMetadata := none
  ExtendedResources : Option ExtendedResources := none
  deriving DecidableEq, Repr

/-- The per-execution overrides of the task execution metadata. -/
structure TaskOverrides where
  PodTemplate : Option K8SPod := none
  ExtendedResources : Option ExtendedResources := none
  ContainerImage : String := ""
  deriving DecidableEq, Repr

structure TaskExecutionMetadata where
  Namespace : String := ""
  Interruptible : Bool := false
  K8sServiceAccount : String := ""
  Overrides : TaskOverrides := {}
  deriving DecidableEq, Repr

/-- A `pluginsCore.TaskExecutionContext`: what `TaskReader().Read` returns, and
the task execution metadata. -/
structure TaskExecutionContext where
  TaskRead : Except PluginError TaskTemplate
  TaskExecutionMetadata : TaskExecutionMetadata := {}

/-- The resource customization modes passed to the container customization. -/
inductive ResourceCustomizationMode where
  | MergeExistingResources
  | EnsureExistingResourcesInRange
  deriving DecidableEq, Repr

/-- The functions of the repository and of its libraries that the pod helper
calls and whose code is not at hand; they are parameters of the embedding.
`LoadOrDefault` is the lookup of `DefaultPodTemplateStore`, `ParseQuantity` is
`resource.ParseQuantity`. -/
structure PodHelpers where
  BuildRawContainer : TaskExecutionContext → Except PluginError Container
  LoadOrDefault : String → String → Option PodTemplate
  ExtractContainerResourcesFromPodTemplate : PodTemplate → String → Bool → ResourceRequirements
  AddFlyteCustomizationsToContainerWithPodTemplate :
    TaskExecutionContext → Bool → ResourceCustomizationMode → Container →
      Option ResourceRequirements → Except PluginError Container
  AddCoPilotToContainer : Container → DataLoadingConfig → Except PluginError Container
  AddCoPilotToPod :
    TaskExecutionContext → PodSpec → DataLoadingConfig → Except PluginError (PodSpec × String)
  GetPodTolerations : Bool → List ResourceRequirements → List Toleration
  ParseQuantity : String → Except String Quantity

/-! ## Extended resources -/

/-- Source: `applyExtendedResourcesOverrides`. -/
def applyExtendedResourcesOverrides (base overrides : Option ExtendedResources) :
    ExtendedResources :=
  let new : ExtendedResources :=
    match base with
    | none => {}
    | some b => b
  match overrides with
  | none => new
  | some o =>
    let new1 : ExtendedResources :=
      match o.GpuAccelerator with
      | some g => { new with GpuAccelerator := some g }
      | none => new
    match o.SharedMemory with
    | some m => { new1 with SharedMemory := some m }
    | none => new1

/-- The first loop of `ApplySharedMemory`: the index of the last container named
as the primary. -/
def lastIndexNamed (name : String) : List Container → Nat → Option Nat
  | [], _ => none
  | c :: rest, index =>
    match lastIndexNamed name rest (index + 1) with
    | some i => some i
    | none => if c.Name = name then some index else none

/-- The loop of `ApplySharedMemory` over the volume mounts of the primary
container: the first error met, if any. -/
def checkVolumeMounts (sharedMountName sharedMountPath : String) :
    List VolumeMount → Option PluginError
  | [] => none
  | m :: rest =>
    if m.Name = sharedMountName then
      some (.BadTaskSpecification
        ("A volume is already named " ++ sharedMountName ++ " in container"))
    else if m.MountPath = sharedMountPath then
      some (.BadTaskSpecification (sharedMountPath ++ " is already mounted in container"))
    else checkVolumeMounts sharedMountName sharedMountPath rest

/-- The container at `index`, replaced by its image under `f`. -/
def modifyAt (f : Container → Container) : List Container → Nat → List Container
  | [], _ => []
  | c :: rest, 0 => f c :: rest
  | c :: rest, index + 1 => c :: modifyAt f rest index

/-- Source: `ApplySharedMemory`; the pod spec that the Go code mutates through
its pointer is returned on success. -/
def ApplySharedMemory (h : PodHelpers) (podSpec : PodSpec) (primaryContainerName : String)
    (sharedMemory : Option SharedMemory) : Except PluginError PodSpec :=
  let sharedMountName :=
    match sharedMemory with
    | none => ""
    | some m => m.MountName
  let sharedMountPath :=
    match sharedMemory with
    | none => ""
    | some m => m.MountPath
  let sizeLimit :=
    match sharedMemory with
    | none => ""
    | some m => m.SizeLimit
  if sharedMountName = "" then
    .error (.BadTaskSpecification "mount name is not set")
  else if sharedMountPath = "" then
    .error (.BadTaskSpecification "mount path is not set")
  else
    match lastIndexNamed primaryContainerName podSpec.Containers 0 with
    | none => .error (.BadTaskSpecification "Unable to find primary container")
    | some index =>
      if podSpec.Volumes.any (fun volume => volume.Name = sharedMountName) then
        .error (.BadTaskSpecification
          ("A volume is already named " ++ sharedMountName ++ " in pod spec"))
      else
        let mounts :=
          match podSpec.Containers.get? index with
          | none => []
          | some c => c.VolumeMounts
        match checkVolumeMounts sharedMountName sharedMountPath mounts with
        | some err => .error err
        | none =>
          let parsed : Except String Quantity :=
            if sizeLimit ≠ "" then h.ParseQuantity sizeLimit else .ok 0
          match parsed with
          | .error e => .error (.BadTaskSpecification ("Unable to parse size limit: " ++ e))
          | .ok quantity =>
            .ok { podSpec with
              Volumes := podSpec.Volumes ++
                [{ Name := sharedMountName,
                   EmptyDir := some { Medium := "Memory", SizeLimit := some quantity } }],
              Containers := modifyAt
                (fun c => { c with
                  VolumeMounts := c.VolumeMounts ++
                    [{ Name := sharedMountName, MountPath := sharedMountPath }] })
                podSpec.Containers index }

/-- The loop of `ApplyContainerImageOverride`. -/
def overrideImage (containerImage primaryContainerName : String) :
    List Container → List Container
  | [] => []
  | c :: rest =>
    if c.Name = primaryContainerName then { c with Image := containerImage } :: rest
    else c :: overrideImage containerImage primaryContainerName rest

/-- Source: `ApplyContainerImageOverride`. -/
def ApplyContainerImageOverride (podSpec : PodSpec) (containerImage : String)
    (primaryContainerName : String) : PodSpec :=
  { podSpec with
    Containers := overrideImage containerImage primaryContainerName podSpec.Containers }

/-! ## Tolerations for extended resources -/

/-- Go `Toleration.MatchToleration` of the Kubernetes API. -/
def MatchToleration (t tolerationToMatch : Toleration) : Bool :=
  t.Key = tolerationToMatch.Key ∧ t.Effect = tolerationToMatch.Effect ∧
    t.Operator = tolerationToMatch.Operator ∧ t.Value = tolerationToMatch.Value

/-- Source: `addTolerationInPodSpec`. -/
def addTolerationInPodSpec (podSpec : PodSpec) (toleration : Toleration) : PodSpec :=
  if podSpec.Tolerations.any (fun t => MatchToleration toleration t) then podSpec
  else { podSpec with Tolerations := podSpec.Tolerations ++ [toleration] }

/-- Insertion into a `sets.String`, kept as the sorted list that `List()`
returns. -/
def stringSetInsert (x : String) : List String → List String
  | [] => [x]
  | y :: ys =>
    if x < y then x :: y :: ys
    else if x = y then y :: ys
    else y :: stringSetInsert x ys

/-- The two loops of `AddTolerationsForExtendedResources` that collect the
configured extended resources found in the requests of the containers. -/
def collectExtendedResources (extendedResources : List String) (containers : List Container)
    (resources : List String) : List String :=
  containers.foldl
    (fun acc container =>
      extendedResources.foldl
        (fun acc1 extendedResource =>
          if container.Resources.Requests.has extendedResource then
            stringSetInsert extendedResource acc1
          else acc1)
        acc)
    resources

/-- Source: `AddTolerationsForExtendedResources`; a nil pod spec is `none`. -/
def AddTolerationsForExtendedResources (cfg : K8sPluginConfig) (podSpec : Option PodSpec) :
    PodSpec :=
  let podSpec0 : PodSpec :=
    match podSpec with
    | none => {}
    | some p => p
  let resources0 := collectExtendedResources cfg.AddTolerationsForExtendedResources
    podSpec0.Containers []
  let resources := collectExtendedResources cfg.AddTolerationsForExtendedResources
    podSpec0.InitContainers resources0
  resources.foldl
    (fun p resource =>
      addTolerationInPodSpec p { Key := resource, Operator := "Exists", Effect := "NoSchedule" })
    podSpec0

/-! ## `UpdatePod` -/

/-- Modelled from the spec: `utils.UnionMaps`, whose code is not at hand; the
result carries the union of the keys and, on a conflict, the value of the later
map (spec section 3, invariants). -/
def UnionMaps (maps : List (GoMap String)) : GoMap String :=
  maps.foldl mergeMap []

/-- Source: `UpdatePod`; the pod spec that the Go code mutates through its
pointer is returned. -/
def UpdatePod (cfg : K8sPluginConfig) (h : PodHelpers)
    (taskExecutionMetadata : TaskExecutionMetadata)
    (resourceRequirements : List ResourceRequirements) (podSpec : PodSpec) : PodSpec :=
  let p1 : PodSpec :=
    if podSpec.RestartPolicy.length = 0 then { podSpec with RestartPolicy := "Never" }
    else podSpec
  let p2 : PodSpec :=
    { p1 with
      Tolerations :=
        h.GetPodTolerations taskExecutionMetadata.Interruptible resourceRequirements ++
          p1.Tolerations }
  let p3 : PodSpec :=
    if p2.ServiceAccountName.length = 0 then
      { p2 with ServiceAccountName := taskExecutionMetadata.K8sServiceAccount }
    else p2
  let p4 : PodSpec :=
    if p3.SchedulerName.length = 0 then { p3 with SchedulerName := cfg.SchedulerName }
    else p3
  let p5 : PodSpec :=
    { p4 with NodeSelector := UnionMaps [cfg.DefaultNodeSelector, p4.NodeSelector] }
  let p6 : PodSpec :=
    if taskExecutionMetadata.Interruptible then
      { p5 with NodeSelector := UnionMaps [p5.NodeSelector, cfg.InterruptibleNodeSelector] }
    else p5
  let p7 : PodSpec :=
    match p6.Affinity, cfg.DefaultAffinity with
    | none, some a => { p6 with Affinity := some a }
    | _, _ => p6
  let p8 : PodSpec :=
    match p7.SecurityContext, cfg.DefaultPodSecurityContext with
    | none, some s => { p7 with SecurityContext := some s }
    | _, _ => p7
  let p9 : PodSpec :=
    match cfg.EnableHostNetworkingPod with
    | some b => { p8 with HostNetwork := b }
    | none => p8
  let p10 : PodSpec :=
    match p9.DNSConfig, cfg.DefaultPodDNSConfig with
    | none, some d => { p9 with DNSConfig := some d }
    | _, _ => p9
  ApplyInterruptibleNodeAffinity cfg taskExecutionMetadata.Interruptible p10

/-- Source: `mergeMapInto`; the destination map is returned. -/
def mergeMapInto (src dst : GoMap String) : GoMap String :=
  src.foldl (fun m e => GoMap.set m e.1 e.2) dst

/-! ## Pod construction -/

/-- Source: `ApplyPodTemplateOverride`; the pod spec is `none` when the struct of
the pod template is nil. -/
def ApplyPodTemplateOverride (objectMeta : ObjectMeta) (podTemplate : K8SPod) :
    Except PluginError (Option PodSpec × ObjectMeta) :=
  let annotations : GoMap String :=
    match podTemplate.Metadata with
    | none => []
    | some m => m.Annotations
  let labels : GoMap String :=
    match podTemplate.Metadata with
    | none => []
    | some m => m.Labels
  let objectMeta1 : ObjectMeta :=
    { Annotations := mergeMapInto annotations objectMeta.Annotations,
      Labels := mergeMapInto labels objectMeta.Labels }
  match podTemplate.PodSpec with
  | none => .ok (none, objectMeta1)
  | some (.invalid err) => .error (.Other err)
  | some (.valid podSpecOverride) => .ok (some podSpecOverride, objectMeta1)

/-- The block "handle pod template override" of `BuildRawPod`, the same in both
cases of the target. After a successful override the struct is not nil, so the
pod spec it yields is not nil either. -/
def handlePodTemplateOverride (tCtx : TaskExecutionContext) (podSpec : PodSpec)
    (objectMeta : ObjectMeta) (primaryContainerName : String) :
    Except PluginError (PodSpec × ObjectMeta × String) :=
  match tCtx.TaskExecutionMetadata.Overrides.PodTemplate with
  | none => .ok (podSpec, objectMeta, primaryContainerName)
  | some podTemplate =>
    match podTemplate.PodSpec with
    | none => .ok (podSpec, objectMeta, primaryContainerName)
    | some _ =>
      match ApplyPodTemplateOverride objectMeta podTemplate with
      | .error err => .error err
      | .ok (some podSpec1, objectMeta1) =>
        .ok (podSpec1, objectMeta1, podTemplate.PrimaryContainerName)
      | .ok (none, objectMeta1) =>
        .ok (podSpec, objectMeta1, podTemplate.PrimaryContainerName)

/-- Source: `BuildRawPod`; the error messages are kept up to the rendering of
their arguments. -/
def BuildRawPod (h : PodHelpers) (tCtx : TaskExecutionContext) :
    Except PluginError (PodSpec × ObjectMeta × String) :=
  match tCtx.TaskRead with
  | .error err => .error err
  | .ok taskTemplate =>
    let objectMeta : ObjectMeta := { Annotations := [], Labels := [] }
    match taskTemplate.Target with
    | .Container _ =>
      match h.BuildRawContainer tCtx with
      | .error err => .error err
      | .ok c =>
        handlePodTemplateOverride tCtx { Containers := [c] } objectMeta c.Name
    | .K8SPod target =>
      match target.PodSpec with
      | none =>
        .error (.BadTaskSpecification
          "Pod tasks with task type version > 1 should specify their target as a K8sPod with a defined pod spec")
      | some (.invalid err) =>
        .error (.BadTaskSpecification ("Unable to unmarshal task k8s pod, Err: [" ++ err ++ "]"))
      | some (.valid podSpec) =>
        match GoMap.get? taskTemplate.Config PrimaryContainerKey with
        | none =>
          .error (.BadTaskSpecification
            ("invalid TaskSpecification, config missing [" ++ PrimaryContainerKey ++ "] key"))
        | some primaryContainerName =>
          let objectMeta1 : ObjectMeta :=
            match target.Metadata with
            | none => objectMeta
            | some m =>
              { Annotations := mergeMapInto m.Annotations objectMeta.Annotations,
                Labels := mergeMapInto m.Labels objectMeta.Labels }
          handlePodTemplateOverride tCtx podSpec objectMeta1 primaryContainerName
    | .Other =>
      .error (.BadTaskSpecification
        "invalid TaskSpecification, unable to determine Pod configuration")

/-- Source: `hasExternalLinkType`, on a task template that is not nil. -/
def hasExternalLinkType (taskTemplate : TaskTemplate) : Bool :=
  GoMap.has taskTemplate.Config "link_type"

/-- Source: `getBasePodTemplate`, with the store `DefaultPodTemplateStore`. -/
def getBasePodTemplate (cfg : K8sPluginConfig) (h : PodHelpers) (tCtx : TaskExecutionContext) :
    Except PluginError (Option PodTemplate) :=
  match tCtx.TaskRead with
  | .error _ => .error (.BadTaskSpecification "TaskSpecification cannot be read")
  | .ok taskTemplate =>
    let podTemplateName :=
      match taskTemplate.Metadata with
      | none => ""
      | some m => m.PodTemplateName
    if taskTemplate.Metadata.isSome ∧ podTemplateName.length > 0 then
      match h.LoadOrDefault tCtx.TaskExecutionMetadata.Namespace podTemplateName with
      | none =>
        .error (.BadTaskSpecification ("PodTemplate '" ++ podTemplateName ++ "' does not exist"))
      | some podTemplate => .ok (some podTemplate)
    else
      .ok (h.LoadOrDefault tCtx.TaskExecutionMetadata.Namespace cfg.DefaultPodTemplateName)

/-- Source: `MergeWithBasePodTemplate`. -/
def MergeWithBasePodTemplate (cfg : K8sPluginConfig) (h : PodHelpers)
    (tCtx : TaskExecutionContext) (podSpec : PodSpec) (objectMeta : ObjectMeta)
    (primaryContainerName primaryInitContainerName : String) :
    Except PluginError (PodSpec × ObjectMeta) :=
  match getBasePodTemplate cfg h tCtx with
  | .error err => .error err
  | .ok none => .ok (podSpec, objectMeta)
  | .ok (some podTemplate) =>
    match MergeBasePodSpecOntoTemplate (some podTemplate.Spec) (some podSpec)
        primaryContainerName primaryInitContainerName with
    | .error err => .error (.Other err)
    | .ok mergedPodSpec =>
      .ok (mergedPodSpec, mergeObjectMeta podTemplate.ObjectMeta objectMeta)

/-- The loop of `ApplyFlytePodConfiguration` over the init containers. -/
def customizeInitContainers (h : PodHelpers) (tCtx : TaskExecutionContext)
    (includeConsoleURL : Bool) (basePodTemplate : Option PodTemplate) :
    List Container → Except PluginError (List Container)
  | [] => .ok []
  | initContainer :: rest =>
    let podTemplateResources : Option ResourceRequirements :=
      match basePodTemplate with
      | none => none
      | some t => some (h.ExtractContainerResourcesFromPodTemplate t initContainer.Name true)
    match h.AddFlyteCustomizationsToContainerWithPodTemplate tCtx includeConsoleURL
        .MergeExistingResources initContainer podTemplateResources with
    | .error err => .error err
    | .ok c =>
      match customizeInitContainers h tCtx includeConsoleURL basePodTemplate rest with
      | .error err => .error err
      | .ok cs => .ok (c :: cs)

/-- The loop of `ApplyFlytePodConfiguration` over the containers, from the
container at `index` on: the customized containers, their resources, and the
index of the last container named as the primary, if any. -/
def customizeContainers (h : PodHelpers) (tCtx : TaskExecutionContext)
    (includeConsoleURL : Bool) (basePodTemplate : Option PodTemplate)
    (primaryContainerName : String) :
    List Container → Nat →
      Except PluginError (List Container × List ResourceRequirements × Option Nat)
  | [], _ => .ok ([], [], none)
  | container :: rest, index =>
    let resourceMode : ResourceCustomizationMode :=
      if container.Name = primaryContainerName then .MergeExistingResources
      else .EnsureExistingResourcesInRange
    let podTemplateResources : Option ResourceRequirements :=
      match basePodTemplate with
      | none => none
      | some t => some (h.ExtractContainerResourcesFromPodTemplate t container.Name false)
    match h.AddFlyteCustomizationsToContainerWithPodTemplate tCtx includeConsoleURL
        resourceMode container podTemplateResources with
    | .error err => .error err
    | .ok c =>
      match customizeContainers h tCtx includeConsoleURL basePodTemplate primaryContainerName
          rest (index + 1) with
      | .error err => .error err
      | .ok (cs, resourceRequests, primaryIndex) =>
        .ok (c :: cs, c.Resources :: resourceRequests,
          match primaryIndex with
          | some i => some i
          | none => if container.Name = primaryContainerName then some index else none)

/-- The data loading config that `ApplyFlytePodConfiguration` reads from the
target of the task template. -/
def targetDataConfig (taskTemplate : TaskTemplate) : Option DataLoadingConfig :=
  match taskTemplate.Target with
  | .Container container => container.DataConfig
  | .K8SPod pod => pod.DataConfig
  | .Other => none

/-- The part of `ApplyFlytePodConfiguration` that follows the merge with the base
pod template: the handling of the extended resources and of the image
override. -/
def applyExtendedResources (cfg : K8sPluginConfig) (h : PodHelpers)
    (tCtx : TaskExecutionContext) (taskTemplate : TaskTemplate) (podSpec : PodSpec)
    (primaryContainerName : String) : Except PluginError PodSpec :=
  let extendedResources := applyExtendedResourcesOverrides taskTemplate.ExtendedResources
    tCtx.TaskExecutionMetadata.Overrides.ExtendedResources
  let p1 : PodSpec :=
    match extendedResources.GpuAccelerator with
    | some g => ApplyGPUNodeSelectors cfg podSpec (some g)
    | none => podSpec
  let p2 : Except PluginError PodSpec :=
    match extendedResources.SharedMemory with
    | some m => ApplySharedMemory h p1 primaryContainerName (some m)
    | none => .ok p1
  match p2 with
  | .error err => .error err
  | .ok p3 =>
    if tCtx.TaskExecutionMetadata.Overrides.ContainerImage.length > 0 then
      .ok (ApplyContainerImageOverride p3
        tCtx.TaskExecutionMetadata.Overrides.ContainerImage primaryContainerName)
    else .ok p3

/-- The copilot block of `ApplyFlytePodConfiguration`: the pod spec and the name
of the primary init container. The pointer `primaryContainer` is the container
at `primaryIndex`. -/
def applyCoPilot (h : PodHelpers) (tCtx : TaskExecutionContext)
    (dataLoadingConfig : Option DataLoadingConfig) (podSpec : PodSpec) (primaryIndex : Nat) :
    Except PluginError (PodSpec × String) :=
  match dataLoadingConfig with
  | none => .ok (podSpec, "")
  | some d =>
    match podSpec.Containers.get? primaryIndex with
    | none => .ok (podSpec, "")
    | some primaryContainer =>
      match h.AddCoPilotToContainer primaryContainer d with
      | .error err => .error err
      | .ok c =>
        h.AddCoPilotToPod tCtx
          { podSpec with Containers := modifyAt (fun _ => c) podSpec.Containers primaryIndex } d

/-- Source: `ApplyFlytePodConfiguration`. The pointer `primaryContainer` is
followed as the container at its index in the pod spec, also after the copilot
block. -/
def ApplyFlytePodConfiguration (cfg : K8sPluginConfig) (h : PodHelpers)
    (tCtx : TaskExecutionContext) (podSpec : PodSpec) (objectMeta : ObjectMeta)
    (primaryContainerName : String) : Except PluginError (PodSpec × ObjectMeta) :=
  match tCtx.TaskRead with
  | .error err => .error err
  | .ok taskTemplate =>
    match getBasePodTemplate cfg h tCtx with
    | .error err => .error err
    | .ok basePodTemplate =>
      let includeConsoleURL := hasExternalLinkType taskTemplate
      match customizeInitContainers h tCtx includeConsoleURL basePodTemplate
          podSpec.InitContainers with
      | .error err => .error err
      | .ok initContainers =>
        match customizeContainers h tCtx includeConsoleURL basePodTemplate
            primaryContainerName podSpec.Containers 0 with
        | .error err => .error err
        | .ok (_, _, none) =>
          .error (.BadTaskSpecification
            ("invalid TaskSpecification, primary container [" ++ primaryContainerName ++
              "] not defined"))
        | .ok (containers, resourceRequests, some primaryIndex) =>
          let p1 : PodSpec :=
            { podSpec with InitContainers := initContainers, Containers := containers }
          match applyCoPilot h tCtx (targetDataConfig taskTemplate) p1 primaryIndex with
          | .error err => .error err
          | .ok (p2, primaryInitContainerName) =>
            let p3 := UpdatePod cfg h tCtx.TaskExecutionMetadata resourceRequests p2
            let p4 : PodSpec :=
              match cfg.DefaultSecurityContext with
              | none => p3
              | some s =>
                { p3 with
                  Containers := modifyAt
                    (fun c =>
                      match c.SecurityContext with
                      | none => { c with SecurityContext := some s }
                      | some _ => c)
                    p3.Containers primaryIndex }
            match MergeWithBasePodTemplate cfg h tCtx p4 objectMeta primaryContainerName
                primaryInitContainerName with
            | .error err => .error err
            | .ok (p5, objectMeta1) =>
              match applyExtendedResources cfg h tCtx taskTemplate p5 primaryContainerName with
              | .error err => .error err
              | .ok p6 => .ok (p6, objectMeta1)

/-- Source: `ToK8sPodSpec`. -/
def ToK8sPodSpec (cfg : K8sPluginConfig) (h : PodHelpers) (tCtx : TaskExecutionContext) :
    Except PluginError (PodSpec × ObjectMeta × String) :=
  match BuildRawPod h tCtx with
  | .error err => .error err
  | .ok (podSpec, objectMeta, primaryContainerName) =>
    match ApplyFlytePodConfiguration cfg h tCtx podSpec objectMeta primaryContainerName with
    | .error err => .error err
    | .ok (podSpec1, objectMeta1) =>
      .ok (AddTolerationsForExtendedResources cfg (some podSpec1), objectMeta1,
        primaryContainerName)

/-! ## Vocabulary of the construction claims -/

/-- Some container of the list has the name `n`. -/
def hasContainerNamed (n : String) (l : List Container) : Prop :=
  ∃ c ∈ l, c.Name = n

/-- The container names and the primary container name of a successful result of
`ToK8sPodSpec`. -/
def resultContainerNames (r : Except PluginError (PodSpec × ObjectMeta × String)) :
    Option (List String × String) :=
  match r with
  | .error _ => none
  | .ok (podSpec, _, primaryContainerName) =>
    some (podSpec.Containers.map (fun c => c.Name), primaryContainerName)

/-- Helpers that leave containers and pods as they are, build the raw container
`task`, parse every quantity as zero and look pod templates up in `store`. -/
def plainHelpers (store : String → String → Option PodTemplate) : PodHelpers :=
  { BuildRawContainer := fun _ => .ok { Name := "task", Image := "task:1" },
    LoadOrDefault := store,
    ExtractContainerResourcesFromPodTemplate := fun _ _ _ => {},
    AddFlyteCustomizationsToContainerWithPodTemplate := fun _ _ _ c _ => .ok c,
    AddCoPilotToContainer := fun c _ => .ok c,
    AddCoPilotToPod := fun _ p _ => .ok (p, ""),
    GetPodTolerations := fun _ _ => [],
    ParseQuantity := fun _ => .ok 0 }

/-- A pod task whose pod spec is `podSpec` and whose config names `primary` as the
primary container. -/
def podTask (podSpec : PodSpec) (primary : String) : TaskExecutionContext :=
  { TaskRead := .ok
      { Target := .K8SPod { PodSpec := some (.valid podSpec) },
        Config := [("primary_container_name", primary)] } }

/-! ## Sample pods and tasks of the construction claims -/

/-- An affinity with one required term holding one expression. -/
def oneTermAffinity : Affinity :=
  { NodeAffinity := some
      { RequiredDuringSchedulingIgnoredDuringExecution := some
          { NodeSelectorTerms :=
              [{ MatchExpressions := [{ Key := "zone", Operator := "In", Values := ["a"] }] }] } } }

/-- An affinity with two required terms (either zone), one expression each. -/
def twoTermAffinity : Affinity :=
  { NodeAffinity := some
      { RequiredDuringSchedulingIgnoredDuringExecution := some
          { NodeSelectorTerms :=
              [{ MatchExpressions := [{ Key := "zone", Operator := "In", Values := ["a"] }] },
               { MatchExpressions := [{ Key := "zone", Operator := "In", Values := ["b"] }] }] } } }

/-- A configuration that names the GPU resource and the GPU node labels. -/
def gpuConfig : K8sPluginConfig :=
  { PodPendingTimeout := 0,
    CreateContainerErrorGracePeriod := 180000000000,
    CreateContainerConfigErrorGracePeriod := 0,
    ImagePullBackoffGracePeriod := 180000000000,
    GpuResourceName := "nvidia.com/gpu",
    GpuDeviceNodeLabel := "gpu-device",
    GpuPartitionSizeNodeLabel := "gpu-partition-size" }

/-- A container named `main` with a limit of one GPU. -/
def gpuContainer : Container :=
  { Name := "main", Image := "trainer:1",
    Resources := { Limits := [("nvidia.com/gpu", 1)], Requests := [("nvidia.com/gpu", 1)] } }

/-- A container named `main` without any resource limit. -/
def plainContainer : Container :=
  { Name := "main", Image := "trainer:1" }

/-- A pod with the GPU container and the given affinity. -/
def gpuPod (a : Option Affinity) : PodSpec :=
  { Containers := [gpuContainer], Affinity := a }

/-- A template pod spec with only a `default` container. -/
def defaultOnlyTemplate : PodSpec :=
  { Containers := [{ Name := "default", Image := "base:1" }] }

/-- A base pod spec whose only container has the empty name. -/
def unnamedContainerBase : PodSpec :=
  { Containers := [{ Name := "", Image := "task:1" }] }

/-- A template pod spec with only a `primary` container. -/
def primaryOnlyTemplate : PodSpec :=
  { Containers := [{ Name := "primary", Image := "img-p" }] }

/-- A base pod spec with the primary container `main` and a sidecar that is
named `primary` and has no image. -/
def sidecarNamedPrimaryBase : PodSpec :=
  { Containers := [{ Name := "main", Image := "m:1" }, { Name := "primary" }] }

/-- The template of scenario S7: a `default` and a `primary` container. -/
def scenarioTemplate : PodSpec :=
  { Containers :=
      [{ Name := "default", Image := "default:1", Args := ["--default"] },
       { Name := "primary", Image := "primary:1", Args := ["--primary"] }] }

/-- The base of scenario S7: the primary `main` without image and a sidecar. -/
def scenarioBase : PodSpec :=
  { Containers :=
      [{ Name := "main", Args := ["--main"] },
       { Name := "sidecar", Image := "sidecar:1" }],
    RestartPolicy := "Never" }

/-- A pod template store that answers every lookup with the template whose pod
spec is `defaultOnlyTemplate`. -/
def defaultOnlyStore : String → String → Option PodTemplate :=
  fun _ _ => some { Spec := defaultOnlyTemplate }

/-- A pod spec with the single container `main`. -/
def mainOnlyPod : PodSpec :=
  { Containers := [{ Name := "main", Image := "task:1" }] }

/-! ## Vocabulary of the shared-memory claims -/

/-- The pod spec behind the pointer after a call of `ApplySharedMemory`: the Go
code writes through the pointer only after its last error return, so after a
failed call the pod spec is the one passed in, and after a successful call it is
the result. -/
def podSpecAfterSharedMemory (h : PodHelpers) (podSpec : PodSpec)
    (primaryContainerName : String) (sharedMemory : Option SharedMemory) : PodSpec :=
  match ApplySharedMemory h podSpec primaryContainerName sharedMemory with
  | .ok p => p
  | .error _ => podSpec

/-- The volume mounts of the primary container of a pod spec, the last container
with the primary name (none when there is no such container). -/
def primaryVolumeMounts (podSpec : PodSpec) (primaryContainerName : String) :
    List VolumeMount :=
  match lastNamed primaryContainerName podSpec.Containers with
  | none => []
  | some c => c.VolumeMounts

/-- The volume that `ApplySharedMemory` appends. -/
def sharedMemoryVolume (m : SharedMemory) (quantity : Quantity) : Volume :=
  { Name := m.MountName,
    EmptyDir := some { Medium := "Memory", SizeLimit := some quantity } }

/-- The volume mount that `ApplySharedMemory` appends. -/
def sharedMemoryMount (m : SharedMemory) : VolumeMount :=
  { Name := m.MountName, MountPath := m.MountPath }

/-- Helpers as `plainHelpers` that parse the quantity `1Gi` and reject every
other text. -/
def sizeHelpers : PodHelpers :=
  { plainHelpers (fun _ _ => none) with
    ParseQuantity := fun s =>
      if s = "1Gi" then .ok 1073741824
      else .error "quantities must match the regular expression" }

/-- A pod with the container `main`, which mounts the volume `data` at `/data`. -/
def dataPod : PodSpec :=
  { Volumes := [{ Name := "data" }],
    Containers :=
      [{ Name := "main", Image := "trainer:1",
         VolumeMounts := [{ Name := "data", MountPath := "/data" }] }] }

/-- A request for shared memory of `1Gi` mounted as `shm` at `/dev/shm`. -/
def sampleSharedMemory : SharedMemory :=
  { MountName := "shm", MountPath := "/dev/shm", SizeLimit := "1Gi" }

/-! ## Vocabulary of the toleration claims -/

/-- The toleration that `AddTolerationsForExtendedResources` adds for a resource. -/
def extendedResourceToleration (resource : String) : Toleration :=
  { Key := resource, Operator := "Exists", Effect := "NoSchedule" }

/-- Some container or init container of the pod lists the resource in its
resource requests. -/
def requestsResource (podSpec : PodSpec) (resource : String) : Prop :=
  ∃ c ∈ podSpec.Containers ++ podSpec.InitContainers,
    c.Resources.Requests.has resource = true

/-- The pod carries a toleration that matches `t`. -/
def carriesMatchingToleration (podSpec : PodSpec) (t : Toleration) : Prop :=
  ∃ t0 ∈ podSpec.Tolerations, MatchToleration t t0 = true

/-- A pod whose only container lists the GPU resource in its limits and in no
request. -/
def limitsOnlyPod : PodSpec :=
  { Containers :=
      [{ Name := "main", Image := "trainer:1",
         Resources := { Limits := [("nvidia.com/gpu", 1)] } }] }

/-- A configuration as `gpuConfig` that asks for tolerations for the GPU
resource. -/
def tolerationConfig : K8sPluginConfig :=
  { gpuConfig with AddTolerationsForExtendedResources := ["nvidia.com/gpu"] }

/-- A pod with a sidecar and two containers named `main`. -/
def twoMainPod : PodSpec :=
  { Containers :=
      [{ Name := "sidecar", Image := "proxy:1" },
       { Name := "main", Image := "trainer:1" },
       { Name := "main", Image := "trainer:2" }],
    InitContainers := [{ Name := "main", Image := "init:1" }] }

/-! ## Sample pods and configurations of the `UpdatePod` claims -/

/-- A pod spec that enables host networking. -/
def hostNetworkPod : PodSpec :=
  { Containers := [{ Name := "main", Image := "trainer:1" }], HostNetwork := true }

/-- A configuration as `sampleConfig` with `EnableHostNetworkingPod` set to
false. -/
def noHostNetworkConfig : K8sPluginConfig :=
  { sampleConfig with EnableHostNetworkingPod := some false }

/-- A pod template spec that sets the restart policy `OnFailure`. -/
def onFailureTemplate : PodSpec :=
  { Containers := [{ Name := "default", Image := "base:1" }], RestartPolicy := "OnFailure" }

/-- A Go map has one entry for each of its keys. -/
def GoMap.distinctKeys {α : Type} (m : GoMap α) : Prop :=
  (m.map (fun e => e.1)).Nodup

/-- A configuration with a default and an interruptible node selector that
share the key `pool`. -/
def selectorConfig : K8sPluginConfig :=
  { sampleConfig with
    DefaultNodeSelector := [("pool", "default"), ("zone", "a")],
    InterruptibleNodeSelector := [("pool", "spot"), ("spot", "true")] }

/-- A pod spec whose node selector sets the keys `pool` and `disk`. -/
def selectorPod : PodSpec :=
  { Containers := [{ Name := "main", Image := "trainer:1" }],
    NodeSelector := [("pool", "task"), ("disk", "ssd")] }

/-- A pod task without the key `primary_container_name` in its config, run with
an inline pod-template override that has a pod spec and names `main` as the
primary container. -/
def keylessPodTaskWithOverride : TaskExecutionContext :=
  { TaskRead := .ok { Target := .K8SPod { PodSpec := some (.valid mainOnlyPod) }, Config := [] },
    TaskExecutionMetadata :=
      { Overrides :=
          { PodTemplate := some
              { PodSpec := some (.valid mainOnlyPod), PrimaryContainerName := "main" } } } }

/-- A pod task that names `task` as its primary container, run with an inline
pod-template override that has a pod spec and names `main`. -/
def podTaskWithOverride : TaskExecutionContext :=
  { TaskRead := .ok
      { Target := .K8SPod { PodSpec := some (.valid { Containers := [{ Name := "task" }] }) },
        Config := [("primary_container_name", "task")] },
    TaskExecutionMetadata :=
      { Overrides :=
          { PodTemplate := some
              { PodSpec := some (.valid mainOnlyPod), PrimaryContainerName := "main" } } } }

/-! ## `GetLastTransitionOccurredAt` -/

/-- The zero `time.Time` of Go, January 1 of year 1 at 00:00:00 UTC, as a count
of nanoseconds from the Unix epoch (the instants of a pod status are counted
from the Unix epoch). -/
def zeroTime : Int := -62135596800 * 1000000000

/-- Go `t.Unix()`: the whole seconds from the Unix epoch to the instant `t`,
rounded down. -/
def timeUnix (t : Int) : Int := t / 1000000000

/-- One iteration of the loop of `GetLastTransitionOccurredAt`. -/
def lastTransitionStep (lastTransitionTime : Int) (containerStatus : ContainerStatus) : Int :=
  match containerStatus.State.Running with
  | some r =>
    if timeUnix r.StartedAt > timeUnix lastTransitionTime then r.StartedAt
    else lastTransitionTime
  | none =>
    match containerStatus.State.Terminated with
    | some r =>
      if timeUnix r.FinishedAt > timeUnix lastTransitionTime then r.FinishedAt
      else lastTransitionTime
    | none => lastTransitionTime

/-- Source: `GetLastTransitionOccurredAt`, on the status of the pod; `now` is the
reading of the clock. -/
def GetLastTransitionOccurredAt (now : Int) (status : PodStatus) : Int :=
  let lastTransitionTime :=
    (status.ContainerStatuses ++ status.InitContainerStatuses).foldl lastTransitionStep zeroTime
  if lastTransitionTime = zeroTime then now else lastTransitionTime

/-! ## Vocabulary of the claim on `GetLastTransitionOccurredAt` -/

/-- The timestamps of a pod status: the `StartedAt` of every container state
with a running part and the `FinishedAt` of every container state with a
terminated part, over the container statuses and the init-container statuses. -/
def transitionTimestamps (status : PodStatus) : List Int :=
  (status.ContainerStatuses ++ status.InitContainerStatuses).flatMap (fun c =>
    (match c.State.Running with
      | some r => [r.StartedAt]
      | none => []) ++
    (match c.State.Terminated with
      | some r => [r.FinishedAt]
      | none => []))

/-- The timestamp that the loop reads in a container state: the `StartedAt` of
its running part, else the `FinishedAt` of its terminated part. -/
def stateTimestamp (s : ContainerState) : Option Int :=
  match s.Running with
  | some r => some r.StartedAt
  | none =>
    match s.Terminated with
    | some r => some r.FinishedAt
    | none => none

/-- The timestamps that the loop can keep: those it reads whose Unix second lies
after the one of the zero time. -/
def countedTimestamps (status : PodStatus) : List Int :=
  ((status.ContainerStatuses ++ status.InitContainerStatuses).filterMap
    (fun c => stateTimestamp c.State)).filter (fun t => timeUnix t > timeUnix zeroTime)

/-- A pod status with the given container statuses and nothing else. -/
def podWithContainers (statuses : List ContainerStatus) : PodStatus :=
  { Phase := "Running", Conditions := [], Message := "", Reason := "",
    InitContainerStatuses := [], ContainerStatuses := statuses,
    EphemeralContainerStatuses := [] }

/-- A container state that is both running, since second 10, and terminated, at
second 20. -/
def runningAndTerminatedState : ContainerState :=
  { Waiting := none, Running := some { StartedAt := 10000000000 },
    Terminated := some { ExitCode := 0, Reason := "Completed", Message := "",
                         FinishedAt := 20000000000 } }

/-- A container state terminated one second before the zero time. -/
def terminatedBeforeZeroTime : ContainerState :=
  { Waiting := none, Running := none,
    Terminated := some { ExitCode := 0, Reason := "Completed", Message := "",
                         FinishedAt := -62135596801000000000 } }

/-- A pod status with a container `init` terminated at second 30 and a container
`main` running since second 40 and a half. -/
def transitionsPod : PodStatus :=
  { Phase := "Running", Conditions := [], Message := "", Reason := "",
    InitContainerStatuses :=
      [{ Name := "init",
         State := { Waiting := none, Running := none,
                    Terminated := some { ExitCode := 0, Reason := "Completed", Message := "",
                                         FinishedAt := 30000000000 } },
         LastTerminationState := ContainerState.zero, Ready := false }],
    ContainerStatuses :=
      [{ Name := "main",
         State := { Waiting := none, Running := some { StartedAt := 40500000000 },
                    Terminated := none },
         LastTerminationState := ContainerState.zero, Ready := true }],
    EphemeralContainerStatuses := [] }

/-! ## Vocabulary of the claims on the reason of a failure -/

/-- The reason that a container status whose chosen terminated state replaces
the accumulated reason puts in place: "OOMKilled" when the reason of that state
contains "OOMKilled", and "Interrupted" otherwise (exit code 137 or 247). -/
def overwrittenCode (c : ContainerStatus) : String :=
  match (chosenContainerState c).Terminated with
  | none => ""
  | some t => if stringsContains t.Reason OOMKilled then OOMKilled else Interrupted

/-- The last container status, in the order init, regular, ephemeral, whose
chosen terminated state replaces the accumulated reason. -/
def lastOverwriting (status : PodStatus) : Option ContainerStatus :=
  (allContainerStatuses status).reverse.find? overwritesCode

/-- A failed pod with status reason `Evicted` whose sidecar was killed with exit
code 137 and whose primary container `main` ended with exit code 1. -/
def failedPodSidecarKilled : PodStatus :=
  { Phase := "Failed", Conditions := [], Message := "", Reason := "Evicted",
    InitContainerStatuses := [],
    ContainerStatuses :=
      [statusOf "main" (terminatedState 1 "Error"),
       statusOf "sidecar" (terminatedState 137 "Error")],
    EphemeralContainerStatuses := [] }

/-- The container statuses `a` and `b` have a last-termination terminated state
and a current terminated state each, and differ at most in the current
terminated state. -/
def differInCurrentTerminated (a b : ContainerStatus) : Prop :=
  a.Name = b.Name ∧ a.LastTerminationState = b.LastTerminationState ∧ a.Ready = b.Ready ∧
    a.State.Waiting = b.State.Waiting ∧ a.State.Running = b.State.Running ∧
    a.LastTerminationState.Terminated ≠ none ∧ a.State.Terminated ≠ none ∧
    b.State.Terminated ≠ none

/-- The container status `c` read as `DemystifyFailure` is claimed to read it:
when `c` has a last-termination terminated state and a current terminated state,
the status of the same name that was never restarted and whose current state is
the last-termination state of `c`; else `c` itself. -/
def lastTerminationAsCurrent (c : ContainerStatus) : ContainerStatus :=
  if c.LastTerminationState.Terminated.isSome && c.State.Terminated.isSome then
    { c with State := c.LastTerminationState, LastTerminationState := ContainerState.zero }
  else c

/-- The pod status with every container status (init, regular, ephemeral) read
by `lastTerminationAsCurrent`. -/
def podLastTerminationAsCurrent (status : PodStatus) : PodStatus :=
  { status with
    InitContainerStatuses := status.InitContainerStatuses.map lastTerminationAsCurrent,
    ContainerStatuses := status.ContainerStatuses.map lastTerminationAsCurrent,
    EphemeralContainerStatuses :=
      status.EphemeralContainerStatuses.map lastTerminationAsCurrent }

/-- A failed pod with status reason `Evicted` whose primary container `main` was
restarted and has the given current state: its last termination had exit code
137. -/
def failedPodPrimaryKilledEarlier (current : ContainerState) : PodStatus :=
  { Phase := "Failed", Conditions := [], Message := "", Reason := "Evicted",
    InitContainerStatuses := [],
    ContainerStatuses :=
      [{ Name := "main", State := current,
         LastTerminationState := terminatedState 137 "Error", Ready := false }],
    EphemeralContainerStatuses := [] }

/-- A failed pod with status reason `Evicted` whose primary container `main` was
never restarted and has the given current state. -/
def failedPodPrimaryNeverRestarted (current : ContainerState) : PodStatus :=
  { Phase := "Failed", Conditions := [], Message := "", Reason := "Evicted",
    InitContainerStatuses := [],
    ContainerStatuses := [statusOf "main" current],
    EphemeralContainerStatuses := [] }

/-- A template pod spec and a base pod spec that both declare a volume `cache`
and a toleration of the key `spot`. -/
def cacheTemplate : PodSpec :=
  { Volumes := [{ Name := "cache" }, { Name := "logs" }],
    Tolerations := [{ Key := "spot", Operator := "Exists" }] }

/-- The base pod spec of `cacheTemplate`. -/
def cacheBase : PodSpec :=
  { Volumes := [{ Name := "cache" }],
    Containers := [{ Name := "main", Image := "task:1" }],
    Tolerations := [{ Key := "spot", Operator := "Exists" }] }

/-- The fields of a container structure that Go copies with the structure: the
name, the image and the slices; the resource maps and the security context,
which lie behind addresses, are left out. -/
def ContainerStruct.byValue (c : ContainerStruct) : Container :=
  { Name := c.Name, Image := c.Image, Command := c.Command, Args := c.Args,
    VolumeMounts := c.VolumeMounts }

/-- The container `c` without its resource maps and its security context. -/
def Container.byValue (c : Container) : Container :=
  { c with Resources := {}, SecurityContext := none }

/-- A template pod spec whose `default` container has no security context and
whose `primary` container runs as user 1000. -/
def sharedContextTemplate : PodSpec :=
  { Containers :=
      [{ Name := "default", Image := "default:1" },
       { Name := "primary", SecurityContext := some { RunAsUser := some 1000 } }] }

/-- A base pod spec with the primary container `main`, which runs as user 2000,
and a second container that is named `primary` and sets no security context. -/
def sharedContextBase : PodSpec :=
  { Containers :=
      [{ Name := "main", Image := "main:1",
         SecurityContext := some { RunAsUser := some 2000 } },
       { Name := "primary", Image := "side:1" }] }

/-- A template pod spec with a `default` container, a `primary` container and a
container `sidecar`, the first two with resource limits and a security context. -/
def layeredTemplate : PodSpec :=
  { Containers :=
      [{ Name := "default", Image := "default:1", Resources := { Limits := [("cpu", 1)] },
         SecurityContext := some { RunAsUser := some 1000 } },
       { Name := "primary", Resources := { Limits := [("memory", 2)] },
         SecurityContext := some { Privileged := some true } },
       { Name := "sidecar", Args := ["--template"] }] }

/-- A base pod spec with the primary container `main` and a container `sidecar`,
none of them named `primary`. -/
def layeredBase : PodSpec :=
  { Containers :=
      [{ Name := "main", Image := "main:1", Resources := { Limits := [("cpu", 4)] },
         SecurityContext := some { RunAsUser := some 2000 } },
       { Name := "sidecar", Image := "sidecar:1" }] }

/-! ## Lemmas on `DeterminePrimaryContainerPhase` -/

theorem isSome_false_iff_none {α : Type} (o : Option α) : o.isSome = false ↔ o = none := by
  cases o <;> simp

theorem dpcp_skip (p : String) (s : ContainerStatus) (rest : List ContainerStatus)
    (info : Option TaskInfo) (h : (decide (s.Name = p) && hasState s) = false) :
    DeterminePrimaryContainerPhase p (s :: rest) info =
      DeterminePrimaryContainerPhase p rest info := by
  rw [DeterminePrimaryContainerPhase]
  by_cases hn : s.Name = p
  · simp only [hn, decide_True, Bool.true_and, hasState] at h
    simp only [Bool.or_eq_false_iff] at h
    obtain ⟨⟨hw, hr⟩, ht⟩ := h
    have ht2 : s.State.Terminated = none := by
      cases hT : s.State.Terminated with
      | none => rfl
      | some t => rw [hT] at ht; simp at ht
    simp [hn, hw, hr, ht2]
  · simp [hn]

theorem dpcp_hit (p : String) (s : ContainerStatus) (rest : List ContainerStatus)
    (info : Option TaskInfo) (h : (decide (s.Name = p) && hasState s) = true) :
    DeterminePrimaryContainerPhase p (s :: rest) info =
      DeterminePrimaryContainerPhase p [s] info := by
  simp only [Bool.and_eq_true, decide_eq_true_eq] at h
  obtain ⟨hn, hs⟩ := h
  simp only [DeterminePrimaryContainerPhase]
  simp only [hn, if_true]
  by_cases hwr : (s.State.Waiting.isSome || s.State.Running.isSome) = true
  · simp [hwr]
  · simp only [hwr]
    cases hT : s.State.Terminated with
    | some t => simp
    | none =>
      simp only [hasState, hT, Option.isSome_none, Bool.or_false] at hs
      exact absurd hs hwr

theorem dpcp_of_deciding (p : String) (statuses : List ContainerStatus) (info : Option TaskInfo)
    (s : ContainerStatus) (h : decidingStatus p statuses = some s) :
    DeterminePrimaryContainerPhase p statuses info = DeterminePrimaryContainerPhase p [s] info := by
  induction statuses with
  | nil => simp [decidingStatus] at h
  | cons a rest ih =>
    unfold decidingStatus at h
    rw [List.find?_cons] at h
    cases hc : (decide (a.Name = p) && hasState a) with
    | true =>
      rw [hc] at h
      simp only [Option.some.injEq] at h
      subst h
      exact dpcp_hit p a rest info hc
    | false =>
      rw [hc] at h
      rw [dpcp_skip p a rest info hc]
      exact ih h

theorem dpcp_of_no_deciding (p : String) (statuses : List ContainerStatus)
    (info : Option TaskInfo) (h : decidingStatus p statuses = none) :
    DeterminePrimaryContainerPhase p statuses info =
      PhaseInfoFailure PrimaryContainerNotFound
        ("Primary container [" ++ p ++ "] not found in pod's container statuses") info := by
  induction statuses with
  | nil => rfl
  | cons a rest ih =>
    unfold decidingStatus at h
    rw [List.find?_cons] at h
    cases hc : (decide (a.Name = p) && hasState a) with
    | true => rw [hc] at h; simp at h
    | false =>
      rw [hc] at h
      rw [dpcp_skip p a rest info hc]
      exact ih h

theorem decidingStatus_spec (p : String) (statuses : List ContainerStatus) (s : ContainerStatus)
    (h : decidingStatus p statuses = some s) :
    s ∈ statuses ∧ s.Name = p ∧ hasState s = true := by
  unfold decidingStatus at h
  have h1 := List.find?_some h
  have h2 := List.mem_of_find?_eq_some h
  simp only [Bool.and_eq_true, decide_eq_true_eq] at h1
  exact ⟨h2, h1.1, h1.2⟩

/-- Evaluation of `DeterminePrimaryContainerPhase` on the deciding status alone. -/
theorem dpcp_single (p : String) (s : ContainerStatus) (info : Option TaskInfo)
    (hn : s.Name = p) (hs : hasState s = true) :
    DeterminePrimaryContainerPhase p [s] info =
      if s.State.Waiting.isSome || s.State.Running.isSome then PhaseInfoRunning info
      else match s.State.Terminated with
        | some t =>
          if stringsContains t.Reason OOMKilled then
            PhaseInfoRetryableFailure t.Reason (terminatedMessage s.Name t) info
          else if t.ExitCode = 137 ∨ t.ExitCode = 247 then
            PhaseInfoSystemRetryableFailure t.Reason (terminatedMessage s.Name t) info
          else if t.ExitCode ≠ 0 then
            PhaseInfoRetryableFailure t.Reason (terminatedMessage s.Name t) info
          else PhaseInfoSuccess info
        | none => PhaseInfoRunning info := by
  simp only [DeterminePrimaryContainerPhase]
  simp only [hn, if_true]
  by_cases hwr : (s.State.Waiting.isSome || s.State.Running.isSome) = true
  · simp [hwr]
  · simp only [hwr]
    cases hT : s.State.Terminated with
    | some t =>
      simp only [isTerminatedWithSigKill, hT, SIGKILL, unsignedSIGKILL, Bool.or_eq_true,
        beq_iff_eq]
    | none =>
      simp only [hasState, hT, Option.isSome_none, Bool.or_false] at hs
      exact absurd hs hwr

/-! ## Claims on `DeterminePrimaryContainerPhase` -/

/-- `DeterminePrimaryContainerPhase` returns Success if and only if the first
status named as the primary container that has a waiting, running or terminated
state is neither waiting nor running and is terminated with exit code 0 (hence
neither 137 nor 247) and a reason that does not contain "OOMKilled". -/
theorem dpcp_success_iff_deciding (primaryContainerName : String)
    (statuses : List ContainerStatus) (info : Option TaskInfo) :
    (DeterminePrimaryContainerPhase primaryContainerName statuses info).phase = Phase.Success ↔
      ∃ s t, decidingStatus primaryContainerName statuses = some s ∧
        s.State.Waiting = none ∧ s.State.Running = none ∧
        s.State.Terminated = some t ∧ t.ExitCode = 0 ∧
        stringsContains t.Reason "OOMKilled" = false ∧
        t.ExitCode ≠ 137 ∧ t.ExitCode ≠ 247 := by
  cases hd : decidingStatus primaryContainerName statuses with
  | none =>
    rw [dpcp_of_no_deciding _ _ _ hd]
    simp [PhaseInfoFailure, PhaseInfoFailed]
  | some s =>
    obtain ⟨_, hn, hs⟩ := decidingStatus_spec _ _ _ hd
    rw [dpcp_of_deciding _ _ _ _ hd, dpcp_single _ _ _ hn hs]
    constructor
    · intro h
      refine ⟨s, ?_⟩
      by_cases hwr : (s.State.Waiting.isSome || s.State.Running.isSome) = true
      · rw [if_pos hwr] at h
        simp [PhaseInfoRunning] at h
      · rw [if_neg hwr] at h
        simp only [Bool.or_eq_true, not_or, Bool.not_eq_true, isSome_false_iff_none] at hwr
        cases hT : s.State.Terminated with
        | none =>
          rw [hT] at h
          simp [PhaseInfoRunning] at h
        | some t =>
          rw [hT] at h
          simp only at h
          refine ⟨t, rfl, hwr.1, hwr.2, rfl, ?_⟩
          by_cases hoom : stringsContains t.Reason OOMKilled = true
          · rw [if_pos hoom] at h
            simp [PhaseInfoRetryableFailure, PhaseInfoFailed] at h
          · rw [if_neg hoom] at h
            by_cases hk : t.ExitCode = 137 ∨ t.ExitCode = 247
            · rw [if_pos hk] at h
              simp [PhaseInfoSystemRetryableFailure, PhaseInfoFailed] at h
            · rw [if_neg hk] at h
              by_cases h0 : t.ExitCode ≠ 0
              · rw [if_pos h0] at h
                simp [PhaseInfoRetryableFailure, PhaseInfoFailed] at h
              · simp only [not_or] at hk
                simp only [ne_eq, not_not] at h0
                simp only [Bool.not_eq_true] at hoom
                exact ⟨h0, hoom, hk.1, hk.2⟩
    · rintro ⟨s1, t, hs1, hw, hr, hT, h0, hoom, hk1, hk2⟩
      simp only [Option.some.injEq] at hs1
      subst hs1
      have hoom2 : stringsContains t.Reason OOMKilled = false := hoom
      simp [hw, hr, hT, h0, hoom2, PhaseInfoSuccess]

/-- C1: for every primary container name and every list of container statuses as
a pod reports them (the names of the statuses are distinct, and a state that is
terminated is neither waiting nor running), `DeterminePrimaryContainerPhase`
returns Success if and only if the list has a status with that name that is
terminated with exit code 0, whose terminated reason does not contain
"OOMKilled", and whose exit code is neither 137 nor 247. -/
theorem C1_success_iff_primary_clean (primaryContainerName : String)
    (statuses : List ContainerStatus) (info : Option TaskInfo)
    (hnames : (statuses.map (fun s => s.Name)).Nodup)
    (hstates : ∀ s ∈ statuses, s.State.Terminated ≠ none →
      s.State.Waiting = none ∧ s.State.Running = none) :
    (DeterminePrimaryContainerPhase primaryContainerName statuses info).phase = Phase.Success ↔
      ∃ s ∈ statuses, s.Name = primaryContainerName ∧
        ∃ t, s.State.Terminated = some t ∧ t.ExitCode = 0 ∧
          stringsContains t.Reason "OOMKilled" = false ∧
          t.ExitCode ≠ 137 ∧ t.ExitCode ≠ 247 := by
  rw [dpcp_success_iff_deciding]
  constructor
  · rintro ⟨s, t, hd, _, _, hT, h0, hoom, hk1, hk2⟩
    obtain ⟨hmem, hn, _⟩ := decidingStatus_spec _ _ _ hd
    exact ⟨s, hmem, hn, t, hT, h0, hoom, hk1, hk2⟩
  · rintro ⟨s, hmem, hn, t, hT, h0, hoom, hk1, hk2⟩
    have hstate : hasState s = true := by
      unfold hasState
      rw [hT]
      simp
    have hsome : ∃ d, decidingStatus primaryContainerName statuses = some d := by
      cases hd : decidingStatus primaryContainerName statuses with
      | some d => exact ⟨d, rfl⟩
      | none =>
        exfalso
        unfold decidingStatus at hd
        rw [List.find?_eq_none] at hd
        have := hd s hmem
        simp [hn, hstate] at this
    obtain ⟨d, hd⟩ := hsome
    obtain ⟨hdmem, hdn, _⟩ := decidingStatus_spec _ _ _ hd
    have heq : d = s :=
      List.inj_on_of_nodup_map hnames hdmem hmem (hdn.trans hn.symm)
    rw [heq] at hd
    have hwr := hstates s hmem (by rw [hT]; exact Option.some_ne_none t)
    exact ⟨s, t, hd, hwr.1, hwr.2, hT, h0, hoom, hk1, hk2⟩

/-- C1 (witness): the pod reports the statuses `sidecar`, still running, and
`main`, terminated with exit code 0 and reason `Completed`; the outcome for the
primary container `main` is Success. -/
theorem C1_success_iff_primary_clean_witness :
    (DeterminePrimaryContainerPhase "main"
      [statusOf "sidecar"
        { Waiting := none, Running := some { StartedAt := 0 }, Terminated := none },
       statusOf "main" (terminatedState 0 "Completed")] none).phase = Phase.Success :=
  (C1_success_iff_primary_clean "main"
    [statusOf "sidecar"
      { Waiting := none, Running := some { StartedAt := 0 }, Terminated := none },
     statusOf "main" (terminatedState 0 "Completed")] none (by decide) (by decide)).mpr
    ⟨statusOf "main" (terminatedState 0 "Completed"), by simp, rfl,
      ⟨_, rfl, rfl, by decide, by decide, by decide⟩⟩

/-- C4: for the first status `s` named as the primary container that has a
waiting, running or terminated state, `DeterminePrimaryContainerPhase` gives
Running when `s` is waiting or running; otherwise, `s` being terminated,
RetryableFailure when the reason contains "OOMKilled" (whatever the exit code,
137 and 247 included), else SystemRetryableFailure when the exit code is 137 or
247, else RetryableFailure when the exit code is not 0, else Success. -/
theorem C4_deciding_status_table (primaryContainerName : String)
    (statuses : List ContainerStatus) (info : Option TaskInfo) (s : ContainerStatus)
    (h : decidingStatus primaryContainerName statuses = some s) :
    (s.State.Waiting.isSome = true ∨ s.State.Running.isSome = true →
      DeterminePrimaryContainerPhase primaryContainerName statuses info =
        PhaseInfoRunning info) ∧
    (s.State.Waiting = none → s.State.Running = none →
      ∀ t, s.State.Terminated = some t →
        (stringsContains t.Reason "OOMKilled" = true →
          (DeterminePrimaryContainerPhase primaryContainerName statuses info).phase =
            Phase.RetryableFailure) ∧
        (stringsContains t.Reason "OOMKilled" = false →
          (t.ExitCode = 137 ∨ t.ExitCode = 247) →
          (DeterminePrimaryContainerPhase primaryContainerName statuses info).phase =
            Phase.SystemRetryableFailure) ∧
        (stringsContains t.Reason "OOMKilled" = false →
          t.ExitCode ≠ 137 → t.ExitCode ≠ 247 → t.ExitCode ≠ 0 →
          (DeterminePrimaryContainerPhase primaryContainerName statuses info).phase =
            Phase.RetryableFailure) ∧
        (stringsContains t.Reason "OOMKilled" = false →
          t.ExitCode ≠ 137 → t.ExitCode ≠ 247 → t.ExitCode = 0 →
          DeterminePrimaryContainerPhase primaryContainerName statuses info =
            PhaseInfoSuccess info)) := by
  obtain ⟨_, hn, hs⟩ := decidingStatus_spec _ _ _ h
  rw [dpcp_of_deciding _ _ _ _ h, dpcp_single _ _ _ hn hs]
  refine ⟨?_, ?_⟩
  · intro hwr
    have : (s.State.Waiting.isSome || s.State.Running.isSome) = true := by
      simpa [Bool.or_eq_true] using hwr
    rw [if_pos this]
  · intro hw hr t hT
    have hoomdef : ∀ b, stringsContains t.Reason "OOMKilled" = b →
        stringsContains t.Reason OOMKilled = b := fun _ hb => hb
    simp only [hw, hr, hT, Option.isSome_none, Bool.or_self, Bool.false_eq_true, if_false]
    refine ⟨?_, ?_, ?_, ?_⟩
    · intro hoom
      simp [hoomdef _ hoom, PhaseInfoRetryableFailure, PhaseInfoFailed]
    · intro hoom hk
      simp [hoomdef _ hoom, hk, PhaseInfoSystemRetryableFailure, PhaseInfoFailed]
    · intro hoom h1 h2 h0
      simp [hoomdef _ hoom, h1, h2, h0, PhaseInfoRetryableFailure, PhaseInfoFailed]
    · intro hoom h1 h2 h0
      simp [hoomdef _ hoom, h0]

/-- C4 (witness): a sidecar status, then the primary `main` terminated with exit
code 137 and reason `OOMKilled`, then a second `main` status: the first `main`
status decides and the outcome is RetryableFailure. -/
theorem C4_deciding_status_table_witness :
    decidingStatus "main"
        [statusOf "sidecar" (terminatedState 0 "Completed"),
         statusOf "main" (terminatedState 137 "OOMKilled"),
         statusOf "main" (terminatedState 0 "Completed")] =
      some (statusOf "main" (terminatedState 137 "OOMKilled")) ∧
    (DeterminePrimaryContainerPhase "main"
        [statusOf "sidecar" (terminatedState 0 "Completed"),
         statusOf "main" (terminatedState 137 "OOMKilled"),
         statusOf "main" (terminatedState 0 "Completed")] none).phase =
      Phase.RetryableFailure :=
  ⟨by decide,
   ((C4_deciding_status_table "main"
      [statusOf "sidecar" (terminatedState 0 "Completed"),
       statusOf "main" (terminatedState 137 "OOMKilled"),
       statusOf "main" (terminatedState 0 "Completed")] none
      (statusOf "main" (terminatedState 137 "OOMKilled")) (by decide)).2 rfl rfl
      _ rfl).1 (by decide)⟩

/-- C5: when no status of the list is named as the primary container,
`DeterminePrimaryContainerPhase` returns PermanentFailure with reason
"PrimaryContainerNotFound". -/
theorem C5_primary_absent_permanent_failure (primaryContainerName : String)
    (statuses : List ContainerStatus) (info : Option TaskInfo)
    (h : ∀ s ∈ statuses, s.Name ≠ primaryContainerName) :
    (DeterminePrimaryContainerPhase primaryContainerName statuses info).phase =
        Phase.PermanentFailure ∧
    (DeterminePrimaryContainerPhase primaryContainerName statuses info).reason =
        "PrimaryContainerNotFound" ∧
    DeterminePrimaryContainerPhase primaryContainerName statuses info =
      PhaseInfoFailure "PrimaryContainerNotFound"
        ("Primary container [" ++ primaryContainerName ++
          "] not found in pod's container statuses") info := by
  have hd : decidingStatus primaryContainerName statuses = none := by
    unfold decidingStatus
    rw [List.find?_eq_none]
    intro s hs
    simp [h s hs]
  rw [dpcp_of_no_deciding _ _ _ hd]
  exact ⟨rfl, rfl, rfl⟩

/-- C5 (witness): only a sidecar status is present. -/
theorem C5_primary_absent_permanent_failure_witness :
    (DeterminePrimaryContainerPhase "main"
        [statusOf "sidecar" (terminatedState 0 "Completed")] none).phase =
      Phase.PermanentFailure ∧
    (DeterminePrimaryContainerPhase "main"
        [statusOf "sidecar" (terminatedState 0 "Completed")] none).reason =
      "PrimaryContainerNotFound" :=
  have h := C5_primary_absent_permanent_failure "main"
    [statusOf "sidecar" (terminatedState 0 "Completed")] none (by decide)
  ⟨h.1, h.2.1⟩

/-- C6: when the status named as the primary container that decides the outcome
(the first one with a state) is terminated with exit code 0,
`DeterminePrimaryContainerPhase` does not return SystemRetryableFailure. -/
theorem C6_exit_zero_never_system_retryable (primaryContainerName : String)
    (statuses : List ContainerStatus) (info : Option TaskInfo) (s : ContainerStatus)
    (t : ContainerStateTerminated)
    (h : decidingStatus primaryContainerName statuses = some s)
    (hT : s.State.Terminated = some t) (h0 : t.ExitCode = 0) :
    (DeterminePrimaryContainerPhase primaryContainerName statuses info).phase ≠
      Phase.SystemRetryableFailure := by
  obtain ⟨_, hn, hs⟩ := decidingStatus_spec _ _ _ h
  rw [dpcp_of_deciding _ _ _ _ h, dpcp_single _ _ _ hn hs]
  by_cases hwr : (s.State.Waiting.isSome || s.State.Running.isSome) = true
  · rw [if_pos hwr]
    simp [PhaseInfoRunning]
  · rw [if_neg hwr]
    simp only [hT, h0]
    by_cases hoom : stringsContains t.Reason OOMKilled = true
    · simp [hoom, PhaseInfoRetryableFailure, PhaseInfoFailed]
    · simp [hoom, PhaseInfoSuccess]

/-- C6 (witness): the primary `main` terminated with exit code 0 under the
reason `OOMKilled`: the outcome is not SystemRetryableFailure. -/
theorem C6_exit_zero_never_system_retryable_witness :
    decidingStatus "main" [statusOf "main" (terminatedState 0 "OOMKilled")] =
      some (statusOf "main" (terminatedState 0 "OOMKilled")) ∧
    (DeterminePrimaryContainerPhase "main"
        [statusOf "main" (terminatedState 0 "OOMKilled")] none).phase ≠
      Phase.SystemRetryableFailure :=
  ⟨by decide,
   C6_exit_zero_never_system_retryable "main"
     [statusOf "main" (terminatedState 0 "OOMKilled")] none
     (statusOf "main" (terminatedState 0 "OOMKilled"))
     { ExitCode := 0, Reason := "OOMKilled", Message := "", FinishedAt := 0 }
     (by decide) rfl rfl⟩

/-! ## Claim on `DemystifyFailure` -/

theorem step_none (p : String) (v : FailureVars) (c : ContainerStatus)
    (hT : (chosenContainerState c).Terminated = none) : demystifyFailureStep p v c = v := by
  unfold demystifyFailureStep
  simp only [hT]

theorem step_some_isSystemError (p : String) (v : FailureVars) (c : ContainerStatus)
    (t : ContainerStateTerminated) (hT : (chosenContainerState c).Terminated = some t) :
    (demystifyFailureStep p v c).isSystemError =
      (v.isSystemError ||
        (!stringsContains t.Reason OOMKilled && (t.ExitCode == 137 || t.ExitCode == 247) &&
          decide (c.Name = p))) := by
  unfold demystifyFailureStep
  simp only [hT, isTerminatedWithSigKill, SIGKILL, unsignedSIGKILL]
  by_cases hoom : stringsContains t.Reason OOMKilled = true
  · by_cases h0 : t.ExitCode = 0 <;> simp [hoom, h0]
  · by_cases hk : (t.ExitCode == 137 || t.ExitCode == 247) = true
    · by_cases hn : c.Name = p <;> by_cases h0 : t.ExitCode = 0 <;> simp [hoom, hk, hn, h0]
    · by_cases h0 : t.ExitCode = 0 <;> simp [hoom, hk, h0]

theorem step_some_code (p : String) (v : FailureVars) (c : ContainerStatus)
    (t : ContainerStateTerminated) (hT : (chosenContainerState c).Terminated = some t) :
    (demystifyFailureStep p v c).code =
      if stringsContains t.Reason OOMKilled then OOMKilled
      else if (t.ExitCode == 137 || t.ExitCode == 247) then Interrupted
      else v.code := by
  unfold demystifyFailureStep
  simp only [hT, isTerminatedWithSigKill, SIGKILL, unsignedSIGKILL]
  by_cases hoom : stringsContains t.Reason OOMKilled = true
  · by_cases h0 : t.ExitCode = 0 <;> simp [hoom, h0]
  · by_cases hk : (t.ExitCode == 137 || t.ExitCode == 247) = true
    · by_cases h0 : t.ExitCode = 0 <;> simp [hoom, hk, h0]
    · by_cases h0 : t.ExitCode = 0 <;> simp [hoom, hk, h0]

theorem step_isSystemError (p : String) (v : FailureVars) (c : ContainerStatus) :
    (demystifyFailureStep p v c).isSystemError = (v.isSystemError || marksSystemError p c) := by
  cases hT : (chosenContainerState c).Terminated with
  | none => rw [step_none p v c hT]; simp [marksSystemError, hT]
  | some t => rw [step_some_isSystemError p v c t hT]; simp [marksSystemError, hT]

theorem step_code (p : String) (v : FailureVars) (c : ContainerStatus) :
    (demystifyFailureStep p v c).code = "UnknownError" ↔
      (v.code = "UnknownError" ∧ overwritesCode c = false) := by
  cases hT : (chosenContainerState c).Terminated with
  | none => rw [step_none p v c hT]; simp [overwritesCode, hT]
  | some t =>
    rw [step_some_code p v c t hT]
    have e1 : OOMKilled ≠ "UnknownError" := by decide
    have e2 : Interrupted ≠ "UnknownError" := by decide
    by_cases hoom : stringsContains t.Reason OOMKilled = true
    · simp [overwritesCode, hT, hoom, e1]
    · by_cases hk : (t.ExitCode == 137 || t.ExitCode == 247) = true
      · simp [overwritesCode, hT, hoom, hk, e2]
      · simp [overwritesCode, hT, hoom, hk]

theorem fold_isSystemError (p : String) (l : List ContainerStatus) (v : FailureVars) :
    (List.foldl (demystifyFailureStep p) v l).isSystemError =
      (v.isSystemError || l.any (marksSystemError p)) := by
  induction l generalizing v with
  | nil => simp
  | cons c rest ih =>
    rw [List.foldl_cons, ih, step_isSystemError, List.any_cons, Bool.or_assoc]

theorem fold_code (p : String) (l : List ContainerStatus) (v : FailureVars) :
    (List.foldl (demystifyFailureStep p) v l).code = "UnknownError" ↔
      (v.code = "UnknownError" ∧ l.any overwritesCode = false) := by
  induction l generalizing v with
  | nil => simp
  | cons c rest ih =>
    rw [List.foldl_cons, ih, step_code, List.any_cons, Bool.or_eq_false_iff, and_assoc]

theorem marksSystemError_iff (p : String) (c : ContainerStatus) :
    marksSystemError p c = true ↔
      (c.Name = p ∧ ∃ t, (chosenContainerState c).Terminated = some t ∧
        (t.ExitCode = 137 ∨ t.ExitCode = 247) ∧ stringsContains t.Reason "OOMKilled" = false) := by
  unfold marksSystemError
  cases hT : (chosenContainerState c).Terminated with
  | none => simp
  | some t =>
    simp only [Bool.and_eq_true, Bool.not_eq_true', Bool.or_eq_true, beq_iff_eq,
      decide_eq_true_eq, Option.some.injEq, exists_eq_left', OOMKilled]
    tauto

theorem overwritesCode_false_iff (c : ContainerStatus) :
    overwritesCode c = false ↔
      ∀ t, (chosenContainerState c).Terminated = some t →
        stringsContains t.Reason "OOMKilled" = false ∧ t.ExitCode ≠ 137 ∧ t.ExitCode ≠ 247 := by
  unfold overwritesCode
  cases hT : (chosenContainerState c).Terminated with
  | none => simp
  | some t =>
    simp only [Bool.or_eq_false_iff, beq_eq_false_iff_ne, ne_eq, Option.some.injEq,
      forall_eq', OOMKilled]

theorem init_code_unknown_iff (status : PodStatus) :
    (demystifyFailureInit status).code = "UnknownError" ↔
      (status.Reason = "" ∨ status.Reason = "UnknownError") := by
  unfold demystifyFailureInit
  by_cases h : status.Reason = ""
  · simp [h]
  · have hl : status.Reason.length > 0 := by
      rcases hr : status.Reason with ⟨l⟩
      cases l with
      | nil => rw [hr] at h; exact absurd rfl h
      | cons a l => simp [String.length]
    simp [hl, h]

theorem init_isSystemError_iff (status : PodStatus) :
    (demystifyFailureInit status).isSystemError = true ↔
      (status.Reason = "Shutdown" ∨ status.Reason = "Terminated" ∨
        status.Reason = "NodeShutdown" ∨ status.Reason = "NodeAffinity") := by
  unfold demystifyFailureInit
  by_cases h : status.Reason.length > 0
  · simp [h, retryableStatusReasons]
  · have he : status.Reason = "" := by
      rcases hr : status.Reason with ⟨l⟩
      cases l with
      | nil => rfl
      | cons a l => rw [hr] at h; simp [String.length] at h
    simp only [h, if_false, he]
    decide

theorem demystifyFailure_system_iff (status : PodStatus) (p : String) :
    ((if (demystifyFailureVars status p).code = "UnknownError" then true
      else (demystifyFailureVars status p).isSystemError) = true) ↔
      failureIsSystemError status p := by
  have hc := fold_code p (allContainerStatuses status) (demystifyFailureInit status)
  have hs := fold_isSystemError p (allContainerStatuses status) (demystifyFailureInit status)
  have hvars : demystifyFailureVars status p =
      List.foldl (demystifyFailureStep p) (demystifyFailureInit status)
        (allContainerStatuses status) := rfl
  rw [← hvars] at hc hs
  have hany : (allContainerStatuses status).any (marksSystemError p) = true ↔
      ∃ c ∈ allContainerStatuses status, c.Name = p ∧
        ∃ t, (chosenContainerState c).Terminated = some t ∧
          (t.ExitCode = 137 ∨ t.ExitCode = 247) ∧
          stringsContains t.Reason "OOMKilled" = false := by
    rw [List.any_eq_true]
    constructor
    · rintro ⟨c, hm, hc1⟩
      exact ⟨c, hm, (marksSystemError_iff p c).mp hc1⟩
    · rintro ⟨c, hm, hc1⟩
      exact ⟨c, hm, (marksSystemError_iff p c).mpr hc1⟩
  have hall : (allContainerStatuses status).any overwritesCode = false ↔
      ∀ c ∈ allContainerStatuses status, ∀ t, (chosenContainerState c).Terminated = some t →
        stringsContains t.Reason "OOMKilled" = false ∧ t.ExitCode ≠ 137 ∧ t.ExitCode ≠ 247 := by
    rw [List.any_eq_false]
    constructor
    · intro h c hm
      exact (overwritesCode_false_iff c).mp (by simpa using h c hm)
    · intro h c hm
      simpa using (overwritesCode_false_iff c).mpr (h c hm)
  unfold failureIsSystemError
  rw [← init_isSystemError_iff, ← hany, ← hall, ← init_code_unknown_iff, ← hc]
  by_cases hcode : (demystifyFailureVars status p).code = "UnknownError"
  · simp [hcode]
  · simp only [hcode, if_false, hs, Bool.or_eq_true, false_or, or_false]

/-- C2 (as amended): `DemystifyFailure` returns SystemRetryableFailure with reason
"Interrupted" if and only if (a) the pod status reason is one of Shutdown,
Terminated, NodeShutdown, NodeAffinity, or (b) a container status named as the
primary has a chosen terminated state with exit code 137 or 247 whose reason does
not contain "OOMKilled", or (c) the accumulated reason is still "UnknownError":
the status reason is empty or is itself "UnknownError", and no chosen terminated
state has an OOMKilled reason or an exit code 137 or 247. In every other case it
returns RetryableFailure; it returns no other phase. -/
theorem C2_failure_system_iff (status : PodStatus) (info : TaskInfo)
    (primaryContainerName : String) :
    (((DemystifyFailure status info primaryContainerName).phase = Phase.SystemRetryableFailure ∧
        (DemystifyFailure status info primaryContainerName).reason = "Interrupted") ↔
      failureIsSystemError status primaryContainerName) ∧
    ((DemystifyFailure status info primaryContainerName).phase = Phase.RetryableFailure ↔
      ¬ failureIsSystemError status primaryContainerName) ∧
    ((DemystifyFailure status info primaryContainerName).phase = Phase.SystemRetryableFailure ∨
      (DemystifyFailure status info primaryContainerName).phase = Phase.RetryableFailure) := by
  have h := demystifyFailure_system_iff status primaryContainerName
  unfold DemystifyFailure
  by_cases hsys : (if (demystifyFailureVars status primaryContainerName).code = "UnknownError"
      then true else (demystifyFailureVars status primaryContainerName).isSystemError) = true
  · have hf := h.mp hsys
    simp [hsys, hf, PhaseInfoSystemRetryableFailure, PhaseInfoFailed, Interrupted]
  · have hf : ¬ failureIsSystemError status primaryContainerName := fun hx => hsys (h.mpr hx)
    simp [hsys, hf, PhaseInfoRetryableFailure, PhaseInfoFailed]

/-- C2 (counterexample): the equivalence of the claim fails on two failed pods.
On the pod with reason `Evicted` whose primary container has a last termination
with exit code 1 and a current terminated state with exit code 137, condition (b)
holds as written, yet the outcome is RetryableFailure, because only the last
termination is examined. On the pod with status reason "UnknownError" and no
container status, none of (a), (b) and the explanation of (c) holds (the status
reason is not empty), yet the outcome is SystemRetryableFailure with reason
"Interrupted". -/
theorem C2_counterexample_restart_and_unknown_error :
    ¬ (((DemystifyFailure failedPodRestartedPrimary ⟨none⟩ "main").phase =
            Phase.SystemRetryableFailure ∧
          (DemystifyFailure failedPodRestartedPrimary ⟨none⟩ "main").reason = "Interrupted") ↔
        claimedSystemError failedPodRestartedPrimary "main") ∧
    ¬ (((DemystifyFailure failedPodReasonUnknownError ⟨none⟩ "main").phase =
            Phase.SystemRetryableFailure ∧
          (DemystifyFailure failedPodReasonUnknownError ⟨none⟩ "main").reason = "Interrupted") ↔
        claimedSystemError failedPodReasonUnknownError "main") := by
  constructor
  · intro h
    have hr : (DemystifyFailure failedPodRestartedPrimary ⟨none⟩ "main").phase =
        Phase.RetryableFailure := by decide
    have hb : claimedSystemError failedPodRestartedPrimary "main" := by
      right; left
      refine ⟨{ Name := "main", State := terminatedState 137 "Error",
                LastTerminationState := terminatedState 1 "Error", Ready := false }, ?_, rfl,
              { ExitCode := 137, Reason := "Error", Message := "", FinishedAt := 0 },
              Or.inl rfl, Or.inl rfl, by decide⟩
      simp [allContainerStatuses, failedPodRestartedPrimary]
    rw [(h.mpr hb).1] at hr
    exact absurd hr (by decide)
  · intro h
    have hl : (DemystifyFailure failedPodReasonUnknownError ⟨none⟩ "main").phase =
          Phase.SystemRetryableFailure ∧
        (DemystifyFailure failedPodReasonUnknownError ⟨none⟩ "main").reason =
          "Interrupted" := by
      decide
    rcases h.mp hl with ha | hb | hc
    · revert ha
      decide
    · obtain ⟨c, hm, _⟩ := hb
      simp [allContainerStatuses, failedPodReasonUnknownError] at hm
    · exact absurd hc.1 (by decide)

/-! ## Claim on `DemystifySuccess` -/

theorem demystifySuccessLoop_oom (info : TaskInfo) (l : List ContainerStatus)
    (h : ∃ c ∈ l, ∃ t, c.State.Terminated = some t ∧
      stringsContains t.Reason "OOMKilled" = true) :
    demystifySuccessLoop info l =
      PhaseInfoRetryableFailure "OOMKilled" "Pod reported success despite being OOMKilled"
        (some info) := by
  induction l with
  | nil => simp at h
  | cons a rest ih =>
    rw [demystifySuccessLoop]
    cases hT : a.State.Terminated with
    | none =>
      simp only
      apply ih
      obtain ⟨c, hm, t, hc, ho⟩ := h
      rcases List.mem_cons.mp hm with rfl | hm2
      · rw [hT] at hc; simp at hc
      · exact ⟨c, hm2, t, hc, ho⟩
    | some t0 =>
      simp only
      by_cases hoom : stringsContains t0.Reason OOMKilled = true
      · rw [if_pos hoom]; rfl
      · rw [if_neg hoom]
        apply ih
        obtain ⟨c, hm, t, hc, ho⟩ := h
        rcases List.mem_cons.mp hm with rfl | hm2
        · rw [hT] at hc
          simp only [Option.some.injEq] at hc
          subst hc
          exact absurd ho hoom
        · exact ⟨c, hm2, t, hc, ho⟩

theorem demystifySuccessLoop_clean (info : TaskInfo) (l : List ContainerStatus)
    (h : ¬ ∃ c ∈ l, ∃ t, c.State.Terminated = some t ∧
      stringsContains t.Reason "OOMKilled" = true) :
    demystifySuccessLoop info l = PhaseInfoSuccess (some info) := by
  induction l with
  | nil => rfl
  | cons a rest ih =>
    rw [demystifySuccessLoop]
    have hrest : ¬ ∃ c ∈ rest, ∃ t, c.State.Terminated = some t ∧
        stringsContains t.Reason "OOMKilled" = true := by
      rintro ⟨c, hm, hx⟩
      exact h ⟨c, List.mem_cons_of_mem _ hm, hx⟩
    cases hT : a.State.Terminated with
    | none => simp only; exact ih hrest
    | some t0 =>
      simp only
      by_cases hoom : stringsContains t0.Reason OOMKilled = true
      · exact absurd ⟨a, List.mem_cons_self _ _, t0, hT, hoom⟩ h
      · rw [if_neg hoom]; exact ih hrest

/-- C3: `DemystifySuccess` returns RetryableFailure with reason "OOMKilled" and
message "Pod reported success despite being OOMKilled" when some init, regular or
ephemeral container status has a current terminated state whose reason contains
"OOMKilled"; otherwise it returns Success. -/
theorem C3_success_unless_oomkilled (status : PodStatus) (info : TaskInfo) :
    ((∃ c ∈ status.InitContainerStatuses ++ status.ContainerStatuses ++
          status.EphemeralContainerStatuses,
        ∃ t, c.State.Terminated = some t ∧ stringsContains t.Reason "OOMKilled" = true) →
      (DemystifySuccess status info).phase = Phase.RetryableFailure ∧
      (DemystifySuccess status info).reason = "OOMKilled" ∧
      (DemystifySuccess status info).message =
        "Pod reported success despite being OOMKilled") ∧
    ((¬ ∃ c ∈ status.InitContainerStatuses ++ status.ContainerStatuses ++
          status.EphemeralContainerStatuses,
        ∃ t, c.State.Terminated = some t ∧ stringsContains t.Reason "OOMKilled" = true) →
      DemystifySuccess status info = PhaseInfoSuccess (some info) ∧
      (DemystifySuccess status info).phase = Phase.Success) := by
  constructor
  · intro h
    unfold DemystifySuccess
    rw [demystifySuccessLoop_oom info _ h]
    exact ⟨rfl, rfl, rfl⟩
  · intro h
    unfold DemystifySuccess
    rw [demystifySuccessLoop_clean info _ h]
    exact ⟨rfl, rfl⟩

/-- C3 (witness): a succeeded pod with a container terminated under the reason
`OOMKilled` is reported as RetryableFailure with reason "OOMKilled". -/
theorem C3_success_unless_oomkilled_witness :
    (DemystifySuccess succeededPodOOMKilled ⟨none⟩).phase = Phase.RetryableFailure ∧
    (DemystifySuccess succeededPodOOMKilled ⟨none⟩).reason = "OOMKilled" ∧
    (DemystifySuccess succeededPodOOMKilled ⟨none⟩).message =
      "Pod reported success despite being OOMKilled" :=
  (C3_success_unless_oomkilled succeededPodOOMKilled ⟨none⟩).1
    ⟨statusOf "main" (terminatedState 0 "OOMKilled"), by decide,
      { ExitCode := 0, Reason := "OOMKilled", Message := "", FinishedAt := 0 }, rfl,
      by decide⟩

/-! ## Lemmas on strings -/

theorem hasInfix_of_isPrefixOf (sub l : List Char) (h : sub.isPrefixOf l = true) :
    hasInfix sub l = true := by
  cases l with
  | nil => simpa [hasInfix] using h
  | cons c cs => simp [hasInfix, h]

theorem hasInfix_append_left (sub pre l : List Char) (h : hasInfix sub l = true) :
    hasInfix sub (pre ++ l) = true := by
  induction pre with
  | nil => simpa using h
  | cons c cs ih =>
    rw [List.cons_append, hasInfix]
    simp [ih]

theorem isPrefixOf_self_append (sub r : List Char) : sub.isPrefixOf (sub ++ r) = true := by
  induction sub with
  | nil => simp [List.isPrefixOf]
  | cons c cs ih => simp [List.isPrefixOf, ih]

/-- A text contains `sub` when it is `a ++ sub ++ b`. -/
theorem stringsContains_mid (a sub b : String) : stringsContains (a ++ sub ++ b) sub = true := by
  unfold stringsContains
  rw [String.data_append, String.data_append, List.append_assoc]
  exact hasInfix_append_left _ _ _ (hasInfix_of_isPrefixOf _ _ (isPrefixOf_self_append _ _))

theorem stringsHasPrefix_append (p r : String) : stringsHasPrefix (p ++ r) p = true := by
  unfold stringsHasPrefix
  rw [String.data_append]
  exact isPrefixOf_self_append _ _

/-- Within the range of `time.Duration`, `timeSince now t` is `now - t`. -/
theorem timeSince_eq_sub (now t : Int) (h1 : minDuration ≤ now - t) (h2 : now - t ≤ maxDuration) :
    timeSince now t = now - t := by
  unfold timeSince
  rw [if_neg (not_lt.mpr h1), if_neg (not_lt.mpr h2)]

/-! ## Lemmas on `demystifyPendingHelper` -/

theorem pendingContainerLoop_eq (cfg : K8sPluginConfig) (now : Int) (c : PodCondition) (t : Int)
    (l : List ContainerStatus) :
    pendingContainerLoop cfg now c t l =
      ((l.find? (fun s => !s.Ready && s.State.Waiting.isSome)).bind
        (fun s => s.State.Waiting)).map (pendingWaitingOutcome cfg now c t) := by
  induction l with
  | nil => rfl
  | cons a rest ih =>
    rw [pendingContainerLoop, List.find?_cons]
    cases hr : a.Ready with
    | true => simpa using ih
    | false =>
      cases hw : a.State.Waiting with
      | none => simpa [hw] using ih
      | some w => simp [hw]

theorem pendingConditionLoop_skip (cfg : K8sPluginConfig) (now : Int) (status : PodStatus)
    (pi : PhaseInfo) (t : Int) (q : PodCondition) (rest : List PodCondition)
    (h : conditionDecides status q = false) :
    pendingConditionLoop cfg now status pi t (q :: rest) =
      pendingConditionLoop cfg now status pi q.LastTransitionTime rest := by
  rw [pendingConditionLoop]
  simp only [conditionDecides, Bool.or_eq_false_iff, Bool.and_eq_false_iff, beq_eq_false_iff_ne,
    ne_eq] at h
  obtain ⟨⟨h1, h2⟩, h3⟩ := h
  simp only [PodScheduled, PodReasonUnschedulable, PodReady, ConditionFalse]
  by_cases ht1 : q.Type_ = "PodScheduled"
  · have hs : ¬ q.Status = "False" := by
      rcases h1 with h1 | h1
      · exact absurd ht1 h1
      · exact h1
    simp [ht1, hs]
  · rw [if_neg ht1, if_neg h2]
    by_cases ht3 : q.Type_ = "Ready"
    · rw [if_pos ht3]
      by_cases hs : q.Status = "False"
      · rw [if_pos hs]
        have hn : firstNotReadyWaiting status = none := by
          rcases h3 with (h3 | h3) | h3
          · exact absurd ht3 h3
          · exact absurd hs h3
          · exact (isSome_false_iff_none _).mp h3
        rw [pendingContainerLoop_eq]
        unfold firstNotReadyWaiting at hn
        rw [hn]
        rfl
      · rw [if_neg hs]
    · rw [if_neg ht3]

theorem pendingConditionLoop_hit (cfg : K8sPluginConfig) (now : Int) (status : PodStatus)
    (info : TaskInfo) (t : Int) (c : PodCondition) (rest : List PodCondition)
    (h : conditionDecides status c = true) :
    pendingConditionLoop cfg now status
        (PhaseInfoQueuedWithTaskInfo now "Demistify Pending" (some info)) t (c :: rest) =
      decidedOutcome cfg now status info c := by
  rw [pendingConditionLoop]
  simp only [PodScheduled, PodReasonUnschedulable, PodReady, ConditionFalse, decidedOutcome]
  simp only [conditionDecides, Bool.or_eq_true, Bool.and_eq_true, beq_iff_eq] at h
  have d1 : ("PodScheduled" : String) ≠ "Ready" := by decide
  have d2 : ("Unschedulable" : String) ≠ "Ready" := by decide
  have d3 : ("Unschedulable" : String) ≠ "PodScheduled" := by decide
  rcases h with (h | h) | h
  · simp [h.1, h.2, d1, PhaseInfoQueuedWithTaskInfo]
  · simp [h, d2, d3, PhaseInfoQueuedWithTaskInfo]
  · obtain ⟨⟨hty, hst⟩, hw⟩ := h
    have e1 : ("Ready" : String) ≠ "PodScheduled" := by decide
    have e2 : ("Ready" : String) ≠ "Unschedulable" := by decide
    simp only [hty, hst, e1, e2, if_false, if_true]
    rw [pendingContainerLoop_eq]
    unfold firstNotReadyWaiting at hw
    unfold firstNotReadyWaiting
    cases hf : ((List.find? (fun s => !s.Ready && s.State.Waiting.isSome)
        status.ContainerStatuses).bind fun s => s.State.Waiting) with
    | none => rw [hf] at hw; simp at hw
    | some w => rfl

theorem pendingConditionLoop_of_find (cfg : K8sPluginConfig) (now : Int) (status : PodStatus)
    (info : TaskInfo) (c : PodCondition) (conds : List PodCondition) (t : Int)
    (h : conds.find? (conditionDecides status) = some c) :
    pendingConditionLoop cfg now status
        (PhaseInfoQueuedWithTaskInfo now "Demistify Pending" (some info)) t conds =
      decidedOutcome cfg now status info c := by
  induction conds generalizing t with
  | nil => simp at h
  | cons q rest ih =>
    rw [List.find?_cons] at h
    cases hq : conditionDecides status q with
    | true =>
      rw [hq] at h
      simp only [Option.some.injEq] at h
      subst h
      exact pendingConditionLoop_hit cfg now status info t q rest hq
    | false =>
      rw [hq] at h
      rw [pendingConditionLoop_skip cfg now status _ t q rest hq]
      exact ih _ h

theorem demystifyPendingHelper_of_deciding (cfg : K8sPluginConfig) (now : Int)
    (status : PodStatus) (info : TaskInfo) (c : PodCondition)
    (h : decidingCondition status = some c) :
    demystifyPendingHelper cfg now status info = decidedOutcome cfg now status info c :=
  pendingConditionLoop_of_find cfg now status info c status.Conditions now h

/-- Without a deciding condition the helper returns its initial Queued outcome
and the transition time of the last condition (the clock reading when there is
no condition). -/
theorem pendingConditionLoop_of_find_none (cfg : K8sPluginConfig) (now : Int)
    (status : PodStatus) (pi : PhaseInfo) (conds : List PodCondition) (t : Int)
    (h : conds.find? (conditionDecides status) = none) :
    (pendingConditionLoop cfg now status pi t conds).1 = pi := by
  induction conds generalizing t with
  | nil => rfl
  | cons q rest ih =>
    rw [List.find?_cons] at h
    cases hq : conditionDecides status q with
    | true => rw [hq] at h; simp at h
    | false =>
      rw [hq] at h
      rw [pendingConditionLoop_skip cfg now status _ t q rest hq]
      exact ih _ h

theorem pendingWaitingOutcome_phase_ne_undefined (cfg : K8sPluginConfig) (now : Int)
    (c : PodCondition) (t : Int) (w : ContainerStateWaiting) :
    (pendingWaitingOutcome cfg now c t w).1.phase ≠ Phase.Undefined := by
  unfold pendingWaitingOutcome
  simp only
  split_ifs <;>
    simp [PhaseInfoInitializing, PhaseInfoFailureWithCleanup,
      PhaseInfoRetryableFailureWithCleanup, PhaseInfoSystemRetryableFailureWithCleanup,
      PhaseInfoFailed]

/-- The sub-interpreter never returns the Undefined phase. -/
theorem demystifyPendingHelper_phase_ne_undefined (cfg : K8sPluginConfig) (now : Int)
    (status : PodStatus) (info : TaskInfo) :
    (demystifyPendingHelper cfg now status info).1.phase ≠ Phase.Undefined := by
  cases hd : decidingCondition status with
  | some c =>
    rw [demystifyPendingHelper_of_deciding cfg now status info c hd]
    unfold decidedOutcome
    split_ifs
    · cases hw : firstNotReadyWaiting status with
      | none => simp [PhaseInfoQueuedWithTaskInfo]
      | some w => exact pendingWaitingOutcome_phase_ne_undefined cfg now c _ w
    · simp [PhaseInfoQueuedWithTaskInfo]
  | none =>
    unfold demystifyPendingHelper
    simp only
    rw [pendingConditionLoop_of_find_none cfg now status _ status.Conditions now hd]
    simp [PhaseInfoQueuedWithTaskInfo]

/-- The outcome of `DemystifyPending` when the pod sits under a deciding Ready=False
condition `c` and `w` is the waiting state of the first not-ready waiting
container: the helper returns the outcome of the reason switch at time
`c.LastTransitionTime`. -/
theorem demystifyPendingHelper_ready (cfg : K8sPluginConfig) (now : Int)
    (status : PodStatus) (info : TaskInfo) (c : PodCondition) (w : ContainerStateWaiting)
    (hc : decidingCondition status = some c) (hty : c.Type_ = "Ready")
    (hw : firstNotReadyWaiting status = some w) :
    demystifyPendingHelper cfg now status info =
      pendingWaitingOutcome cfg now c c.LastTransitionTime w := by
  rw [demystifyPendingHelper_of_deciding cfg now status info c hc]
  unfold decidedOutcome
  rw [if_pos hty, hw]

theorem pendingWaitingOutcome_imagePullBackOff (cfg : K8sPluginConfig) (now : Int)
    (c : PodCondition) (w : ContainerStateWaiting) (hr : w.Reason = "ImagePullBackOff") :
    pendingWaitingOutcome cfg now c c.LastTransitionTime w =
      if timeSince now c.LastTransitionTime ≥ cfg.ImagePullBackoffGracePeriod then
        (PhaseInfoRetryableFailureWithCleanup (c.Reason ++ "|" ++ w.Reason)
          (GetMessageAfterGracePeriod (c.Message ++ "|" ++ w.Message)
            cfg.ImagePullBackoffGracePeriod)
          (some { OccurredAt := some c.LastTransitionTime }), c.LastTransitionTime)
      else (initializingOutcome c w, c.LastTransitionTime) := by
  unfold pendingWaitingOutcome initializingOutcome
  simp [hr]

theorem pendingWaitingOutcome_createContainerError (cfg : K8sPluginConfig) (now : Int)
    (c : PodCondition) (w : ContainerStateWaiting) (hr : w.Reason = "CreateContainerError") :
    pendingWaitingOutcome cfg now c c.LastTransitionTime w =
      if timeSince now c.LastTransitionTime ≥ cfg.CreateContainerErrorGracePeriod then
        (PhaseInfoFailureWithCleanup (c.Reason ++ "|" ++ w.Reason)
          (GetMessageAfterGracePeriod (c.Message ++ "|" ++ w.Message)
            cfg.CreateContainerErrorGracePeriod)
          (some { OccurredAt := some c.LastTransitionTime }), c.LastTransitionTime)
      else (initializingOutcome c w, c.LastTransitionTime) := by
  unfold pendingWaitingOutcome initializingOutcome
  simp [hr]

theorem pendingWaitingOutcome_createContainerConfigError (cfg : K8sPluginConfig) (now : Int)
    (c : PodCondition) (w : ContainerStateWaiting)
    (hr : w.Reason = "CreateContainerConfigError") :
    pendingWaitingOutcome cfg now c c.LastTransitionTime w =
      if timeSince now c.LastTransitionTime ≥ cfg.CreateContainerConfigErrorGracePeriod then
        (PhaseInfoFailureWithCleanup (c.Reason ++ "|" ++ w.Reason)
          (GetMessageAfterGracePeriod (c.Message ++ "|" ++ w.Message)
            cfg.CreateContainerConfigErrorGracePeriod)
          (some { OccurredAt := some c.LastTransitionTime }), c.LastTransitionTime)
      else (initializingOutcome c w, c.LastTransitionTime) := by
  unfold pendingWaitingOutcome initializingOutcome
  simp [hr]

theorem pendingWaitingOutcome_invalidImageName (cfg : K8sPluginConfig) (now : Int)
    (c : PodCondition) (w : ContainerStateWaiting) (hr : w.Reason = "InvalidImageName") :
    pendingWaitingOutcome cfg now c c.LastTransitionTime w =
      (PhaseInfoFailureWithCleanup (c.Reason ++ "|" ++ w.Reason)
        (c.Message ++ "|" ++ w.Message)
        (some { OccurredAt := some c.LastTransitionTime }), c.LastTransitionTime) := by
  unfold pendingWaitingOutcome
  simp [hr]

/-- `DemystifyPending` in terms of the outcome of the sub-interpreter. -/
theorem demystifyPending_eq (cfg : K8sPluginConfig) (now : Int) (status : PodStatus)
    (info : TaskInfo) :
    DemystifyPending cfg now status info =
      if (demystifyPendingHelper cfg now status info).1.phase.IsTerminal = false ∧
          pendingTimeoutReached cfg (timeSince now (demystifyPendingHelper cfg now status info).2)
      then
        PhaseInfoRetryableFailureWithCleanup "PodPendingTimeout"
          (demystifyPendingHelper cfg now status info).1.reason
          (some { OccurredAt := some (demystifyPendingHelper cfg now status info).2 })
      else (demystifyPendingHelper cfg now status info).1 := by
  have hne := demystifyPendingHelper_phase_ne_undefined cfg now status info
  unfold DemystifyPending pendingTimeoutReached
  simp only
  by_cases hterm : (demystifyPendingHelper cfg now status info).1.phase.IsTerminal = true
  · rw [if_pos hterm, if_neg (fun hx => by rw [hterm] at hx; exact absurd hx.1 (by decide))]
  · have hf : (demystifyPendingHelper cfg now status info).1.phase.IsTerminal = false := by
      simpa using hterm
    rw [if_neg hterm]
    by_cases hto : cfg.PodPendingTimeout > 0 ∧
        timeSince now (demystifyPendingHelper cfg now status info).2 ≥ cfg.PodPendingTimeout
    · rw [if_pos hto, if_pos ⟨hf, hto⟩]
    · rw [if_neg hto, if_pos hne, if_neg (fun hx => hto hx.2)]

/-- The outcome of `DemystifyPending` when the pod-pending timeout is not reached
at the transition time `t` answered by the sub-interpreter. -/
theorem demystifyPending_of_not_reached (cfg : K8sPluginConfig) (now : Int)
    (status : PodStatus) (info : TaskInfo) (pi : PhaseInfo) (t : Int)
    (h : demystifyPendingHelper cfg now status info = (pi, t))
    (hto : ¬ pendingTimeoutReached cfg (timeSince now t)) :
    DemystifyPending cfg now status info = pi := by
  rw [demystifyPending_eq, h]
  simp only
  rw [if_neg (fun hx => hto hx.2)]

/-- The outcome of `DemystifyPending` when the sub-interpreter answers with a
terminal phase. -/
theorem demystifyPending_of_terminal (cfg : K8sPluginConfig) (now : Int)
    (status : PodStatus) (info : TaskInfo) (pi : PhaseInfo) (t : Int)
    (h : demystifyPendingHelper cfg now status info = (pi, t))
    (hp : pi.phase.IsTerminal = true) :
    DemystifyPending cfg now status info = pi := by
  rw [demystifyPending_eq, h]
  simp only
  rw [if_neg (fun hx => by rw [hp] at hx; exact absurd hx.1 (by decide))]

theorem stringsContains_append_left (a b sub : String) (h : stringsContains b sub = true) :
    stringsContains (a ++ b) sub = true := by
  unfold stringsContains at *
  rw [String.data_append]
  exact hasInfix_append_left _ _ _ h

theorem stringsContains_head (sub d : String) : stringsContains (sub ++ d) sub = true := by
  unfold stringsContains
  rw [String.data_append]
  exact hasInfix_of_isPrefixOf _ _ (isPrefixOf_self_append _ _)

theorem stringsContains_self (sub : String) : stringsContains sub sub = true := by
  have h := stringsContains_head sub ""
  simpa using h

/-- The reason text of the Initializing outcome contains the waiting reason. -/
theorem initializingOutcome_reason_contains (c : PodCondition) (w : ContainerStateWaiting) :
    stringsContains (initializingOutcome c w).reason w.Reason = true := by
  unfold initializingOutcome PhaseInfoInitializing
  simp only [String.append_assoc]
  exact stringsContains_append_left _ _ _
    (stringsContains_append_left _ _ _
      (stringsContains_append_left _ _ _ (stringsContains_head _ _)))

/-- A deciding condition of type Ready has status False. -/
theorem decidingCondition_ready_status (status : PodStatus) (c : PodCondition)
    (hc : decidingCondition status = some c) (hty : c.Type_ = "Ready") : c.Status = "False" := by
  have hd := List.find?_some hc
  have e1 : ("Ready" : String) ≠ "PodScheduled" := by decide
  have e2 : ("Ready" : String) ≠ "Unschedulable" := by decide
  have h2 : c.Status = "False" ∧ (firstNotReadyWaiting status).isSome = true := by
    simpa [conditionDecides, hty, e1, e2] using hd
  exact h2.1

/-! ## Claims on `DemystifyPending` -/

/-- C7: for a pod status whose deciding condition `c` is Ready=False (a deciding
condition of type Ready has status False) and whose first not-ready waiting
container has reason "ImagePullBackOff": while the time since `c`'s last
transition is below `ImagePullBackoffGracePeriod` and the pod-pending timeout is
not reached, `DemystifyPending` returns Initializing with a reason text
containing "ImagePullBackOff"; once it is at least the grace period it returns
RetryableFailure with cleanup, whose reason contains "ImagePullBackOff" and whose
message begins with "Grace period [<grace>] exceeded|". -/
theorem C7_image_pull_backoff_grace (cfg : K8sPluginConfig) (now : Int) (status : PodStatus)
    (info : TaskInfo) (c : PodCondition) (w : ContainerStateWaiting)
    (hc : decidingCondition status = some c) (hty : c.Type_ = "Ready")
    (hw : firstNotReadyWaiting status = some w) (hr : w.Reason = "ImagePullBackOff") :
    c.Status = "False" ∧
    (timeSince now c.LastTransitionTime < cfg.ImagePullBackoffGracePeriod →
      ¬ pendingTimeoutReached cfg (timeSince now c.LastTransitionTime) →
      (DemystifyPending cfg now status info).phase = Phase.Initializing ∧
      stringsContains (DemystifyPending cfg now status info).reason "ImagePullBackOff" = true) ∧
    (cfg.ImagePullBackoffGracePeriod ≤ timeSince now c.LastTransitionTime →
      (DemystifyPending cfg now status info).phase = Phase.RetryableFailure ∧
      (DemystifyPending cfg now status info).cleanupOnFailure = true ∧
      stringsContains (DemystifyPending cfg now status info).reason "ImagePullBackOff" = true ∧
      stringsHasPrefix (DemystifyPending cfg now status info).message
        ("Grace period [" ++ durationString cfg.ImagePullBackoffGracePeriod ++ "] exceeded|")
        = true) := by
  have hh := demystifyPendingHelper_ready cfg now status info c w hc hty hw
  rw [pendingWaitingOutcome_imagePullBackOff cfg now c w hr] at hh
  refine ⟨?_, ?_, ?_⟩
  · exact decidingCondition_ready_status status c hc hty
  · intro hlt hto
    rw [if_neg (not_le.mpr hlt)] at hh
    rw [demystifyPending_of_not_reached cfg now status info _ _ hh hto]
    refine ⟨rfl, ?_⟩
    have := initializingOutcome_reason_contains c w
    rwa [hr] at this
  · intro hge
    rw [if_pos hge] at hh
    rw [demystifyPending_of_terminal cfg now status info _ _ hh rfl]
    refine ⟨rfl, rfl, ?_, ?_⟩
    · show stringsContains (c.Reason ++ "|" ++ w.Reason) "ImagePullBackOff" = true
      rw [hr]
      exact stringsContains_append_left _ _ _ (stringsContains_self _)
    · show stringsHasPrefix (GetMessageAfterGracePeriod _ _) _ = true
      unfold GetMessageAfterGracePeriod
      exact stringsHasPrefix_append _ _

/-- C7 (witness): image pull back-off for five minutes under a grace period of
three minutes: the outcome is RetryableFailure with cleanup and its message
begins with "Grace period [3m0s] exceeded|". -/
theorem C7_image_pull_backoff_grace_witness :
    decidingCondition (pendingPodWaiting "ImagePullBackOff" 0) = some (readyFalseCondition 0) ∧
    firstNotReadyWaiting (pendingPodWaiting "ImagePullBackOff" 0) =
      some { Reason := "ImagePullBackOff", Message := "" } ∧
    sampleConfig.ImagePullBackoffGracePeriod ≤ timeSince 300000000000 0 ∧
    (DemystifyPending sampleConfig 300000000000 (pendingPodWaiting "ImagePullBackOff" 0)
        ⟨none⟩).phase = Phase.RetryableFailure ∧
    stringsHasPrefix
      (DemystifyPending sampleConfig 300000000000 (pendingPodWaiting "ImagePullBackOff" 0)
        ⟨none⟩).message "Grace period [3m0s] exceeded|" = true :=
  have h := (C7_image_pull_backoff_grace sampleConfig 300000000000
    (pendingPodWaiting "ImagePullBackOff" 0) ⟨none⟩ (readyFalseCondition 0)
    { Reason := "ImagePullBackOff", Message := "" } (by decide) rfl (by decide) rfl).2.2
    (by decide)
  ⟨by decide, by decide, by decide, h.1, h.2.2.2⟩

/-- C8: for a pod status whose deciding condition `c` is Ready=False and whose
first not-ready waiting container has reason "CreateContainerError" (resp.
"CreateContainerConfigError"): `DemystifyPending` returns Initializing while the
time since `c`'s last transition is below `CreateContainerErrorGracePeriod`
(resp. `CreateContainerConfigErrorGracePeriod`) and the pod-pending timeout is
not reached, and PermanentFailure with cleanup as soon as that time is at least
the grace period, the case of equality included. -/
theorem C8_create_container_error_grace (cfg : K8sPluginConfig) (now : Int)
    (status : PodStatus) (info : TaskInfo) (c : PodCondition) (w : ContainerStateWaiting)
    (hc : decidingCondition status = some c) (hty : c.Type_ = "Ready")
    (hw : firstNotReadyWaiting status = some w) :
    c.Status = "False" ∧
    (w.Reason = "CreateContainerError" →
      (timeSince now c.LastTransitionTime < cfg.CreateContainerErrorGracePeriod →
        ¬ pendingTimeoutReached cfg (timeSince now c.LastTransitionTime) →
        (DemystifyPending cfg now status info).phase = Phase.Initializing) ∧
      (cfg.CreateContainerErrorGracePeriod ≤ timeSince now c.LastTransitionTime →
        (DemystifyPending cfg now status info).phase = Phase.PermanentFailure ∧
        (DemystifyPending cfg now status info).cleanupOnFailure = true) ∧
      (timeSince now c.LastTransitionTime = cfg.CreateContainerErrorGracePeriod →
        (DemystifyPending cfg now status info).phase = Phase.PermanentFailure ∧
        (DemystifyPending cfg now status info).cleanupOnFailure = true)) ∧
    (w.Reason = "CreateContainerConfigError" →
      (timeSince now c.LastTransitionTime < cfg.CreateContainerConfigErrorGracePeriod →
        ¬ pendingTimeoutReached cfg (timeSince now c.LastTransitionTime) →
        (DemystifyPending cfg now status info).phase = Phase.Initializing) ∧
      (cfg.CreateContainerConfigErrorGracePeriod ≤ timeSince now c.LastTransitionTime →
        (DemystifyPending cfg now status info).phase = Phase.PermanentFailure ∧
        (DemystifyPending cfg now status info).cleanupOnFailure = true) ∧
      (timeSince now c.LastTransitionTime = cfg.CreateContainerConfigErrorGracePeriod →
        (DemystifyPending cfg now status info).phase = Phase.PermanentFailure ∧
        (DemystifyPending cfg now status info).cleanupOnFailure = true)) := by
  have hh := demystifyPendingHelper_ready cfg now status info c w hc hty hw
  refine ⟨decidingCondition_ready_status status c hc hty, ?_, ?_⟩
  · intro hr
    rw [pendingWaitingOutcome_createContainerError cfg now c w hr] at hh
    have hge : cfg.CreateContainerErrorGracePeriod ≤ timeSince now c.LastTransitionTime →
        (DemystifyPending cfg now status info).phase = Phase.PermanentFailure ∧
        (DemystifyPending cfg now status info).cleanupOnFailure = true := by
      intro hge
      rw [if_pos hge] at hh
      rw [demystifyPending_of_terminal cfg now status info _ _ hh rfl]
      exact ⟨rfl, rfl⟩
    refine ⟨?_, hge, fun heq => hge (le_of_eq heq.symm)⟩
    intro hlt hto
    rw [if_neg (not_le.mpr hlt)] at hh
    rw [demystifyPending_of_not_reached cfg now status info _ _ hh hto]
    rfl
  · intro hr
    rw [pendingWaitingOutcome_createContainerConfigError cfg now c w hr] at hh
    have hge : cfg.CreateContainerConfigErrorGracePeriod ≤ timeSince now c.LastTransitionTime →
        (DemystifyPending cfg now status info).phase = Phase.PermanentFailure ∧
        (DemystifyPending cfg now status info).cleanupOnFailure = true := by
      intro hge
      rw [if_pos hge] at hh
      rw [demystifyPending_of_terminal cfg now status info _ _ hh rfl]
      exact ⟨rfl, rfl⟩
    refine ⟨?_, hge, fun heq => hge (le_of_eq heq.symm)⟩
    intro hlt hto
    rw [if_neg (not_le.mpr hlt)] at hh
    rw [demystifyPending_of_not_reached cfg now status info _ _ hh hto]
    rfl

/-- C8 (witness): a container creation error that has lasted exactly the grace
period of three minutes: the outcome is PermanentFailure with cleanup. -/
theorem C8_create_container_error_grace_witness :
    decidingCondition (pendingPodWaiting "CreateContainerError" 0) =
      some (readyFalseCondition 0) ∧
    firstNotReadyWaiting (pendingPodWaiting "CreateContainerError" 0) =
      some { Reason := "CreateContainerError", Message := "" } ∧
    timeSince 180000000000 0 = sampleConfig.CreateContainerErrorGracePeriod ∧
    (DemystifyPending sampleConfig 180000000000 (pendingPodWaiting "CreateContainerError" 0)
        ⟨none⟩).phase = Phase.PermanentFailure ∧
    (DemystifyPending sampleConfig 180000000000 (pendingPodWaiting "CreateContainerError" 0)
        ⟨none⟩).cleanupOnFailure = true :=
  ⟨by decide, by decide, by decide,
   ((C8_create_container_error_grace sampleConfig 180000000000
      (pendingPodWaiting "CreateContainerError" 0) ⟨none⟩ (readyFalseCondition 0)
      { Reason := "CreateContainerError", Message := "" } (by decide) rfl (by decide)).2.1
      rfl).2.2 (by decide)⟩

/-- C9: `DemystifyPending` replaces the outcome of the sub-interpreter by
RetryableFailure (with cleanup) with reason "PodPendingTimeout" exactly when that
outcome is not terminal, `PodPendingTimeout` is positive and the time since the
transition time returned by the sub-interpreter is at least `PodPendingTimeout`;
otherwise it returns the outcome of the sub-interpreter unchanged, in particular
when that outcome is terminal and when the timeout is zero or negative. -/
theorem C9_pending_timeout_coercion (cfg : K8sPluginConfig) (now : Int) (status : PodStatus)
    (info : TaskInfo) :
    (((demystifyPendingHelper cfg now status info).1.phase.IsTerminal = false ∧
        0 < cfg.PodPendingTimeout ∧
        cfg.PodPendingTimeout ≤ timeSince now (demystifyPendingHelper cfg now status info).2) →
      DemystifyPending cfg now status info =
        PhaseInfoRetryableFailureWithCleanup "PodPendingTimeout"
          (demystifyPendingHelper cfg now status info).1.reason
          (some { OccurredAt := some (demystifyPendingHelper cfg now status info).2 }) ∧
      (DemystifyPending cfg now status info).phase = Phase.RetryableFailure ∧
      (DemystifyPending cfg now status info).reason = "PodPendingTimeout") ∧
    (¬ ((demystifyPendingHelper cfg now status info).1.phase.IsTerminal = false ∧
        0 < cfg.PodPendingTimeout ∧
        cfg.PodPendingTimeout ≤ timeSince now (demystifyPendingHelper cfg now status info).2) →
      DemystifyPending cfg now status info = (demystifyPendingHelper cfg now status info).1) ∧
    ((demystifyPendingHelper cfg now status info).1.phase.IsTerminal = true →
      DemystifyPending cfg now status info = (demystifyPendingHelper cfg now status info).1) ∧
    (cfg.PodPendingTimeout ≤ 0 →
      DemystifyPending cfg now status info = (demystifyPendingHelper cfg now status info).1) := by
  have he := demystifyPending_eq cfg now status info
  unfold pendingTimeoutReached at he
  have hneg : ¬ ((demystifyPendingHelper cfg now status info).1.phase.IsTerminal = false ∧
        0 < cfg.PodPendingTimeout ∧
        cfg.PodPendingTimeout ≤ timeSince now (demystifyPendingHelper cfg now status info).2) →
      DemystifyPending cfg now status info = (demystifyPendingHelper cfg now status info).1 := by
    intro h
    rw [he, if_neg h]
  refine ⟨?_, hneg, ?_, ?_⟩
  · intro h
    rw [he, if_pos h]
    exact ⟨rfl, rfl, rfl⟩
  · intro ht
    apply hneg
    rintro ⟨hf, _⟩
    rw [ht] at hf
    exact absurd hf (by decide)
  · intro hz
    apply hneg
    rintro ⟨_, hpos, _⟩
    exact absurd hpos (not_lt.mpr hz)

/-- C9 (witness): a container still being created two minutes after the last
transition, under a pod-pending timeout of one minute: the Initializing outcome
of the sub-interpreter is replaced by the PodPendingTimeout failure. -/
theorem C9_pending_timeout_coercion_witness :
    (demystifyPendingHelper timeoutConfig 120000000000
        (pendingPodWaiting "ContainerCreating" 0) ⟨none⟩).1.phase = Phase.Initializing ∧
    (DemystifyPending timeoutConfig 120000000000
        (pendingPodWaiting "ContainerCreating" 0) ⟨none⟩).phase = Phase.RetryableFailure ∧
    (DemystifyPending timeoutConfig 120000000000
        (pendingPodWaiting "ContainerCreating" 0) ⟨none⟩).reason = "PodPendingTimeout" :=
  ⟨by decide,
   ((C9_pending_timeout_coercion timeoutConfig 120000000000
      (pendingPodWaiting "ContainerCreating" 0) ⟨none⟩).1 (by decide)).2⟩

/-- C10: for a pod status whose deciding condition `c` is Ready=False and whose
first not-ready waiting container has reason "InvalidImageName",
`DemystifyPending` returns PermanentFailure with cleanup, whatever the clock, the
grace periods and the pod-pending timeout are. -/
theorem C10_invalid_image_name_permanent (cfg : K8sPluginConfig) (now : Int)
    (status : PodStatus) (info : TaskInfo) (c : PodCondition) (w : ContainerStateWaiting)
    (hc : decidingCondition status = some c) (hty : c.Type_ = "Ready")
    (hw : firstNotReadyWaiting status = some w) (hr : w.Reason = "InvalidImageName") :
    c.Status = "False" ∧
    (DemystifyPending cfg now status info).phase = Phase.PermanentFailure ∧
    (DemystifyPending cfg now status info).cleanupOnFailure = true ∧
    DemystifyPending cfg now status info =
      PhaseInfoFailureWithCleanup (c.Reason ++ "|" ++ "InvalidImageName")
        (c.Message ++ "|" ++ w.Message) (some { OccurredAt := some c.LastTransitionTime }) := by
  have hh := demystifyPendingHelper_ready cfg now status info c w hc hty hw
  rw [pendingWaitingOutcome_invalidImageName cfg now c w hr] at hh
  rw [demystifyPending_of_terminal cfg now status info _ _ hh rfl, hr]
  exact ⟨decidingCondition_ready_status status c hc hty, rfl, rfl, rfl⟩

/-- C10 (witness): an invalid image name seen at the very instant of the
transition, under a pod-pending timeout of one minute that has long passed for
the clock chosen: the outcome is PermanentFailure with cleanup. -/
theorem C10_invalid_image_name_permanent_witness :
    decidingCondition (pendingPodWaiting "InvalidImageName" 0) =
      some (readyFalseCondition 0) ∧
    (DemystifyPending timeoutConfig 900000000000 (pendingPodWaiting "InvalidImageName" 0)
        ⟨none⟩).phase = Phase.PermanentFailure ∧
    (DemystifyPending timeoutConfig 900000000000 (pendingPodWaiting "InvalidImageName" 0)
        ⟨none⟩).cleanupOnFailure = true :=
  have h := C10_invalid_image_name_permanent timeoutConfig 900000000000
    (pendingPodWaiting "InvalidImageName" 0) ⟨none⟩ (readyFalseCondition 0)
    { Reason := "InvalidImageName", Message := "" } (by decide) rfl (by decide) rfl
  ⟨by decide, h.2.1, h.2.2.1⟩

/-! ## Further claims on `DemystifyPending` -/

theorem pendingWaitingOutcome_other (cfg : K8sPluginConfig) (now : Int)
    (c : PodCondition) (w : ContainerStateWaiting)
    (h1 : w.Reason ≠ "ErrImagePull") (h2 : w.Reason ≠ "ContainerCreating")
    (h3 : w.Reason ≠ "PodInitializing") (h4 : w.Reason ≠ "CreateContainerError")
    (h5 : w.Reason ≠ "CreateContainerConfigError") (h6 : w.Reason ≠ "InvalidImageName")
    (h7 : w.Reason ≠ "ImagePullBackOff") :
    pendingWaitingOutcome cfg now c c.LastTransitionTime w =
      (PhaseInfoSystemRetryableFailureWithCleanup (c.Reason ++ "|" ++ w.Reason)
        (c.Message ++ "|" ++ w.Message)
        (some { OccurredAt := some c.LastTransitionTime }), c.LastTransitionTime) := by
  unfold pendingWaitingOutcome
  simp [h1, h2, h3, h4, h5, h6, h7]

theorem pendingWaitingOutcome_initializing (cfg : K8sPluginConfig) (now : Int)
    (c : PodCondition) (w : ContainerStateWaiting)
    (h : w.Reason = "ErrImagePull" ∨ w.Reason = "ContainerCreating" ∨
      w.Reason = "PodInitializing") :
    pendingWaitingOutcome cfg now c c.LastTransitionTime w =
      (initializingOutcome c w, c.LastTransitionTime) := by
  unfold pendingWaitingOutcome initializingOutcome
  simp [h]

/-- A deciding condition of type PodScheduled has status False. -/
theorem decidingCondition_scheduled_status (status : PodStatus) (c : PodCondition)
    (hc : decidingCondition status = some c) (hty : c.Type_ = "PodScheduled") :
    c.Status = "False" := by
  have hd := List.find?_some hc
  have e1 : ("PodScheduled" : String) ≠ "Ready" := by decide
  have e2 : ("PodScheduled" : String) ≠ "Unschedulable" := by decide
  simpa [conditionDecides, hty, e1, e2] using hd

/-- C11: for a pod status whose deciding condition `c` is Ready=False and whose
first not-ready waiting container has a reason other than ErrImagePull,
ContainerCreating, PodInitializing, CreateContainerError,
CreateContainerConfigError, InvalidImageName and ImagePullBackOff (the empty
reason is one such), `DemystifyPending` returns SystemRetryableFailure with
cleanup, whatever the clock and the configuration are. -/
theorem C11_other_waiting_reason_system_retryable (cfg : K8sPluginConfig) (now : Int)
    (status : PodStatus) (info : TaskInfo) (c : PodCondition) (w : ContainerStateWaiting)
    (hc : decidingCondition status = some c) (hty : c.Type_ = "Ready")
    (hw : firstNotReadyWaiting status = some w)
    (h1 : w.Reason ≠ "ErrImagePull") (h2 : w.Reason ≠ "ContainerCreating")
    (h3 : w.Reason ≠ "PodInitializing") (h4 : w.Reason ≠ "CreateContainerError")
    (h5 : w.Reason ≠ "CreateContainerConfigError") (h6 : w.Reason ≠ "InvalidImageName")
    (h7 : w.Reason ≠ "ImagePullBackOff") :
    c.Status = "False" ∧
    (DemystifyPending cfg now status info).phase = Phase.SystemRetryableFailure ∧
    (DemystifyPending cfg now status info).cleanupOnFailure = true ∧
    DemystifyPending cfg now status info =
      PhaseInfoSystemRetryableFailureWithCleanup (c.Reason ++ "|" ++ w.Reason)
        (c.Message ++ "|" ++ w.Message) (some { OccurredAt := some c.LastTransitionTime }) := by
  have hh := demystifyPendingHelper_ready cfg now status info c w hc hty hw
  rw [pendingWaitingOutcome_other cfg now c w h1 h2 h3 h4 h5 h6 h7] at hh
  rw [demystifyPending_of_terminal cfg now status info _ _ hh rfl]
  exact ⟨decidingCondition_ready_status status c hc hty, rfl, rfl, rfl⟩

/-- C11 (witness): a not-ready container waiting with the empty reason. -/
theorem C11_other_waiting_reason_system_retryable_witness :
    decidingCondition (pendingPodWaiting "" 0) = some (readyFalseCondition 0) ∧
    firstNotReadyWaiting (pendingPodWaiting "" 0) = some { Reason := "", Message := "" } ∧
    (DemystifyPending sampleConfig 1000 (pendingPodWaiting "" 0) ⟨none⟩).phase =
      Phase.SystemRetryableFailure ∧
    (DemystifyPending sampleConfig 1000 (pendingPodWaiting "" 0) ⟨none⟩).cleanupOnFailure =
      true :=
  have h := C11_other_waiting_reason_system_retryable sampleConfig 1000
    (pendingPodWaiting "" 0) ⟨none⟩ (readyFalseCondition 0) { Reason := "", Message := "" }
    (by decide) rfl (by decide) (by decide) (by decide) (by decide) (by decide) (by decide)
    (by decide) (by decide)
  ⟨by decide, by decide, h.2.1, h.2.2.1⟩

/-- C12: for a pod status whose deciding condition `c` is Ready=False with
last-transition time `t` and whose first not-ready waiting container has reason
"ErrImagePull", "ContainerCreating" or "PodInitializing", `DemystifyPending`
returns Initializing with occurrence time `t` (as the time of the outcome and in
its task info), provided the pod-pending timeout is not reached (which is the
case when it is disabled). -/
theorem C12_transient_waiting_reason_initializing (cfg : K8sPluginConfig) (now : Int)
    (status : PodStatus) (info : TaskInfo) (c : PodCondition) (w : ContainerStateWaiting)
    (hc : decidingCondition status = some c) (hty : c.Type_ = "Ready")
    (hw : firstNotReadyWaiting status = some w)
    (hr : w.Reason = "ErrImagePull" ∨ w.Reason = "ContainerCreating" ∨
      w.Reason = "PodInitializing")
    (hto : ¬ pendingTimeoutReached cfg (timeSince now c.LastTransitionTime)) :
    c.Status = "False" ∧
    (DemystifyPending cfg now status info).phase = Phase.Initializing ∧
    (DemystifyPending cfg now status info).occurredAt = some c.LastTransitionTime ∧
    (DemystifyPending cfg now status info).info =
      some { OccurredAt := some c.LastTransitionTime } ∧
    (cfg.PodPendingTimeout ≤ 0 →
      ¬ pendingTimeoutReached cfg (timeSince now c.LastTransitionTime)) := by
  have hh := demystifyPendingHelper_ready cfg now status info c w hc hty hw
  rw [pendingWaitingOutcome_initializing cfg now c w hr] at hh
  rw [demystifyPending_of_not_reached cfg now status info _ _ hh hto]
  refine ⟨decidingCondition_ready_status status c hc hty, rfl, rfl, rfl, ?_⟩
  intro hz hx
  exact absurd hx.1 (not_lt.mpr hz)

/-- C12 (witness): a container being created, pod-pending timeout disabled. -/
theorem C12_transient_waiting_reason_initializing_witness :
    decidingCondition (pendingPodWaiting "ContainerCreating" 500) =
      some (readyFalseCondition 500) ∧
    (DemystifyPending sampleConfig 900000000000 (pendingPodWaiting "ContainerCreating" 500)
        ⟨none⟩).phase = Phase.Initializing ∧
    (DemystifyPending sampleConfig 900000000000 (pendingPodWaiting "ContainerCreating" 500)
        ⟨none⟩).occurredAt = some 500 :=
  have h := C12_transient_waiting_reason_initializing sampleConfig 900000000000
    (pendingPodWaiting "ContainerCreating" 500) ⟨none⟩ (readyFalseCondition 500)
    { Reason := "ContainerCreating", Message := "" } (by decide) rfl (by decide)
    (Or.inr (Or.inl rfl)) (by decide)
  ⟨by decide, h.2.1, h.2.2.1⟩

/-- C13: for a pod status whose first deciding condition `c` has type PodScheduled
(its status is then False), `DemystifyPending` returns Queued with `c`'s
last-transition time and the reason text "<reason of c>:<message of c>",
provided the pod-pending timeout is not reached; the outcome is the same for
every pod status with the same conditions under which `c` still decides,
whatever its container statuses are. -/
theorem C13_unscheduled_queued (cfg : K8sPluginConfig) (now : Int)
    (status : PodStatus) (info : TaskInfo) (c : PodCondition)
    (hc : decidingCondition status = some c) (hty : c.Type_ = "PodScheduled")
    (hto : ¬ pendingTimeoutReached cfg (timeSince now c.LastTransitionTime)) :
    c.Status = "False" ∧
    demystifyPendingHelper cfg now status info =
      (PhaseInfoQueuedWithTaskInfo c.LastTransitionTime (c.Reason ++ ":" ++ c.Message)
        (some info), c.LastTransitionTime) ∧
    DemystifyPending cfg now status info =
      PhaseInfoQueuedWithTaskInfo c.LastTransitionTime (c.Reason ++ ":" ++ c.Message)
        (some info) ∧
    (DemystifyPending cfg now status info).phase = Phase.Queued ∧
    (DemystifyPending cfg now status info).occurredAt = some c.LastTransitionTime ∧
    (DemystifyPending cfg now status info).reason = c.Reason ++ ":" ++ c.Message ∧
    (∀ other : PodStatus, other.Conditions = status.Conditions →
      decidingCondition other = some c →
      DemystifyPending cfg now other info = DemystifyPending cfg now status info) := by
  have e1 : ("PodScheduled" : String) ≠ "Ready" := by decide
  have key : ∀ st : PodStatus, decidingCondition st = some c →
      demystifyPendingHelper cfg now st info =
        (PhaseInfoQueuedWithTaskInfo c.LastTransitionTime (c.Reason ++ ":" ++ c.Message)
          (some info), c.LastTransitionTime) := by
    intro st hst
    rw [demystifyPendingHelper_of_deciding cfg now st info c hst]
    unfold decidedOutcome
    rw [if_neg (by rw [hty]; exact e1)]
  have hh := key status hc
  have hd := demystifyPending_of_not_reached cfg now status info _ _ hh hto
  refine ⟨decidingCondition_scheduled_status status c hc hty, hh, hd, ?_, ?_, ?_, ?_⟩
  · rw [hd]; rfl
  · rw [hd]; rfl
  · rw [hd]; rfl
  · intro other _ ho
    rw [hd, demystifyPending_of_not_reached cfg now other info _ _ (key other ho) hto]

/-- C13 (witness): a pod that cannot be scheduled for lack of memory, with a
container status that would otherwise fail the pod. -/
theorem C13_unscheduled_queued_witness :
    decidingCondition unschedulablePod = some unschedulableCondition ∧
    (DemystifyPending sampleConfig 900000000000 unschedulablePod ⟨none⟩).phase =
      Phase.Queued ∧
    (DemystifyPending sampleConfig 900000000000 unschedulablePod ⟨none⟩).occurredAt =
      some 42 ∧
    (DemystifyPending sampleConfig 900000000000 unschedulablePod ⟨none⟩).reason =
      "Unschedulable:0/1 nodes are available: 1 Insufficient memory." :=
  have h := C13_unscheduled_queued sampleConfig 900000000000 unschedulablePod ⟨none⟩
    unschedulableCondition (by decide) rfl (by decide)
  ⟨by decide, h.2.2.2.1, h.2.2.2.2.1, h.2.2.2.2.2.1⟩

/-! ## Claims on placement -/

theorem requiredTerms_addRequired (base : Affinity) (new : List NodeSelectorRequirement) :
    requiredTerms (some (AddRequiredNodeSelectorRequirements base new)) =
      if requiredTerms (some base) = [] then [{ MatchExpressions := new }]
      else (requiredTerms (some base)).map (NodeSelectorTerm.withAdded new) := by
  rcases base with ⟨na, pa, paa⟩
  cases na with
  | none => simp [AddRequiredNodeSelectorRequirements, requiredTerms]
  | some na =>
    rcases na with ⟨req, pref⟩
    cases req with
    | none => simp [AddRequiredNodeSelectorRequirements, requiredTerms]
    | some sel =>
      rcases sel with ⟨terms⟩
      cases terms with
      | nil => simp [AddRequiredNodeSelectorRequirements, requiredTerms]
      | cons t ts =>
        simp [AddRequiredNodeSelectorRequirements, requiredTerms, NodeSelectorTerm.withAdded]

theorem preferredTerms_addRequired (base : Affinity) (new : List NodeSelectorRequirement) :
    preferredTerms (some (AddRequiredNodeSelectorRequirements base new)) =
      preferredTerms (some base) := by
  rcases base with ⟨na, pa, paa⟩
  cases na with
  | none => simp [AddRequiredNodeSelectorRequirements, preferredTerms]
  | some na => simp [AddRequiredNodeSelectorRequirements, preferredTerms]

/-- C18: `AddRequiredNodeSelectorRequirements` on an affinity with n ≥ 1 required
node-selector terms gives the same n terms in the same order, each with its old
match expressions followed by the new requirements (its match fields
unchanged); on an affinity with no required term it gives exactly one required
term whose match expressions are the new requirements. The preferred scheduling
terms and the pod (anti-)affinity are unchanged. -/
theorem C18_add_required_requirements (base : Affinity)
    (new : List NodeSelectorRequirement) :
    (requiredTerms (some base) ≠ [] →
      requiredTerms (some (AddRequiredNodeSelectorRequirements base new)) =
        (requiredTerms (some base)).map
          (fun t => { t with MatchExpressions := t.MatchExpressions ++ new }) ∧
      (requiredTerms (some (AddRequiredNodeSelectorRequirements base new))).length =
        (requiredTerms (some base)).length) ∧
    (requiredTerms (some base) = [] →
      requiredTerms (some (AddRequiredNodeSelectorRequirements base new)) =
        [{ MatchExpressions := new, MatchFields := [] }]) ∧
    preferredTerms (some (AddRequiredNodeSelectorRequirements base new)) =
      preferredTerms (some base) ∧
    (AddRequiredNodeSelectorRequirements base new).PodAffinity = base.PodAffinity ∧
    (AddRequiredNodeSelectorRequirements base new).PodAntiAffinity = base.PodAntiAffinity := by
  have h := requiredTerms_addRequired base new
  refine ⟨?_, ?_, preferredTerms_addRequired base new, rfl, rfl⟩
  · intro hne
    rw [h, if_neg hne]
    refine ⟨rfl, ?_⟩
    simp
  · intro he
    rw [h, if_pos he]

/-- C18 (witness): one required term with one expression; a second requirement
is added behind it. -/
theorem C18_add_required_requirements_witness :
    requiredTerms (some (AddRequiredNodeSelectorRequirements oneTermAffinity
        [{ Key := "gpu", Operator := "In", Values := ["a100"] }])) =
      [{ MatchExpressions :=
          [{ Key := "zone", Operator := "In", Values := ["a"] },
           { Key := "gpu", Operator := "In", Values := ["a100"] }] }] :=
  ((C18_add_required_requirements oneTermAffinity
    [{ Key := "gpu", Operator := "In", Values := ["a100"] }]).1 (by decide)).1

theorem string_length_pos (s : String) (h : s ≠ "") : s.length > 0 := by
  rcases s with ⟨l⟩
  cases l with
  | nil => exact absurd rfl h
  | cons a l => simp [String.length]

theorem any_limits_false (cfg : K8sPluginConfig) (l : List Container)
    (h : ∀ c ∈ l, c.Resources.Limits.has cfg.GpuResourceName = false) :
    l.any (fun cnt => cnt.Resources.Limits.has cfg.GpuResourceName) = false := by
  rw [List.any_eq_false]
  intro c hc
  simp [h c hc]

/-- C19: when no container of the pod spec lists the configured GPU resource
name in its resource limits, `ApplyGPUNodeSelectors` returns the pod spec
unchanged, for every GPU accelerator (the nil one included): no affinity is
created and no toleration is added. -/
theorem C19_no_gpu_container_unchanged (cfg : K8sPluginConfig) (podSpec : PodSpec)
    (gpuAccelerator : Option GPUAccelerator)
    (h : ∀ c ∈ podSpec.Containers, c.Resources.Limits.has cfg.GpuResourceName = false) :
    ApplyGPUNodeSelectors cfg podSpec gpuAccelerator = podSpec ∧
    (ApplyGPUNodeSelectors cfg podSpec gpuAccelerator).Affinity = podSpec.Affinity ∧
    (ApplyGPUNodeSelectors cfg podSpec gpuAccelerator).Tolerations = podSpec.Tolerations := by
  have he : ApplyGPUNodeSelectors cfg podSpec gpuAccelerator = podSpec := by
    unfold ApplyGPUNodeSelectors
    simp only [any_limits_false cfg podSpec.Containers h]
    rfl
  rw [he]
  exact ⟨rfl, rfl, rfl⟩

/-- C19 (witness): a pod whose only container has no limits, asked for an a100
with a partition size: no affinity and no toleration appear. -/
theorem C19_no_gpu_container_unchanged_witness :
    ApplyGPUNodeSelectors gpuConfig { Containers := [plainContainer] }
        (some { Device := "a100", PartitionSizeValue := some (.PartitionSize "1g.5gb") }) =
      { Containers := [plainContainer] } :=
  (C19_no_gpu_container_unchanged gpuConfig { Containers := [plainContainer] }
    (some { Device := "a100", PartitionSizeValue := some (.PartitionSize "1g.5gb") })
    (by decide)).1

theorem sum_lengths_withAdded (x : NodeSelectorRequirement) (l : List NodeSelectorTerm) :
    ((l.map (NodeSelectorTerm.withAdded [x])).map (fun t => t.MatchExpressions.length)).sum =
      (l.map (fun t => t.MatchExpressions.length)).sum + l.length := by
  induction l with
  | nil => rfl
  | cons t ts ih =>
    simp only [List.map_cons, List.sum_cons, List.length_cons, ih,
      NodeSelectorTerm.withAdded, List.length_append, List.length_nil]
    omega

/-- The effect of `ApplyGPUNodeSelectors` for an accelerator that carries only a
device, on a pod that asks for GPUs. -/
theorem applyGPU_device_only (cfg : K8sPluginConfig) (podSpec : PodSpec) (device : String)
    (h : requestsGpu cfg podSpec) (hd : device ≠ "") :
    ApplyGPUNodeSelectors cfg podSpec (some { Device := device, PartitionSizeValue := none }) =
      { podSpec with
        Affinity := some (AddRequiredNodeSelectorRequirements
          (match podSpec.Affinity with
            | none => {}
            | some a => a)
          [{ Key := cfg.GpuDeviceNodeLabel, Operator := "In", Values := [device] }]),
        Tolerations := podSpec.Tolerations ++
          [{ Key := cfg.GpuDeviceNodeLabel, Value := device, Operator := "Equal",
             Effect := "NoSchedule" }] } := by
  have hany : podSpec.Containers.any
      (fun cnt => cnt.Resources.Limits.has cfg.GpuResourceName) = true := by
    rw [List.any_eq_true]
    obtain ⟨c, hc, hl⟩ := h
    exact ⟨c, hc, hl⟩
  have hlen : device.length > 0 := string_length_pos device hd
  unfold ApplyGPUNodeSelectors
  simp [hany, GetDevice, GetPartitionSizeValue, hlen]

theorem requiredTerms_default (a : Option Affinity) :
    requiredTerms (some (match a with
      | none => {}
      | some x => x)) = requiredTerms a := by
  cases a <;> rfl

/-- C20 (as amended): for a pod spec with a container that lists the configured
GPU resource in its limits and an accelerator that carries only a non-empty
device, `ApplyGPUNodeSelectors` adds the requirement (device label In [device])
at the end of every existing required node-selector term, or creates a single
term holding it when there was none: the total number of required match
expressions grows by the number of existing terms, by one when there was none
(so by exactly one when the pod had at most one required term); and exactly one
toleration (device label Equal device, NoSchedule) is added at the end of the
tolerations. -/
theorem C20_gpu_device_only (cfg : K8sPluginConfig) (podSpec : PodSpec) (device : String)
    (h : requestsGpu cfg podSpec) (hd : device ≠ "") :
    requiredTerms (ApplyGPUNodeSelectors cfg podSpec
        (some { Device := device, PartitionSizeValue := none })).Affinity =
      (if requiredTerms podSpec.Affinity = [] then
        [{ MatchExpressions :=
            [{ Key := cfg.GpuDeviceNodeLabel, Operator := "In", Values := [device] }] }]
      else (requiredTerms podSpec.Affinity).map
        (fun t => { t with MatchExpressions := t.MatchExpressions ++
          [{ Key := cfg.GpuDeviceNodeLabel, Operator := "In", Values := [device] }] })) ∧
    requiredExpressionCount (ApplyGPUNodeSelectors cfg podSpec
        (some { Device := device, PartitionSizeValue := none })).Affinity =
      requiredExpressionCount podSpec.Affinity +
        max 1 (requiredTerms podSpec.Affinity).length ∧
    ((requiredTerms podSpec.Affinity).length ≤ 1 →
      requiredExpressionCount (ApplyGPUNodeSelectors cfg podSpec
          (some { Device := device, PartitionSizeValue := none })).Affinity =
        requiredExpressionCount podSpec.Affinity + 1) ∧
    (ApplyGPUNodeSelectors cfg podSpec
        (some { Device := device, PartitionSizeValue := none })).Tolerations =
      podSpec.Tolerations ++
        [{ Key := cfg.GpuDeviceNodeLabel, Value := device, Operator := "Equal",
           Effect := "NoSchedule" }] ∧
    (ApplyGPUNodeSelectors cfg podSpec
        (some { Device := device, PartitionSizeValue := none })).Tolerations.length =
      podSpec.Tolerations.length + 1 := by
  have hr := applyGPU_device_only cfg podSpec device h hd
  have hterms := requiredTerms_addRequired
    (match podSpec.Affinity with
      | none => {}
      | some a => a)
    [{ Key := cfg.GpuDeviceNodeLabel, Operator := "In", Values := [device] }]
  rw [requiredTerms_default] at hterms
  have hcount : requiredExpressionCount (some (AddRequiredNodeSelectorRequirements
      (match podSpec.Affinity with
        | none => {}
        | some a => a)
      [{ Key := cfg.GpuDeviceNodeLabel, Operator := "In", Values := [device] }])) =
      requiredExpressionCount podSpec.Affinity +
        max 1 (requiredTerms podSpec.Affinity).length := by
    unfold requiredExpressionCount
    rw [hterms]
    by_cases he : requiredTerms podSpec.Affinity = []
    · rw [if_pos he, he]
      simp
    · rw [if_neg he, sum_lengths_withAdded]
      have hpos : 0 < (requiredTerms podSpec.Affinity).length :=
        List.length_pos.mpr he
      omega
  refine ⟨?_, ?_, ?_, ?_, ?_⟩
  · rw [hr]
    exact hterms
  · rw [hr]
    exact hcount
  · intro hle
    rw [hr]
    show requiredExpressionCount (some _) = _
    rw [hcount]
    omega
  · rw [hr]
  · rw [hr]
    simp

/-- C20 (witness): a GPU pod without affinity gets one required term with the
one device expression, and one toleration. -/
theorem C20_gpu_device_only_witness :
    requestsGpu gpuConfig (gpuPod none) ∧
    requiredExpressionCount (ApplyGPUNodeSelectors gpuConfig (gpuPod none)
        (some { Device := "a100", PartitionSizeValue := none })).Affinity = 1 ∧
    (ApplyGPUNodeSelectors gpuConfig (gpuPod none)
        (some { Device := "a100", PartitionSizeValue := none })).Tolerations =
      [{ Key := "gpu-device", Value := "a100", Operator := "Equal", Effect := "NoSchedule" }] :=
  have hreq : requestsGpu gpuConfig (gpuPod none) := ⟨gpuContainer, by decide, by decide⟩
  have h := C20_gpu_device_only gpuConfig (gpuPod none) "a100" hreq (by decide)
  ⟨hreq, h.2.1, h.2.2.2.1⟩

/-- C20 (counterexample): on a GPU pod whose affinity has two required terms, an
accelerator with only the device `a100` adds the device expression to both
terms: the number of required match expressions grows from 2 to 4, not by one. -/
theorem C20_counterexample_two_terms :
    requestsGpu gpuConfig (gpuPod (some twoTermAffinity)) ∧
    requiredExpressionCount (gpuPod (some twoTermAffinity)).Affinity = 2 ∧
    requiredExpressionCount (ApplyGPUNodeSelectors gpuConfig (gpuPod (some twoTermAffinity))
        (some { Device := "a100", PartitionSizeValue := none })).Affinity = 4 ∧
    ¬ (requiredExpressionCount (ApplyGPUNodeSelectors gpuConfig
          (gpuPod (some twoTermAffinity))
          (some { Device := "a100", PartitionSizeValue := none })).Affinity =
        requiredExpressionCount (gpuPod (some twoTermAffinity)).Affinity + 1) :=
  ⟨⟨gpuContainer, by decide, by decide⟩, by decide, by decide, by decide⟩

/-! ## Lemmas on the merge engine -/

theorem mergeString_empty_right (a : String) : mergeString a "" = a := by
  simp [mergeString]

theorem mergeString_empty_left (a : String) : mergeString "" a = a := by
  unfold mergeString
  split_ifs with h
  · exact h.symm
  · rfl

theorem mergeContainer_name (d s : Container) :
    (mergeContainer d s).Name = if s.Name = "" then d.Name else s.Name := rfl

theorem mergeContainer_name_of_ne (d s : Container) (h : s.Name ≠ "") :
    (mergeContainer d s).Name = s.Name := by
  rw [mergeContainer_name, if_neg h]

theorem foldl_mergeInto_some (first : Container) (rest : List Container) :
    rest.foldl mergeInto (some first) = some (rest.foldl mergeContainer first) := by
  induction rest generalizing first with
  | nil => rfl
  | cons t ts ih => rw [List.foldl_cons, List.foldl_cons]; exact ih _

theorem mergeLayers_eq (l : List Container) (h : l ≠ []) :
    l.foldl mergeInto none = some (mergeLayers l) := by
  cases l with
  | nil => exact absurd rfl h
  | cons a rest =>
    rw [List.foldl_cons]
    exact foldl_mergeInto_some a rest

theorem lastNamed_cons (name : String) (c : Container) (l : List Container) :
    lastNamed name (c :: l) =
      (lastNamed name l).or (if c.Name = name then some c else none) := by
  unfold lastNamed
  rw [List.reverse_cons, List.find?_append]
  congr 1
  by_cases h : c.Name = name <;> simp [h]

theorem foldl_mergeString_eq (a : String) (l : List String) :
    l.foldl mergeString a = (l.reverse.find? (fun s => s ≠ "")).getD a := by
  induction l generalizing a with
  | nil => rfl
  | cons x xs ih =>
    rw [List.foldl_cons, ih, List.reverse_cons, List.find?_append]
    cases hx : xs.reverse.find? (fun s => s ≠ "") with
    | some y => simp
    | none =>
      by_cases he : x = ""
      · simp [he, mergeString]
      · simp [he, mergeString]

theorem foldl_mergeContainer_image (first : Container) (rest : List Container) :
    (rest.foldl mergeContainer first).Image =
      (rest.map (fun c => c.Image)).foldl mergeString first.Image := by
  induction rest generalizing first with
  | nil => rfl
  | cons t ts ih =>
    rw [List.foldl_cons, ih, List.map_cons, List.foldl_cons]
    rfl

/-- The image of a merge of layers is the last non-empty image of the layers. -/
theorem mergeLayers_image (l : List Container) (h : l ≠ []) :
    (mergeLayers l).Image = lastNonEmpty (l.map (fun c => c.Image)) := by
  cases l with
  | nil => exact absurd rfl h
  | cons a rest =>
    unfold mergeLayers lastNonEmpty
    rw [foldl_mergeContainer_image, ← foldl_mergeString_eq, List.map_cons, List.foldl_cons,
      mergeString_empty_left]

theorem foldl_mergeContainer_name (first : Container) (rest : List Container) :
    (rest.foldl mergeContainer first).Name =
      (rest.map (fun c => c.Name)).foldl mergeString first.Name := by
  induction rest generalizing first with
  | nil => rfl
  | cons t ts ih =>
    rw [List.foldl_cons, ih, List.map_cons, List.foldl_cons]
    rfl

theorem mergeLayers_name (l : List Container) (h : l ≠ []) :
    (mergeLayers l).Name = lastNonEmpty (l.map (fun c => c.Name)) := by
  cases l with
  | nil => exact absurd rfl h
  | cons a rest =>
    unfold mergeLayers lastNonEmpty
    rw [foldl_mergeContainer_name, ← foldl_mergeString_eq, List.map_cons, List.foldl_cons,
      mergeString_empty_left]

theorem lastNonEmpty_append_singleton (l : List String) (x : String) (h : x ≠ "") :
    lastNonEmpty (l ++ [x]) = x := by
  unfold lastNonEmpty
  simp [h]

theorem containerLayers_ne_nil (dn pn : String) (tcs : List Container) (p : String)
    (c : Container) : containerLayers dn pn tcs p c ≠ [] := by
  unfold containerLayers
  simp

/-- The result container for a base container with a non-empty name keeps the
name; the same for the image. -/
theorem mergeLayers_layers_name (dn pn : String) (tcs : List Container) (p : String)
    (c : Container) (h : c.Name ≠ "") :
    (mergeLayers (containerLayers dn pn tcs p c)).Name = c.Name := by
  rw [mergeLayers_name _ (containerLayers_ne_nil dn pn tcs p c)]
  unfold containerLayers
  rw [List.map_append, List.map_singleton]
  exact lastNonEmpty_append_singleton _ _ h

theorem mergeLayers_layers_image (dn pn : String) (tcs : List Container) (p : String)
    (c : Container) (h : c.Image ≠ "") :
    (mergeLayers (containerLayers dn pn tcs p c)).Image = c.Image := by
  rw [mergeLayers_image _ (containerLayers_ne_nil dn pn tcs p c)]
  unfold containerLayers
  rw [List.map_append, List.map_singleton]
  exact lastNonEmpty_append_singleton _ _ h

theorem storeContainers_byValue (m : ContainerMemory) (cs : List Container) :
    (storeContainers m cs).2.map ContainerStruct.byValue = cs.map Container.byValue := by
  induction cs generalizing m with
  | nil => rfl
  | cons c rest ih =>
    show ContainerStruct.byValue (storeContainer m c).2 ::
      (storeContainers (storeContainer m c).1 rest).2.map ContainerStruct.byValue = _
    rw [ih]
    rfl

theorem loadContainer_byValue (m : ContainerMemory) (c : ContainerStruct) :
    (loadContainer m c).byValue = c.byValue := rfl

theorem deepCopyContainer_byValue (m : ContainerMemory) (c : ContainerStruct) :
    (deepCopyContainer m c).2.byValue = c.byValue := rfl

theorem mergoContainer_byValue (m : ContainerMemory) (d s : ContainerStruct) :
    (mergoContainer m d s).2.byValue = mergeContainer d.byValue s.byValue := rfl

theorem mergeContainer_byValue (d s : Container) :
    (mergeContainer d s).byValue = mergeContainer d.byValue s.byValue := rfl

theorem extractContainerTemplates_acc (dn pn : String) (hne : dn ≠ pn)
    (l : List ContainerStruct) (acc : Option ContainerStruct × Option ContainerStruct) :
    (l.foldl
      (fun acc c =>
        if c.Name = dn then (some c, acc.2)
        else if c.Name = pn then (acc.1, some c)
        else acc) acc).1.map ContainerStruct.byValue =
      (lastNamed dn (l.map ContainerStruct.byValue)).or (acc.1.map ContainerStruct.byValue) ∧
    (l.foldl
      (fun acc c =>
        if c.Name = dn then (some c, acc.2)
        else if c.Name = pn then (acc.1, some c)
        else acc) acc).2.map ContainerStruct.byValue =
      (lastNamed pn (l.map ContainerStruct.byValue)).or (acc.2.map ContainerStruct.byValue) := by
  induction l generalizing acc with
  | nil => simp [lastNamed]
  | cons c rest ih =>
    rw [List.foldl_cons, List.map_cons, lastNamed_cons, lastNamed_cons]
    have hname : (ContainerStruct.byValue c).Name = c.Name := rfl
    rw [hname]
    by_cases h1 : c.Name = dn
    · have h2 : ¬ c.Name = pn := fun h => hne (h1.symm.trans h)
      simp only [h1, h2, if_true, if_false]
      rw [(ih _).1, (ih _).2]
      cases lastNamed dn (rest.map ContainerStruct.byValue) <;>
        cases lastNamed pn (rest.map ContainerStruct.byValue) <;> simp [hne]
    · by_cases h2 : c.Name = pn
      · simp only [h1, h2, if_true, if_false]
        rw [(ih _).1, (ih _).2]
        cases lastNamed dn (rest.map ContainerStruct.byValue) <;>
          cases lastNamed pn (rest.map ContainerStruct.byValue) <;> simp [hne, hne.symm]
      · simp only [h1, h2, if_false]
        rw [(ih _).1, (ih _).2]
        cases lastNamed dn (rest.map ContainerStruct.byValue) <;>
          cases lastNamed pn (rest.map ContainerStruct.byValue) <;> simp

/-- The two extraction loops find the last container of each reserved name. -/
theorem extractContainerTemplates_eq (dn pn : String) (hne : dn ≠ pn)
    (l : List ContainerStruct) :
    (extractContainerTemplates dn pn l).1.map ContainerStruct.byValue =
      lastNamed dn (l.map ContainerStruct.byValue) ∧
    (extractContainerTemplates dn pn l).2.map ContainerStruct.byValue =
      lastNamed pn (l.map ContainerStruct.byValue) := by
  unfold extractContainerTemplates
  have h := extractContainerTemplates_acc dn pn hne l (none, none)
  simpa using h

/-- The loop over the name matching template containers merges, by value, the
template containers of the name of the base container, in their order. -/
theorem mergeNameMatching_byValue (tcs : List ContainerStruct) (c : ContainerStruct)
    (m : ContainerMemory) (mc : Option ContainerStruct) :
    (mergeNameMatching m tcs c mc).2.map ContainerStruct.byValue =
      ((tcs.map ContainerStruct.byValue).filter (fun t => t.Name = c.Name)).foldl mergeInto
        (mc.map ContainerStruct.byValue) := by
  unfold mergeNameMatching
  induction tcs generalizing m mc with
  | nil => rfl
  | cons t ts ih =>
    rw [List.foldl_cons, List.map_cons, List.filter_cons]
    have hname : (ContainerStruct.byValue t).Name = t.Name := rfl
    rw [hname]
    by_cases h : t.Name = c.Name
    · simp only [h, ne_eq, not_true_eq_false, if_false, decide_True, if_true, List.foldl_cons]
      cases mc with
      | none => exact ih _ _
      | some d => exact ih _ _
    · simp only [h, ne_eq, not_false_eq_true, if_true, decide_False]
      exact ih _ _

/-- The loop body of `MergeBasePodSpecOntoTemplate` computes, by value, the merge
of the layers of the base container. -/
theorem mergedContainerFor_byValue (dn pn : String) (hne : dn ≠ pn) (m : ContainerMemory)
    (tcs : List ContainerStruct) (p : String) (c : ContainerStruct) :
    (mergedContainerFor m (extractContainerTemplates dn pn tcs).1
        (extractContainerTemplates dn pn tcs).2 tcs p c).2.byValue =
      mergeLayers (containerLayers dn pn (tcs.map ContainerStruct.byValue) p c.byValue) := by
  obtain ⟨hd, hp⟩ := extractContainerTemplates_eq dn pn hne tcs
  have hne2 := containerLayers_ne_nil dn pn (tcs.map ContainerStruct.byValue) p c.byValue
  have h := mergeLayers_eq _ hne2
  have hname : (ContainerStruct.byValue c).Name = c.Name := rfl
  unfold containerLayers at h ⊢
  rw [hname, ← hd, ← hp] at h ⊢
  rw [List.foldl_append, List.foldl_append, List.foldl_append] at h
  generalize (extractContainerTemplates dn pn tcs).1 = d0 at h ⊢
  generalize (extractContainerTemplates dn pn tcs).2 = pt at h ⊢
  have fin : ∀ (m2 : ContainerMemory × Option ContainerStruct),
      some (match m2.2 with
        | none => deepCopyContainer m2.1 c
        | some d => mergoContainer m2.1 d c).2.byValue =
      [c.byValue].foldl mergeInto (m2.2.map ContainerStruct.byValue) := by
    intro m2
    cases m2.2 <;> rfl
  apply Option.some.inj
  rw [← h]
  unfold mergedContainerFor
  simp only
  rw [fin, mergeNameMatching_byValue]
  congr 2
  by_cases hpc : c.Name = p
  · cases pt <;> cases d0 <;> simp [hpc, mergeInto] <;> rfl
  · cases d0 with
    | none => simp [hpc, mergeInto]
    | some d =>
      simp [hpc, mergeInto]
      rfl

theorem mergeBaseContainers_byValue (dn pn : String) (hne : dn ≠ pn)
    (tcs : List ContainerStruct) (p : String) (cs : List ContainerStruct)
    (m : ContainerMemory) :
    (mergeBaseContainers m (extractContainerTemplates dn pn tcs).1
        (extractContainerTemplates dn pn tcs).2 tcs p cs).2.map ContainerStruct.byValue =
      cs.map (fun c =>
        mergeLayers (containerLayers dn pn (tcs.map ContainerStruct.byValue) p c.byValue)) := by
  induction cs generalizing m with
  | nil => rfl
  | cons c rest ih =>
    show ContainerStruct.byValue (mergedContainerFor m _ _ tcs p c).2 ::
      (mergeBaseContainers (mergedContainerFor m _ _ tcs p c).1 _ _ tcs p rest).2.map
        ContainerStruct.byValue = _
    rw [ih, mergedContainerFor_byValue dn pn hne]
    rfl

theorem lastNamed_map_byValue (name : String) (l : List Container) :
    lastNamed name (l.map Container.byValue) = (lastNamed name l).map Container.byValue := by
  induction l with
  | nil => rfl
  | cons c rest ih =>
    rw [List.map_cons, lastNamed_cons, lastNamed_cons, ih]
    have hname : (Container.byValue c).Name = c.Name := rfl
    rw [hname]
    cases lastNamed name rest with
    | some x => rfl
    | none => by_cases h : c.Name = name <;> simp [h]

theorem containerLayers_byValue (dn pn : String) (tcs : List Container) (p : String)
    (c : Container) :
    containerLayers dn pn (tcs.map Container.byValue) p c.byValue =
      (containerLayers dn pn tcs p c).map Container.byValue := by
  unfold containerLayers
  have hname : (Container.byValue c).Name = c.Name := rfl
  rw [hname, lastNamed_map_byValue, lastNamed_map_byValue, List.map_append, List.map_append,
    List.map_append, List.filter_map]
  congr 1
  congr 1
  · congr 1
    · cases lastNamed dn tcs <;> rfl
    · split
      · cases lastNamed pn tcs <;> rfl
      · rfl

theorem mergeLayers_byValue (l : List Container) :
    mergeLayers (l.map Container.byValue) = (mergeLayers l).byValue := by
  cases l with
  | nil => rfl
  | cons a rest =>
    show (rest.map Container.byValue).foldl mergeContainer a.byValue =
      (rest.foldl mergeContainer a).byValue
    induction rest generalizing a with
    | nil => rfl
    | cons b bs ih =>
      rw [List.map_cons, List.foldl_cons, List.foldl_cons, ← mergeContainer_byValue]
      exact ih _

/-- The result of `MergeBasePodSpecOntoTemplate` on non-nil pod specs. -/
theorem mergeBase_ok (template base : PodSpec) (p pInit : String) :
    MergeBasePodSpecOntoTemplate (some template) (some base) p pInit =
      .ok { mergePodSpec template base with
            Containers := (mergeTemplateContainers template base p pInit).mergedContainers.map
              (loadContainer (mergeTemplateContainers template base p pInit).memory),
            InitContainers :=
              (mergeTemplateContainers template base p pInit).mergedInitContainers.map
                (loadContainer (mergeTemplateContainers template base p pInit).memory) } :=
  rfl

/-- The merged containers are, by value, the merges of the layers of the base
containers; the same for the init containers. -/
theorem mergedContainers_byValue (template base : PodSpec) (p pInit : String) :
    ((mergeTemplateContainers template base p pInit).mergedContainers.map
        (loadContainer (mergeTemplateContainers template base p pInit).memory)).map
        Container.byValue =
      base.Containers.map (fun c =>
        (mergeLayers (containerLayers "default" "primary" template.Containers p c)).byValue) ∧
    ((mergeTemplateContainers template base p pInit).mergedInitContainers.map
        (loadContainer (mergeTemplateContainers template base p pInit).memory)).map
        Container.byValue =
      base.InitContainers.map (fun c =>
        (mergeLayers (containerLayers "default-init" "primary-init" template.InitContainers
          pInit c)).byValue) := by
  have key : ∀ (dn pn : String) (hne : dn ≠ pn) (m1 m2 m3 : ContainerMemory)
      (tcs bcs : List Container) (q : String),
      ((mergeBaseContainers m1 (extractContainerTemplates dn pn (storeContainers m2 tcs).2).1
          (extractContainerTemplates dn pn (storeContainers m2 tcs).2).2
          (storeContainers m2 tcs).2 q (storeContainers m3 bcs).2).2.map
          ContainerStruct.byValue) =
        bcs.map (fun c => (mergeLayers (containerLayers dn pn tcs q c)).byValue) := by
    intro dn pn hne m1 m2 m3 tcs bcs q
    rw [mergeBaseContainers_byValue dn pn hne, storeContainers_byValue]
    have h : ∀ l : List ContainerStruct,
        l.map (fun c => mergeLayers
          (containerLayers dn pn (tcs.map Container.byValue) q c.byValue)) =
        (l.map ContainerStruct.byValue).map (fun c => mergeLayers
          (containerLayers dn pn (tcs.map Container.byValue) q c)) := by
      intro l
      rw [List.map_map]
      rfl
    rw [h, storeContainers_byValue, List.map_map]
    apply List.map_congr_left
    intro c _
    show mergeLayers (containerLayers dn pn (tcs.map Container.byValue) q c.byValue) = _
    rw [containerLayers_byValue, mergeLayers_byValue]
  have hload : ∀ (m : ContainerMemory) (l : List ContainerStruct),
      (l.map (loadContainer m)).map Container.byValue = l.map ContainerStruct.byValue := by
    intro m l
    rw [List.map_map]
    rfl
  constructor
  · rw [hload]
    exact key "default" "primary" (by decide) _ _ _ _ _ _
  · rw [hload]
    exact key "default-init" "primary-init" (by decide) _ _ _ _ _ _

/-- The names of the merged containers are the names of the merges of the layers
of the base containers, and so for the images; the same for the init
containers. -/
theorem mergedContainers_names_images (template base : PodSpec) (p pInit : String) :
    ((mergeTemplateContainers template base p pInit).mergedContainers.map
        (loadContainer (mergeTemplateContainers template base p pInit).memory)).map
        (fun c => c.Name) =
      base.Containers.map (fun c =>
        (mergeLayers (containerLayers "default" "primary" template.Containers p c)).Name) ∧
    ((mergeTemplateContainers template base p pInit).mergedContainers.map
        (loadContainer (mergeTemplateContainers template base p pInit).memory)).map
        (fun c => c.Image) =
      base.Containers.map (fun c =>
        (mergeLayers (containerLayers "default" "primary" template.Containers p c)).Image) ∧
    ((mergeTemplateContainers template base p pInit).mergedInitContainers.map
        (loadContainer (mergeTemplateContainers template base p pInit).memory)).map
        (fun c => c.Name) =
      base.InitContainers.map (fun c =>
        (mergeLayers (containerLayers "default-init" "primary-init" template.InitContainers
          pInit c)).Name) ∧
    ((mergeTemplateContainers template base p pInit).mergedInitContainers.map
        (loadContainer (mergeTemplateContainers template base p pInit).memory)).map
        (fun c => c.Image) =
      base.InitContainers.map (fun c =>
        (mergeLayers (containerLayers "default-init" "primary-init" template.InitContainers
          pInit c)).Image) := by
  obtain ⟨h1, h2⟩ := mergedContainers_byValue template base p pInit
  have hname : ∀ c : Container, c.byValue.Name = c.Name := fun _ => rfl
  have himage : ∀ c : Container, c.byValue.Image = c.Image := fun _ => rfl
  have e1 := congrArg (List.map (fun c : Container => c.Name)) h1
  have e2 := congrArg (List.map (fun c : Container => c.Image)) h1
  have e3 := congrArg (List.map (fun c : Container => c.Name)) h2
  have e4 := congrArg (List.map (fun c : Container => c.Image)) h2
  simp only [List.map_map, Function.comp_def, hname, himage] at e1 e2 e3 e4 ⊢
  exact ⟨e1, e2, e3, e4⟩

theorem forall₂_of_map_eq {α β γ : Type} (f : α → γ) (g : β → γ) (l1 : List α) (l2 : List β)
    (h : l1.map f = l2.map g) : List.Forall₂ (fun a b => f a = g b) l1 l2 := by
  have h1 : List.Forall₂ (fun a b => a = b) (l1.map f) (l2.map g) := by
    rw [List.forall₂_eq_eq_eq]
    exact h
  rw [List.forall₂_map_left_iff, List.forall₂_map_right_iff] at h1
  exact h1

/-! ## Claims on the merge engine -/

theorem lastNamed_name (name : String) (l : List Container) (x : Container)
    (h : lastNamed name l = some x) : x.Name = name := by
  unfold lastNamed at h
  have := List.find?_some h
  simpa using this

/-- C15 (as amended): for non-nil template and base pod specs,
`MergeBasePodSpecOntoTemplate` succeeds and its result has one container per base
container, in the base's order, and each result container carries the name of
its base container whenever that name is not empty; so when no base container
has an empty name the container names of the result are exactly the base's, in
order and multiplicity. The same holds for init containers. -/
theorem C15_merge_keeps_base_names (template base : PodSpec)
    (primaryContainerName primaryInitContainerName : String) :
    ∃ merged, MergeBasePodSpecOntoTemplate (some template) (some base) primaryContainerName
        primaryInitContainerName = .ok merged ∧
      merged.Containers.length = base.Containers.length ∧
      merged.InitContainers.length = base.InitContainers.length ∧
      List.Forall₂ (fun m b => b.Name ≠ "" → m.Name = b.Name)
        merged.Containers base.Containers ∧
      List.Forall₂ (fun m b => b.Name ≠ "" → m.Name = b.Name)
        merged.InitContainers base.InitContainers ∧
      ((∀ c ∈ base.Containers, c.Name ≠ "") →
        merged.Containers.map (fun c => c.Name) = base.Containers.map (fun c => c.Name)) ∧
      ((∀ c ∈ base.InitContainers, c.Name ≠ "") →
        merged.InitContainers.map (fun c => c.Name) =
          base.InitContainers.map (fun c => c.Name)) := by
  obtain ⟨hn, _, hin, _⟩ :=
    mergedContainers_names_images template base primaryContainerName primaryInitContainerName
  refine ⟨_, mergeBase_ok template base primaryContainerName primaryInitContainerName,
    ?_, ?_, ?_, ?_, ?_, ?_⟩
  · have h := congrArg List.length hn
    simpa using h
  · have h := congrArg List.length hin
    simpa using h
  · refine (forall₂_of_map_eq _ _ _ _ hn).imp ?_
    intro m b hm hb
    exact hm.trans (mergeLayers_layers_name _ _ _ _ b hb)
  · refine (forall₂_of_map_eq _ _ _ _ hin).imp ?_
    intro m b hm hb
    exact hm.trans (mergeLayers_layers_name _ _ _ _ b hb)
  · intro h
    refine hn.trans ?_
    apply List.map_congr_left
    intro c hc
    exact mergeLayers_layers_name _ _ _ _ c (h c hc)
  · intro h
    refine hin.trans ?_
    apply List.map_congr_left
    intro c hc
    exact mergeLayers_layers_name _ _ _ _ c (h c hc)

/-- C15 (witness): scenario S7, containers `main` and `sidecar` under a template
with `default` and `primary`: the result names are `main`, `sidecar`. -/
theorem C15_merge_keeps_base_names_witness :
    ∃ merged, MergeBasePodSpecOntoTemplate (some scenarioTemplate) (some scenarioBase) "main"
        "" = .ok merged ∧
      merged.Containers.map (fun c => c.Name) = ["main", "sidecar"] := by
  obtain ⟨merged, hm, _, _, _, _, hn, _⟩ :=
    C15_merge_keeps_base_names scenarioTemplate scenarioBase "main" ""
  exact ⟨merged, hm, hn (by decide)⟩

/-- C15 (counterexample): a base container with the empty name under a template
with a `default` container comes out named `default`: the result has a name that
is not in the base, and the base's name is missing. -/
theorem C15_counterexample_unnamed_container :
    MergeBasePodSpecOntoTemplate (some defaultOnlyTemplate) (some unnamedContainerBase) "main"
        "" =
      .ok { Containers := [{ Name := "default", Image := "task:1" }] } ∧
    ¬ (([{ Name := "default", Image := "task:1" }] : List Container).map (fun c => c.Name) =
        unnamedContainerBase.Containers.map (fun c => c.Name)) := by
  constructor
  · rfl
  · decide

/-- C16 (as amended): in `MergeBasePodSpecOntoTemplate` the name and the image of
each result container are those of the merge, in this order, of the template's
(last) `default` container, the template's (last) `primary` container when the
base container is named as the primary, every template container with the name
of the base container, and the base container last: the image of the result
container is the last non-empty image of these layers, so the base's when it is
not empty, and the name likewise. A base container that is neither named as the
primary nor itself named `primary` has no layer named `primary`. The same holds
for init containers with `default-init` and `primary-init`. -/
theorem C16_merge_layers_order (template base : PodSpec)
    (primaryContainerName primaryInitContainerName : String) :
    (∃ merged : PodSpec,
      MergeBasePodSpecOntoTemplate (some template) (some base) primaryContainerName
        primaryInitContainerName = .ok merged ∧
      List.Forall₂
        (fun m b =>
          m.Image = lastNonEmpty ((containerLayers "default" "primary" template.Containers
            primaryContainerName b).map (fun l => l.Image)) ∧
          m.Name = lastNonEmpty ((containerLayers "default" "primary" template.Containers
            primaryContainerName b).map (fun l => l.Name)) ∧
          (b.Image ≠ "" → m.Image = b.Image) ∧ (b.Name ≠ "" → m.Name = b.Name))
        merged.Containers base.Containers ∧
      List.Forall₂
        (fun m b =>
          m.Image = lastNonEmpty ((containerLayers "default-init" "primary-init"
            template.InitContainers primaryInitContainerName b).map (fun l => l.Image)) ∧
          m.Name = lastNonEmpty ((containerLayers "default-init" "primary-init"
            template.InitContainers primaryInitContainerName b).map (fun l => l.Name)) ∧
          (b.Image ≠ "" → m.Image = b.Image) ∧ (b.Name ≠ "" → m.Name = b.Name))
        merged.InitContainers base.InitContainers) ∧
    (∀ (dn pn : String) (tcs : List Container) (p : String) (c : Container),
      containerLayers dn pn tcs p c =
        (lastNamed dn tcs).toList ++
        (if c.Name = p then (lastNamed pn tcs).toList else []) ++
        tcs.filter (fun t => t.Name = c.Name) ++ [c] ∧
      (c.Name ≠ p → c.Name ≠ pn → dn ≠ pn →
        ∀ l ∈ containerLayers dn pn tcs p c, l.Name ≠ pn)) := by
  obtain ⟨hn, hi, hin, hii⟩ :=
    mergedContainers_names_images template base primaryContainerName primaryInitContainerName
  have hboth : ∀ (dn pn p : String) (tcs : List Container) (l : List Container)
      (bs : List Container),
      l.map (fun c => c.Name) =
        bs.map (fun c => (mergeLayers (containerLayers dn pn tcs p c)).Name) →
      l.map (fun c => c.Image) =
        bs.map (fun c => (mergeLayers (containerLayers dn pn tcs p c)).Image) →
      List.Forall₂
        (fun m b =>
          m.Image = lastNonEmpty ((containerLayers dn pn tcs p b).map (fun l => l.Image)) ∧
          m.Name = lastNonEmpty ((containerLayers dn pn tcs p b).map (fun l => l.Name)) ∧
          (b.Image ≠ "" → m.Image = b.Image) ∧ (b.Name ≠ "" → m.Name = b.Name)) l bs := by
    intro dn pn p tcs l bs h1 h2
    have f1 := forall₂_of_map_eq _ _ _ _ h1
    have f2 := forall₂_of_map_eq _ _ _ _ h2
    have f3 : List.Forall₂ (fun m b =>
        m.Name = (mergeLayers (containerLayers dn pn tcs p b)).Name ∧
        m.Image = (mergeLayers (containerLayers dn pn tcs p b)).Image) l bs := by
      clear h1 h2
      induction f1 with
      | nil => exact List.Forall₂.nil
      | cons hab _ ih =>
        cases f2 with
        | cons hab2 hrest => exact List.Forall₂.cons ⟨hab, hab2⟩ (ih hrest)
    refine f3.imp ?_
    intro m b hm
    refine ⟨?_, ?_, ?_, ?_⟩
    · rw [hm.2]
      exact mergeLayers_image _ (containerLayers_ne_nil dn pn tcs p b)
    · rw [hm.1]
      exact mergeLayers_name _ (containerLayers_ne_nil dn pn tcs p b)
    · intro hb
      rw [hm.2]
      exact mergeLayers_layers_image dn pn tcs p b hb
    · intro hb
      rw [hm.1]
      exact mergeLayers_layers_name dn pn tcs p b hb
  refine ⟨⟨_, mergeBase_ok template base primaryContainerName primaryInitContainerName,
    hboth _ _ _ _ _ _ hn hi, hboth _ _ _ _ _ _ hin hii⟩, ?_⟩
  intro dn pn tcs p c
  refine ⟨rfl, ?_⟩
  intro hp hn hne l hl
  unfold containerLayers at hl
  rw [if_neg hp] at hl
  simp only [List.append_nil, List.mem_append, Option.mem_toList, Option.mem_def, List.mem_filter,
    decide_eq_true_eq, List.mem_singleton] at hl
  rcases hl with (hl | hl) | hl
  · rw [lastNamed_name dn tcs l hl]
    exact hne
  · rw [hl.2]
    exact hn
  · rw [hl]
    exact hn

/-- C16 (witness): scenario S7: `main` (the primary, without image) is the merge
of `default`, `primary` and `main` and takes the image of `primary`; `sidecar` is
the merge of `default` and `sidecar`, keeps its own image, and none of its layers
is named `primary`. -/
theorem C16_merge_layers_order_witness :
    MergeBasePodSpecOntoTemplate (some scenarioTemplate) (some scenarioBase) "main" "" =
      .ok { Containers :=
              [{ Name := "main", Image := "primary:1",
                 Args := ["--default", "--primary", "--main"] },
               { Name := "sidecar", Image := "sidecar:1", Args := ["--default"] }],
            RestartPolicy := "Never" } ∧
    List.Forall₂ (fun (m b : Container) => b.Image ≠ "" → m.Image = b.Image)
      [{ Name := "main", Image := "primary:1", Args := ["--default", "--primary", "--main"] },
       { Name := "sidecar", Image := "sidecar:1", Args := ["--default"] }]
      scenarioBase.Containers ∧
    (∀ l ∈ containerLayers "default" "primary" scenarioTemplate.Containers "main"
        { Name := "sidecar", Image := "sidecar:1" }, l.Name ≠ "primary") := by
  obtain ⟨⟨merged, hm, hc, _⟩, hl⟩ :=
    C16_merge_layers_order scenarioTemplate scenarioBase "main" ""
  have hr : MergeBasePodSpecOntoTemplate (some scenarioTemplate) (some scenarioBase) "main" "" =
      .ok { Containers :=
              [{ Name := "main", Image := "primary:1",
                 Args := ["--default", "--primary", "--main"] },
               { Name := "sidecar", Image := "sidecar:1", Args := ["--default"] }],
            RestartPolicy := "Never" } := rfl
  rw [hr] at hm
  have he := Except.ok.inj hm
  rw [← he] at hc
  exact ⟨hr, hc.imp (fun _ _ h => h.2.2.1),
    (hl "default" "primary" scenarioTemplate.Containers "main"
      { Name := "sidecar", Image := "sidecar:1" }).2 (by decide) (by decide) (by decide)⟩

/-- C16 (counterexample): a base container that is not the primary (the primary is
`main`) but is itself named `primary` receives the image of the `primary`
template, through the matching of names. And a result container is not the merge
of its layers in every field: under a template whose `primary` container runs as
user 1000, with the primary container `main` running as user 2000, the container
named `primary` has the layers `default`, the `primary` template and itself,
whose merge runs as user 1000, yet it comes out running as user 2000, the user
that the merge of `main` wrote into the security context of the template. -/
theorem C16_counterexample_sidecar_named_primary :
    MergeBasePodSpecOntoTemplate (some primaryOnlyTemplate) (some sidecarNamedPrimaryBase)
        "main" "" =
      .ok { Containers :=
              [{ Name := "main", Image := "m:1" }, { Name := "primary", Image := "img-p" }] } ∧
    sidecarNamedPrimaryBase.Containers =
      [{ Name := "main", Image := "m:1" }, { Name := "primary", Image := "" }] ∧
    ("primary" : String) ≠ "main" ∧
    MergeBasePodSpecOntoTemplate (some sharedContextTemplate) (some sharedContextBase)
        "main" "" =
      .ok { Containers :=
              [{ Name := "main", Image := "main:1",
                 SecurityContext := some { RunAsUser := some 2000 } },
               { Name := "primary", Image := "side:1",
                 SecurityContext := some { RunAsUser := some 2000 } }] } ∧
    sharedContextBase.Containers.map (fun c =>
        mergeLayers (containerLayers "default" "primary" sharedContextTemplate.Containers
          "main" c)) =
      [{ Name := "main", Image := "main:1",
         SecurityContext := some { RunAsUser := some 2000 } },
       { Name := "primary", Image := "side:1",
         SecurityContext := some { RunAsUser := some 1000 } }] := by
  refine ⟨rfl, rfl, by decide, rfl, rfl⟩

/-- The merged containers share objects of the template: the primary container
`main` takes the security context of the `primary` template, and the merge of
its base container writes the user 2000 into it; the second container, named
`primary`, takes the same security context through the matching of names and
runs as user 2000 as well, not as the user 1000 of the template; and the
template itself is left with the user 2000. -/
theorem merge_shared_security_context_example :
    MergeBasePodSpecOntoTemplate (some sharedContextTemplate) (some sharedContextBase)
        "main" "" =
      .ok { Containers :=
              [{ Name := "main", Image := "main:1",
                 SecurityContext := some { RunAsUser := some 2000 } },
               { Name := "primary", Image := "side:1",
                 SecurityContext := some { RunAsUser := some 2000 } }] } ∧
    (templateContainersAfterMerge sharedContextTemplate sharedContextBase "main" "").1 =
      [{ Name := "default", Image := "default:1" },
       { Name := "primary", SecurityContext := some { RunAsUser := some 2000 } }] :=
  ⟨rfl, rfl⟩

/-- The base containers have distinct names and none but the primary takes the
`primary` template: no two result containers share an object, each result
container is the merge of its layers in every field, and the template is left as
it was. -/
theorem merge_layers_whole_container_example :
    MergeBasePodSpecOntoTemplate (some layeredTemplate) (some layeredBase) "main" "" =
      .ok { Containers :=
              [{ Name := "main", Image := "main:1",
                 Resources := { Limits := [("cpu", 4), ("memory", 2)] },
                 SecurityContext := some { RunAsUser := some 2000, Privileged := some true } },
               { Name := "sidecar", Image := "sidecar:1", Args := ["--template"],
                 Resources := { Limits := [("cpu", 1)] },
                 SecurityContext := some { RunAsUser := some 1000 } }] } ∧
    layeredBase.Containers.map (fun c =>
        mergeLayers (containerLayers "default" "primary" layeredTemplate.Containers "main" c)) =
      [{ Name := "main", Image := "main:1",
         Resources := { Limits := [("cpu", 4), ("memory", 2)] },
         SecurityContext := some { RunAsUser := some 2000, Privileged := some true } },
       { Name := "sidecar", Image := "sidecar:1", Args := ["--template"],
         Resources := { Limits := [("cpu", 1)] },
         SecurityContext := some { RunAsUser := some 1000 } }] ∧
    (templateContainersAfterMerge layeredTemplate layeredBase "main" "").1 =
      layeredTemplate.Containers :=
  ⟨rfl, rfl, rfl⟩

theorem mergeMap_nil {α : Type} (m : GoMap α) : mergeMap m [] = m := rfl

theorem mergeOpt_none {α : Type} (f : α → α → α) (d : Option α) : mergeOpt f d none = d := by
  cases d <;> rfl

theorem mergePodSpec_zero (base : PodSpec) : mergePodSpec base {} = base := by
  unfold mergePodSpec
  simp [mergeString, mergeBool, mergeMap_nil, mergeOpt_none]

theorem mergeOverlayContainers_nil (c : Container) : mergeOverlayContainers [] c = c := rfl

/-- C17: for every base pod spec, `MergeOverlayPodSpecOntoBase` with the empty
overlay pod spec succeeds and returns a pod spec equal to the base, with the same
containers and init containers in the same order. -/
theorem C17_overlay_empty_identity (base : PodSpec) :
    MergeOverlayPodSpecOntoBase (some base) (some {}) = .ok base := by
  unfold MergeOverlayPodSpecOntoBase
  simp only [mergePodSpec_zero]
  have h : mergeOverlayContainers ([] : List Container) = id := by
    funext c
    rfl
  show Except.ok _ = Except.ok base
  congr 1
  simp [h]

/-! ## Claim on the construction pipeline -/

theorem modifyAt_names (f : Container → Container) (hf : ∀ c, (f c).Name = c.Name)
    (l : List Container) (i : Nat) :
    (modifyAt f l i).map (fun c => c.Name) = l.map (fun c => c.Name) := by
  induction l generalizing i with
  | nil => rfl
  | cons c rest ih =>
    cases i with
    | zero => simp [modifyAt, hf]
    | succ j => simp [modifyAt, ih]

theorem hasContainerNamed_of_names (n : String) (l l1 : List Container)
    (h : l1.map (fun c => c.Name) = l.map (fun c => c.Name))
    (hn : hasContainerNamed n l) : hasContainerNamed n l1 := by
  obtain ⟨c, hc, hcn⟩ := hn
  have hmem : n ∈ l.map (fun c => c.Name) := List.mem_map.mpr ⟨c, hc, hcn⟩
  rw [← h] at hmem
  obtain ⟨c1, hc1, hc1n⟩ := List.mem_map.mp hmem
  exact ⟨c1, hc1, hc1n⟩

theorem customizeContainers_names (h : PodHelpers) (tCtx : TaskExecutionContext) (u : Bool)
    (t : Option PodTemplate) (p : String)
    (hcust : ∀ tc b m c r c1,
      h.AddFlyteCustomizationsToContainerWithPodTemplate tc b m c r = .ok c1 →
        c1.Name = c.Name)
    (l : List Container) (index : Nat) (cs : List Container)
    (rs : List ResourceRequirements) (pi : Option Nat)
    (hok : customizeContainers h tCtx u t p l index = .ok (cs, rs, pi)) :
    cs.map (fun c => c.Name) = l.map (fun c => c.Name) ∧
    (pi.isSome = true → hasContainerNamed p l) := by
  induction l generalizing index cs rs pi with
  | nil =>
    simp only [customizeContainers, Except.ok.injEq, Prod.mk.injEq] at hok
    obtain ⟨h1, _, h3⟩ := hok
    subst h1
    subst h3
    simp
  | cons c rest ih =>
    unfold customizeContainers at hok
    simp only at hok
    split at hok
    · cases hok
    · rename_i c1 hc1
      split at hok
      · cases hok
      · rename_i cs1 rs1 pi1 hrest
        simp only [Except.ok.injEq, Prod.mk.injEq] at hok
        obtain ⟨h1, _, h3⟩ := hok
        have ihr := ih (index + 1) cs1 rs1 pi1 hrest
        have hname := hcust _ _ _ _ _ _ hc1
        subst h1
        refine ⟨?_, ?_⟩
        · simp [hname, ihr.1]
        · intro hsome
          cases hpi : pi1 with
          | some i =>
            obtain ⟨x, hx, hxn⟩ := ihr.2 (by rw [hpi]; rfl)
            exact ⟨x, List.mem_cons_of_mem _ hx, hxn⟩
          | none =>
            rw [hpi] at h3
            simp only at h3
            by_cases hcn : c.Name = p
            · exact ⟨c, List.mem_cons_self _ _, hcn⟩
            · rw [if_neg hcn] at h3
              rw [← h3] at hsome
              simp at hsome

theorem modifyAt_const_names (l : List Container) (i : Nat) (c pc : Container)
    (hget : l.get? i = some pc) (hname : c.Name = pc.Name) :
    (modifyAt (fun _ => c) l i).map (fun x => x.Name) = l.map (fun x => x.Name) := by
  induction l generalizing i with
  | nil => rfl
  | cons a rest ih =>
    cases i with
    | zero =>
      simp only [List.get?_cons_zero, Option.some.injEq] at hget
      simp [modifyAt, hname, hget]
    | succ j =>
      simp only [List.get?_cons_succ] at hget
      simp [modifyAt, ih j hget]

theorem applyCoPilot_names (h : PodHelpers) (tCtx : TaskExecutionContext)
    (d : Option DataLoadingConfig) (podSpec : PodSpec) (i : Nat) (p2 : PodSpec) (n1 : String)
    (hcpc : ∀ c dl c1, h.AddCoPilotToContainer c dl = .ok c1 → c1.Name = c.Name)
    (hcpp : ∀ tc p dl p1 n, h.AddCoPilotToPod tc p dl = .ok (p1, n) →
      ∀ c ∈ p.Containers, hasContainerNamed c.Name p1.Containers)
    (hok : applyCoPilot h tCtx d podSpec i = .ok (p2, n1)) (n : String)
    (hn : hasContainerNamed n podSpec.Containers) : hasContainerNamed n p2.Containers := by
  unfold applyCoPilot at hok
  split at hok
  · simp only [Except.ok.injEq, Prod.mk.injEq] at hok
    rw [← hok.1]
    exact hn
  · rename_i dl
    split at hok
    · simp only [Except.ok.injEq, Prod.mk.injEq] at hok
      rw [← hok.1]
      exact hn
    · rename_i pc hpc
      split at hok
      · cases hok
      · rename_i c hc
        have hname : c.Name = pc.Name := hcpc _ _ _ hc
        have hget : podSpec.Containers.get? i = some pc := hpc
        have hnames := modifyAt_const_names podSpec.Containers i c pc hget hname
        have hn1 := hasContainerNamed_of_names n _ _ hnames hn
        obtain ⟨x, hx, hxn⟩ := hn1
        have := hcpp _ _ _ _ _ hok x hx
        rw [hxn] at this
        exact this

theorem applyInterruptibleNodeAffinity_containers (cfg : K8sPluginConfig) (b : Bool)
    (p : PodSpec) : (ApplyInterruptibleNodeAffinity cfg b p).Containers = p.Containers := rfl

theorem updatePod_containers (cfg : K8sPluginConfig) (h : PodHelpers)
    (md : TaskExecutionMetadata) (rs : List ResourceRequirements) (p : PodSpec) :
    (UpdatePod cfg h md rs p).Containers = p.Containers := by
  unfold UpdatePod
  lift_lets
  intro p1 p2 p3 p4 p5 p6 p7 p8 p9 p10
  have h1 : p1.Containers = p.Containers := by
    simp only [p1]; split <;> rfl
  have h2 : p2.Containers = p1.Containers := rfl
  have h3 : p3.Containers = p2.Containers := by
    simp only [p3]; split <;> rfl
  have h4 : p4.Containers = p3.Containers := by
    simp only [p4]; split <;> rfl
  have h5 : p5.Containers = p4.Containers := rfl
  have h6 : p6.Containers = p5.Containers := by
    simp only [p6]; split <;> rfl
  have h7 : p7.Containers = p6.Containers := by
    simp only [p7]; split <;> rfl
  have h8 : p8.Containers = p7.Containers := by
    simp only [p8]; split <;> rfl
  have h9 : p9.Containers = p8.Containers := by
    simp only [p9]; split <;> rfl
  have h10 : p10.Containers = p9.Containers := by
    simp only [p10]; split <;> rfl
  rw [applyInterruptibleNodeAffinity_containers, h10, h9, h8, h7, h6, h5, h4, h3, h2, h1]

theorem applyGPU_containers (cfg : K8sPluginConfig) (p : PodSpec) (g : Option GPUAccelerator) :
    (ApplyGPUNodeSelectors cfg p g).Containers = p.Containers := by
  unfold ApplyGPUNodeSelectors
  simp only
  repeat' split
  all_goals rfl

theorem overrideImage_names (img n : String) (l : List Container) :
    (overrideImage img n l).map (fun c => c.Name) = l.map (fun c => c.Name) := by
  induction l with
  | nil => rfl
  | cons c rest ih =>
    unfold overrideImage
    by_cases hc : c.Name = n
    · simp [hc]
    · simp [hc, ih]

theorem applySharedMemory_names (h : PodHelpers) (p : PodSpec) (n : String)
    (m : Option SharedMemory) (p1 : PodSpec) (hok : ApplySharedMemory h p n m = .ok p1) :
    p1.Containers.map (fun c => c.Name) = p.Containers.map (fun c => c.Name) := by
  unfold ApplySharedMemory at hok
  simp only at hok
  split at hok
  · cases hok
  · split at hok
    · cases hok
    · split at hok
      · cases hok
      · split at hok
        · cases hok
        · split at hok
          · cases hok
          · split at hok
            · cases hok
            · simp only [Except.ok.injEq] at hok
              rw [← hok]
              show List.map (fun c => c.Name) (modifyAt _ p.Containers _) = _
              apply modifyAt_names
              intro c
              rfl

theorem addTolerationInPodSpec_containers (p : PodSpec) (t : Toleration) :
    (addTolerationInPodSpec p t).Containers = p.Containers := by
  unfold addTolerationInPodSpec
  split <;> rfl

theorem addTolerations_containers (cfg : K8sPluginConfig) (p : PodSpec) :
    (AddTolerationsForExtendedResources cfg (some p)).Containers = p.Containers := by
  unfold AddTolerationsForExtendedResources
  simp only
  generalize collectExtendedResources cfg.AddTolerationsForExtendedResources p.InitContainers
    (collectExtendedResources cfg.AddTolerationsForExtendedResources p.Containers []) = rs
  have key : ∀ (q : PodSpec), (rs.foldl
      (fun p resource =>
        addTolerationInPodSpec p
          { Key := resource, Operator := "Exists", Effect := "NoSchedule" }) q).Containers =
      q.Containers := by
    induction rs with
    | nil => intro q; rfl
    | cons r rest ih =>
      intro q
      rw [List.foldl_cons, ih, addTolerationInPodSpec_containers]
  exact key p

theorem mergeWithBase_named (cfg : K8sPluginConfig) (h : PodHelpers)
    (tCtx : TaskExecutionContext) (p : PodSpec) (om : ObjectMeta) (n ni : String)
    (p5 : PodSpec) (om1 : ObjectMeta)
    (hok : MergeWithBasePodTemplate cfg h tCtx p om n ni = .ok (p5, om1))
    (hn : hasContainerNamed n p.Containers)
    (hne : n ≠ "" ∨ getBasePodTemplate cfg h tCtx = .ok none) :
    hasContainerNamed n p5.Containers := by
  unfold MergeWithBasePodTemplate at hok
  split at hok
  · cases hok
  · simp only [Except.ok.injEq, Prod.mk.injEq] at hok
    rw [← hok.1]
    exact hn
  · rename_i podTemplate hbase
    have hne1 : n ≠ "" := by
      rcases hne with hne | hne
      · exact hne
      · rw [hbase] at hne
        simp at hne
    rw [mergeBase_ok] at hok
    simp only [Except.ok.injEq, Prod.mk.injEq] at hok
    rw [← hok.1]
    obtain ⟨c, hc, hcn⟩ := hn
    have hnames := (mergedContainers_names_images podTemplate.Spec p n ni).1
    have hmem : n ∈ ((mergeTemplateContainers podTemplate.Spec p n ni).mergedContainers.map
        (loadContainer (mergeTemplateContainers podTemplate.Spec p n ni).memory)).map
        (fun c => c.Name) := by
      rw [hnames]
      refine List.mem_map.mpr ⟨c, hc, ?_⟩
      rw [mergeLayers_layers_name _ _ _ _ c (by rw [hcn]; exact hne1)]
      exact hcn
    obtain ⟨x, hx, hxn⟩ := List.mem_map.mp hmem
    exact ⟨x, hx, hxn⟩

theorem applyContainerImageOverride_names (p : PodSpec) (img n : String) :
    (ApplyContainerImageOverride p img n).Containers.map (fun c => c.Name) =
      p.Containers.map (fun c => c.Name) :=
  overrideImage_names img n p.Containers

theorem applyExtendedResources_names (cfg : K8sPluginConfig) (h : PodHelpers)
    (tCtx : TaskExecutionContext) (tt : TaskTemplate) (p : PodSpec) (n : String) (p6 : PodSpec)
    (hok : applyExtendedResources cfg h tCtx tt p n = .ok p6) :
    p6.Containers.map (fun c => c.Name) = p.Containers.map (fun c => c.Name) := by
  unfold applyExtendedResources at hok
  revert hok
  lift_lets
  intro er p1 p2 hok
  have h1 : p1.Containers = p.Containers := by
    simp only [p1]
    split
    · exact applyGPU_containers cfg p _
    · rfl
  have h2 : ∀ p3, p2 = .ok p3 →
      p3.Containers.map (fun c => c.Name) = p.Containers.map (fun c => c.Name) := by
    intro p3 hp3
    simp only [p2] at hp3
    split at hp3
    · rw [applySharedMemory_names h p1 n _ p3 hp3, h1]
    · simp only [Except.ok.injEq] at hp3
      rw [← hp3, h1]
  cases hp2 : p2 with
  | error e =>
    rw [hp2] at hok
    cases hok
  | ok p3 =>
    rw [hp2] at hok
    simp only at hok
    split at hok
    · simp only [Except.ok.injEq] at hok
      rw [← hok, applyContainerImageOverride_names]
      exact h2 p3 hp2
    · simp only [Except.ok.injEq] at hok
      rw [← hok]
      exact h2 p3 hp2

theorem applyFlyte_named (cfg : K8sPluginConfig) (h : PodHelpers)
    (tCtx : TaskExecutionContext) (podSpec : PodSpec) (objectMeta : ObjectMeta) (n : String)
    (hcust : ∀ tc b m c r c1,
      h.AddFlyteCustomizationsToContainerWithPodTemplate tc b m c r = .ok c1 →
        c1.Name = c.Name)
    (hcpc : ∀ c dl c1, h.AddCoPilotToContainer c dl = .ok c1 → c1.Name = c.Name)
    (hcpp : ∀ tc p dl p1 m, h.AddCoPilotToPod tc p dl = .ok (p1, m) →
      ∀ c ∈ p.Containers, hasContainerNamed c.Name p1.Containers)
    (p6 : PodSpec) (om1 : ObjectMeta)
    (hok : ApplyFlytePodConfiguration cfg h tCtx podSpec objectMeta n = .ok (p6, om1))
    (hne : n ≠ "" ∨ getBasePodTemplate cfg h tCtx = .ok none) :
    hasContainerNamed n p6.Containers := by
  unfold ApplyFlytePodConfiguration at hok
  split at hok
  · cases hok
  · rename_i taskTemplate _
    split at hok
    · cases hok
    · rename_i basePodTemplate hbase
      simp only at hok
      split at hok
      · cases hok
      · rename_i initContainers _
        split at hok
        · cases hok
        · cases hok
        · rename_i containers resourceRequests primaryIndex hcc
          have hc := customizeContainers_names h tCtx _ _ n hcust _ _ _ _ _ hcc
          have hn1 : hasContainerNamed n containers :=
            hasContainerNamed_of_names n _ _ hc.1 (hc.2 rfl)
          split at hok
          · cases hok
          · rename_i p2 primaryInitContainerName hcp
            have hn2 : hasContainerNamed n p2.Containers :=
              applyCoPilot_names h tCtx _ _ _ p2 _ hcpc hcpp hcp n hn1
            have hn3 : hasContainerNamed n
                (UpdatePod cfg h tCtx.TaskExecutionMetadata resourceRequests p2).Containers := by
              rw [updatePod_containers]
              exact hn2
            split at hok
            · cases hok
            · rename_i p5 objectMeta1 hmerge
              split at hok
              · cases hok
              · rename_i p7 hext
                simp only [Except.ok.injEq, Prod.mk.injEq] at hok
                rw [← hok.1]
                have hnames := applyExtendedResources_names cfg h tCtx _ p5 n p7 hext
                refine hasContainerNamed_of_names n _ _ hnames ?_
                refine mergeWithBase_named cfg h tCtx _ _ n _ p5 objectMeta1 hmerge ?_ hne
                split
                · exact hn3
                · refine hasContainerNamed_of_names n _ _ ?_ hn3
                  apply modifyAt_names
                  intro c
                  split <;> rfl

/-- C14 (as amended): whenever `ToK8sPodSpec` (`BuildRawPod`, then
`ApplyFlytePodConfiguration`, then `AddTolerationsForExtendedResources`) returns
without error, and the returned primary container name is not empty or no base
pod template applies, the returned pod spec contains a container whose name is
the returned primary container name. The helpers whose code is not at hand are
parameters: the container customization and the copilot injection into the
primary container keep the name of the container, and the copilot injection into
the pod keeps a container of every name. -/
theorem C14_primary_container_present (cfg : K8sPluginConfig) (h : PodHelpers)
    (tCtx : TaskExecutionContext)
    (hcust : ∀ tc b m c r c1,
      h.AddFlyteCustomizationsToContainerWithPodTemplate tc b m c r = .ok c1 →
        c1.Name = c.Name)
    (hcpc : ∀ c dl c1, h.AddCoPilotToContainer c dl = .ok c1 → c1.Name = c.Name)
    (hcpp : ∀ tc p dl p1 m, h.AddCoPilotToPod tc p dl = .ok (p1, m) →
      ∀ c ∈ p.Containers, hasContainerNamed c.Name p1.Containers)
    (podSpec : PodSpec) (objectMeta : ObjectMeta) (primaryContainerName : String)
    (hok : ToK8sPodSpec cfg h tCtx = .ok (podSpec, objectMeta, primaryContainerName))
    (hne : primaryContainerName ≠ "" ∨ getBasePodTemplate cfg h tCtx = .ok none) :
    ∃ c ∈ podSpec.Containers, c.Name = primaryContainerName := by
  unfold ToK8sPodSpec at hok
  split at hok
  · cases hok
  · rename_i raw rawMeta n _
    split at hok
    · cases hok
    · rename_i p6 om1 hflyte
      simp only [Except.ok.injEq, Prod.mk.injEq] at hok
      obtain ⟨hp, _, hn⟩ := hok
      subst hn
      have hnamed := applyFlyte_named cfg h tCtx raw rawMeta n hcust hcpc hcpp p6 om1 hflyte hne
      rw [← hp]
      obtain ⟨c, hc, hcn⟩ := hnamed
      refine ⟨c, ?_, hcn⟩
      rw [addTolerations_containers]
      exact hc

/-- C14 (witness): a pod task with the single container `main` under a base pod
template with a `default` container: the result holds a container `main`. -/
theorem C14_primary_container_present_witness :
    resultContainerNames (ToK8sPodSpec sampleConfig (plainHelpers defaultOnlyStore)
        (podTask mainOnlyPod "main")) = some (["main"], "main") ∧
    ∃ podSpec objectMeta,
      ToK8sPodSpec sampleConfig (plainHelpers defaultOnlyStore) (podTask mainOnlyPod "main") =
        .ok (podSpec, objectMeta, "main") ∧
      ∃ c ∈ podSpec.Containers, c.Name = "main" :=
  ⟨rfl, _, _, rfl,
    C14_primary_container_present sampleConfig (plainHelpers defaultOnlyStore)
      (podTask mainOnlyPod "main")
      (fun _ _ _ _ _ _ hc => by cases hc; rfl)
      (fun _ _ _ hc => by cases hc; rfl)
      (fun _ _ _ _ _ hc c hm => by cases hc; exact ⟨c, hm, rfl⟩)
      _ _ "main" rfl (Or.inl (by decide))⟩

/-- C14 (counterexample): a pod task whose only container has the empty name and
whose config gives the empty primary container name, under a base pod template
with a `default` container: `ToK8sPodSpec` succeeds and returns the primary
container name "" with a pod spec whose only container is named `default`. -/
theorem C14_counterexample_unnamed_primary :
    resultContainerNames (ToK8sPodSpec sampleConfig (plainHelpers defaultOnlyStore)
        (podTask unnamedContainerBase "")) = some (["default"], "") ∧
    ∃ podSpec objectMeta,
      ToK8sPodSpec sampleConfig (plainHelpers defaultOnlyStore)
          (podTask unnamedContainerBase "") = .ok (podSpec, objectMeta, "") ∧
      ¬ ∃ c ∈ podSpec.Containers, c.Name = "" :=
  ⟨rfl, _, _, rfl, by decide⟩

/-! ## Claims on the GPU partition size -/

/-- The effect of `ApplyGPUNodeSelectors` for an accelerator with a partition
value, on a pod that asks for GPUs: the requirement and the toleration of the
partition value are added to the result for the device alone. -/
theorem applyGPU_partition (cfg : K8sPluginConfig) (podSpec : PodSpec) (device : String)
    (p : PartitionSizeValue) (h : requestsGpu cfg podSpec) :
    ApplyGPUNodeSelectors cfg podSpec (some { Device := device, PartitionSizeValue := some p }) =
      { ApplyGPUNodeSelectors cfg podSpec (some { Device := device, PartitionSizeValue := none })
        with
        Affinity :=
          match (partitionSizeSelectors cfg p).1 with
          | none => (ApplyGPUNodeSelectors cfg podSpec
              (some { Device := device, PartitionSizeValue := none })).Affinity
          | some nsr => some (AddRequiredNodeSelectorRequirements
              (match (ApplyGPUNodeSelectors cfg podSpec
                  (some { Device := device, PartitionSizeValue := none })).Affinity with
                | none => {}
                | some a => a) [nsr]),
        Tolerations :=
          (ApplyGPUNodeSelectors cfg podSpec
            (some { Device := device, PartitionSizeValue := none })).Tolerations ++
            (partitionSizeSelectors cfg p).2.toList } := by
  have hany : podSpec.Containers.any
      (fun cnt => cnt.Resources.Limits.has cfg.GpuResourceName) = true := by
    rw [List.any_eq_true]
    obtain ⟨c, hc, hl⟩ := h
    exact ⟨c, hc, hl⟩
  unfold ApplyGPUNodeSelectors
  simp only [hany, GetDevice, GetPartitionSizeValue, Bool.not_true, Bool.false_eq_true,
    if_false]
  cases h1 : (partitionSizeSelectors cfg p).1 <;> cases h2 : (partitionSizeSelectors cfg p).2 <;>
    simp

theorem withAdded_withAdded (a b : List NodeSelectorRequirement)
    (l : List NodeSelectorTerm) :
    (l.map (NodeSelectorTerm.withAdded a)).map (NodeSelectorTerm.withAdded b) =
      l.map (NodeSelectorTerm.withAdded (a ++ b)) := by
  induction l with
  | nil => rfl
  | cons t ts ih =>
    simp only [List.map_cons, ih, NodeSelectorTerm.withAdded, List.append_assoc]

/-- The required terms after two successive additions of requirements. -/
theorem requiredTerms_addRequired_twice (base : Affinity)
    (a b : List NodeSelectorRequirement) :
    requiredTerms (some (AddRequiredNodeSelectorRequirements
        (AddRequiredNodeSelectorRequirements base a) b)) =
      if requiredTerms (some base) = [] then [{ MatchExpressions := a ++ b }]
      else (requiredTerms (some base)).map (NodeSelectorTerm.withAdded (a ++ b)) := by
  rw [requiredTerms_addRequired, requiredTerms_addRequired]
  by_cases he : requiredTerms (some base) = []
  · simp [he, NodeSelectorTerm.withAdded]
  · have hne : List.map (NodeSelectorTerm.withAdded a) (requiredTerms (some base)) ≠ [] := by
      intro hm
      exact he (List.map_eq_nil_iff.mp hm)
    rw [if_neg he, if_neg hne, if_neg he, withAdded_withAdded]

/-- C21: for a pod spec with a container that lists the configured GPU resource
in its limits and an accelerator with a non-empty device and a concrete
partition size, after `ApplyGPUNodeSelectors` the required node-selector terms
are the previous terms, each with its previous match expressions followed by
(device label In [device]) and then (partition-size label In [partition size]),
or one new term holding these two when there was none; so every required term
ends with the two requirements in that order, and there is at least one term.
The tolerations are the previous ones followed by (device label = device, Equal,
NoSchedule) and then (partition-size label = partition size, Equal,
NoSchedule). -/
theorem C21_gpu_device_and_partition (cfg : K8sPluginConfig) (podSpec : PodSpec)
    (device partitionSize : String) (h : requestsGpu cfg podSpec) (hd : device ≠ "") :
    requiredTerms (ApplyGPUNodeSelectors cfg podSpec
        (some { Device := device,
                PartitionSizeValue := some (.PartitionSize partitionSize) })).Affinity =
      (if requiredTerms podSpec.Affinity = [] then
        [{ MatchExpressions :=
            [{ Key := cfg.GpuDeviceNodeLabel, Operator := "In", Values := [device] },
             { Key := cfg.GpuPartitionSizeNodeLabel, Operator := "In",
               Values := [partitionSize] }] }]
      else (requiredTerms podSpec.Affinity).map
        (fun t => { t with MatchExpressions := t.MatchExpressions ++
          [{ Key := cfg.GpuDeviceNodeLabel, Operator := "In", Values := [device] },
           { Key := cfg.GpuPartitionSizeNodeLabel, Operator := "In",
             Values := [partitionSize] }] })) ∧
    requiredTerms (ApplyGPUNodeSelectors cfg podSpec
        (some { Device := device,
                PartitionSizeValue := some (.PartitionSize partitionSize) })).Affinity ≠ [] ∧
    (∀ t ∈ requiredTerms (ApplyGPUNodeSelectors cfg podSpec
        (some { Device := device,
                PartitionSizeValue := some (.PartitionSize partitionSize) })).Affinity,
      ∃ previous : List NodeSelectorRequirement,
        t.MatchExpressions = previous ++
          [{ Key := cfg.GpuDeviceNodeLabel, Operator := "In", Values := [device] },
           { Key := cfg.GpuPartitionSizeNodeLabel, Operator := "In",
             Values := [partitionSize] }]) ∧
    (ApplyGPUNodeSelectors cfg podSpec
        (some { Device := device,
                PartitionSizeValue := some (.PartitionSize partitionSize) })).Tolerations =
      podSpec.Tolerations ++
        [{ Key := cfg.GpuDeviceNodeLabel, Value := device, Operator := "Equal",
           Effect := "NoSchedule" },
         { Key := cfg.GpuPartitionSizeNodeLabel, Value := partitionSize, Operator := "Equal",
           Effect := "NoSchedule" }] := by
  have hr := applyGPU_partition cfg podSpec device (.PartitionSize partitionSize) h
  rw [applyGPU_device_only cfg podSpec device h hd] at hr
  have hterms := requiredTerms_addRequired_twice
    (match podSpec.Affinity with
      | none => {}
      | some a => a)
    [{ Key := cfg.GpuDeviceNodeLabel, Operator := "In", Values := [device] }]
    [{ Key := cfg.GpuPartitionSizeNodeLabel, Operator := "In", Values := [partitionSize] }]
  rw [requiredTerms_default] at hterms
  have hterms2 : requiredTerms (ApplyGPUNodeSelectors cfg podSpec
        (some { Device := device,
                PartitionSizeValue := some (.PartitionSize partitionSize) })).Affinity =
      (if requiredTerms podSpec.Affinity = [] then
        [{ MatchExpressions :=
            [{ Key := cfg.GpuDeviceNodeLabel, Operator := "In", Values := [device] },
             { Key := cfg.GpuPartitionSizeNodeLabel, Operator := "In",
               Values := [partitionSize] }] }]
      else (requiredTerms podSpec.Affinity).map
        (fun t => { t with MatchExpressions := t.MatchExpressions ++
          [{ Key := cfg.GpuDeviceNodeLabel, Operator := "In", Values := [device] },
           { Key := cfg.GpuPartitionSizeNodeLabel, Operator := "In",
             Values := [partitionSize] }] })) := by
    rw [hr]
    exact hterms
  refine ⟨hterms2, ?_, ?_, ?_⟩
  · rw [hterms2]
    by_cases he : requiredTerms podSpec.Affinity = []
    · rw [if_pos he]
      exact List.cons_ne_nil _ _
    · rw [if_neg he]
      intro hm
      exact he (List.map_eq_nil_iff.mp hm)
  · intro t ht
    rw [hterms2] at ht
    by_cases he : requiredTerms podSpec.Affinity = []
    · rw [if_pos he] at ht
      rw [List.mem_singleton] at ht
      exact ⟨[], by rw [ht]; rfl⟩
    · rw [if_neg he] at ht
      obtain ⟨t0, _, ht0⟩ := List.mem_map.mp ht
      exact ⟨t0.MatchExpressions, by rw [← ht0]⟩
  · rw [hr]
    simp [partitionSizeSelectors]

/-- C21 (witness): the pod of the test, with device `a100` and partition size
`1g.5gb`, gets one required term with the two expressions and the two
tolerations. -/
theorem C21_gpu_device_and_partition_witness :
    requestsGpu gpuConfig (gpuPod none) ∧ "a100" ≠ "" ∧
    requiredTerms (ApplyGPUNodeSelectors gpuConfig (gpuPod none)
        (some { Device := "a100",
                PartitionSizeValue := some (.PartitionSize "1g.5gb") })).Affinity =
      [{ MatchExpressions :=
          [{ Key := "gpu-device", Operator := "In", Values := ["a100"] },
           { Key := "gpu-partition-size", Operator := "In", Values := ["1g.5gb"] }] }] ∧
    (ApplyGPUNodeSelectors gpuConfig (gpuPod none)
        (some { Device := "a100",
                PartitionSizeValue := some (.PartitionSize "1g.5gb") })).Tolerations =
      [{ Key := "gpu-device", Value := "a100", Operator := "Equal", Effect := "NoSchedule" },
       { Key := "gpu-partition-size", Value := "1g.5gb", Operator := "Equal",
         Effect := "NoSchedule" }] :=
  have hreq : requestsGpu gpuConfig (gpuPod none) := ⟨gpuContainer, by decide, by decide⟩
  have h := C21_gpu_device_and_partition gpuConfig (gpuPod none) "a100" "1g.5gb" hreq
    (by decide)
  ⟨hreq, by decide, h.1, h.2.2.2⟩

/-- C22: for a pod spec with a container that lists the configured GPU resource
in its limits, and any device: with the partition value unpartitioned=true,
`ApplyGPUNodeSelectors` gives the result for the device alone with one more
requirement added to its required terms (at the end of every term, or as one new
term when there was none), which is the configured
`GpuUnpartitionedNodeSelectorRequirement` when it is set and (partition-size
label DoesNotExist) otherwise, and with the tolerations followed by the
configured `GpuUnpartitionedToleration` when it is set and by nothing
otherwise; with unpartitioned=false the result is the one for the device
alone. -/
theorem C22_gpu_unpartitioned (cfg : K8sPluginConfig) (podSpec : PodSpec) (device : String)
    (h : requestsGpu cfg podSpec) :
    requiredTerms (ApplyGPUNodeSelectors cfg podSpec
        (some { Device := device, PartitionSizeValue := some (.Unpartitioned true) })).Affinity =
      (if requiredTerms (ApplyGPUNodeSelectors cfg podSpec
          (some { Device := device, PartitionSizeValue := none })).Affinity = [] then
        [{ MatchExpressions :=
            [match cfg.GpuUnpartitionedNodeSelectorRequirement with
              | some r => r
              | none => { Key := cfg.GpuPartitionSizeNodeLabel, Operator := "DoesNotExist" }] }]
      else (requiredTerms (ApplyGPUNodeSelectors cfg podSpec
          (some { Device := device, PartitionSizeValue := none })).Affinity).map
        (fun t => { t with MatchExpressions := t.MatchExpressions ++
          [match cfg.GpuUnpartitionedNodeSelectorRequirement with
            | some r => r
            | none =>
              { Key := cfg.GpuPartitionSizeNodeLabel, Operator := "DoesNotExist" }] })) ∧
    (ApplyGPUNodeSelectors cfg podSpec
        (some { Device := device, PartitionSizeValue := some (.Unpartitioned true) })).Tolerations =
      (ApplyGPUNodeSelectors cfg podSpec
        (some { Device := device, PartitionSizeValue := none })).Tolerations ++
        (match cfg.GpuUnpartitionedToleration with
          | some tol => [tol]
          | none => []) ∧
    ApplyGPUNodeSelectors cfg podSpec
        (some { Device := device, PartitionSizeValue := some (.Unpartitioned false) }) =
      ApplyGPUNodeSelectors cfg podSpec
        (some { Device := device, PartitionSizeValue := none }) := by
  have ht := applyGPU_partition cfg podSpec device (.Unpartitioned true) h
  have hf := applyGPU_partition cfg podSpec device (.Unpartitioned false) h
  refine ⟨?_, ?_, ?_⟩
  · rw [ht]
    have hterms := requiredTerms_addRequired
      (match (ApplyGPUNodeSelectors cfg podSpec
          (some { Device := device, PartitionSizeValue := none })).Affinity with
        | none => {}
        | some a => a)
      [match cfg.GpuUnpartitionedNodeSelectorRequirement with
        | some r => r
        | none => { Key := cfg.GpuPartitionSizeNodeLabel, Operator := "DoesNotExist" }]
    rw [requiredTerms_default] at hterms
    exact hterms
  · rw [ht]
    cases hc : cfg.GpuUnpartitionedToleration <;> simp [partitionSizeSelectors, hc]
  · rw [hf]
    simp [partitionSizeSelectors]

/-- C22 (witness): on the GPU pod without affinity and without device, the
default configuration adds the one requirement (partition-size label
DoesNotExist) and no toleration. -/
theorem C22_gpu_unpartitioned_witness :
    requestsGpu gpuConfig (gpuPod none) ∧
    requiredTerms (ApplyGPUNodeSelectors gpuConfig (gpuPod none)
        (some { Device := "", PartitionSizeValue := some (.Unpartitioned true) })).Affinity =
      [{ MatchExpressions := [{ Key := "gpu-partition-size", Operator := "DoesNotExist" }] }] ∧
    (ApplyGPUNodeSelectors gpuConfig (gpuPod none)
        (some { Device := "", PartitionSizeValue := some (.Unpartitioned true) })).Tolerations =
      [] :=
  have hreq : requestsGpu gpuConfig (gpuPod none) := ⟨gpuContainer, by decide, by decide⟩
  have h := C22_gpu_unpartitioned gpuConfig (gpuPod none) "" hreq
  ⟨hreq, h.1, h.2.1⟩

/-! ## Claims on shared memory -/

theorem lastIndexNamed_of_decomp (name : String) (pre : List Container) (c : Container)
    (post : List Container) (k : Nat) (hc : c.Name = name)
    (hpost : ∀ x ∈ post, x.Name ≠ name) :
    lastIndexNamed name (pre ++ c :: post) k = some (k + pre.length) := by
  have hnone : ∀ (l : List Container) (j : Nat), (∀ x ∈ l, x.Name ≠ name) →
      lastIndexNamed name l j = none := by
    intro l
    induction l with
    | nil => intro j _; rfl
    | cons x xs ih =>
      intro j hx
      rw [lastIndexNamed, ih (j + 1) (fun y hy => hx y (List.mem_cons_of_mem _ hy))]
      simp [hx x (List.mem_cons_self _ _)]
  induction pre generalizing k with
  | nil =>
    rw [List.nil_append, lastIndexNamed, hnone post (k + 1) hpost]
    simp [hc]
  | cons x xs ih =>
    rw [List.cons_append, lastIndexNamed, ih (k + 1)]
    simp only [List.length_cons]
    congr 1
    omega

theorem lastIndexNamed_none (name : String) (l : List Container) (k : Nat)
    (h : lastIndexNamed name l k = none) : ∀ c ∈ l, c.Name ≠ name := by
  induction l generalizing k with
  | nil => intro c hc; cases hc
  | cons x xs ih =>
    rw [lastIndexNamed] at h
    cases hr : lastIndexNamed name xs (k + 1) with
    | some i => rw [hr] at h; cases h
    | none =>
      rw [hr] at h
      simp only at h
      intro c hc
      rcases List.mem_cons.mp hc with hcx | hcx
      · rw [hcx]
        intro hn
        rw [if_pos hn] at h
        cases h
      · exact ih (k + 1) hr c hcx

theorem lastNamed_decomp (name : String) (l : List Container) (c : Container)
    (h : lastNamed name l = some c) :
    ∃ pre post, l = pre ++ c :: post ∧ c.Name = name ∧ ∀ x ∈ post, x.Name ≠ name := by
  induction l with
  | nil => simp [lastNamed] at h
  | cons x xs ih =>
    rw [lastNamed_cons] at h
    cases hr : lastNamed name xs with
    | some d =>
      rw [hr] at h
      simp only [Option.or_some, Option.some.injEq] at h
      rw [h] at hr
      obtain ⟨pre, post, hl, hc, hpost⟩ := ih hr
      exact ⟨x :: pre, post, by rw [hl]; rfl, hc, hpost⟩
    | none =>
      rw [hr] at h
      simp only [Option.none_or] at h
      by_cases hx : x.Name = name
      · rw [if_pos hx] at h
        simp only [Option.some.injEq] at h
        refine ⟨[], xs, by rw [h]; rfl, by rw [← h]; exact hx, ?_⟩
        intro y hy hyn
        unfold lastNamed at hr
        rw [List.find?_eq_none] at hr
        exact absurd hyn (by simpa using hr y (List.mem_reverse.mpr hy))
      · rw [if_neg hx] at h
        cases h

theorem lastNamed_of_decomp (name : String) (pre : List Container) (c : Container)
    (post : List Container) (hc : c.Name = name) (hpost : ∀ x ∈ post, x.Name ≠ name) :
    lastNamed name (pre ++ c :: post) = some c := by
  have hnone : lastNamed name post = none := by
    unfold lastNamed
    rw [List.find?_eq_none]
    intro x hx
    simpa using hpost x (List.mem_reverse.mp hx)
  induction pre with
  | nil =>
    rw [List.nil_append, lastNamed_cons, hnone]
    simp [hc]
  | cons x xs ih =>
    rw [List.cons_append, lastNamed_cons, ih]
    rfl

theorem lastNamed_none (name : String) (l : List Container)
    (h : ∀ c ∈ l, c.Name ≠ name) : lastNamed name l = none := by
  unfold lastNamed
  rw [List.find?_eq_none]
  intro x hx
  simpa using h x (List.mem_reverse.mp hx)

theorem modifyAt_decomp (f : Container → Container) (pre : List Container) (c : Container)
    (post : List Container) (k : Nat) (hk : k = pre.length) :
    modifyAt f (pre ++ c :: post) k = pre ++ f c :: post := by
  induction pre generalizing k with
  | nil => rw [hk]; rfl
  | cons x xs ih =>
    rw [hk]
    show x :: modifyAt f (xs ++ c :: post) xs.length = x :: (xs ++ f c :: post)
    rw [ih xs.length rfl]

theorem get?_decomp (pre : List Container) (c : Container) (post : List Container) :
    (pre ++ c :: post).get? pre.length = some c := by
  induction pre with
  | nil => rfl
  | cons x xs ih => simpa using ih

theorem checkVolumeMounts_none (n p : String) (l : List VolumeMount) :
    checkVolumeMounts n p l = none ↔ ∀ m ∈ l, m.Name ≠ n ∧ m.MountPath ≠ p := by
  induction l with
  | nil => simp [checkVolumeMounts]
  | cons m rest ih =>
    rw [checkVolumeMounts]
    by_cases h1 : m.Name = n
    · simp [h1]
    · by_cases h2 : m.MountPath = p
      · simp [h1, h2]
      · simp [h1, h2, ih]

theorem checkVolumeMounts_bad (n p : String) (l : List VolumeMount) (e : PluginError)
    (h : checkVolumeMounts n p l = some e) : ∃ msg, e = .BadTaskSpecification msg := by
  induction l with
  | nil => simp [checkVolumeMounts] at h
  | cons m rest ih =>
    rw [checkVolumeMounts] at h
    split at h
    · exact ⟨_, (Option.some.inj h).symm⟩
    · split at h
      · exact ⟨_, (Option.some.inj h).symm⟩
      · exact ih h

/-- The outcome of `ApplySharedMemory` when the mount name and path are set and
`c` is the last container with the primary name. -/
theorem applySharedMemory_decomp (h : PodHelpers) (p : PodSpec) (n : String)
    (m : SharedMemory) (pre : List Container) (c : Container) (post : List Container)
    (hl : p.Containers = pre ++ c :: post) (hc : c.Name = n)
    (hpost : ∀ x ∈ post, x.Name ≠ n) (hname : m.MountName ≠ "") (hpath : m.MountPath ≠ "") :
    ApplySharedMemory h p n (some m) =
      if p.Volumes.any (fun volume => volume.Name = m.MountName) then
        .error (.BadTaskSpecification
          ("A volume is already named " ++ m.MountName ++ " in pod spec"))
      else
        match checkVolumeMounts m.MountName m.MountPath c.VolumeMounts with
        | some err => .error err
        | none =>
          match (if m.SizeLimit ≠ "" then h.ParseQuantity m.SizeLimit else .ok 0) with
          | .error e => .error (.BadTaskSpecification ("Unable to parse size limit: " ++ e))
          | .ok quantity =>
            .ok { p with
              Volumes := p.Volumes ++ [sharedMemoryVolume m quantity],
              Containers := pre ++
                { c with VolumeMounts := c.VolumeMounts ++ [sharedMemoryMount m] } :: post } := by
  have hidx := lastIndexNamed_of_decomp n pre c post 0 hc hpost
  rw [← hl, Nat.zero_add] at hidx
  have hget : p.Containers.get? pre.length = some c := by
    rw [hl]
    exact get?_decomp pre c post
  have hmod : ∀ f : Container → Container,
      modifyAt f p.Containers pre.length = pre ++ f c :: post := by
    intro f
    rw [hl]
    exact modifyAt_decomp f pre c post pre.length rfl
  unfold ApplySharedMemory
  simp only [hname, hpath, if_false, hidx, hget, hmod, sharedMemoryVolume, sharedMemoryMount]

/-- The outcome of `ApplySharedMemory` when no container has the primary name. -/
theorem applySharedMemory_no_primary (h : PodHelpers) (p : PodSpec) (n : String)
    (m : SharedMemory) (hno : ∀ c ∈ p.Containers, c.Name ≠ n)
    (hname : m.MountName ≠ "") (hpath : m.MountPath ≠ "") :
    ApplySharedMemory h p n (some m) =
      .error (.BadTaskSpecification "Unable to find primary container") := by
  have hidx : lastIndexNamed n p.Containers 0 = none := by
    cases hr : lastIndexNamed n p.Containers 0 with
    | none => rfl
    | some i =>
      exfalso
      have key : ∀ (l : List Container) (k : Nat), (∀ c ∈ l, c.Name ≠ n) →
          lastIndexNamed n l k = none := by
        intro l
        induction l with
        | nil => intro k _; rfl
        | cons x xs ih =>
          intro k hx
          rw [lastIndexNamed, ih (k + 1) (fun y hy => hx y (List.mem_cons_of_mem _ hy))]
          simp [hx x (List.mem_cons_self _ _)]
      rw [key p.Containers 0 hno] at hr
      cases hr
  unfold ApplySharedMemory
  simp only [hname, hpath, if_false, hidx]

/-- Every error of `ApplySharedMemory` is a `BadTaskSpecification`. -/
theorem applySharedMemory_error_bad (h : PodHelpers) (p : PodSpec) (n : String)
    (m : Option SharedMemory) (e : PluginError)
    (herr : ApplySharedMemory h p n m = .error e) : ∃ msg, e = .BadTaskSpecification msg := by
  unfold ApplySharedMemory at herr
  simp only at herr
  split at herr
  · exact ⟨_, (Except.error.inj herr).symm⟩
  · split at herr
    · exact ⟨_, (Except.error.inj herr).symm⟩
    · split at herr
      · exact ⟨_, (Except.error.inj herr).symm⟩
      · split at herr
        · exact ⟨_, (Except.error.inj herr).symm⟩
        · split at herr
          · rename_i err hchk
            rw [Except.error.injEq] at herr
            rw [← herr]
            exact checkVolumeMounts_bad _ _ _ _ hchk
          · split at herr
            · exact ⟨_, (Except.error.inj herr).symm⟩
            · cases herr

theorem lastNamed_some_of_exists (name : String) (l : List Container)
    (h : ∃ c ∈ l, c.Name = name) : ∃ c, lastNamed name l = some c := by
  cases hr : lastNamed name l with
  | some c => exact ⟨c, rfl⟩
  | none =>
    exfalso
    unfold lastNamed at hr
    rw [List.find?_eq_none] at hr
    obtain ⟨c, hc, hcn⟩ := h
    exact absurd hcn (by simpa using hr c (List.mem_reverse.mpr hc))

/-- What a successful `ApplySharedMemory` tells about its input and result. -/
theorem applySharedMemory_ok_inv (h : PodHelpers) (p : PodSpec) (n : String)
    (m : SharedMemory) (q : PodSpec) (hok : ApplySharedMemory h p n (some m) = .ok q) :
    m.MountName ≠ "" ∧ m.MountPath ≠ "" ∧
    ∃ pre c post quantity,
      p.Containers = pre ++ c :: post ∧ lastNamed n p.Containers = some c ∧
      (∀ v ∈ p.Volumes, v.Name ≠ m.MountName) ∧
      (∀ vm ∈ c.VolumeMounts, vm.Name ≠ m.MountName ∧ vm.MountPath ≠ m.MountPath) ∧
      (if m.SizeLimit ≠ "" then h.ParseQuantity m.SizeLimit else .ok 0) = .ok quantity ∧
      q = { p with
        Volumes := p.Volumes ++ [sharedMemoryVolume m quantity],
        Containers := pre ++
          { c with VolumeMounts := c.VolumeMounts ++ [sharedMemoryMount m] } :: post } := by
  have hname : m.MountName ≠ "" := by
    intro he
    unfold ApplySharedMemory at hok
    simp [he] at hok
  have hpath : m.MountPath ≠ "" := by
    intro he
    unfold ApplySharedMemory at hok
    simp [hname, he] at hok
  refine ⟨hname, hpath, ?_⟩
  by_cases hex : ∃ c ∈ p.Containers, c.Name = n
  · obtain ⟨c, hlast⟩ := lastNamed_some_of_exists n p.Containers hex
    obtain ⟨pre, post, hl, hc, hpost⟩ := lastNamed_decomp n p.Containers c hlast
    rw [applySharedMemory_decomp h p n m pre c post hl hc hpost hname hpath] at hok
    split at hok
    · cases hok
    · rename_i hvol
      split at hok
      · cases hok
      · rename_i hchk
        split at hok
        · cases hok
        · rename_i quantity hparse
          refine ⟨pre, c, post, quantity, hl, hlast, ?_, ?_, hparse, ?_⟩
          · intro v hv hvn
            apply hvol
            rw [List.any_eq_true]
            exact ⟨v, hv, by simpa using hvn⟩
          · exact (checkVolumeMounts_none _ _ _).mp hchk
          · exact (Except.ok.inj hok).symm
  · exfalso
    have hno : ∀ c ∈ p.Containers, c.Name ≠ n := fun c hc hcn => hex ⟨c, hc, hcn⟩
    rw [applySharedMemory_no_primary h p n m hno hname hpath] at hok
    cases hok

/-- C23: `ApplySharedMemory` returns a `BadTaskSpecification` error, and the pod
spec after the call is the one passed in, whenever the mount name is empty, the
mount path is empty, the pod already has a volume with the mount name, the
primary container (the last container with the primary name) already has a
volume mount with that name, or one at that mount path, or the non-empty size
limit does not parse as a quantity. The nil shared memory has the empty mount
name and fails in the same way. -/
theorem C23_shared_memory_errors (h : PodHelpers) (podSpec : PodSpec)
    (primaryContainerName : String) (m : SharedMemory)
    (hfail : m.MountName = "" ∨ m.MountPath = "" ∨
      (∃ v ∈ podSpec.Volumes, v.Name = m.MountName) ∨
      (∃ c, lastNamed primaryContainerName podSpec.Containers = some c ∧
        ∃ vm ∈ c.VolumeMounts, vm.Name = m.MountName) ∨
      (∃ c, lastNamed primaryContainerName podSpec.Containers = some c ∧
        ∃ vm ∈ c.VolumeMounts, vm.MountPath = m.MountPath) ∨
      (m.SizeLimit ≠ "" ∧ ∃ e, h.ParseQuantity m.SizeLimit = .error e)) :
    (∃ msg, ApplySharedMemory h podSpec primaryContainerName (some m) =
      .error (.BadTaskSpecification msg)) ∧
    podSpecAfterSharedMemory h podSpec primaryContainerName (some m) = podSpec ∧
    (∃ msg, ApplySharedMemory h podSpec primaryContainerName none =
      .error (.BadTaskSpecification msg)) ∧
    podSpecAfterSharedMemory h podSpec primaryContainerName none = podSpec := by
  have hnil : ApplySharedMemory h podSpec primaryContainerName none =
      .error (.BadTaskSpecification "mount name is not set") := by
    unfold ApplySharedMemory
    simp
  have herr : ∃ e, ApplySharedMemory h podSpec primaryContainerName (some m) = .error e := by
    cases hres : ApplySharedMemory h podSpec primaryContainerName (some m) with
    | error e => exact ⟨e, rfl⟩
    | ok q =>
      exfalso
      obtain ⟨hname, hpath, pre, c, post, quantity, _, hlast, hvol, hmnt, hparse, _⟩ :=
        applySharedMemory_ok_inv h podSpec primaryContainerName m q hres
      rcases hfail with hf | hf | hf | hf | hf | hf
      · exact hname hf
      · exact hpath hf
      · obtain ⟨v, hv, hvn⟩ := hf
        exact hvol v hv hvn
      · obtain ⟨c1, hc1, vm, hvm, hvmn⟩ := hf
        rw [hlast] at hc1
        rw [← Option.some.inj hc1] at hvm
        exact (hmnt vm hvm).1 hvmn
      · obtain ⟨c1, hc1, vm, hvm, hvmp⟩ := hf
        rw [hlast] at hc1
        rw [← Option.some.inj hc1] at hvm
        exact (hmnt vm hvm).2 hvmp
      · obtain ⟨hs, e, he⟩ := hf
        rw [if_pos hs, he] at hparse
        cases hparse
  obtain ⟨e, he⟩ := herr
  obtain ⟨msg, hmsg⟩ := applySharedMemory_error_bad h podSpec primaryContainerName (some m) e he
  refine ⟨⟨msg, by rw [he, hmsg]⟩, ?_, ⟨_, hnil⟩, ?_⟩
  · unfold podSpecAfterSharedMemory
    rw [he]
  · unfold podSpecAfterSharedMemory
    rw [hnil]

/-- C23 (witness): the size limit `lots` does not parse, so the call on the pod
with the volume `data` fails with a `BadTaskSpecification` error. -/
theorem C23_shared_memory_errors_witness :
    ("lots" ≠ "" ∧ ∃ e, sizeHelpers.ParseQuantity "lots" = .error e) ∧
    ApplySharedMemory sizeHelpers dataPod "main"
        (some { MountName := "shm", MountPath := "/dev/shm", SizeLimit := "lots" }) =
      .error (.BadTaskSpecification
        "Unable to parse size limit: quantities must match the regular expression") ∧
    podSpecAfterSharedMemory sizeHelpers dataPod "main"
        (some { MountName := "shm", MountPath := "/dev/shm", SizeLimit := "lots" }) = dataPod :=
  have hf : "lots" ≠ "" ∧ ∃ e, sizeHelpers.ParseQuantity "lots" = .error e :=
    ⟨by decide, _, rfl⟩
  ⟨hf, rfl,
    (C23_shared_memory_errors sizeHelpers dataPod "main"
      { MountName := "shm", MountPath := "/dev/shm", SizeLimit := "lots" }
      (Or.inr (Or.inr (Or.inr (Or.inr (Or.inr hf)))))).2.1⟩

/-- C24: when the mount name and the mount path are set, `c` is the primary
container (the last container with the primary name), no volume of the pod has
the mount name, no volume mount of `c` has the mount name or the mount path, and
the size limit is empty or parses, `ApplySharedMemory` succeeds; its result is
the input pod spec with one volume added at the end of the volumes (the mount
name, source EmptyDir, medium Memory, the parsed size limit, zero when the size
limit is empty) and one mount (mount name, mount path) added at the end of the
volume mounts of `c`; the other containers, the other fields of `c` and the
other fields of the pod spec are those of the input. -/
theorem C24_shared_memory_success (h : PodHelpers) (podSpec : PodSpec)
    (primaryContainerName : String) (m : SharedMemory)
    (pre : List Container) (c : Container) (post : List Container) (quantity : Quantity)
    (hname : m.MountName ≠ "") (hpath : m.MountPath ≠ "")
    (hl : podSpec.Containers = pre ++ c :: post) (hc : c.Name = primaryContainerName)
    (hpost : ∀ x ∈ post, x.Name ≠ primaryContainerName)
    (hvol : ∀ v ∈ podSpec.Volumes, v.Name ≠ m.MountName)
    (hmnt : ∀ vm ∈ c.VolumeMounts, vm.Name ≠ m.MountName ∧ vm.MountPath ≠ m.MountPath)
    (hsize : (m.SizeLimit = "" ∧ quantity = 0) ∨
      (m.SizeLimit ≠ "" ∧ h.ParseQuantity m.SizeLimit = .ok quantity)) :
    ApplySharedMemory h podSpec primaryContainerName (some m) =
      .ok { podSpec with
        Volumes := podSpec.Volumes ++
          [{ Name := m.MountName,
             EmptyDir := some { Medium := "Memory", SizeLimit := some quantity } }],
        Containers := pre ++
          { c with
            VolumeMounts := c.VolumeMounts ++
              [{ Name := m.MountName, MountPath := m.MountPath }] } :: post } := by
  rw [applySharedMemory_decomp h podSpec primaryContainerName m pre c post hl hc hpost
    hname hpath]
  have hany : podSpec.Volumes.any (fun volume => volume.Name = m.MountName) = false := by
    rw [List.any_eq_false]
    intro v hv
    simpa using hvol v hv
  have hchk := (checkVolumeMounts_none m.MountName m.MountPath c.VolumeMounts).mpr hmnt
  have hparse : (if m.SizeLimit ≠ "" then h.ParseQuantity m.SizeLimit else .ok 0) =
      .ok quantity := by
    rcases hsize with ⟨hs, hq⟩ | ⟨hs, hq⟩
    · rw [if_neg (not_not.mpr hs), hq]
    · rw [if_pos hs, hq]
  rw [hany, hchk, hparse]
  rfl

/-- C24 (witness): shared memory of `1Gi` on the pod with the volume `data`. -/
theorem C24_shared_memory_success_witness :
    ApplySharedMemory sizeHelpers dataPod "main" (some sampleSharedMemory) =
      .ok { Volumes :=
              [{ Name := "data" },
               { Name := "shm",
                 EmptyDir := some { Medium := "Memory", SizeLimit := some 1073741824 } }],
            Containers :=
              [{ Name := "main", Image := "trainer:1",
                 VolumeMounts :=
                   [{ Name := "data", MountPath := "/data" },
                    { Name := "shm", MountPath := "/dev/shm" }] }] } :=
  C24_shared_memory_success sizeHelpers dataPod "main" sampleSharedMemory []
    { Name := "main", Image := "trainer:1",
      VolumeMounts := [{ Name := "data", MountPath := "/data" }] } [] 1073741824
    (by decide) (by decide) rfl rfl (by simp) (by simp [dataPod, sampleSharedMemory])
    (by simp [sampleSharedMemory]) (Or.inr ⟨by decide, rfl⟩)

/-- C25: when the volumes of a pod spec have pairwise distinct names and the
volume mounts of its primary container (the last container with the primary
name) have pairwise distinct mount paths, the same holds of the pod spec after a
call of `ApplySharedMemory`, whether the call succeeded or failed. -/
theorem C25_shared_memory_uniqueness (h : PodHelpers) (podSpec : PodSpec)
    (primaryContainerName : String) (sharedMemory : Option SharedMemory)
    (hv : (podSpec.Volumes.map (fun v => v.Name)).Nodup)
    (hm : ((primaryVolumeMounts podSpec primaryContainerName).map
      (fun vm => vm.MountPath)).Nodup) :
    ((podSpecAfterSharedMemory h podSpec primaryContainerName sharedMemory).Volumes.map
      (fun v => v.Name)).Nodup ∧
    ((primaryVolumeMounts
        (podSpecAfterSharedMemory h podSpec primaryContainerName sharedMemory)
        primaryContainerName).map (fun vm => vm.MountPath)).Nodup := by
  unfold podSpecAfterSharedMemory
  cases hres : ApplySharedMemory h podSpec primaryContainerName sharedMemory with
  | error e => exact ⟨hv, hm⟩
  | ok q =>
    cases sharedMemory with
    | none =>
      unfold ApplySharedMemory at hres
      simp at hres
    | some m =>
      obtain ⟨_, _, pre, c, post, quantity, hl, hlast, hvol, hmnt, _, hq⟩ :=
        applySharedMemory_ok_inv h podSpec primaryContainerName m q hres
      obtain ⟨pre1, post1, hl1, hc1, hpost1⟩ :=
        lastNamed_decomp primaryContainerName podSpec.Containers c hlast
      have hq1 : q = { podSpec with
          Volumes := podSpec.Volumes ++ [sharedMemoryVolume m quantity],
          Containers := pre1 ++
            { c with VolumeMounts := c.VolumeMounts ++ [sharedMemoryMount m] } :: post1 } := by
        have h1 := applySharedMemory_decomp h podSpec primaryContainerName m pre1 c post1 hl1
          hc1 hpost1 (by assumption) (by assumption)
        rw [hres] at h1
        have hany : podSpec.Volumes.any (fun volume => volume.Name = m.MountName) = false := by
          rw [List.any_eq_false]
          intro v hv1
          simpa using hvol v hv1
        have hchk := (checkVolumeMounts_none m.MountName m.MountPath c.VolumeMounts).mpr hmnt
        rw [hany, hchk] at h1
        simp only [Bool.false_eq_true, if_false] at h1
        rename_i hparse
        rw [hparse] at h1
        exact Except.ok.inj h1
      refine ⟨?_, ?_⟩
      · show (List.map (fun v => v.Name) q.Volumes).Nodup
        rw [hq1]
        simp only [List.map_append, List.map_cons, List.map_nil]
        rw [List.nodup_append]
        refine ⟨hv, List.nodup_singleton _, ?_⟩
        intro a ha hb
        rw [List.mem_singleton] at hb
        obtain ⟨v, hvmem, hvn⟩ := List.mem_map.mp ha
        exact hvol v hvmem (by rw [hvn, hb]; rfl)
      · show (List.map (fun vm => vm.MountPath) (primaryVolumeMounts q _)).Nodup
        have hlast1 : lastNamed primaryContainerName q.Containers =
            some { c with VolumeMounts := c.VolumeMounts ++ [sharedMemoryMount m] } := by
          rw [hq1]
          exact lastNamed_of_decomp primaryContainerName pre1 _ post1 hc1 hpost1
        unfold primaryVolumeMounts at hm ⊢
        rw [hlast1]
        rw [hlast] at hm
        simp only [List.map_append, List.map_cons, List.map_nil]
        rw [List.nodup_append]
        refine ⟨hm, List.nodup_singleton _, ?_⟩
        intro a ha hb
        rw [List.mem_singleton] at hb
        obtain ⟨vm, hvmmem, hvmp⟩ := List.mem_map.mp ha
        exact (hmnt vm hvmmem).2 (by rw [hvmp, hb]; rfl)

/-- C25 (witness): after shared memory is added to the pod with the volume
`data`, the volume names `data`, `shm` and the mount paths `/data`, `/dev/shm`
are distinct. -/
theorem C25_shared_memory_uniqueness_witness :
    ((podSpecAfterSharedMemory sizeHelpers dataPod "main"
      (some sampleSharedMemory)).Volumes.map (fun v => v.Name)).Nodup ∧
    ((primaryVolumeMounts
        (podSpecAfterSharedMemory sizeHelpers dataPod "main" (some sampleSharedMemory))
        "main").map (fun vm => vm.MountPath)).Nodup :=
  C25_shared_memory_uniqueness sizeHelpers dataPod "main" (some sampleSharedMemory)
    (by decide) (by decide)

/-! ## Claims on the tolerations for extended resources -/

theorem stringSetInsert_mem (x r : String) (l : List String) :
    r ∈ stringSetInsert x l ↔ r = x ∨ r ∈ l := by
  induction l with
  | nil => simp [stringSetInsert]
  | cons y ys ih =>
    rw [stringSetInsert]
    by_cases h1 : x < y
    · simp [h1]
    · by_cases h2 : x = y
      · simp [h1, h2]
      · simp only [h1, h2, if_false, List.mem_cons, ih]
        tauto

theorem stringSetInsert_sorted (x : String) (l : List String)
    (h : l.Pairwise (fun a b => a < b)) :
    (stringSetInsert x l).Pairwise (fun a b => a < b) := by
  induction l with
  | nil => simp [stringSetInsert]
  | cons y ys ih =>
    rw [stringSetInsert]
    rw [List.pairwise_cons] at h
    by_cases h1 : x < y
    · rw [if_pos h1]
      rw [List.pairwise_cons]
      refine ⟨?_, List.pairwise_cons.mpr h⟩
      intro a ha
      rcases List.mem_cons.mp ha with ha | ha
      · rw [ha]; exact h1
      · exact lt_trans h1 (h.1 a ha)
    · rw [if_neg h1]
      by_cases h2 : x = y
      · rw [if_pos h2]
        exact List.pairwise_cons.mpr h
      · rw [if_neg h2]
        rw [List.pairwise_cons]
        refine ⟨?_, ih h.2⟩
        intro a ha
        rcases (stringSetInsert_mem x a ys).mp ha with ha | ha
        · rw [ha]
          rcases lt_trichotomy x y with hlt | heq | hgt
          · exact absurd hlt h1
          · exact absurd heq h2
          · exact hgt
        · exact h.1 a ha

/-- The resources collected by one of the loops over the containers. -/
theorem collectExtendedResources_mem (ext : List String) (containers : List Container)
    (acc : List String) (r : String) :
    r ∈ collectExtendedResources ext containers acc ↔
      r ∈ acc ∨ (r ∈ ext ∧ ∃ c ∈ containers, c.Resources.Requests.has r = true) := by
  have inner : ∀ (c : Container) (e : List String) (a : List String),
      r ∈ e.foldl
        (fun acc1 extendedResource =>
          if c.Resources.Requests.has extendedResource then
            stringSetInsert extendedResource acc1
          else acc1) a ↔
      r ∈ a ∨ (r ∈ e ∧ c.Resources.Requests.has r = true) := by
    intro c e
    induction e with
    | nil => intro a; simp
    | cons x xs ih =>
      intro a
      rw [List.foldl_cons]
      refine (ih _).trans ?_
      by_cases hx : c.Resources.Requests.has x = true
      · rw [if_pos hx, stringSetInsert_mem]
        constructor
        · rintro ((h1 | h1) | h1)
          · exact Or.inr ⟨by rw [h1]; exact List.mem_cons_self _ _, by rw [h1]; exact hx⟩
          · exact Or.inl h1
          · exact Or.inr ⟨List.mem_cons_of_mem _ h1.1, h1.2⟩
        · rintro (h1 | ⟨h1, h2⟩)
          · exact Or.inl (Or.inr h1)
          · rcases List.mem_cons.mp h1 with h1 | h1
            · exact Or.inl (Or.inl h1)
            · exact Or.inr ⟨h1, h2⟩
      · rw [if_neg hx]
        constructor
        · rintro (h1 | h1)
          · exact Or.inl h1
          · exact Or.inr ⟨List.mem_cons_of_mem _ h1.1, h1.2⟩
        · rintro (h1 | ⟨h1, h2⟩)
          · exact Or.inl h1
          · rcases List.mem_cons.mp h1 with h1 | h1
            · rw [h1] at h2
              exact absurd h2 hx
            · exact Or.inr ⟨h1, h2⟩
  unfold collectExtendedResources
  induction containers generalizing acc with
  | nil => simp
  | cons c cs ih =>
    rw [List.foldl_cons]
    refine (ih _).trans ?_
    rw [inner]
    constructor
    · rintro ((h1 | h1) | h1)
      · exact Or.inl h1
      · exact Or.inr ⟨h1.1, c, List.mem_cons_self _ _, h1.2⟩
      · obtain ⟨h1, c1, hc1, h2⟩ := h1
        exact Or.inr ⟨h1, c1, List.mem_cons_of_mem _ hc1, h2⟩
    · rintro (h1 | ⟨h1, c1, hc1, h2⟩)
      · exact Or.inl (Or.inl h1)
      · rcases List.mem_cons.mp hc1 with hc1 | hc1
        · rw [hc1] at h2
          exact Or.inl (Or.inr ⟨h1, h2⟩)
        · exact Or.inr ⟨h1, c1, hc1, h2⟩

theorem collectExtendedResources_sorted (ext : List String) (containers : List Container)
    (acc : List String) (h : acc.Pairwise (fun a b => a < b)) :
    (collectExtendedResources ext containers acc).Pairwise (fun a b => a < b) := by
  have inner : ∀ (c : Container) (e : List String) (a : List String),
      a.Pairwise (fun a b => a < b) →
      (e.foldl
        (fun acc1 extendedResource =>
          if c.Resources.Requests.has extendedResource then
            stringSetInsert extendedResource acc1
          else acc1) a).Pairwise (fun a b => a < b) := by
    intro c e
    induction e with
    | nil => intro a ha; exact ha
    | cons x xs ih =>
      intro a ha
      rw [List.foldl_cons]
      apply ih
      split
      · exact stringSetInsert_sorted x a ha
      · exact ha
  unfold collectExtendedResources
  induction containers generalizing acc with
  | nil => exact h
  | cons c cs ih =>
    rw [List.foldl_cons]
    exact ih _ (inner c ext acc h)

theorem matchToleration_extended (r s : String) :
    MatchToleration (extendedResourceToleration r) (extendedResourceToleration s) = true ↔
      r = s := by
  simp [MatchToleration, extendedResourceToleration]

/-- The loop of `AddTolerationsForExtendedResources` over the collected
resources leaves every field but the tolerations as it is. -/
theorem foldl_addToleration_frame (rs : List String) (p : PodSpec) :
    rs.foldl (fun p resource => addTolerationInPodSpec p (extendedResourceToleration resource))
        p =
      { p with
        Tolerations := (rs.foldl
          (fun p resource => addTolerationInPodSpec p (extendedResourceToleration resource))
          p).Tolerations } := by
  induction rs generalizing p with
  | nil => rfl
  | cons r rest ih =>
    rw [List.foldl_cons, ih]
    unfold addTolerationInPodSpec
    split <;> rfl

/-- The tolerations after the loop of `AddTolerationsForExtendedResources` over
distinct resources: the old ones, followed by the toleration of each resource
that no old toleration matches. -/
theorem foldl_addToleration_tolerations (rs : List String) (hnd : rs.Nodup) (p : PodSpec) :
    (rs.foldl (fun p resource => addTolerationInPodSpec p (extendedResourceToleration resource))
        p).Tolerations =
      p.Tolerations ++
        (rs.filter (fun r =>
          !(p.Tolerations.any
            (fun t => MatchToleration (extendedResourceToleration r) t)))).map
          extendedResourceToleration := by
  induction rs generalizing p with
  | nil => simp
  | cons r rest ih =>
    rw [List.nodup_cons] at hnd
    rw [List.foldl_cons, ih hnd.2]
    unfold addTolerationInPodSpec
    by_cases hm : p.Tolerations.any
        (fun t => MatchToleration (extendedResourceToleration r) t) = true
    · rw [if_pos hm]
      rw [List.filter_cons_of_neg (by simp [hm])]
    · rw [if_neg hm]
      rw [List.filter_cons_of_pos (by simpa using hm)]
      simp only [List.map_cons, List.append_assoc, List.singleton_append]
      congr 2
      apply congrArg
      apply List.filter_congr
      intro x hx
      have hne : x ≠ r := fun he => hnd.1 (he ▸ hx)
      have hno : MatchToleration (extendedResourceToleration x)
          (extendedResourceToleration r) = false := by
        rw [Bool.eq_false_iff]
        intro ht
        exact hne ((matchToleration_extended x r).mp ht)
      simp [List.any_append, hno]

theorem foldl_addToleration_matched (rs : List String) (p : PodSpec)
    (h : ∀ r ∈ rs, p.Tolerations.any
      (fun t => MatchToleration (extendedResourceToleration r) t) = true) :
    rs.foldl (fun p resource => addTolerationInPodSpec p (extendedResourceToleration resource))
      p = p := by
  induction rs with
  | nil => rfl
  | cons r rest ih =>
    rw [List.foldl_cons]
    have hr : addTolerationInPodSpec p (extendedResourceToleration r) = p := by
      unfold addTolerationInPodSpec
      rw [if_pos (h r (List.mem_cons_self _ _))]
    rw [hr]
    exact ih (fun x hx => h x (List.mem_cons_of_mem _ hx))

/-- The resources that `AddTolerationsForExtendedResources` collects. -/
theorem addTolerations_eq (cfg : K8sPluginConfig) (p : PodSpec) :
    AddTolerationsForExtendedResources cfg (some p) =
      (collectExtendedResources cfg.AddTolerationsForExtendedResources p.InitContainers
        (collectExtendedResources cfg.AddTolerationsForExtendedResources
          p.Containers [])).foldl
        (fun p resource => addTolerationInPodSpec p (extendedResourceToleration resource)) p :=
  rfl

theorem collected_nodup (cfg : K8sPluginConfig) (p : PodSpec) :
    (collectExtendedResources cfg.AddTolerationsForExtendedResources p.InitContainers
      (collectExtendedResources cfg.AddTolerationsForExtendedResources
        p.Containers [])).Nodup := by
  have hs := collectExtendedResources_sorted cfg.AddTolerationsForExtendedResources
    p.InitContainers _
    (collectExtendedResources_sorted cfg.AddTolerationsForExtendedResources
      p.Containers [] List.Pairwise.nil)
  exact hs.imp (fun hab => ne_of_lt hab)

theorem collected_mem (cfg : K8sPluginConfig) (p : PodSpec) (r : String) :
    r ∈ collectExtendedResources cfg.AddTolerationsForExtendedResources p.InitContainers
      (collectExtendedResources cfg.AddTolerationsForExtendedResources p.Containers []) ↔
    r ∈ cfg.AddTolerationsForExtendedResources ∧ requestsResource p r := by
  rw [collectExtendedResources_mem, collectExtendedResources_mem]
  unfold requestsResource
  constructor
  · rintro ((h | ⟨h1, c, hc, h2⟩) | ⟨h1, c, hc, h2⟩)
    · cases h
    · exact ⟨h1, c, List.mem_append_left _ hc, h2⟩
    · exact ⟨h1, c, List.mem_append_right _ hc, h2⟩
  · rintro ⟨h1, c, hc, h2⟩
    rcases List.mem_append.mp hc with hc | hc
    · exact Or.inl (Or.inr ⟨h1, c, hc, h2⟩)
    · exact Or.inr ⟨h1, c, hc, h2⟩

/-- C26: `AddTolerationsForExtendedResources` is idempotent: for every
configuration and every pod spec (the nil one included), applying it to its own
result returns that result unchanged; in particular the tolerations are the
same and none is added. -/
theorem C26_add_tolerations_idempotent (cfg : K8sPluginConfig) (podSpec : Option PodSpec) :
    AddTolerationsForExtendedResources cfg
        (some (AddTolerationsForExtendedResources cfg podSpec)) =
      AddTolerationsForExtendedResources cfg podSpec ∧
    (AddTolerationsForExtendedResources cfg
        (some (AddTolerationsForExtendedResources cfg podSpec))).Tolerations.length =
      (AddTolerationsForExtendedResources cfg podSpec).Tolerations.length := by
  have key : ∀ p : PodSpec,
      AddTolerationsForExtendedResources cfg
          (some (AddTolerationsForExtendedResources cfg (some p))) =
        AddTolerationsForExtendedResources cfg (some p) := by
    intro p
    have hframe := foldl_addToleration_frame
      (collectExtendedResources cfg.AddTolerationsForExtendedResources p.InitContainers
        (collectExtendedResources cfg.AddTolerationsForExtendedResources p.Containers [])) p
    rw [← addTolerations_eq] at hframe
    have hc : (AddTolerationsForExtendedResources cfg (some p)).Containers = p.Containers := by
      rw [hframe]
    have hi : (AddTolerationsForExtendedResources cfg (some p)).InitContainers =
        p.InitContainers := by
      rw [hframe]
    have htol := foldl_addToleration_tolerations _ (collected_nodup cfg p) p
    rw [← addTolerations_eq] at htol
    rw [addTolerations_eq cfg (AddTolerationsForExtendedResources cfg (some p)), hc, hi]
    apply foldl_addToleration_matched
    intro r hr
    rw [htol, List.any_append]
    by_cases hm : p.Tolerations.any
        (fun t => MatchToleration (extendedResourceToleration r) t) = true
    · rw [hm]
      rfl
    · rw [Bool.or_eq_true]
      right
      rw [List.any_eq_true]
      refine ⟨extendedResourceToleration r, ?_, (matchToleration_extended r r).mpr rfl⟩
      apply List.mem_map_of_mem
      rw [List.mem_filter]
      exact ⟨hr, by simpa using hm⟩
  have hboth : AddTolerationsForExtendedResources cfg
        (some (AddTolerationsForExtendedResources cfg podSpec)) =
      AddTolerationsForExtendedResources cfg podSpec := by
    cases podSpec with
    | none => exact key {}
    | some p => exact key p
  exact ⟨hboth, by rw [hboth]⟩

/-- C27: for every pod spec, the tolerations after
`AddTolerationsForExtendedResources` are the original tolerations, in their
order, followed by the tolerations (key = name, operator Exists, effect
NoSchedule) of a list of names without repetition (in ascending order) that
holds exactly the configured extended-resource names that occur in the resource
requests of some container or init container and for which the pod carried no
matching toleration. So a name configured or requested several times is added
once, and when no configured name occurs in any request (in limits only, say)
the tolerations are unchanged. -/
theorem C27_add_tolerations_characterised (cfg : K8sPluginConfig) (podSpec : PodSpec) :
    (∃ added : List String,
      added.Pairwise (fun a b => a < b) ∧ added.Nodup ∧
      (∀ r, r ∈ added ↔
        r ∈ cfg.AddTolerationsForExtendedResources ∧ requestsResource podSpec r ∧
          ¬ carriesMatchingToleration podSpec (extendedResourceToleration r)) ∧
      (AddTolerationsForExtendedResources cfg (some podSpec)).Tolerations =
        podSpec.Tolerations ++ added.map extendedResourceToleration) ∧
    ((∀ r ∈ cfg.AddTolerationsForExtendedResources, ¬ requestsResource podSpec r) →
      (AddTolerationsForExtendedResources cfg (some podSpec)).Tolerations =
        podSpec.Tolerations) := by
  have htol := foldl_addToleration_tolerations _ (collected_nodup cfg podSpec) podSpec
  rw [← addTolerations_eq] at htol
  have hsorted := collectExtendedResources_sorted cfg.AddTolerationsForExtendedResources
    podSpec.InitContainers _
    (collectExtendedResources_sorted cfg.AddTolerationsForExtendedResources
      podSpec.Containers [] List.Pairwise.nil)
  have hmem : ∀ r, r ∈ (collectExtendedResources cfg.AddTolerationsForExtendedResources
        podSpec.InitContainers
        (collectExtendedResources cfg.AddTolerationsForExtendedResources
          podSpec.Containers [])).filter (fun r =>
          !(podSpec.Tolerations.any
            (fun t => MatchToleration (extendedResourceToleration r) t))) ↔
      r ∈ cfg.AddTolerationsForExtendedResources ∧ requestsResource podSpec r ∧
        ¬ carriesMatchingToleration podSpec (extendedResourceToleration r) := by
    intro r
    rw [List.mem_filter, collected_mem]
    unfold carriesMatchingToleration
    simp only [Bool.not_eq_true', List.any_eq_false, and_assoc]
    constructor
    · rintro ⟨h1, h2, h3⟩
      refine ⟨h1, h2, ?_⟩
      rintro ⟨t0, ht0, hmt⟩
      exact h3 t0 ht0 hmt
    · rintro ⟨h1, h2, h3⟩
      exact ⟨h1, h2, fun t0 ht0 hmt => h3 ⟨t0, ht0, hmt⟩⟩
  refine ⟨⟨_, hsorted.filter _, (collected_nodup cfg podSpec).filter _, hmem, htol⟩, ?_⟩
  intro hno
  rw [htol]
  have hnil : (collectExtendedResources cfg.AddTolerationsForExtendedResources
        podSpec.InitContainers
        (collectExtendedResources cfg.AddTolerationsForExtendedResources
          podSpec.Containers [])).filter (fun r =>
          !(podSpec.Tolerations.any
            (fun t => MatchToleration (extendedResourceToleration r) t))) = [] := by
    rw [List.eq_nil_iff_forall_not_mem]
    intro r hr
    have h1 := (hmem r).mp hr
    exact hno r h1.1 h1.2.1
  rw [hnil]
  simp

/-- The configured resource `nvidia.com/gpu`, listed twice and requested by the
one container, gets one toleration. -/
theorem addTolerations_example :
    (AddTolerationsForExtendedResources
      { gpuConfig with
        AddTolerationsForExtendedResources := ["nvidia.com/gpu", "nvidia.com/gpu"] }
      (some (gpuPod none))).Tolerations =
      [{ Key := "nvidia.com/gpu", Operator := "Exists", Effect := "NoSchedule" }] := by
  simp [AddTolerationsForExtendedResources, collectExtendedResources, stringSetInsert,
    gpuPod, gpuContainer, GoMap.has, GoMap.get?, addTolerationInPodSpec]

/-- C27 (limits only): the GPU resource is configured for tolerations, and the
one container lists it in its limits and in no request: no toleration is
added. -/
theorem C27_add_tolerations_characterised_witness :
    (∀ r ∈ tolerationConfig.AddTolerationsForExtendedResources,
      ¬ requestsResource limitsOnlyPod r) ∧
    (AddTolerationsForExtendedResources tolerationConfig (some limitsOnlyPod)).Tolerations =
      limitsOnlyPod.Tolerations :=
  have hno : ∀ r ∈ tolerationConfig.AddTolerationsForExtendedResources,
      ¬ requestsResource limitsOnlyPod r := by
    intro r hr
    simp [requestsResource, limitsOnlyPod, GoMap.has, GoMap.get?]
  ⟨hno, (C27_add_tolerations_characterised tolerationConfig limitsOnlyPod).2 hno⟩

/-! ## Claims on the overrides -/

/-- C28: for every base and override (each possibly nil),
`applyExtendedResourcesOverrides` returns extended resources whose GPU
accelerator is the one of the override when the override has one and the one of
the base otherwise, and whose shared memory is the one of the override when the
override has one and the one of the base otherwise; a nil base counts as the
empty one, and a nil override gives the base. The accelerator is replaced as a
whole: an override accelerator with a partition size and no device gives an
accelerator without device, whatever the device of the base. -/
theorem C28_extended_resources_overrides (base overrides : Option ExtendedResources) :
    (applyExtendedResourcesOverrides base overrides).GpuAccelerator =
      ((overrides.bind (fun o => o.GpuAccelerator)).or
        (base.bind (fun b => b.GpuAccelerator))) ∧
    (applyExtendedResourcesOverrides base overrides).SharedMemory =
      ((overrides.bind (fun o => o.SharedMemory)).or
        (base.bind (fun b => b.SharedMemory))) ∧
    applyExtendedResourcesOverrides none overrides =
      applyExtendedResourcesOverrides (some {}) overrides ∧
    applyExtendedResourcesOverrides base none = base.getD {} ∧
    (∀ (baseAccelerator : GPUAccelerator) (partition : PartitionSizeValue),
      (applyExtendedResourcesOverrides
        (some { GpuAccelerator := some baseAccelerator, SharedMemory := none })
        (some { GpuAccelerator := some { Device := "", PartitionSizeValue := some partition },
                SharedMemory := none })).GpuAccelerator =
        some { Device := "", PartitionSizeValue := some partition } ∧
      GetDevice (applyExtendedResourcesOverrides
        (some { GpuAccelerator := some baseAccelerator, SharedMemory := none })
        (some { GpuAccelerator := some { Device := "", PartitionSizeValue := some partition },
                SharedMemory := none })).GpuAccelerator = "") := by
  refine ⟨?_, ?_, ?_, ?_, ?_⟩
  · cases base <;> cases overrides with
    | none => rfl
    | some o =>
      rcases o with ⟨g, m⟩
      cases g <;> cases m <;> rfl
  · cases base <;> cases overrides with
    | none => rfl
    | some o =>
      rcases o with ⟨g, m⟩
      cases g <;> cases m <;> rfl
  · rfl
  · cases base <;> rfl
  · intro b partition
    exact ⟨rfl, rfl⟩

theorem overrideImage_decomp (img n : String) (pre : List Container) (c : Container)
    (post : List Container) (hc : c.Name = n) (hpre : ∀ x ∈ pre, x.Name ≠ n) :
    overrideImage img n (pre ++ c :: post) = pre ++ { c with Image := img } :: post := by
  induction pre with
  | nil =>
    rw [List.nil_append, overrideImage, if_pos hc]
    rfl
  | cons x xs ih =>
    rw [List.cons_append, overrideImage, if_neg (hpre x (List.mem_cons_self _ _)),
      ih (fun y hy => hpre y (List.mem_cons_of_mem _ hy))]
    rfl

theorem overrideImage_none (img n : String) (l : List Container)
    (h : ∀ x ∈ l, x.Name ≠ n) : overrideImage img n l = l := by
  induction l with
  | nil => rfl
  | cons x xs ih =>
    rw [overrideImage, if_neg (h x (List.mem_cons_self _ _)),
      ih (fun y hy => h y (List.mem_cons_of_mem _ hy))]

/-- C29: for every pod spec, image and primary name, when `c` is the first
container whose name is the primary name, `ApplyContainerImageOverride` gives
the input pod spec with the image of `c` set to the given image: the containers
before and after `c`, the init containers, the other fields of `c` and the
other fields of the pod spec are those of the input. When no container has the
primary name, the pod spec is unchanged. -/
theorem C29_image_override (podSpec : PodSpec) (containerImage primaryContainerName : String) :
    (∀ (pre : List Container) (c : Container) (post : List Container),
      podSpec.Containers = pre ++ c :: post → c.Name = primaryContainerName →
      (∀ x ∈ pre, x.Name ≠ primaryContainerName) →
      ApplyContainerImageOverride podSpec containerImage primaryContainerName =
        { podSpec with
          Containers := pre ++ { c with Image := containerImage } :: post }) ∧
    ((∀ x ∈ podSpec.Containers, x.Name ≠ primaryContainerName) →
      ApplyContainerImageOverride podSpec containerImage primaryContainerName = podSpec) ∧
    (ApplyContainerImageOverride podSpec containerImage primaryContainerName).InitContainers =
      podSpec.InitContainers := by
  refine ⟨?_, ?_, rfl⟩
  · intro pre c post hl hc hpre
    unfold ApplyContainerImageOverride
    rw [hl, overrideImage_decomp containerImage primaryContainerName pre c post hc hpre]
  · intro hno
    unfold ApplyContainerImageOverride
    rw [overrideImage_none containerImage primaryContainerName podSpec.Containers hno]

/-- C29 (witness): on the pod with a sidecar and two containers named `main`,
the image of the first `main` is replaced and nothing else. -/
theorem C29_image_override_witness :
    ApplyContainerImageOverride twoMainPod "trainer:3" "main" =
      { Containers :=
          [{ Name := "sidecar", Image := "proxy:1" },
           { Name := "main", Image := "trainer:3" },
           { Name := "main", Image := "trainer:2" }],
        InitContainers := [{ Name := "main", Image := "init:1" }] } :=
  (C29_image_override twoMainPod "trainer:3" "main").1
    [{ Name := "sidecar", Image := "proxy:1" }] { Name := "main", Image := "trainer:1" }
    [{ Name := "main", Image := "trainer:2" }] rfl rfl (by simp)

/-! ## Claims on `UpdatePod` -/

theorem string_length_zero (s : String) : s.length = 0 ↔ s = "" := by
  rcases s with ⟨l⟩
  cases l with
  | nil => exact ⟨fun _ => rfl, fun _ => rfl⟩
  | cons a l =>
    constructor
    · intro h
      simp [String.length] at h
    · intro h
      have h1 := congrArg String.data h
      simp at h1

/-- C30: `UpdatePod` keeps the restart policy, the service account name and the
scheduler name of the pod spec when they are not empty, and its pod security
context and DNS config when they are set; otherwise the restart policy becomes
`Never`, the service account name the one of the execution metadata, the
scheduler name the configured `SchedulerName`, the pod security context the
configured `DefaultPodSecurityContext` and the DNS config the configured
`DefaultPodDNSConfig`. The tolerations of the result are the tolerations from
`GetPodTolerations` followed by the original tolerations of the pod, in their
order. -/
theorem C30_update_pod_defaults (cfg : K8sPluginConfig) (h : PodHelpers)
    (taskExecutionMetadata : TaskExecutionMetadata)
    (resourceRequirements : List ResourceRequirements) (podSpec : PodSpec) :
    (UpdatePod cfg h taskExecutionMetadata resourceRequirements podSpec).RestartPolicy =
      (if podSpec.RestartPolicy = "" then "Never" else podSpec.RestartPolicy) ∧
    (UpdatePod cfg h taskExecutionMetadata resourceRequirements podSpec).ServiceAccountName =
      (if podSpec.ServiceAccountName = "" then taskExecutionMetadata.K8sServiceAccount
        else podSpec.ServiceAccountName) ∧
    (UpdatePod cfg h taskExecutionMetadata resourceRequirements podSpec).SchedulerName =
      (if podSpec.SchedulerName = "" then cfg.SchedulerName else podSpec.SchedulerName) ∧
    (UpdatePod cfg h taskExecutionMetadata resourceRequirements podSpec).SecurityContext =
      (match podSpec.SecurityContext with
        | some s => some s
        | none => cfg.DefaultPodSecurityContext) ∧
    (UpdatePod cfg h taskExecutionMetadata resourceRequirements podSpec).DNSConfig =
      (match podSpec.DNSConfig with
        | some d => some d
        | none => cfg.DefaultPodDNSConfig) ∧
    (UpdatePod cfg h taskExecutionMetadata resourceRequirements podSpec).Tolerations =
      h.GetPodTolerations taskExecutionMetadata.Interruptible resourceRequirements ++
        podSpec.Tolerations := by
  unfold UpdatePod
  lift_lets
  intro p1 p2 p3 p4 p5 p6 p7 p8 p9 p10
  have r1 : p1.RestartPolicy =
      (if podSpec.RestartPolicy = "" then "Never" else podSpec.RestartPolicy) := by
    simp only [p1, string_length_zero]
    split <;> rfl
  have t1 : p1.Tolerations = podSpec.Tolerations := by
    simp only [p1]
    split <;> rfl
  have a1 : p1.ServiceAccountName = podSpec.ServiceAccountName := by
    simp only [p1]
    split <;> rfl
  have s1 : p1.SchedulerName = podSpec.SchedulerName := by
    simp only [p1]
    split <;> rfl
  have c1 : p1.SecurityContext = podSpec.SecurityContext := by
    simp only [p1]
    split <;> rfl
  have d1 : p1.DNSConfig = podSpec.DNSConfig := by
    simp only [p1]
    split <;> rfl
  have r2 : p2.RestartPolicy = p1.RestartPolicy := rfl
  have t2 : p2.Tolerations =
      h.GetPodTolerations taskExecutionMetadata.Interruptible resourceRequirements ++
        p1.Tolerations := rfl
  have a2 : p2.ServiceAccountName = p1.ServiceAccountName := rfl
  have s2 : p2.SchedulerName = p1.SchedulerName := rfl
  have c2 : p2.SecurityContext = p1.SecurityContext := rfl
  have d2 : p2.DNSConfig = p1.DNSConfig := rfl
  have r3 : p3.RestartPolicy = p2.RestartPolicy := by
    simp only [p3]
    split <;> rfl
  have t3 : p3.Tolerations = p2.Tolerations := by
    simp only [p3]
    split <;> rfl
  have a3 : p3.ServiceAccountName =
      (if p2.ServiceAccountName = "" then taskExecutionMetadata.K8sServiceAccount
        else p2.ServiceAccountName) := by
    simp only [p3, string_length_zero]
    split <;> rfl
  have s3 : p3.SchedulerName = p2.SchedulerName := by
    simp only [p3]
    split <;> rfl
  have c3 : p3.SecurityContext = p2.SecurityContext := by
    simp only [p3]
    split <;> rfl
  have d3 : p3.DNSConfig = p2.DNSConfig := by
    simp only [p3]
    split <;> rfl
  have r4 : p4.RestartPolicy = p3.RestartPolicy := by
    simp only [p4]
    split <;> rfl
  have t4 : p4.Tolerations = p3.Tolerations := by
    simp only [p4]
    split <;> rfl
  have a4 : p4.ServiceAccountName = p3.ServiceAccountName := by
    simp only [p4]
    split <;> rfl
  have s4 : p4.SchedulerName =
      (if p3.SchedulerName = "" then cfg.SchedulerName else p3.SchedulerName) := by
    simp only [p4, string_length_zero]
    split <;> rfl
  have c4 : p4.SecurityContext = p3.SecurityContext := by
    simp only [p4]
    split <;> rfl
  have d4 : p4.DNSConfig = p3.DNSConfig := by
    simp only [p4]
    split <;> rfl
  have r6 : p6.RestartPolicy = p4.RestartPolicy := by
    simp only [p6, p5]
    split <;> rfl
  have t6 : p6.Tolerations = p4.Tolerations := by
    simp only [p6, p5]
    split <;> rfl
  have a6 : p6.ServiceAccountName = p4.ServiceAccountName := by
    simp only [p6, p5]
    split <;> rfl
  have s6 : p6.SchedulerName = p4.SchedulerName := by
    simp only [p6, p5]
    split <;> rfl
  have c6 : p6.SecurityContext = p4.SecurityContext := by
    simp only [p6, p5]
    split <;> rfl
  have d6 : p6.DNSConfig = p4.DNSConfig := by
    simp only [p6, p5]
    split <;> rfl
  have r7 : p7.RestartPolicy = p6.RestartPolicy := by
    simp only [p7]
    split <;> rfl
  have t7 : p7.Tolerations = p6.Tolerations := by
    simp only [p7]
    split <;> rfl
  have a7 : p7.ServiceAccountName = p6.ServiceAccountName := by
    simp only [p7]
    split <;> rfl
  have s7 : p7.SchedulerName = p6.SchedulerName := by
    simp only [p7]
    split <;> rfl
  have c7 : p7.SecurityContext = p6.SecurityContext := by
    simp only [p7]
    split <;> rfl
  have d7 : p7.DNSConfig = p6.DNSConfig := by
    simp only [p7]
    split <;> rfl
  have r8 : p8.RestartPolicy = p7.RestartPolicy := by
    simp only [p8]
    split <;> rfl
  have t8 : p8.Tolerations = p7.Tolerations := by
    simp only [p8]
    split <;> rfl
  have a8 : p8.ServiceAccountName = p7.ServiceAccountName := by
    simp only [p8]
    split <;> rfl
  have s8 : p8.SchedulerName = p7.SchedulerName := by
    simp only [p8]
    split <;> rfl
  have c8 : p8.SecurityContext =
      (match p7.SecurityContext with
        | some s => some s
        | none => cfg.DefaultPodSecurityContext) := by
    simp only [p8]
    cases h7 : p7.SecurityContext <;> cases hd : cfg.DefaultPodSecurityContext <;> simp [h7]
  have d8 : p8.DNSConfig = p7.DNSConfig := by
    simp only [p8]
    split <;> rfl
  have r9 : p9.RestartPolicy = p8.RestartPolicy := by
    simp only [p9]
    split <;> rfl
  have t9 : p9.Tolerations = p8.Tolerations := by
    simp only [p9]
    split <;> rfl
  have a9 : p9.ServiceAccountName = p8.ServiceAccountName := by
    simp only [p9]
    split <;> rfl
  have s9 : p9.SchedulerName = p8.SchedulerName := by
    simp only [p9]
    split <;> rfl
  have c9 : p9.SecurityContext = p8.SecurityContext := by
    simp only [p9]
    split <;> rfl
  have d9 : p9.DNSConfig = p8.DNSConfig := by
    simp only [p9]
    split <;> rfl
  have r10 : p10.RestartPolicy = p9.RestartPolicy := by
    simp only [p10]
    split <;> rfl
  have t10 : p10.Tolerations = p9.Tolerations := by
    simp only [p10]
    split <;> rfl
  have a10 : p10.ServiceAccountName = p9.ServiceAccountName := by
    simp only [p10]
    split <;> rfl
  have s10 : p10.SchedulerName = p9.SchedulerName := by
    simp only [p10]
    split <;> rfl
  have c10 : p10.SecurityContext = p9.SecurityContext := by
    simp only [p10]
    split <;> rfl
  have d10 : p10.DNSConfig =
      (match p9.DNSConfig with
        | some d => some d
        | none => cfg.DefaultPodDNSConfig) := by
    simp only [p10]
    cases h9 : p9.DNSConfig <;> cases hd : cfg.DefaultPodDNSConfig <;> simp [h9]
  refine ⟨?_, ?_, ?_, ?_, ?_, ?_⟩
  · show p10.RestartPolicy = _
    rw [r10, r9, r8, r7, r6, r4, r3, r2, r1]
  · show p10.ServiceAccountName = _
    rw [a10, a9, a8, a7, a6, a4, a3, a2, a1]
  · show p10.SchedulerName = _
    rw [s10, s9, s8, s7, s6, s4, s3, s2, s1]
  · show p10.SecurityContext = _
    rw [c10, c9, c8, c7, c6, c4, c3, c2, c1]
  · show p10.DNSConfig = _
    rw [d10, d9, d8, d7, d6, d4, d3, d2, d1]
  · show p10.Tolerations = _
    rw [t10, t9, t8, t7, t6, t4, t3, t2, t1]

/-! ## Further claims on `UpdatePod` -/

/-- The host networking of the pod spec after `UpdatePod`. -/
theorem updatePod_hostNetwork (cfg : K8sPluginConfig) (h : PodHelpers)
    (md : TaskExecutionMetadata) (rs : List ResourceRequirements) (p : PodSpec) :
    (UpdatePod cfg h md rs p).HostNetwork =
      (match cfg.EnableHostNetworkingPod with
        | some b => b
        | none => p.HostNetwork) := by
  unfold UpdatePod
  lift_lets
  intro p1 p2 p3 p4 p5 p6 p7 p8 p9 p10
  have h1 : p1.HostNetwork = p.HostNetwork := by
    simp only [p1]; split <;> rfl
  have h2 : p2.HostNetwork = p1.HostNetwork := rfl
  have h3 : p3.HostNetwork = p2.HostNetwork := by
    simp only [p3]; split <;> rfl
  have h4 : p4.HostNetwork = p3.HostNetwork := by
    simp only [p4]; split <;> rfl
  have h5 : p5.HostNetwork = p4.HostNetwork := rfl
  have h6 : p6.HostNetwork = p5.HostNetwork := by
    simp only [p6]; split <;> rfl
  have h7 : p7.HostNetwork = p6.HostNetwork := by
    simp only [p7]; split <;> rfl
  have h8 : p8.HostNetwork = p7.HostNetwork := by
    simp only [p8]; split <;> rfl
  have h9 : p9.HostNetwork =
      (match cfg.EnableHostNetworkingPod with
        | some b => b
        | none => p8.HostNetwork) := by
    simp only [p9]; split <;> rfl
  have h10 : p10.HostNetwork = p9.HostNetwork := by
    simp only [p10]; split <;> rfl
  show p10.HostNetwork = _
  rw [h10, h9, h8, h7, h6, h5, h4, h3, h2, h1]

/-- C31 (as amended): `UpdatePod` sets the host networking of the pod spec to
the configured value whenever `EnableHostNetworkingPod` is set, whatever the pod
spec says, and leaves it as it is only when the option is unset. So a pod spec
with host networking enabled keeps it when the option is unset or true, and has
it disabled when the option is false. -/
theorem C31_host_networking_configured (cfg : K8sPluginConfig) (h : PodHelpers)
    (taskExecutionMetadata : TaskExecutionMetadata)
    (resourceRequirements : List ResourceRequirements) (podSpec : PodSpec) :
    (∀ b, cfg.EnableHostNetworkingPod = some b →
      (UpdatePod cfg h taskExecutionMetadata resourceRequirements podSpec).HostNetwork = b) ∧
    (cfg.EnableHostNetworkingPod = none →
      (UpdatePod cfg h taskExecutionMetadata resourceRequirements podSpec).HostNetwork =
        podSpec.HostNetwork) ∧
    (podSpec.HostNetwork = true → cfg.EnableHostNetworkingPod ≠ some false →
      (UpdatePod cfg h taskExecutionMetadata resourceRequirements podSpec).HostNetwork =
        true) ∧
    (cfg.EnableHostNetworkingPod = some false →
      (UpdatePod cfg h taskExecutionMetadata resourceRequirements podSpec).HostNetwork =
        false) := by
  have hn := updatePod_hostNetwork cfg h taskExecutionMetadata resourceRequirements podSpec
  refine ⟨?_, ?_, ?_, ?_⟩
  · intro b hb
    rw [hn, hb]
  · intro hc
    rw [hn, hc]
  · intro hp hc
    rw [hn]
    cases hcfg : cfg.EnableHostNetworkingPod with
    | none => exact hp
    | some b =>
      cases b with
      | true => rfl
      | false => exact absurd hcfg hc
  · intro hc
    rw [hn, hc]

/-- C31 (witness): with the option unset, the pod spec that enables host
networking keeps it. -/
theorem C31_host_networking_configured_witness :
    sampleConfig.EnableHostNetworkingPod = none ∧
    (UpdatePod sampleConfig (plainHelpers (fun _ _ => none)) {} [] hostNetworkPod).HostNetwork =
      true :=
  ⟨rfl, (C31_host_networking_configured sampleConfig (plainHelpers (fun _ _ => none)) {} []
    hostNetworkPod).2.1 rfl⟩

/-- C31 (counterexample): the pod spec enables host networking and the
configuration sets `EnableHostNetworkingPod` to false; after `UpdatePod` host
networking is disabled. So it is not true that host networking stays enabled
for every configuration. -/
theorem C31_counterexample_configured_false :
    hostNetworkPod.HostNetwork = true ∧
    noHostNetworkConfig.EnableHostNetworkingPod = some false ∧
    (UpdatePod noHostNetworkConfig (plainHelpers (fun _ _ => none)) {} []
      hostNetworkPod).HostNetwork = false ∧
    ¬ (∀ (cfg : K8sPluginConfig) (h : PodHelpers) (md : TaskExecutionMetadata)
        (rs : List ResourceRequirements) (p : PodSpec),
        p.HostNetwork = true → (UpdatePod cfg h md rs p).HostNetwork = true) := by
  have hres : (UpdatePod noHostNetworkConfig (plainHelpers (fun _ _ => none)) {} []
      hostNetworkPod).HostNetwork = false := by
    rw [updatePod_hostNetwork]
    rfl
  refine ⟨rfl, rfl, hres, ?_⟩
  intro hall
  have h1 := hall noHostNetworkConfig (plainHelpers (fun _ _ => none)) {} [] hostNetworkPod rfl
  rw [hres] at h1
  cases h1

/-- The restart policy of the pod spec after `UpdatePod`. -/
theorem updatePod_restartPolicy (cfg : K8sPluginConfig) (h : PodHelpers)
    (md : TaskExecutionMetadata) (rs : List ResourceRequirements) (p : PodSpec) :
    (UpdatePod cfg h md rs p).RestartPolicy =
      (if p.RestartPolicy = "" then "Never" else p.RestartPolicy) := by
  unfold UpdatePod
  lift_lets
  intro p1 p2 p3 p4 p5 p6 p7 p8 p9 p10
  have h1 : p1.RestartPolicy = (if p.RestartPolicy = "" then "Never" else p.RestartPolicy) := by
    simp only [p1, string_length_zero]; split <;> rfl
  have h2 : p2.RestartPolicy = p1.RestartPolicy := rfl
  have h3 : p3.RestartPolicy = p2.RestartPolicy := by
    simp only [p3]; split <;> rfl
  have h4 : p4.RestartPolicy = p3.RestartPolicy := by
    simp only [p4]; split <;> rfl
  have h5 : p5.RestartPolicy = p4.RestartPolicy := rfl
  have h6 : p6.RestartPolicy = p5.RestartPolicy := by
    simp only [p6]; split <;> rfl
  have h7 : p7.RestartPolicy = p6.RestartPolicy := by
    simp only [p7]; split <;> rfl
  have h8 : p8.RestartPolicy = p7.RestartPolicy := by
    simp only [p8]; split <;> rfl
  have h9 : p9.RestartPolicy = p8.RestartPolicy := by
    simp only [p9]; split <;> rfl
  have h10 : p10.RestartPolicy = p9.RestartPolicy := by
    simp only [p10]; split <;> rfl
  show p10.RestartPolicy = _
  rw [h10, h9, h8, h7, h6, h5, h4, h3, h2, h1]

theorem updatePod_restartPolicy_ne (cfg : K8sPluginConfig) (h : PodHelpers)
    (md : TaskExecutionMetadata) (rs : List ResourceRequirements) (p : PodSpec) :
    (UpdatePod cfg h md rs p).RestartPolicy ≠ "" := by
  rw [updatePod_restartPolicy]
  by_cases hp : p.RestartPolicy = ""
  · rw [if_pos hp]
    decide
  · rw [if_neg hp]
    exact hp

/-- C32 (as amended): in the construction pipeline, `UpdatePod` followed by
`MergeBasePodSpecOntoTemplate` with the base pod template, the merge succeeds
and the restart policy of the final pod is the one of the task pod spec when it
sets one, and `Never` otherwise, whatever restart policy the pod template
sets. -/
theorem C32_restart_policy_pipeline (cfg : K8sPluginConfig) (h : PodHelpers)
    (taskExecutionMetadata : TaskExecutionMetadata)
    (resourceRequirements : List ResourceRequirements) (podSpec template : PodSpec)
    (primaryContainerName primaryInitContainerName : String) :
    ∃ final : PodSpec,
      MergeBasePodSpecOntoTemplate (some template)
          (some (UpdatePod cfg h taskExecutionMetadata resourceRequirements podSpec))
          primaryContainerName primaryInitContainerName = .ok final ∧
      final.RestartPolicy =
        (if podSpec.RestartPolicy = "" then "Never" else podSpec.RestartPolicy) := by
  refine ⟨_, mergeBase_ok _ _ _ _, ?_⟩
  show mergeString template.RestartPolicy
      (UpdatePod cfg h taskExecutionMetadata resourceRequirements podSpec).RestartPolicy = _
  unfold mergeString
  rw [if_neg (updatePod_restartPolicy_ne cfg h taskExecutionMetadata resourceRequirements
    podSpec), updatePod_restartPolicy]

/-- C32 (counterexample): the task pod spec sets no restart policy and the pod
template sets `OnFailure`; the final pod of the pipeline has the restart policy
`Never`, not the one of the template, although a layer sets a restart policy. -/
theorem C32_counterexample_template_policy_lost :
    mainOnlyPod.RestartPolicy = "" ∧ onFailureTemplate.RestartPolicy = "OnFailure" ∧
    ∃ final : PodSpec,
      MergeBasePodSpecOntoTemplate (some onFailureTemplate)
          (some (UpdatePod sampleConfig (plainHelpers (fun _ _ => none)) {} [] mainOnlyPod))
          "main" "" = .ok final ∧
      final.RestartPolicy = "Never" ∧ final.RestartPolicy ≠ onFailureTemplate.RestartPolicy := by
  refine ⟨rfl, rfl, _, mergeBase_ok _ _ _ _, ?_⟩
  have hr : mergeString onFailureTemplate.RestartPolicy
      (UpdatePod sampleConfig (plainHelpers (fun _ _ => none)) {} []
        mainOnlyPod).RestartPolicy = "Never" := by
    rw [updatePod_restartPolicy]
    decide
  refine ⟨hr, ?_⟩
  show mergeString onFailureTemplate.RestartPolicy
      (UpdatePod sampleConfig (plainHelpers (fun _ _ => none)) {} []
        mainOnlyPod).RestartPolicy ≠ onFailureTemplate.RestartPolicy
  rw [hr]
  decide

theorem goMap_get?_set {α : Type} (m : GoMap α) (k : String) (v : α) (k1 : String) :
    GoMap.get? (GoMap.set m k v) k1 = if k = k1 then some v else GoMap.get? m k1 := by
  induction m with
  | nil => simp [GoMap.set, GoMap.get?]
  | cons e rest ih =>
    rcases e with ⟨k0, v0⟩
    by_cases h0 : k0 = k
    · subst h0
      simp only [GoMap.set, if_true, GoMap.get?]
      by_cases h2 : k0 = k1
      · simp [h2]
      · simp [h2]
    · simp only [GoMap.set, if_neg h0, GoMap.get?]
      rw [ih]
      by_cases h2 : k0 = k1
      · have h1 : ¬ k = k1 := fun he => h0 (h2.trans he.symm)
        simp [h2, h1]
      · simp [h2]

theorem goMap_get?_none_of_not_mem {α : Type} (m : GoMap α) (k : String)
    (h : k ∉ m.map (fun e => e.1)) : GoMap.get? m k = none := by
  induction m with
  | nil => rfl
  | cons e rest ih =>
    rcases e with ⟨k0, v0⟩
    simp only [List.map_cons, List.mem_cons, not_or] at h
    have h0 : ¬ k0 = k := fun he => h.1 he.symm
    simp only [GoMap.get?, h0, if_false]
    exact ih h.2

/-- The value at a key after `mergo` on maps, or after a call of `UnionMaps` on
two maps: the one of the later map when it has the key, else the one of the
earlier map. -/
theorem goMap_get?_mergeMap {α : Type} (dst src : GoMap α) (hs : GoMap.distinctKeys src)
    (k : String) :
    GoMap.get? (mergeMap dst src) k = (GoMap.get? src k).or (GoMap.get? dst k) := by
  unfold mergeMap
  induction src generalizing dst with
  | nil => simp [GoMap.get?]
  | cons e rest ih =>
    rcases e with ⟨k0, v0⟩
    unfold GoMap.distinctKeys at hs
    rw [List.map_cons, List.nodup_cons] at hs
    rw [List.foldl_cons, ih _ hs.2, goMap_get?_set]
    by_cases h0 : k0 = k
    · have hnone : GoMap.get? rest k = none :=
        goMap_get?_none_of_not_mem rest k (by rw [← h0]; exact hs.1)
      simp [GoMap.get?, h0, hnone]
    · simp [GoMap.get?, h0]

theorem goMap_get?_unionMaps (a b : GoMap String) (ha : GoMap.distinctKeys a)
    (hb : GoMap.distinctKeys b) (k : String) :
    GoMap.get? (UnionMaps [a, b]) k = (GoMap.get? b k).or (GoMap.get? a k) := by
  unfold UnionMaps
  simp only [List.foldl_cons, List.foldl_nil]
  rw [goMap_get?_mergeMap _ _ hb, goMap_get?_mergeMap _ _ ha]
  simp [GoMap.get?]

theorem goMap_distinctKeys_set {α : Type} (m : GoMap α) (k : String) (v : α) :
    (GoMap.set m k v).map (fun e => e.1) =
      if k ∈ m.map (fun e => e.1) then m.map (fun e => e.1)
      else m.map (fun e => e.1) ++ [k] := by
  induction m with
  | nil => simp [GoMap.set]
  | cons e rest ih =>
    rcases e with ⟨k0, v0⟩
    by_cases h0 : k0 = k
    · simp [GoMap.set, h0]
    · have h1 : ¬ k = k0 := fun he => h0 he.symm
      simp only [GoMap.set, h0, if_false, List.map_cons, ih, List.mem_cons, h1, false_or]
      split <;> simp

theorem goMap_distinctKeys_mergeMap {α : Type} (dst src : GoMap α)
    (hd : GoMap.distinctKeys dst) : GoMap.distinctKeys (mergeMap dst src) := by
  unfold mergeMap
  induction src generalizing dst with
  | nil => exact hd
  | cons e rest ih =>
    rw [List.foldl_cons]
    apply ih
    unfold GoMap.distinctKeys at hd ⊢
    rw [goMap_distinctKeys_set]
    split
    · exact hd
    · rename_i hk
      rw [List.nodup_append]
      refine ⟨hd, List.nodup_singleton _, ?_⟩
      intro x hx hx1
      rw [List.mem_singleton] at hx1
      exact hk (hx1 ▸ hx)

theorem goMap_distinctKeys_unionMaps (a b : GoMap String) :
    GoMap.distinctKeys (UnionMaps [a, b]) := by
  unfold UnionMaps
  simp only [List.foldl_cons, List.foldl_nil]
  apply goMap_distinctKeys_mergeMap
  apply goMap_distinctKeys_mergeMap
  exact List.nodup_nil

/-- The node selector of the pod spec after `UpdatePod`. -/
theorem updatePod_nodeSelector (cfg : K8sPluginConfig) (h : PodHelpers)
    (md : TaskExecutionMetadata) (rs : List ResourceRequirements) (p : PodSpec) :
    (UpdatePod cfg h md rs p).NodeSelector =
      (if md.Interruptible then
        UnionMaps [UnionMaps [cfg.DefaultNodeSelector, p.NodeSelector],
          cfg.InterruptibleNodeSelector]
      else UnionMaps [cfg.DefaultNodeSelector, p.NodeSelector]) := by
  unfold UpdatePod
  lift_lets
  intro p1 p2 p3 p4 p5 p6 p7 p8 p9 p10
  have h1 : p1.NodeSelector = p.NodeSelector := by
    simp only [p1]; split <;> rfl
  have h2 : p2.NodeSelector = p1.NodeSelector := rfl
  have h3 : p3.NodeSelector = p2.NodeSelector := by
    simp only [p3]; split <;> rfl
  have h4 : p4.NodeSelector = p3.NodeSelector := by
    simp only [p4]; split <;> rfl
  have h5 : p5.NodeSelector = UnionMaps [cfg.DefaultNodeSelector, p4.NodeSelector] := rfl
  have h6 : p6.NodeSelector =
      (if md.Interruptible then UnionMaps [p5.NodeSelector, cfg.InterruptibleNodeSelector]
        else p5.NodeSelector) := by
    simp only [p6]; split <;> rfl
  have h7 : p7.NodeSelector = p6.NodeSelector := by
    simp only [p7]; split <;> rfl
  have h8 : p8.NodeSelector = p7.NodeSelector := by
    simp only [p8]; split <;> rfl
  have h9 : p9.NodeSelector = p8.NodeSelector := by
    simp only [p9]; split <;> rfl
  have h10 : p10.NodeSelector = p9.NodeSelector := by
    simp only [p10]; split <;> rfl
  show p10.NodeSelector = _
  rw [h10, h9, h8, h7, h6, h5, h4, h3, h2, h1]

/-- C33: after `UpdatePod` the node selector of the pod has exactly the keys of
`DefaultNodeSelector`, of the node selector of the pod itself and, for an
interruptible task only, of `InterruptibleNodeSelector`, each key once. The
value at a key is, for an interruptible task, the one of
`InterruptibleNodeSelector` when it has the key; otherwise the one of the pod
when the pod has the key; otherwise the one of `DefaultNodeSelector`. The maps
are Go maps, with one entry for each key. -/
theorem C33_node_selector_union (cfg : K8sPluginConfig) (h : PodHelpers)
    (taskExecutionMetadata : TaskExecutionMetadata)
    (resourceRequirements : List ResourceRequirements) (podSpec : PodSpec)
    (hd : GoMap.distinctKeys cfg.DefaultNodeSelector)
    (hp : GoMap.distinctKeys podSpec.NodeSelector)
    (hi : GoMap.distinctKeys cfg.InterruptibleNodeSelector) :
    (∀ k, GoMap.has
        (UpdatePod cfg h taskExecutionMetadata resourceRequirements podSpec).NodeSelector k =
      (GoMap.has cfg.DefaultNodeSelector k || GoMap.has podSpec.NodeSelector k ||
        (taskExecutionMetadata.Interruptible && GoMap.has cfg.InterruptibleNodeSelector k))) ∧
    GoMap.distinctKeys
      (UpdatePod cfg h taskExecutionMetadata resourceRequirements podSpec).NodeSelector ∧
    (∀ k, GoMap.get?
        (UpdatePod cfg h taskExecutionMetadata resourceRequirements podSpec).NodeSelector k =
      (if taskExecutionMetadata.Interruptible then
        (GoMap.get? cfg.InterruptibleNodeSelector k).or
          ((GoMap.get? podSpec.NodeSelector k).or (GoMap.get? cfg.DefaultNodeSelector k))
      else (GoMap.get? podSpec.NodeSelector k).or (GoMap.get? cfg.DefaultNodeSelector k))) ∧
    (∀ k v, GoMap.get? podSpec.NodeSelector k = some v →
      (taskExecutionMetadata.Interruptible = false ∨
        GoMap.get? cfg.InterruptibleNodeSelector k = none) →
      GoMap.get?
        (UpdatePod cfg h taskExecutionMetadata resourceRequirements podSpec).NodeSelector k =
        some v) ∧
    (∀ k v, taskExecutionMetadata.Interruptible = true →
      GoMap.get? cfg.InterruptibleNodeSelector k = some v →
      GoMap.get?
        (UpdatePod cfg h taskExecutionMetadata resourceRequirements podSpec).NodeSelector k =
        some v) := by
  have hsel := updatePod_nodeSelector cfg h taskExecutionMetadata resourceRequirements podSpec
  have hget : ∀ k, GoMap.get?
        (UpdatePod cfg h taskExecutionMetadata resourceRequirements podSpec).NodeSelector k =
      (if taskExecutionMetadata.Interruptible then
        (GoMap.get? cfg.InterruptibleNodeSelector k).or
          ((GoMap.get? podSpec.NodeSelector k).or (GoMap.get? cfg.DefaultNodeSelector k))
      else (GoMap.get? podSpec.NodeSelector k).or (GoMap.get? cfg.DefaultNodeSelector k)) := by
    intro k
    rw [hsel]
    by_cases hint : taskExecutionMetadata.Interruptible = true
    · rw [if_pos hint, if_pos hint,
        goMap_get?_unionMaps _ _ (goMap_distinctKeys_unionMaps _ _) hi,
        goMap_get?_unionMaps _ _ hd hp]
    · rw [if_neg hint, if_neg hint, goMap_get?_unionMaps _ _ hd hp]
  refine ⟨?_, ?_, hget, ?_, ?_⟩
  · intro k
    unfold GoMap.has
    rw [hget]
    by_cases hint : taskExecutionMetadata.Interruptible = true
    · rw [if_pos hint, hint]
      cases GoMap.get? cfg.InterruptibleNodeSelector k <;>
        cases GoMap.get? podSpec.NodeSelector k <;>
        cases GoMap.get? cfg.DefaultNodeSelector k <;> rfl
    · rw [if_neg hint]
      have hf : taskExecutionMetadata.Interruptible = false := by
        cases hb : taskExecutionMetadata.Interruptible with
        | true => exact absurd hb hint
        | false => rfl
      rw [hf]
      cases GoMap.get? podSpec.NodeSelector k <;>
        cases GoMap.get? cfg.DefaultNodeSelector k <;> rfl
  · rw [hsel]
    split
    · exact goMap_distinctKeys_unionMaps _ _
    · exact goMap_distinctKeys_unionMaps _ _
  · intro k v hv hcase
    rw [hget, hv]
    rcases hcase with hf | hn
    · rw [hf]
      rfl
    · rw [hn]
      split <;> rfl
  · intro k v hint hv
    rw [hget, if_pos hint, hv]
    rfl

/-- C33 (witness): the key `pool` is set by the default selector, by the pod and
by the interruptible selector; for an interruptible task the value of the
interruptible selector is kept, and the key `disk` of the pod is kept too. -/
theorem C33_node_selector_union_witness :
    GoMap.get? (UpdatePod selectorConfig (plainHelpers (fun _ _ => none))
        { Interruptible := true } [] selectorPod).NodeSelector "pool" = some "spot" ∧
    GoMap.get? (UpdatePod selectorConfig (plainHelpers (fun _ _ => none))
        { Interruptible := true } [] selectorPod).NodeSelector "disk" = some "ssd" :=
  have hw := C33_node_selector_union selectorConfig (plainHelpers (fun _ _ => none))
    { Interruptible := true } [] selectorPod
    (by unfold GoMap.distinctKeys; decide) (by unfold GoMap.distinctKeys; decide)
    (by unfold GoMap.distinctKeys; decide)
  ⟨hw.2.2.2.2 "pool" "spot" rfl (by decide), hw.2.2.2.1 "disk" "ssd" (by decide)
    (Or.inr (by decide))⟩

/-! ## Claims on `BuildRawPod` -/

/-- The primary container name after a successful pod template override with a
pod spec is the one of the override. -/
theorem handlePodTemplateOverride_name (tCtx : TaskExecutionContext) (podSpec : PodSpec)
    (objectMeta : ObjectMeta) (n : String) (override : K8SPod) (s : PodSpecStruct)
    (ho : tCtx.TaskExecutionMetadata.Overrides.PodTemplate = some override)
    (hs : override.PodSpec = some s) (p : PodSpec) (om : ObjectMeta) (n1 : String)
    (hok : handlePodTemplateOverride tCtx podSpec objectMeta n = .ok (p, om, n1)) :
    n1 = override.PrimaryContainerName := by
  unfold handlePodTemplateOverride at hok
  rw [ho] at hok
  simp only [hs] at hok
  split at hok
  · cases hok
  · simp only [Except.ok.injEq, Prod.mk.injEq] at hok
    exact hok.2.2.symm
  · simp only [Except.ok.injEq, Prod.mk.injEq] at hok
    exact hok.2.2.symm

/-- C34: when the task can be read, `BuildRawPod` returns a
`BadTaskSpecification` error (an error result carries no pod spec) when the
target is neither a single container nor an embedded pod, when the target is an
embedded pod without a pod spec, and when the target is an embedded pod whose
task config lacks the key `primary_container_name`; this holds for every
execution context, so also when an inline pod-template override that names a
primary container is supplied. When `BuildRawPod` succeeds and the execution
carries an inline override that has a pod spec, the returned primary container
name is the one of the override. -/
theorem C34_build_raw_pod_errors (h : PodHelpers) (tCtx : TaskExecutionContext)
    (taskTemplate : TaskTemplate) (hread : tCtx.TaskRead = .ok taskTemplate) :
    (taskTemplate.Target = .Other →
      ∃ msg, BuildRawPod h tCtx = .error (.BadTaskSpecification msg)) ∧
    (∀ pod, taskTemplate.Target = .K8SPod pod → pod.PodSpec = none →
      ∃ msg, BuildRawPod h tCtx = .error (.BadTaskSpecification msg)) ∧
    (∀ pod, taskTemplate.Target = .K8SPod pod →
      GoMap.has taskTemplate.Config PrimaryContainerKey = false →
      ∃ msg, BuildRawPod h tCtx = .error (.BadTaskSpecification msg)) ∧
    (∀ override s p om n,
      tCtx.TaskExecutionMetadata.Overrides.PodTemplate = some override →
      override.PodSpec = some s →
      BuildRawPod h tCtx = .ok (p, om, n) → n = override.PrimaryContainerName) := by
  refine ⟨?_, ?_, ?_, ?_⟩
  · intro ht
    unfold BuildRawPod
    rw [hread]
    simp only [ht]
    exact ⟨_, rfl⟩
  · intro pod ht hp
    unfold BuildRawPod
    rw [hread]
    simp only [ht, hp]
    exact ⟨_, rfl⟩
  · intro pod ht hk
    have hnone : GoMap.get? taskTemplate.Config PrimaryContainerKey = none := by
      unfold GoMap.has at hk
      cases hg : GoMap.get? taskTemplate.Config PrimaryContainerKey with
      | none => rfl
      | some v => rw [hg] at hk; cases hk
    unfold BuildRawPod
    rw [hread]
    simp only [ht]
    cases hps : pod.PodSpec with
    | none => exact ⟨_, rfl⟩
    | some s =>
      cases s with
      | invalid err => exact ⟨_, rfl⟩
      | valid podSpec =>
        simp only [hnone]
        exact ⟨_, rfl⟩
  · intro override s p om n ho hs hok
    unfold BuildRawPod at hok
    rw [hread] at hok
    simp only at hok
    split at hok
    · split at hok
      · cases hok
      · exact handlePodTemplateOverride_name tCtx _ _ _ override s ho hs p om n hok
    · split at hok
      · cases hok
      · cases hok
      · split at hok
        · cases hok
        · exact handlePodTemplateOverride_name tCtx _ _ _ override s ho hs p om n hok
    · cases hok

/-- C34 (witness): a pod task whose config lacks the key fails, although the
inline pod-template override names the primary container `main`. -/
theorem C34_build_raw_pod_errors_witness :
    keylessPodTaskWithOverride.TaskExecutionMetadata.Overrides.PodTemplate =
      some { PodSpec := some (.valid mainOnlyPod), PrimaryContainerName := "main" } ∧
    ∃ msg, BuildRawPod (plainHelpers (fun _ _ => none)) keylessPodTaskWithOverride =
      .error (.BadTaskSpecification msg) :=
  ⟨rfl, (C34_build_raw_pod_errors (plainHelpers (fun _ _ => none)) keylessPodTaskWithOverride
    { Target := .K8SPod { PodSpec := some (.valid mainOnlyPod) }, Config := [] } rfl).2.2.1
    { PodSpec := some (.valid mainOnlyPod) } rfl (by decide)⟩

/-- A pod task that names `task`, run with the inline override that names
`main`, gives the pod spec and the primary container name of the override. -/
theorem buildRawPod_override_example :
    BuildRawPod (plainHelpers (fun _ _ => none)) podTaskWithOverride =
      .ok (mainOnlyPod, { Annotations := [], Labels := [] }, "main") := by
  rfl

/-! ## Claim on `GetLastTransitionOccurredAt` -/

theorem lastTransitionStep_eq (v : Int) (c : ContainerStatus) :
    lastTransitionStep v c =
      match stateTimestamp c.State with
      | some t => if timeUnix t > timeUnix v then t else v
      | none => v := by
  unfold lastTransitionStep stateTimestamp
  cases c.State.Running with
  | some r => rfl
  | none =>
    cases c.State.Terminated with
    | some r => rfl
    | none => rfl

/-- The loop of `GetLastTransitionOccurredAt` from the start value `v`: the
result is `v` or a timestamp read whose Unix second lies after the one of `v`,
and no timestamp read, nor `v`, has a later Unix second. -/
theorem foldl_lastTransitionStep (l : List ContainerStatus) (v : Int) :
    (l.foldl lastTransitionStep v = v ∨
      (l.foldl lastTransitionStep v ∈ l.filterMap (fun c => stateTimestamp c.State) ∧
        timeUnix v < timeUnix (l.foldl lastTransitionStep v))) ∧
    timeUnix v ≤ timeUnix (l.foldl lastTransitionStep v) ∧
    ∀ t ∈ l.filterMap (fun c => stateTimestamp c.State),
      timeUnix t ≤ timeUnix (l.foldl lastTransitionStep v) := by
  induction l generalizing v with
  | nil =>
    refine ⟨Or.inl rfl, le_refl _, ?_⟩
    intro t ht
    cases ht
  | cons c rest ih =>
    rw [List.foldl_cons, lastTransitionStep_eq]
    cases hts : stateTimestamp c.State with
    | none =>
      simp only [List.filterMap_cons, hts]
      exact ih v
    | some t =>
      simp only [List.filterMap_cons, hts]
      by_cases hgt : timeUnix t > timeUnix v
      · rw [if_pos hgt]
        obtain ⟨h1, h2, h3⟩ := ih t
        refine ⟨Or.inr ⟨?_, lt_of_lt_of_le hgt h2⟩, le_trans (le_of_lt hgt) h2, ?_⟩
        · rcases h1 with h1 | h1
          · rw [h1]
            exact List.mem_cons_self _ _
          · exact List.mem_cons_of_mem _ h1.1
        · intro t1 ht1
          rcases List.mem_cons.mp ht1 with ht1 | ht1
          · rw [ht1]
            exact h2
          · exact h3 t1 ht1
      · rw [if_neg hgt]
        obtain ⟨h1, h2, h3⟩ := ih v
        refine ⟨?_, h2, ?_⟩
        · rcases h1 with h1 | h1
          · exact Or.inl h1
          · exact Or.inr ⟨List.mem_cons_of_mem _ h1.1, h1.2⟩
        · intro t1 ht1
          rcases List.mem_cons.mp ht1 with ht1 | ht1
          · rw [ht1]
            exact le_trans (not_lt.mp hgt) h2
          · exact h3 t1 ht1

/-- What `GetLastTransitionOccurredAt` returns, for every pod status: the
current time when no timestamp is counted, and otherwise a counted timestamp
with the greatest Unix second. -/
theorem getLastTransitionOccurredAt_counted (now : Int) (status : PodStatus) :
    (countedTimestamps status = [] → GetLastTransitionOccurredAt now status = now) ∧
    (countedTimestamps status ≠ [] →
      GetLastTransitionOccurredAt now status ∈ countedTimestamps status ∧
      ∀ t ∈ countedTimestamps status,
        timeUnix t ≤ timeUnix (GetLastTransitionOccurredAt now status)) := by
  obtain ⟨h1, _, h3⟩ := foldl_lastTransitionStep
    (status.ContainerStatuses ++ status.InitContainerStatuses) zeroTime
  unfold GetLastTransitionOccurredAt countedTimestamps
  simp only
  constructor
  · intro hnil
    rcases h1 with h1 | h1
    · rw [if_pos h1]
    · exfalso
      have hmem : List.foldl lastTransitionStep zeroTime
          (status.ContainerStatuses ++ status.InitContainerStatuses) ∈
          List.filter (fun t => decide (timeUnix t > timeUnix zeroTime))
            (List.filterMap (fun c => stateTimestamp c.State)
              (status.ContainerStatuses ++ status.InitContainerStatuses)) := by
        rw [List.mem_filter]
        exact ⟨h1.1, by simpa using h1.2⟩
      rw [hnil] at hmem
      cases hmem
  · intro hne
    obtain ⟨t0, ht0⟩ := List.exists_mem_of_ne_nil _ hne
    rw [List.mem_filter] at ht0
    have hlt : timeUnix zeroTime <
        timeUnix (List.foldl lastTransitionStep zeroTime
          (status.ContainerStatuses ++ status.InitContainerStatuses)) :=
      lt_of_lt_of_le (by simpa using ht0.2) (h3 t0 ht0.1)
    have hnz : List.foldl lastTransitionStep zeroTime
        (status.ContainerStatuses ++ status.InitContainerStatuses) ≠ zeroTime := by
      intro he
      rw [he] at hlt
      exact lt_irrefl _ hlt
    rw [if_neg hnz]
    constructor
    · rw [List.mem_filter]
      rcases h1 with h1 | h1
      · exact absurd h1 hnz
      · exact ⟨h1.1, by simpa using h1.2⟩
    · intro t ht
      rw [List.mem_filter] at ht
      exact h3 t ht.1

theorem mem_transitionTimestamps_iff (status : PodStatus)
    (hone : ∀ c ∈ status.ContainerStatuses ++ status.InitContainerStatuses,
      c.State.Running = none ∨ c.State.Terminated = none) (t : Int) :
    t ∈ transitionTimestamps status ↔
      t ∈ (status.ContainerStatuses ++ status.InitContainerStatuses).filterMap
        (fun c => stateTimestamp c.State) := by
  unfold transitionTimestamps
  rw [List.mem_flatMap, List.mem_filterMap]
  constructor
  · rintro ⟨c, hc, ht⟩
    refine ⟨c, hc, ?_⟩
    unfold stateTimestamp
    rcases hone c hc with hr | hr
    · rw [hr] at ht ⊢
      cases hT : c.State.Terminated with
      | none => rw [hT] at ht; simp at ht
      | some r => rw [hT] at ht; simp at ht; simp [ht]
    · rw [hr] at ht
      cases hR : c.State.Running with
      | none => rw [hR] at ht; simp at ht
      | some r => rw [hR] at ht; simp at ht; simp [ht]
  · rintro ⟨c, hc, ht⟩
    refine ⟨c, hc, ?_⟩
    unfold stateTimestamp at ht
    cases hR : c.State.Running with
    | some r =>
      rw [hR] at ht
      simp only [Option.some.injEq] at ht
      simp [ht]
    | none =>
      rw [hR] at ht
      cases hT : c.State.Terminated with
      | none => rw [hT] at ht; cases ht
      | some r =>
        rw [hT] at ht
        simp only [Option.some.injEq] at ht
        simp [ht]

/-- C35: for every pod status as Kubernetes reports it (no container state, of
the container statuses and the init-container statuses, is both running and
terminated, and every timestamp is the zero time or has a Unix second after the
one of the zero time), `GetLastTransitionOccurredAt` returns, when some
timestamp is not the zero time, one of the timestamps (the `StartedAt` of the
running states and the `FinishedAt` of the terminated states) such that no
timestamp has a later Unix second; and it returns the current time when there
is no timestamp or all are the zero time. -/
theorem C35_last_transition_maximum (now : Int) (status : PodStatus)
    (hone : ∀ c ∈ status.ContainerStatuses ++ status.InitContainerStatuses,
      c.State.Running = none ∨ c.State.Terminated = none)
    (htime : ∀ t ∈ transitionTimestamps status,
      t = zeroTime ∨ timeUnix zeroTime < timeUnix t) :
    ((∃ t ∈ transitionTimestamps status, t ≠ zeroTime) →
      GetLastTransitionOccurredAt now status ∈ transitionTimestamps status ∧
      ∀ t ∈ transitionTimestamps status,
        timeUnix t ≤ timeUnix (GetLastTransitionOccurredAt now status)) ∧
    ((∀ t ∈ transitionTimestamps status, t = zeroTime) →
      GetLastTransitionOccurredAt now status = now) := by
  obtain ⟨hnil, hcons⟩ := getLastTransitionOccurredAt_counted now status
  have hmem := mem_transitionTimestamps_iff status hone
  have hcounted : ∀ t, t ∈ countedTimestamps status ↔
      t ∈ transitionTimestamps status ∧ timeUnix zeroTime < timeUnix t := by
    intro t
    unfold countedTimestamps
    rw [List.mem_filter, ← hmem t]
    simp
  constructor
  · rintro ⟨t0, ht0, hne0⟩
    have hlt0 : timeUnix zeroTime < timeUnix t0 := by
      rcases htime t0 ht0 with h0 | h0
      · exact absurd h0 hne0
      · exact h0
    have hne : countedTimestamps status ≠ [] := by
      intro he
      have := (hcounted t0).mpr ⟨ht0, hlt0⟩
      rw [he] at this
      cases this
    obtain ⟨hin, hmax⟩ := hcons hne
    have hres := (hcounted _).mp hin
    refine ⟨hres.1, ?_⟩
    intro t ht
    rcases htime t ht with h0 | h0
    · rw [h0]
      exact le_of_lt hres.2
    · exact hmax t ((hcounted t).mpr ⟨ht, h0⟩)
  · intro hall
    apply hnil
    rw [List.eq_nil_iff_forall_not_mem]
    intro t ht
    have h1 := (hcounted t).mp ht
    rw [hall t h1.1] at h1
    exact lt_irrefl _ h1.2

/-- C35 (witness): the init container terminated at second 30 and the container
`main` runs since second 40 and a half: the result is the start of `main`. -/
theorem C35_last_transition_maximum_witness :
    transitionTimestamps transitionsPod = [40500000000, 30000000000] ∧
    GetLastTransitionOccurredAt 99000000000 transitionsPod = 40500000000 ∧
    ∀ t ∈ transitionTimestamps transitionsPod,
      timeUnix t ≤ timeUnix (GetLastTransitionOccurredAt 99000000000 transitionsPod) :=
  ⟨by decide, by decide,
    ((C35_last_transition_maximum 99000000000 transitionsPod (by decide) (by decide)).1
      ⟨40500000000, by decide, by decide⟩).2⟩

/-- Outside the states Kubernetes reports: for a container state that is both
running (since second 10) and terminated (at second 20) the result is second
10, the `FinishedAt` being read only when the state is not running; and for a
container terminated one second before the zero time the result is the current
time, the comparison with the zero time being strict. -/
theorem lastTransition_outside_reported_states_example :
    transitionTimestamps (podWithContainers [statusOf "main" runningAndTerminatedState]) =
      [10000000000, 20000000000] ∧
    GetLastTransitionOccurredAt 99000000000
      (podWithContainers [statusOf "main" runningAndTerminatedState]) = 10000000000 ∧
    ¬ (∀ t ∈ transitionTimestamps
          (podWithContainers [statusOf "main" runningAndTerminatedState]),
        timeUnix t ≤ timeUnix (GetLastTransitionOccurredAt 99000000000
          (podWithContainers [statusOf "main" runningAndTerminatedState]))) ∧
    transitionTimestamps (podWithContainers [statusOf "main" terminatedBeforeZeroTime]) =
      [-62135596801000000000] ∧
    (-62135596801000000000 : Int) ≠ zeroTime ∧
    GetLastTransitionOccurredAt 99000000000
      (podWithContainers [statusOf "main" terminatedBeforeZeroTime]) = 99000000000 ∧
    GetLastTransitionOccurredAt 99000000000
        (podWithContainers [statusOf "main" terminatedBeforeZeroTime]) ∉
      transitionTimestamps (podWithContainers [statusOf "main" terminatedBeforeZeroTime]) := by
  decide

/-! ## Claims on the reason of a failure -/

theorem step_code_eq (p : String) (v : FailureVars) (c : ContainerStatus) :
    (demystifyFailureStep p v c).code =
      if overwritesCode c then overwrittenCode c else v.code := by
  cases hT : (chosenContainerState c).Terminated with
  | none =>
    rw [step_none p v c hT]
    simp [overwritesCode, hT]
  | some t =>
    rw [step_some_code p v c t hT]
    by_cases hoom : stringsContains t.Reason OOMKilled = true
    · simp [overwritesCode, overwrittenCode, hT, hoom]
    · by_cases hk : (t.ExitCode == 137 || t.ExitCode == 247) = true
      · simp [overwritesCode, overwrittenCode, hT, hoom, hk]
      · simp [overwritesCode, overwrittenCode, hT, hoom, hk]

/-- The accumulated reason after the loop of `DemystifyFailure`: the one put in
place by the last status that replaces it, the one before the loop when there
is none. -/
theorem fold_code_eq (p : String) (l : List ContainerStatus) (v : FailureVars) :
    (List.foldl (demystifyFailureStep p) v l).code =
      match l.reverse.find? overwritesCode with
      | some c => overwrittenCode c
      | none => v.code := by
  induction l generalizing v with
  | nil => rfl
  | cons c rest ih =>
    rw [List.foldl_cons, ih, List.reverse_cons, List.find?_append]
    cases hr : List.find? overwritesCode rest.reverse with
    | some d => rfl
    | none =>
      rw [step_code_eq]
      by_cases hc : overwritesCode c = true
      · simp [hc]
      · simp [hc]

theorem init_code_of_ne (status : PodStatus) (h : status.Reason ≠ "") :
    (demystifyFailureInit status).code = status.Reason := by
  unfold demystifyFailureInit
  simp [string_length_pos status.Reason h]

theorem overwrittenCode_ne_unknown (c : ContainerStatus) (h : overwritesCode c = true) :
    overwrittenCode c ≠ "UnknownError" := by
  unfold overwritesCode at h
  unfold overwrittenCode
  cases hT : (chosenContainerState c).Terminated with
  | none => rw [hT] at h; cases h
  | some t =>
    simp only
    split <;> decide

/-- C36: whenever `DemystifyFailure` returns RetryableFailure, its reason is the
one put in place by the last container status, in the order init, regular,
ephemeral, whose chosen terminated state has a reason containing "OOMKilled"
(the reason is then "OOMKilled") or else an exit code 137 or 247 (the reason is
then "Interrupted"); when no container status is of that kind, the reason is
the status reason of the pod. In particular, when a container status that is
not named as the primary has a chosen terminated state with exit code 137 or
247 and a reason without "OOMKilled", no other container status is of that
kind, and the status reason of the pod is none of the retryable ones, the
outcome is RetryableFailure with reason "Interrupted". -/
theorem C36_retryable_reason (status : PodStatus) (info : TaskInfo)
    (primaryContainerName : String) :
    ((DemystifyFailure status info primaryContainerName).phase = Phase.RetryableFailure →
      (DemystifyFailure status info primaryContainerName).reason =
        (match lastOverwriting status with
          | some c => overwrittenCode c
          | none => status.Reason)) ∧
    (∀ c ∈ allContainerStatuses status, overwritesCode c = true →
      (overwrittenCode c = "OOMKilled" ∨ overwrittenCode c = "Interrupted") ∧
      (overwrittenCode c = "OOMKilled" ↔
        ∃ t, (chosenContainerState c).Terminated = some t ∧
          stringsContains t.Reason "OOMKilled" = true)) ∧
    (∀ pre c post t, allContainerStatuses status = pre ++ c :: post →
      c.Name ≠ primaryContainerName →
      (chosenContainerState c).Terminated = some t →
      (t.ExitCode = 137 ∨ t.ExitCode = 247) →
      stringsContains t.Reason "OOMKilled" = false →
      (∀ x ∈ pre ++ post, overwritesCode x = false) →
      status.Reason ∉ retryableStatusReasons →
      (DemystifyFailure status info primaryContainerName).phase = Phase.RetryableFailure ∧
      (DemystifyFailure status info primaryContainerName).reason = "Interrupted") := by
  have hcode := fold_code_eq primaryContainerName (allContainerStatuses status)
    (demystifyFailureInit status)
  have hsys := fold_isSystemError primaryContainerName (allContainerStatuses status)
    (demystifyFailureInit status)
  have hvars : demystifyFailureVars status primaryContainerName =
      List.foldl (demystifyFailureStep primaryContainerName) (demystifyFailureInit status)
        (allContainerStatuses status) := rfl
  rw [← hvars] at hcode hsys
  refine ⟨?_, ?_, ?_⟩
  · intro hph
    unfold DemystifyFailure at hph ⊢
    simp only at hph ⊢
    by_cases hs : (if (demystifyFailureVars status primaryContainerName).code = "UnknownError"
        then true else (demystifyFailureVars status primaryContainerName).isSystemError) = true
    · rw [if_pos hs] at hph
      simp [PhaseInfoSystemRetryableFailure, PhaseInfoFailed] at hph
    · rw [if_neg hs]
      show (demystifyFailureVars status primaryContainerName).code = _
      have hnu : (demystifyFailureVars status primaryContainerName).code ≠ "UnknownError" := by
        intro hu
        apply hs
        rw [if_pos hu]
      rw [hcode] at hnu ⊢
      unfold lastOverwriting
      cases hl : List.find? overwritesCode (allContainerStatuses status).reverse with
      | some c => rfl
      | none =>
        rw [hl] at hnu
        simp only at hnu ⊢
        apply init_code_of_ne
        intro he
        exact hnu ((init_code_unknown_iff status).mpr (Or.inl he))
  · intro c _ hc
    unfold overwritesCode at hc
    unfold overwrittenCode
    cases hT : (chosenContainerState c).Terminated with
    | none => rw [hT] at hc; cases hc
    | some t =>
      simp only
      by_cases hoom : stringsContains t.Reason "OOMKilled" = true
      · have e : (if stringsContains t.Reason OOMKilled = true then OOMKilled
            else Interrupted) = "OOMKilled" := by
          rw [show OOMKilled = "OOMKilled" from rfl, if_pos hoom]
        exact ⟨Or.inl e, fun _ => ⟨t, rfl, hoom⟩, fun _ => e⟩
      · have e : (if stringsContains t.Reason OOMKilled = true then OOMKilled
            else Interrupted) = "Interrupted" := by
          rw [show OOMKilled = "OOMKilled" from rfl, if_neg hoom]
          rfl
        refine ⟨Or.inr e, fun h1 => ?_, fun h1 => ?_⟩
        · rw [e] at h1
          exact absurd h1 (by decide)
        · obtain ⟨t1, ht1, h2⟩ := h1
          rw [← Option.some.inj ht1] at h2
          exact absurd h2 hoom
  · intro pre c post t hall hname hT hexit hoom hothers hreason
    have hoc : overwritesCode c = true := by
      unfold overwritesCode
      rw [hT]
      rcases hexit with he | he <;> simp [he]
    have hcodec : overwrittenCode c = "Interrupted" := by
      unfold overwrittenCode
      rw [hT]
      simp [OOMKilled, hoom, Interrupted]
    have hfind : List.find? overwritesCode (allContainerStatuses status).reverse = some c := by
      rw [hall, List.reverse_append, List.reverse_cons, List.find?_append, List.find?_append]
      have hpost : List.find? overwritesCode post.reverse = none := by
        rw [List.find?_eq_none]
        intro x hx
        rw [hothers x (List.mem_append_right _ (List.mem_reverse.mp hx))]
        simp
      rw [hpost]
      simp [hoc]
    have hcode1 : (demystifyFailureVars status primaryContainerName).code = "Interrupted" := by
      rw [hcode, hfind]
      exact hcodec
    have hmarks : (allContainerStatuses status).any (marksSystemError primaryContainerName) =
        false := by
      rw [List.any_eq_false]
      intro x hx
      rw [hall] at hx
      rcases List.mem_append.mp hx with hx | hx
      · have ho := hothers x (List.mem_append_left _ hx)
        intro hm
        obtain ⟨_, t1, hT1, he1, ho1⟩ := (marksSystemError_iff _ _).mp hm
        have := (overwritesCode_false_iff x).mp ho t1 hT1
        rcases he1 with he1 | he1
        · exact this.2.1 he1
        · exact this.2.2 he1
      · rcases List.mem_cons.mp hx with hx | hx
        · rw [hx]
          intro hm
          exact hname ((marksSystemError_iff _ _).mp hm).1
        · have ho := hothers x (List.mem_append_right _ hx)
          intro hm
          obtain ⟨_, t1, hT1, he1, ho1⟩ := (marksSystemError_iff _ _).mp hm
          have := (overwritesCode_false_iff x).mp ho t1 hT1
          rcases he1 with he1 | he1
          · exact this.2.1 he1
          · exact this.2.2 he1
    have hinit : (demystifyFailureInit status).isSystemError = false := by
      rw [Bool.eq_false_iff]
      intro hi
      have := (init_isSystemError_iff status).mp hi
      apply hreason
      unfold retryableStatusReasons
      simp only [List.mem_cons, List.mem_singleton, List.not_mem_nil, or_false]
      exact this
    have hsys1 : (demystifyFailureVars status primaryContainerName).isSystemError = false := by
      rw [hsys, hinit, hmarks]
      rfl
    unfold DemystifyFailure
    simp only [hcode1, hsys1]
    exact ⟨rfl, rfl⟩

/-- C36 (witness): the sidecar was killed with exit code 137 and the primary
container `main` ended with exit code 1, under the status reason `Evicted`: the
outcome is RetryableFailure with reason "Interrupted". -/
theorem C36_retryable_reason_witness :
    (DemystifyFailure failedPodSidecarKilled ⟨none⟩ "main").phase = Phase.RetryableFailure ∧
    (DemystifyFailure failedPodSidecarKilled ⟨none⟩ "main").reason = "Interrupted" :=
  (C36_retryable_reason failedPodSidecarKilled ⟨none⟩ "main").2.2
    [statusOf "main" (terminatedState 1 "Error")] (statusOf "sidecar" (terminatedState 137 "Error"))
    [] { ExitCode := 137, Reason := "Error", Message := "", FinishedAt := 0 }
    rfl (by decide) rfl (Or.inl rfl) (by decide) (by decide) (by decide)

theorem chosenContainerState_of_differ (a b : ContainerStatus)
    (h : differInCurrentTerminated a b) : chosenContainerState a = chosenContainerState b := by
  obtain ⟨_, hl, _, _, _, hsome, _, _⟩ := h
  have ha : a.LastTerminationState.Terminated.isSome = true := by
    cases ht : a.LastTerminationState.Terminated with
    | none => exact absurd ht hsome
    | some t => rfl
  have hb : b.LastTerminationState.Terminated.isSome = true := by
    rw [← hl]
    exact ha
  unfold chosenContainerState
  rw [if_pos ha, if_pos hb, hl]

theorem demystifyFailureStep_congr (p : String) (v : FailureVars) (a b : ContainerStatus)
    (hn : a.Name = b.Name) (hc : chosenContainerState a = chosenContainerState b) :
    demystifyFailureStep p v a = demystifyFailureStep p v b := by
  unfold demystifyFailureStep
  rw [hn, hc]

theorem foldl_demystifyFailureStep_congr (p : String) (l1 l2 : List ContainerStatus)
    (h : List.Forall₂ (fun a b => a = b ∨ differInCurrentTerminated a b) l1 l2)
    (v : FailureVars) :
    List.foldl (demystifyFailureStep p) v l1 = List.foldl (demystifyFailureStep p) v l2 := by
  induction h generalizing v with
  | nil => rfl
  | cons hab _ ih =>
    rw [List.foldl_cons, List.foldl_cons]
    rcases hab with hab | hab
    · rw [hab]
      exact ih _
    · rw [demystifyFailureStep_congr p v _ _ hab.1 (chosenContainerState_of_differ _ _ hab)]
      exact ih _

theorem chosenContainerState_lastTerminationAsCurrent (c : ContainerStatus) :
    (lastTerminationAsCurrent c).Name = c.Name ∧
    chosenContainerState (lastTerminationAsCurrent c) = chosenContainerState c := by
  unfold lastTerminationAsCurrent
  by_cases h : (c.LastTerminationState.Terminated.isSome && c.State.Terminated.isSome) = true
  · rw [if_pos h]
    rw [Bool.and_eq_true] at h
    refine ⟨rfl, ?_⟩
    unfold chosenContainerState
    simp only [h.1, if_true]
    rfl
  · rw [if_neg h]
    exact ⟨rfl, rfl⟩

theorem foldl_demystifyFailureStep_lastTerminationAsCurrent (p : String)
    (l : List ContainerStatus) (v : FailureVars) :
    List.foldl (demystifyFailureStep p) v (l.map lastTerminationAsCurrent) =
      List.foldl (demystifyFailureStep p) v l := by
  induction l generalizing v with
  | nil => rfl
  | cons c rest ih =>
    rw [List.map_cons, List.foldl_cons, List.foldl_cons,
      demystifyFailureStep_congr p v _ _ (chosenContainerState_lastTerminationAsCurrent c).1
        (chosenContainerState_lastTerminationAsCurrent c).2]
    exact ih _

/-- C37: for a container status that has both a last-termination terminated
state and a current terminated state, `DemystifyFailure` uses only the
last-termination state. Two pod statuses with the same reason and message whose
container statuses (init, regular, ephemeral) are the same, one by one, but for
the current terminated state of such container statuses, give the same outcome,
so the same phase, reason and message; and that outcome is the one of the pod
status in which every such container status is replaced by a status of the same
name, never restarted, whose current state is the last-termination state. -/
theorem C37_last_termination_only (s1 s2 : PodStatus) (info : TaskInfo)
    (primaryContainerName : String)
    (hreason : s1.Reason = s2.Reason) (hmessage : s1.Message = s2.Message)
    (hinit : List.Forall₂ (fun a b => a = b ∨ differInCurrentTerminated a b)
      s1.InitContainerStatuses s2.InitContainerStatuses)
    (hregular : List.Forall₂ (fun a b => a = b ∨ differInCurrentTerminated a b)
      s1.ContainerStatuses s2.ContainerStatuses)
    (hephemeral : List.Forall₂ (fun a b => a = b ∨ differInCurrentTerminated a b)
      s1.EphemeralContainerStatuses s2.EphemeralContainerStatuses) :
    DemystifyFailure s1 info primaryContainerName =
      DemystifyFailure s2 info primaryContainerName ∧
    (DemystifyFailure s1 info primaryContainerName).phase =
      (DemystifyFailure s2 info primaryContainerName).phase ∧
    (DemystifyFailure s1 info primaryContainerName).reason =
      (DemystifyFailure s2 info primaryContainerName).reason ∧
    (DemystifyFailure s1 info primaryContainerName).message =
      (DemystifyFailure s2 info primaryContainerName).message ∧
    DemystifyFailure s1 info primaryContainerName =
      DemystifyFailure (podLastTerminationAsCurrent s1) info primaryContainerName ∧
    DemystifyFailure s2 info primaryContainerName =
      DemystifyFailure (podLastTerminationAsCurrent s1) info primaryContainerName := by
  have hinit0 : demystifyFailureInit s1 = demystifyFailureInit s2 := by
    unfold demystifyFailureInit
    rw [hreason, hmessage]
  have hall : List.Forall₂ (fun a b => a = b ∨ differInCurrentTerminated a b)
      ((s1.InitContainerStatuses ++ s1.ContainerStatuses) ++ s1.EphemeralContainerStatuses)
      ((s2.InitContainerStatuses ++ s2.ContainerStatuses) ++ s2.EphemeralContainerStatuses) :=
    List.rel_append (List.rel_append hinit hregular) hephemeral
  have hvars : demystifyFailureVars s1 primaryContainerName =
      demystifyFailureVars s2 primaryContainerName := by
    unfold demystifyFailureVars
    rw [hinit0]
    exact foldl_demystifyFailureStep_congr primaryContainerName _ _ hall _
  have heq : DemystifyFailure s1 info primaryContainerName =
      DemystifyFailure s2 info primaryContainerName := by
    unfold DemystifyFailure
    rw [hvars]
  have hvars1 : demystifyFailureVars (podLastTerminationAsCurrent s1) primaryContainerName =
      demystifyFailureVars s1 primaryContainerName := by
    unfold demystifyFailureVars
    have hi : demystifyFailureInit (podLastTerminationAsCurrent s1) =
        demystifyFailureInit s1 := rfl
    rw [hi]
    show List.foldl (demystifyFailureStep primaryContainerName) (demystifyFailureInit s1)
      ((s1.InitContainerStatuses.map lastTerminationAsCurrent ++
          s1.ContainerStatuses.map lastTerminationAsCurrent) ++
        s1.EphemeralContainerStatuses.map lastTerminationAsCurrent) = _
    rw [← List.map_append, ← List.map_append]
    exact foldl_demystifyFailureStep_lastTerminationAsCurrent _ _ _
  have hlast : DemystifyFailure s1 info primaryContainerName =
      DemystifyFailure (podLastTerminationAsCurrent s1) info primaryContainerName := by
    unfold DemystifyFailure
    rw [hvars1]
  exact ⟨heq, by rw [heq], by rw [heq], by rw [heq], hlast, heq ▸ hlast⟩

/-- C37 (witness): the primary container `main` has a last termination with exit
code 137; whether its current terminated state has exit code 0 or exit code 1,
the outcome is the one of the pod whose container `main` was never restarted and
is terminated with exit code 137: a SystemRetryableFailure with the reason
"Interrupted" and a message that reports the exit code 137. -/
theorem C37_last_termination_only_witness :
    DemystifyFailure (failedPodPrimaryKilledEarlier (terminatedState 0 "Completed")) ⟨none⟩
        "main" =
      DemystifyFailure (failedPodPrimaryKilledEarlier (terminatedState 1 "Error")) ⟨none⟩
        "main" ∧
    podLastTerminationAsCurrent (failedPodPrimaryKilledEarlier (terminatedState 0 "Completed")) =
      failedPodPrimaryNeverRestarted (terminatedState 137 "Error") ∧
    DemystifyFailure (failedPodPrimaryKilledEarlier (terminatedState 0 "Completed")) ⟨none⟩
        "main" =
      DemystifyFailure (failedPodPrimaryNeverRestarted (terminatedState 137 "Error")) ⟨none⟩
        "main" ∧
    DemystifyFailure (failedPodPrimaryKilledEarlier (terminatedState 0 "Completed")) ⟨none⟩
        "main" =
      PhaseInfoSystemRetryableFailure "Interrupted"
        ("Pod failed. No message received from kubernetes." ++
          terminatedMessage "main"
            { ExitCode := 137, Reason := "Error", Message := "", FinishedAt := 0 })
        (some ⟨none⟩) ∧
    (DemystifyFailure (failedPodPrimaryKilledEarlier (terminatedState 0 "Completed")) ⟨none⟩
        "main").phase = Phase.SystemRetryableFailure ∧
    DemystifyFailure (failedPodPrimaryNeverRestarted (terminatedState 0 "Completed")) ⟨none⟩
        "main" ≠
      DemystifyFailure (failedPodPrimaryKilledEarlier (terminatedState 0 "Completed")) ⟨none⟩
        "main" :=
  ⟨(C37_last_termination_only (failedPodPrimaryKilledEarlier (terminatedState 0 "Completed"))
      (failedPodPrimaryKilledEarlier (terminatedState 1 "Error")) ⟨none⟩ "main" rfl rfl
      List.Forall₂.nil
      (List.Forall₂.cons
        (Or.inr ⟨rfl, rfl, rfl, rfl, rfl, by decide, by decide, by decide⟩) List.Forall₂.nil)
      List.Forall₂.nil).1,
   by decide,
   (C37_last_termination_only (failedPodPrimaryKilledEarlier (terminatedState 0 "Completed"))
      (failedPodPrimaryKilledEarlier (terminatedState 1 "Error")) ⟨none⟩ "main" rfl rfl
      List.Forall₂.nil
      (List.Forall₂.cons
        (Or.inr ⟨rfl, rfl, rfl, rfl, rfl, by decide, by decide, by decide⟩) List.Forall₂.nil)
      List.Forall₂.nil).2.2.2.2.1,
   by decide, by decide, by decide⟩

/-! ## Claim on the slices of the merged pod spec -/

/-- C38: for every non-nil template and base pod spec,
`MergeBasePodSpecOntoTemplate` succeeds, and the volumes of its result are the
volumes of the template followed by the volumes of the base, and likewise the
tolerations; nothing is removed: for every name, the result has as many volumes
of that name as the template and the base together, so a volume declared by
both under one name is there twice. -/
theorem C38_merge_appends_slices (template base : PodSpec)
    (primaryContainerName primaryInitContainerName : String) :
    ∃ merged : PodSpec,
      MergeBasePodSpecOntoTemplate (some template) (some base) primaryContainerName
        primaryInitContainerName = .ok merged ∧
      merged.Volumes = template.Volumes ++ base.Volumes ∧
      merged.Tolerations = template.Tolerations ++ base.Tolerations ∧
      merged.Volumes.length = template.Volumes.length + base.Volumes.length ∧
      merged.Tolerations.length = template.Tolerations.length + base.Tolerations.length ∧
      ∀ name : String,
        (merged.Volumes.filter (fun v => v.Name = name)).length =
          (template.Volumes.filter (fun v => v.Name = name)).length +
            (base.Volumes.filter (fun v => v.Name = name)).length := by
  refine ⟨_, mergeBase_ok _ _ _ _, rfl, rfl, ?_, ?_, ?_⟩
  · exact List.length_append _ _
  · exact List.length_append _ _
  · intro name
    show (List.filter (fun v => decide (v.Name = name))
      (template.Volumes ++ base.Volumes)).length = _
    rw [List.filter_append, List.length_append]

/-- The template and the base both declare the volume `cache`: the merged pod
spec has it twice. -/
theorem merge_duplicate_volume_example :
    ∃ merged : PodSpec,
      MergeBasePodSpecOntoTemplate (some cacheTemplate) (some cacheBase) "main" "" =
        .ok merged ∧
      merged.Volumes = [{ Name := "cache" }, { Name := "logs" }, { Name := "cache" }] ∧
      merged.Tolerations =
        [{ Key := "spot", Operator := "Exists" }, { Key := "spot", Operator := "Exists" }] :=
  ⟨_, mergeBase_ok _ _ _ _, rfl, rfl⟩

/-! ## Claim on the fallback of `DemystifyPending` -/

theorem append_colon_ne_scheduling (a b : String) : a ++ ":" ++ b ≠ "Scheduling" := by
  intro h
  have hd := congrArg String.data h
  rw [String.data_append, String.data_append] at hd
  have hmem : ':' ∈ a.data ++ ":".data ++ b.data := by
    apply List.mem_append_left
    apply List.mem_append_right
    decide
  rw [hd] at hmem
  revert hmem
  decide

theorem pendingWaitingOutcome_phase_ne_queued (cfg : K8sPluginConfig) (now : Int)
    (c : PodCondition) (t : Int) (w : ContainerStateWaiting) :
    (pendingWaitingOutcome cfg now c t w).1.phase ≠ Phase.Queued := by
  unfold pendingWaitingOutcome
  simp only
  split_ifs <;>
    simp [PhaseInfoInitializing, PhaseInfoFailureWithCleanup,
      PhaseInfoRetryableFailureWithCleanup, PhaseInfoSystemRetryableFailureWithCleanup,
      PhaseInfoFailed]

/-- The sub-interpreter never returns a Queued outcome with the reason
"Scheduling". -/
theorem demystifyPendingHelper_not_scheduling (cfg : K8sPluginConfig) (now : Int)
    (status : PodStatus) (info : TaskInfo) :
    ¬ ((demystifyPendingHelper cfg now status info).1.phase = Phase.Queued ∧
      (demystifyPendingHelper cfg now status info).1.reason = "Scheduling") := by
  rintro ⟨hp, hr⟩
  cases hd : decidingCondition status with
  | some c =>
    rw [demystifyPendingHelper_of_deciding cfg now status info c hd] at hp hr
    unfold decidedOutcome at hp hr
    split_ifs at hp hr
    · cases hw : firstNotReadyWaiting status with
      | none =>
        rw [hw] at hr
        simp [PhaseInfoQueuedWithTaskInfo] at hr
      | some w =>
        rw [hw] at hp
        exact pendingWaitingOutcome_phase_ne_queued cfg now c _ w hp
    · exact append_colon_ne_scheduling _ _ hr
  | none =>
    unfold demystifyPendingHelper at hr
    simp only at hr
    rw [pendingConditionLoop_of_find_none cfg now status _ status.Conditions now hd] at hr
    simp [PhaseInfoQueuedWithTaskInfo] at hr

/-- C39: for every configuration, clock value, pod status and prior task info,
`demystifyPendingHelper` never returns the Undefined phase, so
`DemystifyPending` never takes its final fallback: its outcome is the one of
the sub-interpreter or the pod-pending-timeout failure, and never a Queued
outcome with the reason "Scheduling". For a status without deciding condition
it returns the Queued outcome with the reason "Demistify Pending", or the
pod-pending-timeout failure when the timeout is reached. -/
theorem C39_pending_never_undefined (cfg : K8sPluginConfig) (now : Int) (status : PodStatus)
    (info : TaskInfo) :
    (demystifyPendingHelper cfg now status info).1.phase ≠ Phase.Undefined ∧
    (DemystifyPending cfg now status info = (demystifyPendingHelper cfg now status info).1 ∨
      DemystifyPending cfg now status info =
        PhaseInfoRetryableFailureWithCleanup "PodPendingTimeout"
          (demystifyPendingHelper cfg now status info).1.reason
          (some { OccurredAt := some (demystifyPendingHelper cfg now status info).2 })) ∧
    ¬ ((DemystifyPending cfg now status info).phase = Phase.Queued ∧
      (DemystifyPending cfg now status info).reason = "Scheduling") ∧
    (decidingCondition status = none →
      DemystifyPending cfg now status info =
        (if pendingTimeoutReached cfg
            (timeSince now (demystifyPendingHelper cfg now status info).2) then
          PhaseInfoRetryableFailureWithCleanup "PodPendingTimeout" "Demistify Pending"
            (some { OccurredAt := some (demystifyPendingHelper cfg now status info).2 })
        else PhaseInfoQueuedWithTaskInfo now "Demistify Pending" (some info))) := by
  have heq := demystifyPending_eq cfg now status info
  refine ⟨demystifyPendingHelper_phase_ne_undefined cfg now status info, ?_, ?_, ?_⟩
  · rw [heq]
    split
    · exact Or.inr rfl
    · exact Or.inl rfl
  · rw [heq]
    split
    · rintro ⟨hp, _⟩
      simp [PhaseInfoRetryableFailureWithCleanup, PhaseInfoFailed] at hp
    · exact demystifyPendingHelper_not_scheduling cfg now status info
  · intro hd
    have h1 : (demystifyPendingHelper cfg now status info).1 =
        PhaseInfoQueuedWithTaskInfo now "Demistify Pending" (some info) := by
      unfold demystifyPendingHelper
      simp only
      exact pendingConditionLoop_of_find_none cfg now status _ status.Conditions now hd
    rw [heq, h1]
    have hterm : (PhaseInfoQueuedWithTaskInfo now "Demistify Pending"
        (some info)).phase.IsTerminal = false := rfl
    by_cases hto : pendingTimeoutReached cfg
        (timeSince now (demystifyPendingHelper cfg now status info).2)
    · rw [if_pos ⟨hterm, hto⟩, if_pos hto]
      rfl
    · rw [if_neg (fun hx => hto hx.2), if_neg hto]

/-- C39 (witness): a pending pod without any condition, under a configuration
without pod-pending timeout, is Queued with the reason "Demistify Pending". -/
theorem C39_pending_never_undefined_witness :
    decidingCondition (podWithContainers []) = none ∧
    DemystifyPending sampleConfig 900000000000 (podWithContainers []) ⟨none⟩ =
      PhaseInfoQueuedWithTaskInfo 900000000000 "Demistify Pending" (some ⟨none⟩) :=
  ⟨rfl, by
    have h := (C39_pending_never_undefined sampleConfig 900000000000 (podWithContainers [])
      ⟨none⟩).2.2.2 rfl
    rw [h]
    decide⟩

/-! ## Claim on the choice of the primary container -/

/-- A list split at its first element of a name and at its last element of that
name: the two positions are the same exactly when one element has the name. -/
theorem first_last_named_agree (n : String) (l pre pre1 post post1 : List Container)
    (c c1 : Container) (hl : l = pre ++ c :: post) (hc : c.Name = n)
    (hpost : ∀ x ∈ post, x.Name ≠ n) (hl1 : l = pre1 ++ c1 :: post1) (hc1 : c1.Name = n)
    (hpre1 : ∀ x ∈ pre1, x.Name ≠ n) :
    pre.length = pre1.length ↔ (l.filter (fun x => x.Name = n)).length = 1 := by
  have hfpost : post.filter (fun x => x.Name = n) = [] := by
    rw [List.filter_eq_nil_iff]
    intro x hx
    simpa using hpost x hx
  have hfpre1 : pre1.filter (fun x => x.Name = n) = [] := by
    rw [List.filter_eq_nil_iff]
    intro x hx
    simpa using hpre1 x hx
  constructor
  · intro hlen
    have heq : pre ++ c :: post = pre1 ++ c1 :: post1 := by rw [← hl, ← hl1]
    have hpp := (List.append_inj heq hlen).1
    rw [hl, hpp, List.filter_append, hfpre1, List.nil_append,
      List.filter_cons_of_pos (by simpa using hc), hfpost]
    rfl
  · intro hone
    have hfpre : pre.filter (fun x => x.Name = n) = [] := by
      rw [hl, List.filter_append, List.filter_cons_of_pos (by simpa using hc), hfpost,
        List.length_append] at hone
      simp only [List.length_singleton] at hone
      exact List.length_eq_zero.mp (by omega)
    have hpre : ∀ x ∈ pre, x.Name ≠ n := by
      intro x hx hxn
      have : x ∈ pre.filter (fun x => x.Name = n) := by
        rw [List.mem_filter]
        exact ⟨hx, by simpa using hxn⟩
      rw [hfpre] at this
      cases this
    have heq : pre ++ c :: post = pre1 ++ c1 :: post1 := by rw [← hl, ← hl1]
    rcases List.append_eq_append_iff.mp heq with ⟨a, ha1, ha2⟩ | ⟨a, ha1, ha2⟩
    · cases a with
      | nil => rw [ha1, List.append_nil]
      | cons x xs =>
        exfalso
        rw [List.cons_append] at ha2
        have hx : c = x := (List.cons.inj ha2).1
        apply hpre1 c _ hc
        rw [ha1, hx]
        exact List.mem_append_right _ (List.mem_cons_self _ _)
    · cases a with
      | nil => rw [ha1, List.append_nil]
      | cons x xs =>
        exfalso
        rw [List.cons_append] at ha2
        have hx : c1 = x := (List.cons.inj ha2).1
        apply hpre c1 _ hc1
        rw [ha1, hx]
        exact List.mem_append_right _ (List.mem_cons_self _ _)

/-- C40: with a mount name and a mount path that are not empty,
`ApplySharedMemory` returns a `BadTaskSpecification` error, the pod spec after
the call being the one passed in, when no container has the primary name. When
`c` is the last container with the primary name, the outcome depends on the
volume mounts of `c` alone among the containers, and on success the mount is
added to `c` and to no other container; `ApplyContainerImageOverride` sets the
image of the first container with the primary name. The position of the
container that the two modify is the same exactly when one container has the
primary name. -/
theorem C40_primary_choice (h : PodHelpers) (podSpec : PodSpec)
    (primaryContainerName : String) (m : SharedMemory) (containerImage : String)
    (hname : m.MountName ≠ "") (hpath : m.MountPath ≠ "") :
    ((∀ x ∈ podSpec.Containers, x.Name ≠ primaryContainerName) →
      ApplySharedMemory h podSpec primaryContainerName (some m) =
        .error (.BadTaskSpecification "Unable to find primary container") ∧
      podSpecAfterSharedMemory h podSpec primaryContainerName (some m) = podSpec) ∧
    (∀ (pre : List Container) (c : Container) (post : List Container),
      podSpec.Containers = pre ++ c :: post → c.Name = primaryContainerName →
      (∀ x ∈ post, x.Name ≠ primaryContainerName) →
      ApplySharedMemory h podSpec primaryContainerName (some m) =
        (if podSpec.Volumes.any (fun volume => volume.Name = m.MountName) then
          .error (.BadTaskSpecification
            ("A volume is already named " ++ m.MountName ++ " in pod spec"))
        else
          match checkVolumeMounts m.MountName m.MountPath c.VolumeMounts with
          | some err => .error err
          | none =>
            match (if m.SizeLimit ≠ "" then h.ParseQuantity m.SizeLimit else .ok 0) with
            | .error e => .error (.BadTaskSpecification ("Unable to parse size limit: " ++ e))
            | .ok quantity =>
              .ok { podSpec with
                Volumes := podSpec.Volumes ++ [sharedMemoryVolume m quantity],
                Containers := pre ++
                  { c with VolumeMounts := c.VolumeMounts ++ [sharedMemoryMount m] } ::
                    post })) ∧
    (∀ (pre1 : List Container) (c1 : Container) (post1 : List Container),
      podSpec.Containers = pre1 ++ c1 :: post1 → c1.Name = primaryContainerName →
      (∀ x ∈ pre1, x.Name ≠ primaryContainerName) →
      ApplyContainerImageOverride podSpec containerImage primaryContainerName =
        { podSpec with
          Containers := pre1 ++ { c1 with Image := containerImage } :: post1 }) ∧
    (∀ (pre : List Container) (c : Container) (post pre1 : List Container) (c1 : Container)
      (post1 : List Container),
      podSpec.Containers = pre ++ c :: post → c.Name = primaryContainerName →
      (∀ x ∈ post, x.Name ≠ primaryContainerName) →
      podSpec.Containers = pre1 ++ c1 :: post1 → c1.Name = primaryContainerName →
      (∀ x ∈ pre1, x.Name ≠ primaryContainerName) →
      (pre.length = pre1.length ↔
        (podSpec.Containers.filter (fun x => x.Name = primaryContainerName)).length = 1)) := by
  refine ⟨?_, ?_, ?_, ?_⟩
  · intro hno
    have herr := applySharedMemory_no_primary h podSpec primaryContainerName m hno hname hpath
    refine ⟨herr, ?_⟩
    unfold podSpecAfterSharedMemory
    rw [herr]
  · intro pre c post hl hc hpost
    exact applySharedMemory_decomp h podSpec primaryContainerName m pre c post hl hc hpost
      hname hpath
  · intro pre1 c1 post1 hl hc hpre
    unfold ApplyContainerImageOverride
    rw [hl, overrideImage_decomp containerImage primaryContainerName pre1 c1 post1 hc hpre]
  · intro pre c post pre1 c1 post1 hl hc hpost hl1 hc1 hpre1
    exact first_last_named_agree primaryContainerName podSpec.Containers pre pre1 post post1
      c c1 hl hc hpost hl1 hc1 hpre1

/-- C40 (witness): on the pod with a sidecar and two containers named `main`,
shared memory is mounted in the second `main` (position 2), the image override
goes to the first `main` (position 1), and two containers have the primary
name. -/
theorem C40_primary_choice_witness :
    ApplySharedMemory sizeHelpers twoMainPod "main" (some sampleSharedMemory) =
      .ok { Volumes :=
              [{ Name := "shm",
                 EmptyDir := some { Medium := "Memory", SizeLimit := some 1073741824 } }],
            Containers :=
              [{ Name := "sidecar", Image := "proxy:1" },
               { Name := "main", Image := "trainer:1" },
               { Name := "main", Image := "trainer:2",
                 VolumeMounts := [{ Name := "shm", MountPath := "/dev/shm" }] }],
            InitContainers := [{ Name := "main", Image := "init:1" }] } ∧
    ¬ ([({ Name := "sidecar", Image := "proxy:1" } : Container),
        { Name := "main", Image := "trainer:1" }].length =
      [({ Name := "sidecar", Image := "proxy:1" } : Container)].length) ∧
    (twoMainPod.Containers.filter (fun x => x.Name = "main")).length = 2 :=
  have hw := C40_primary_choice sizeHelpers twoMainPod "main" sampleSharedMemory "trainer:3"
    (by decide) (by decide)
  ⟨hw.2.1 [{ Name := "sidecar", Image := "proxy:1" }, { Name := "main", Image := "trainer:1" }]
      { Name := "main", Image := "trainer:2" } [] rfl rfl (by simp),
    by decide, by decide⟩

end Flytek8s
